import Mathlib

/-!
# Verification of the nasa-hackathon AQI pipeline

Shallow embedding, in Lean 4, of the five Python modules of the repository
(fetch_aqi.py, fetch_aod.py, predict_aqi.py, map_builder.py, main.py),
together with proofs about the embedded definitions.

Conventions used throughout:
* Python floats are modelled as exact rationals (ℚ); every float value that
  decides a property below is produced by an affine map of integer random
  draws, so exact-rational arithmetic is faithful.
* pandas DataFrames are modelled as Lean lists of structure values (one
  structure per row); missing values (None / NaN) are modelled with Option.
* Python's standard random module (used, seeded with 42, by
  fetch_aqi._mock_aqi_data) is modelled bit-exactly: MT19937 seeded via
  init_by_array([42]), random.uniform via two 32-bit outputs forming a
  53-bit numerator, random.choice and random.randint via _randbelow with
  rejection sampling, exactly as in CPython.
* numpy's random generator (an external library from the repository's point
  of view) is modelled as an abstract stream of draws passed in as a
  function argument; seeding fixes the stream, so determinism claims
  become purely functional facts.
* The regression library (sklearn LinearRegression) is an external
  collaborator: fitting is modelled as an abstract argument producing a
  prediction function from the design matrix and the target vector.
-/

/-! ## Python `random`: MT19937 seeding, exactly as CPython implements it

`random.seed(42)` runs `init_by_array` with the one-word key `[42]`:
`init_genrand(19650218)`, then two sequential key-mixing loops over the
624-word state, then `mt[0] := 0x80000000`.  Both loops walk the indices
1..623 (resp. 2..623) in order, wrap (`mt[0] := mt[623]; i := 1`) and
perform one final update of index 1; we model each loop as a sequential
pass (`seqUpd1`/`seqUpd2`) followed by a glue step (`keyMixGlue1`/
`keyMixGlue2`) that performs the wrap and the final index-1 update. -/

/-- 2^32 - 1, the 32-bit truncation mask used by MT19937. -/
def mtMask : Nat := 0xFFFFFFFF

/-- `init_genrand` inner recurrence: element `i` from element `i-1`. -/
def initGenrandAux : Nat → Nat → Nat → List Nat
  | 0, _, _ => []
  | n + 1, i, prev =>
    let c := (1812433253 * (prev ^^^ (prev >>> 30)) + i) &&& mtMask
    c :: initGenrandAux n (i + 1) c

/-- MT19937 `init_genrand(s)`: the 624-word state array. -/
def initGenrand (s : Nat) : List Nat := s :: initGenrandAux 623 1 s

/-- The update of key-mixing loop 1 for the key `[42]` (the key index `j`
stays 0, so the added key word plus `j` is always 42):
`mt[i] := ((mt[i] xor ((mt[i-1] xor (mt[i-1] >> 30)) * 1664525)) + 42) mod 2^32`. -/
def upd1 (c prev : Nat) : Nat :=
  ((c ^^^ ((prev ^^^ (prev >>> 30)) * 1664525)) + 42) &&& mtMask

/-- Sequential pass of key-mixing loop 1 over indices 1..623: each updated
word becomes the predecessor of the next update. -/
def seqUpd1 : Nat → List Nat → List Nat
  | _, [] => []
  | prev, c :: rest =>
    let c2 := upd1 c prev
    c2 :: seqUpd1 c2 rest

/-- Wrap-around of loop 1: after the pass, `mt[0] := mt[623]` and the last
of the 624 iterations re-updates index 1 with the wrapped word as
predecessor.  `r1` is the pass result (indices 1..623). -/
def keyMixGlue1 (r1 : List Nat) : List Nat :=
  r1.getLastD 0 :: upd1 (r1.headD 0) (r1.getLastD 0) :: r1.tail

/-- Loop 1 of `init_by_array([42])` (624 iterations in total). -/
def keyMixA (mt : List Nat) : List Nat :=
  keyMixGlue1 (seqUpd1 (mt.headD 0) mt.tail)

/-- The update of key-mixing loop 2: 32-bit modular subtraction of the
index (`+ 2^32` keeps Nat subtraction exact; the index is < 2^32):
`mt[i] := ((mt[i] xor ((mt[i-1] xor (mt[i-1] >> 30)) * 1566083941)) - i) mod 2^32`. -/
def upd2 (c prev i : Nat) : Nat :=
  (((c ^^^ ((prev ^^^ (prev >>> 30)) * 1566083941)) &&& mtMask) + 0x100000000 - i) &&& mtMask

/-- Sequential pass of key-mixing loop 2 over indices 2..623. -/
def seqUpd2 : Nat → Nat → List Nat → List Nat
  | _, _, [] => []
  | i, prev, c :: rest =>
    let c2 := upd2 c prev i
    c2 :: seqUpd2 (i + 1) c2 rest

/-- Wrap-around of loop 2: after the pass from index 2, `mt[0] := mt[623]`,
the 623rd iteration re-updates index 1 with the wrapped word as
predecessor, and finally `mt[0] := 0x80000000`.  `m1` is the word at
index 1 entering the loop, `r1` the pass result (indices 2..623). -/
def keyMixGlue2 (m1 : Nat) (r1 : List Nat) : List Nat :=
  0x80000000 :: upd2 m1 (r1.getLastD 0) 1 :: r1

/-- Loop 2 of `init_by_array` plus the final `mt[0] := 0x80000000`. -/
def keyMixB (mt : List Nat) : List Nat :=
  keyMixGlue2 (mt.tail.headD 0) (seqUpd2 2 (mt.tail.headD 0) mt.tail.tail)

/-- The MT19937 state right after `random.seed(42)`. -/
def mtSeed42 : List Nat := keyMixB (keyMixA (initGenrand 19650218))

/-- MT19937 output tempering. -/
def mtTemper (y : Nat) : Nat :=
  let y1 := y ^^^ (y >>> 11)
  let y2 := y1 ^^^ ((y1 <<< 7) &&& 0x9D2C5680)
  let y3 := y2 ^^^ ((y2 <<< 15) &&& 0xEFC60000)
  y3 ^^^ (y3 >>> 18)

/-- The MT19937 twist: the next untempered word from the words 624, 623
and 227 positions back. -/
def twistGen (x0 x1 x397 : Nat) : Nat :=
  let y := (x0 &&& 0x80000000) ||| (x1 &&& 0x7FFFFFFF)
  (x397 ^^^ (y >>> 1)) ^^^ (if y &&& 1 == 1 then 0x9908B0DF else 0)

/-- The untempered MT19937 word stream from seed 42: positions 0..623 are
the seeded state, and every later word follows the twist recurrence
`x i = twistGen (x (i-624)) (x (i-623)) (x (i-227))`.  CPython's
`genrand_uint32` (whose first call after seeding performs a full twist)
emits `mtTemper (mtUntempered (624 + t))` as its `t`-th output. -/
def mtUntempered (i : Nat) : Nat :=
  if i < 624 then mtSeed42.getD i 0
  else twistGen (mtUntempered (i - 624)) (mtUntempered (i - 623)) (mtUntempered (i - 227))
termination_by i
decreasing_by all_goals omega

/-- The `t`-th 32-bit output of the seed-42 generator (`genrand_uint32`). -/
def pyWord (t : Nat) : Nat := mtTemper (mtUntempered (624 + t))

/-! ## Reference tables for the seed-42 generator

Literal checkpoints of the seeding stages and the word stream; each is
proved below to equal the corresponding computation of the model. -/

/-- `init_genrand(19650218)`: the pre-key-mixing MT state. -/
def initLit : List Nat := [
  19650218, 2194844435, 874550967, 1417962806, 719805879, 2188372024, 721660136, 1814940559,
  2833403150, 3889680837, 1003665704, 1330738387, 2892331238, 3489052161, 3855278296, 3311200630,
  1422571577, 2585306665, 2882769417, 2783805802, 4207719964, 2400416080, 2341377904, 2590753297,
  3924081815, 1211472509, 3057012486, 3436335279, 551149560, 1318655221, 1900533858, 3537525294,
  2107812065, 3148644481, 594136785, 1814262168, 1224061569, 653651109, 254650943, 2832785922,
  3699583528, 2088609312, 3529585711, 41492871, 2876012911, 4240588078, 1402615791, 1934126869,
  3096545044, 2890863071, 80499043, 970921794, 3007610686, 750866145, 799115259, 3629971774,
  2864380489, 3888374480, 2087741561, 3146346387, 3269762417, 2727485495, 2488668711, 2964190680,
  2116659522, 4141458096, 3537107937, 3667677805, 2429248426, 2452306317, 3015982257, 499957222,
  2360410630, 4194693085, 147288288, 3359074475, 1635136148, 4073107990, 3628367767, 3898116531,
  275612352, 2842514961, 3115851985, 3103448722, 302309156, 22171017, 2075519075, 3671007489,
  3949991970, 1963601502, 4167967445, 804406473, 1055110313, 3894654986, 2278780139, 34711884,
  4121261916, 3468881884, 2287991389, 393453278, 548699130, 1499706375, 332872900, 1556864443,
  1043137738, 4174970395, 1614747618, 669116410, 1897615374, 3255278936, 1370736725, 1550777747,
  1685794058, 1862314184, 2400528575, 2672900100, 1647333586, 3524644532, 1765506473, 2857335743,
  3636393737, 2932986219, 1203228647, 1628511289, 3647085204, 2987412752, 2905279128, 2631768385,
  4014428911, 1727529885, 1124854030, 2262104686, 2499713312, 2421398767, 4134715143, 2358935835,
  1002066021, 340444514, 3268366900, 1112268606, 1897974631, 3331577291, 2922602614, 3423543891,
  1267030560, 2344564886, 1942259446, 3179572998, 1573187880, 1205933762, 3025229445, 4246102746,
  346693941, 2002220930, 1829519945, 3309743875, 1904872348, 955816590, 2796353700, 668528669,
  2648785169, 2704726048, 893089804, 738773343, 2832484895, 2050343702, 104744889, 3439545764,
  980222603, 422274176, 3865519914, 2026267864, 539814729, 4137805178, 1140607595, 2537690753,
  3971218783, 1931293181, 3089667358, 1133695167, 399772074, 3682192071, 4293649418, 1029228868,
  3902327948, 1974090788, 3344730195, 2795804747, 3396216457, 366677807, 416687433, 930072460,
  901228284, 1521860141, 3484259358, 478803252, 3138556488, 4137898487, 3807832586, 3773310804,
  3221624091, 3076008769, 4156878137, 406561453, 3897607181, 623564883, 2247148685, 1696011322,
  2911604503, 3979653402, 742342831, 3881512158, 2282092805, 2681274264, 3681829528, 46152446,
  3126539534, 3635632789, 1012335624, 3686064131, 2587648220, 2008745587, 2556071384, 1788453345,
  861781568, 2727104545, 758340017, 1880693944, 2136364769, 1370367813, 798286522, 506003017,
  2520802485, 2991500316, 3489134272, 3275208410, 1640252809, 3797759893, 4271912220, 3111882026,
  140581304, 2568658569, 2686841033, 3059852298, 293994524, 1890650113, 1797269750, 3428669802,
  1401714789, 2643788909, 3727894469, 2833360921, 1622853283, 3832221927, 277065458, 3711010937,
  4192871202, 3356722694, 680496635, 2574997514, 1476265004, 3232676806, 3318710975, 4210635059,
  4159903992, 2116300560, 2532158399, 718792604, 2539969944, 3164133583, 2649636591, 2200349072,
  2851998122, 670873689, 2613796143, 3562264788, 1174445287, 1149173203, 2225964784, 4266377361,
  3119455410, 1518371465, 1816545474, 2516586762, 240910660, 2681595121, 1301176317, 3127753611,
  862342957, 771183330, 438085196, 1046497567, 922186079, 1222939296, 51184555, 1757804190,
  426665187, 2730510776, 2573705612, 1312406577, 667742236, 3239950393, 2582034960, 3759737929,
  1601926242, 2947737408, 975540284, 1285948639, 3761027786, 1226457986, 34782949, 2916146832,
  142734034, 569716755, 4042990521, 3947471773, 1575951506, 3517313596, 3100986137, 2199197158,
  3376719924, 4087139828, 3705107125, 1482533137, 1541227668, 1678953742, 2056318769, 3045003063,
  1622629937, 487578169, 4137196231, 3764647071, 2241527512, 2558474063, 1038354351, 2094837850,
  2481932343, 3229539130, 3756851151, 1006180559, 4181103103, 3565909441, 2371373280, 1493415041,
  160348120, 1285104017, 3595587370, 4264242568, 1161124915, 2042766103, 737713932, 3481808155,
  478389208, 1300643225, 1007986266, 1168231653, 3652705112, 2909421388, 3924670764, 1731016690,
  4084014919, 4205099837, 1373900512, 2937538864, 2730075174, 957417377, 3258199283, 87174175,
  792789163, 2527971304, 2716998340, 3091367825, 97659251, 1782441684, 919015551, 735476370,
  87326482, 926205331, 1888657273, 3715638227, 1715499660, 1922410526, 4175228089, 1525608673,
  3578587616, 2042086160, 3730509879, 3607443975, 3879209240, 3652717612, 2372597521, 3471943430,
  2765853569, 3643232056, 3297105617, 2692883557, 1805942063, 1394934451, 3337180104, 1181922214,
  2331394419, 306465830, 3736887952, 1729663122, 3390355091, 2379159653, 3851731257, 4021176185,
  1079541434, 433656928, 1831627642, 2892512290, 4063025724, 406246264, 1293199350, 1120564498,
  3926678815, 1350089133, 4273098366, 3385122292, 993379095, 725502136, 25504318, 752278045,
  3729298457, 2392480235, 2657233815, 320925812, 2950230896, 989728679, 506301841, 1404204260,
  1413065993, 865242585, 866785615, 1859142878, 589268143, 775553472, 1410495094, 1607063978,
  3888932143, 704411669, 3513884419, 3370826939, 2896358996, 439226283, 2352722741, 1626809714,
  246502175, 189424636, 1337937966, 3719088974, 4178799653, 2794717891, 1831166187, 1862432793,
  2263235392, 3847861459, 802662362, 3621709005, 2634319122, 3245216029, 1466421412, 1528864744,
  349292989, 3152395874, 3374677426, 2279952808, 1238578150, 107682552, 913857966, 3747681661,
  3560958606, 3617063034, 1988620951, 1854864649, 1862999556, 2962654934, 1498851202, 2003448718,
  2942754891, 798789550, 3882536840, 3338815162, 3066948065, 2057094004, 4171611151, 4284063395,
  2325690120, 2659914459, 165909127, 2783186990, 2161504072, 343671839, 2751150377, 3621950182,
  222528329, 3219381950, 238911006, 2710753737, 2982111755, 1115859074, 156211365, 228231184,
  2302165064, 933165355, 4181545713, 2201173365, 291303663, 19134280, 3581811046, 68817880,
  1037069880, 2445243929, 2507869609, 1468655994, 2646143627, 2709652242, 559859542, 2657856757,
  248278651, 656698256, 2682159578, 3542996035, 2775252812, 1761180115, 3646714856, 2330951878,
  834843492, 3951905925, 744286448, 3621804227, 2822882772, 1168938371, 3349647456, 672527398,
  1163635478, 3445281068, 722448549, 3543924788, 2823456463, 1931863550, 2483173049, 4148604134,
  3081487737, 2916138664, 940193076, 4142650279, 2563327448, 3737140007, 2407111514, 243557343,
  1657192483, 3995730323, 1012445178, 2365602253, 2830079959, 2287658550, 2893719730, 2373631903,
  4215513121, 189686171, 2003138393, 3410898923, 1020530876, 1103312993, 1976606742, 899447370,
  1949555562, 3167671920, 595304244, 1919198655, 2929333298, 619161901, 623498751, 2063591130,
  763251111, 4291719204, 3951567013, 2998385089, 758818611, 1375945828, 2510752543, 4188334520,
  121785359, 3225750324, 1354685949, 1643999927, 911976986, 518523023, 3993561529, 2326708913,
  336174575, 853096604, 2873283550, 4022490143, 3010604384, 2080594943, 1702902668, 3360749048,
  4184957279, 2421794725, 4155016765, 3104188113, 1576615579, 604774175, 2739462297, 4096823942,
  1932918233, 1779286169, 2544260698, 1430072091, 2196303270, 4237199385, 2613550760, 1481676153,
  2920297152, 2463881971, 1098865791, 2939219489, 2494804283, 3108728554, 1635052534, 2905164258]

/-- The updated words of the first key-mixing pass (indices 1..623). -/
def updA : List Nat := [
  4287171035, 3185121657, 4122224691, 71202801, 1393620271, 3221843944, 489200522, 1902161718,
  2210405944, 195304964, 2801691409, 3793058107, 271434243, 438431017, 3294922893, 162216761,
  3854766582, 2402227618, 2169264244, 1701394444, 81885219, 1530043617, 2274948507, 963957372,
  1289585243, 1439643070, 3863249990, 3358780067, 321437439, 2908067003, 3195083125, 1159732756,
  2231788986, 532395187, 1612779193, 896974339, 3018994860, 3328551699, 3778735612, 4097541637,
  1233097880, 3250697748, 3487254742, 2727930344, 4195557878, 4042744008, 867935108, 3808453322,
  4165798932, 2016777842, 473588415, 3853673143, 1278735855, 11786007, 1783164735, 2024677529,
  1466946962, 2807104056, 1176721291, 4089639837, 2063037275, 2382800351, 3215757323, 4029566817,
  2421469556, 3042704713, 1115090124, 1923340269, 2723071899, 2898011294, 1387052596, 353027297,
  1878215386, 3864428585, 1706579635, 1967088072, 856276813, 4034403240, 747241542, 1436444024,
  4146531166, 2385478034, 1977756396, 1488929623, 1218634497, 3120721805, 2504426860, 1577878238,
  4286861623, 1481176475, 2792067141, 1526868316, 1838129117, 3786124017, 2405937968, 3962139392,
  1945888549, 1547234995, 3121780222, 2699329120, 3571761959, 271940666, 522958707, 3567658567,
  1150023577, 228930948, 2575018104, 4115233382, 1834739875, 3047068825, 3070799990, 2573730072,
  960676548, 137679733, 2181915423, 4231055061, 2056032916, 3844911714, 2006962044, 3661668474,
  802721144, 3231920425, 4226492229, 2333014084, 4153684680, 968719617, 1062938230, 2772346171,
  443292322, 1088425822, 2534628327, 3473633707, 3155569041, 2272858522, 1520104909, 1661178723,
  3425911490, 2462260259, 2988264637, 1201091838, 3357646690, 2979913157, 1608494962, 1811669281,
  1478628960, 1306152517, 778927772, 83453166, 1040179966, 4050447501, 1068561942, 3531956821,
  118306310, 2294571057, 1343134654, 1777928537, 3155039264, 2258790728, 4088669449, 1493212349,
  2967471574, 4200446962, 1176852620, 3190220640, 3129542934, 4088998375, 4082677082, 1394518328,
  4020709775, 852607840, 1142509410, 1807323512, 1804762249, 3198863533, 3304782988, 1206202438,
  3721628816, 4029882515, 4231059481, 1221287202, 178480682, 1626409042, 4176590749, 155552692,
  2809130026, 4025640581, 1637482671, 2826664585, 2909836362, 1006768907, 2360057389, 3454231753,
  3168478361, 3044280811, 1980867595, 2955526900, 1769061299, 487038506, 342483872, 3031718501,
  1784973988, 4155581826, 3400724298, 484374754, 3114563411, 507351482, 692950642, 428835079,
  4267042411, 2288870417, 2920516179, 2852566338, 2652785666, 1587912386, 1316354883, 1037515646,
  1816355869, 475806094, 365912159, 3205029433, 2558184630, 825921830, 1746740025, 1722197954,
  1574266608, 4115667382, 2447732915, 2877319238, 1545225307, 4275025490, 2670818942, 3398699299,
  2601097958, 478167934, 3884062694, 2377724242, 780162735, 142939689, 653065065, 4212425751,
  1266955191, 791860513, 3235470545, 1728144096, 12690326, 1099512466, 1978978887, 1098967573,
  290906003, 2381040604, 3087033993, 3838398934, 919213408, 1940192060, 4181825674, 1234597889,
  2691145264, 3382933915, 2800542940, 1628968852, 361048961, 2742950236, 4283010335, 4215425726,
  113129139, 3993154258, 3038559531, 2310024375, 838319144, 60440849, 2085468791, 3560796798,
  1460479530, 4174925610, 1507099627, 1479766575, 1692917167, 2897875792, 845965285, 1605146685,
  617030063, 332998475, 3355570671, 2161463778, 394366139, 3228039340, 3239698834, 373257626,
  3421046362, 3356585715, 3471182681, 1929977591, 926287112, 3532288749, 2094357682, 2116969502,
  159786581, 872772103, 3160221844, 2185241516, 1718262809, 1914029906, 263732648, 1697605140,
  1368615547, 2096534584, 1568880740, 1775477269, 3479007408, 3325277724, 3655812909, 572064686,
  793752559, 1273986756, 1134644678, 292692403, 1997666901, 521037191, 3108562023, 148143935,
  2033737201, 359471023, 2253210908, 12137020, 3746936876, 29686652, 2536448677, 3073708660,
  1570580977, 2394446881, 1394502530, 1387682217, 68963057, 4046508988, 497249043, 2168343018,
  1497033756, 3473568992, 599554418, 1008797535, 980372540, 1287294998, 337825748, 969519686,
  4186099785, 4153164050, 815677055, 3663960682, 2736229996, 3091763396, 2805732159, 1378872299,
  63835045, 1361310565, 1932589339, 1777391924, 546904871, 2794148865, 1274692095, 4037251787,
  1089904447, 1289929968, 3532803895, 464066988, 1888342599, 65387943, 1152911246, 2719178002,
  2651709026, 3848048718, 653624994, 4131146611, 2402521742, 392767885, 243020005, 4212311773,
  2448050431, 2453478858, 1928859941, 1068582018, 4285263534, 2963660954, 2754480003, 3181391511,
  2039052459, 1693699263, 2508596171, 1871375959, 2463257244, 3731738945, 2996063110, 593100383,
  2803207189, 78484004, 168617947, 550008154, 2912736075, 699368359, 2715781895, 1473072220,
  2762646217, 3789964553, 2436230458, 3433950581, 1815546565, 2678940407, 881255218, 3642297178,
  94707215, 1879043043, 493173378, 2013863632, 2769290767, 376101769, 1703726865, 2436546297,
  1055788348, 2827672220, 4065514524, 1056300206, 2656682136, 2647853590, 964272451, 4272977576,
  1516990830, 3827291998, 1587613175, 4179315256, 4282861954, 2511121478, 1790550970, 198541216,
  314816291, 3807979442, 3255881037, 3126461571, 3939279223, 1830688956, 2904446557, 3086440998,
  2600571883, 548784128, 1442944229, 621382122, 1013396339, 3116621324, 1212088302, 3442633318,
  4003120903, 1999954756, 2354496505, 789813700, 2448614497, 321219606, 522139953, 500061799,
  3434076690, 4004413233, 3333588337, 3713710082, 2590682938, 584377766, 1587892912, 3564204394,
  2882938465, 99817695, 283987237, 3098909489, 3814795673, 1693722022, 3419694640, 558065731,
  1830419783, 3616944707, 3697864819, 320588766, 1153910970, 2785711399, 1106863001, 3730210589,
  90498898, 4129727692, 987078243, 659723536, 263795406, 1952847011, 1717569219, 2484901116,
  3944076903, 2594711997, 1261906119, 1202985328, 4130165964, 2075521492, 3012015969, 350437752,
  3216768464, 1662185950, 2458842052, 2231775023, 2432957429, 2281221464, 3890618796, 1258958805,
  3185057049, 1846046424, 1190800026, 1636571994, 1942311681, 1315516048, 1947480239, 2360976152,
  2555171445, 1880758220, 1046088253, 2535662012, 1447717342, 2145647919, 2425979853, 1867204130,
  1493953153, 3025627524, 2579262391, 3275909543, 3649293489, 1442718476, 2261546393, 4204923365,
  2855233621, 2485460677, 2255782658, 2740806398, 1852242809, 4119004578, 277584693, 3661714641,
  2831428528, 3570308313, 1948937040, 4019732476, 1728330807, 1484301361, 1870518976, 2630730974,
  2173573550, 2352472242, 2775014273, 474583721, 3429692380, 335783731, 3259804786, 593758152,
  2275153125, 562607723, 1880284364, 1817998312, 553344781, 2962401605, 1672043822, 1595069804,
  669852988, 1373223807, 4083062455, 4290334658, 3721120470, 824675057, 3833294497, 3793285498,
  3162877823, 3666946199, 2543493733, 2231655731, 3167021178, 2608745489, 3748366423, 2911186445,
  2690261265, 2736004988, 3983045841, 945896899, 4053110957, 1755097075, 3626244892, 99153606,
  4164446052, 2107742192, 4223324084, 3058031739, 2178769108, 2947663761, 3024647920, 2965236687,
  2655297567, 2942205137, 1373715666, 1681196545, 2971014697, 2426894797, 806378661, 4171895656,
  3649780212, 3655458272, 51220608, 4131022917, 3512021179, 4160498155, 3692561016, 2400051216,
  3333442717, 1196330630, 2211130858, 2745903512, 1858138357, 2623990518, 3170612039, 3454184043,
  4199271909, 1143358715, 3739742909, 3854481095, 971911496, 3384269704, 1565245975]

/-- The MT state after loop 1 of `init_by_array([42])`. -/
def aLit : List Nat := [
  1565245975, 534419183, 3185121657, 4122224691, 71202801, 1393620271, 3221843944, 489200522,
  1902161718, 2210405944, 195304964, 2801691409, 3793058107, 271434243, 438431017, 3294922893,
  162216761, 3854766582, 2402227618, 2169264244, 1701394444, 81885219, 1530043617, 2274948507,
  963957372, 1289585243, 1439643070, 3863249990, 3358780067, 321437439, 2908067003, 3195083125,
  1159732756, 2231788986, 532395187, 1612779193, 896974339, 3018994860, 3328551699, 3778735612,
  4097541637, 1233097880, 3250697748, 3487254742, 2727930344, 4195557878, 4042744008, 867935108,
  3808453322, 4165798932, 2016777842, 473588415, 3853673143, 1278735855, 11786007, 1783164735,
  2024677529, 1466946962, 2807104056, 1176721291, 4089639837, 2063037275, 2382800351, 3215757323,
  4029566817, 2421469556, 3042704713, 1115090124, 1923340269, 2723071899, 2898011294, 1387052596,
  353027297, 1878215386, 3864428585, 1706579635, 1967088072, 856276813, 4034403240, 747241542,
  1436444024, 4146531166, 2385478034, 1977756396, 1488929623, 1218634497, 3120721805, 2504426860,
  1577878238, 4286861623, 1481176475, 2792067141, 1526868316, 1838129117, 3786124017, 2405937968,
  3962139392, 1945888549, 1547234995, 3121780222, 2699329120, 3571761959, 271940666, 522958707,
  3567658567, 1150023577, 228930948, 2575018104, 4115233382, 1834739875, 3047068825, 3070799990,
  2573730072, 960676548, 137679733, 2181915423, 4231055061, 2056032916, 3844911714, 2006962044,
  3661668474, 802721144, 3231920425, 4226492229, 2333014084, 4153684680, 968719617, 1062938230,
  2772346171, 443292322, 1088425822, 2534628327, 3473633707, 3155569041, 2272858522, 1520104909,
  1661178723, 3425911490, 2462260259, 2988264637, 1201091838, 3357646690, 2979913157, 1608494962,
  1811669281, 1478628960, 1306152517, 778927772, 83453166, 1040179966, 4050447501, 1068561942,
  3531956821, 118306310, 2294571057, 1343134654, 1777928537, 3155039264, 2258790728, 4088669449,
  1493212349, 2967471574, 4200446962, 1176852620, 3190220640, 3129542934, 4088998375, 4082677082,
  1394518328, 4020709775, 852607840, 1142509410, 1807323512, 1804762249, 3198863533, 3304782988,
  1206202438, 3721628816, 4029882515, 4231059481, 1221287202, 178480682, 1626409042, 4176590749,
  155552692, 2809130026, 4025640581, 1637482671, 2826664585, 2909836362, 1006768907, 2360057389,
  3454231753, 3168478361, 3044280811, 1980867595, 2955526900, 1769061299, 487038506, 342483872,
  3031718501, 1784973988, 4155581826, 3400724298, 484374754, 3114563411, 507351482, 692950642,
  428835079, 4267042411, 2288870417, 2920516179, 2852566338, 2652785666, 1587912386, 1316354883,
  1037515646, 1816355869, 475806094, 365912159, 3205029433, 2558184630, 825921830, 1746740025,
  1722197954, 1574266608, 4115667382, 2447732915, 2877319238, 1545225307, 4275025490, 2670818942,
  3398699299, 2601097958, 478167934, 3884062694, 2377724242, 780162735, 142939689, 653065065,
  4212425751, 1266955191, 791860513, 3235470545, 1728144096, 12690326, 1099512466, 1978978887,
  1098967573, 290906003, 2381040604, 3087033993, 3838398934, 919213408, 1940192060, 4181825674,
  1234597889, 2691145264, 3382933915, 2800542940, 1628968852, 361048961, 2742950236, 4283010335,
  4215425726, 113129139, 3993154258, 3038559531, 2310024375, 838319144, 60440849, 2085468791,
  3560796798, 1460479530, 4174925610, 1507099627, 1479766575, 1692917167, 2897875792, 845965285,
  1605146685, 617030063, 332998475, 3355570671, 2161463778, 394366139, 3228039340, 3239698834,
  373257626, 3421046362, 3356585715, 3471182681, 1929977591, 926287112, 3532288749, 2094357682,
  2116969502, 159786581, 872772103, 3160221844, 2185241516, 1718262809, 1914029906, 263732648,
  1697605140, 1368615547, 2096534584, 1568880740, 1775477269, 3479007408, 3325277724, 3655812909,
  572064686, 793752559, 1273986756, 1134644678, 292692403, 1997666901, 521037191, 3108562023,
  148143935, 2033737201, 359471023, 2253210908, 12137020, 3746936876, 29686652, 2536448677,
  3073708660, 1570580977, 2394446881, 1394502530, 1387682217, 68963057, 4046508988, 497249043,
  2168343018, 1497033756, 3473568992, 599554418, 1008797535, 980372540, 1287294998, 337825748,
  969519686, 4186099785, 4153164050, 815677055, 3663960682, 2736229996, 3091763396, 2805732159,
  1378872299, 63835045, 1361310565, 1932589339, 1777391924, 546904871, 2794148865, 1274692095,
  4037251787, 1089904447, 1289929968, 3532803895, 464066988, 1888342599, 65387943, 1152911246,
  2719178002, 2651709026, 3848048718, 653624994, 4131146611, 2402521742, 392767885, 243020005,
  4212311773, 2448050431, 2453478858, 1928859941, 1068582018, 4285263534, 2963660954, 2754480003,
  3181391511, 2039052459, 1693699263, 2508596171, 1871375959, 2463257244, 3731738945, 2996063110,
  593100383, 2803207189, 78484004, 168617947, 550008154, 2912736075, 699368359, 2715781895,
  1473072220, 2762646217, 3789964553, 2436230458, 3433950581, 1815546565, 2678940407, 881255218,
  3642297178, 94707215, 1879043043, 493173378, 2013863632, 2769290767, 376101769, 1703726865,
  2436546297, 1055788348, 2827672220, 4065514524, 1056300206, 2656682136, 2647853590, 964272451,
  4272977576, 1516990830, 3827291998, 1587613175, 4179315256, 4282861954, 2511121478, 1790550970,
  198541216, 314816291, 3807979442, 3255881037, 3126461571, 3939279223, 1830688956, 2904446557,
  3086440998, 2600571883, 548784128, 1442944229, 621382122, 1013396339, 3116621324, 1212088302,
  3442633318, 4003120903, 1999954756, 2354496505, 789813700, 2448614497, 321219606, 522139953,
  500061799, 3434076690, 4004413233, 3333588337, 3713710082, 2590682938, 584377766, 1587892912,
  3564204394, 2882938465, 99817695, 283987237, 3098909489, 3814795673, 1693722022, 3419694640,
  558065731, 1830419783, 3616944707, 3697864819, 320588766, 1153910970, 2785711399, 1106863001,
  3730210589, 90498898, 4129727692, 987078243, 659723536, 263795406, 1952847011, 1717569219,
  2484901116, 3944076903, 2594711997, 1261906119, 1202985328, 4130165964, 2075521492, 3012015969,
  350437752, 3216768464, 1662185950, 2458842052, 2231775023, 2432957429, 2281221464, 3890618796,
  1258958805, 3185057049, 1846046424, 1190800026, 1636571994, 1942311681, 1315516048, 1947480239,
  2360976152, 2555171445, 1880758220, 1046088253, 2535662012, 1447717342, 2145647919, 2425979853,
  1867204130, 1493953153, 3025627524, 2579262391, 3275909543, 3649293489, 1442718476, 2261546393,
  4204923365, 2855233621, 2485460677, 2255782658, 2740806398, 1852242809, 4119004578, 277584693,
  3661714641, 2831428528, 3570308313, 1948937040, 4019732476, 1728330807, 1484301361, 1870518976,
  2630730974, 2173573550, 2352472242, 2775014273, 474583721, 3429692380, 335783731, 3259804786,
  593758152, 2275153125, 562607723, 1880284364, 1817998312, 553344781, 2962401605, 1672043822,
  1595069804, 669852988, 1373223807, 4083062455, 4290334658, 3721120470, 824675057, 3833294497,
  3793285498, 3162877823, 3666946199, 2543493733, 2231655731, 3167021178, 2608745489, 3748366423,
  2911186445, 2690261265, 2736004988, 3983045841, 945896899, 4053110957, 1755097075, 3626244892,
  99153606, 4164446052, 2107742192, 4223324084, 3058031739, 2178769108, 2947663761, 3024647920,
  2965236687, 2655297567, 2942205137, 1373715666, 1681196545, 2971014697, 2426894797, 806378661,
  4171895656, 3649780212, 3655458272, 51220608, 4131022917, 3512021179, 4160498155, 3692561016,
  2400051216, 3333442717, 1196330630, 2211130858, 2745903512, 1858138357, 2623990518, 3170612039,
  3454184043, 4199271909, 1143358715, 3739742909, 3854481095, 971911496, 3384269704, 1565245975]

/-- The updated words of the second key-mixing pass (indices 2..623). -/
def updB : List Nat := [
  1266698288, 4212342371, 3595291661, 3180588708, 3037210256, 946923017, 2565409715, 2900535780,
  924383152, 4180157270, 4230508198, 2039675917, 3755350407, 2362848650, 2818100609, 2097423432,
  524478045, 540883378, 281170210, 1485176884, 1493190386, 1773214509, 380915208, 3667698522,
  2648371337, 2961234806, 3857480267, 1582950522, 246289694, 3322185604, 1944574775, 302623699,
  169865066, 1143540808, 3733177770, 513116636, 1411153081, 3205493053, 768926902, 549624109,
  1470655403, 59539609, 3678480009, 3087139671, 1176835859, 2078491503, 2299934332, 1592059249,
  1062716176, 2654193596, 3531838733, 2661260596, 3881209635, 2106865768, 4154287292, 2082185616,
  2301197011, 2177349827, 3082181756, 1787663536, 3714670796, 3018262113, 1670056238, 1856738750,
  99824592, 2279837081, 1414647942, 3416675731, 3458782472, 3997022236, 468762002, 2666158583,
  953353270, 1788980658, 3802061067, 407586584, 1844776834, 1906917274, 3154715663, 3028370222,
  4156024188, 3996363428, 80495456, 2659800972, 2005649973, 3818358673, 3952623596, 2506862371,
  3282302532, 263923435, 3384662671, 3292439172, 3119957588, 1224426111, 899864150, 215262826,
  1619647231, 3347694949, 3497868538, 2029552053, 2992804824, 4080010250, 2023513186, 1885979437,
  3564622190, 3775424270, 2297810139, 3549449169, 2664856277, 3274801974, 2794883969, 980412666,
  2980215653, 2794389321, 2816521934, 1266970739, 542306338, 3646225311, 3598997630, 2111980720,
  2949252482, 2489027658, 352815024, 11610683, 1386663624, 2004196796, 1161461546, 1921293780,
  2463949525, 1647009713, 3550093655, 2563894064, 3486310554, 1506105865, 243092931, 2659437476,
  4200687059, 2284345122, 1974438610, 3591096528, 967119212, 3362401375, 140678365, 311602112,
  2361740275, 2139598582, 3632873481, 2762232439, 4156482318, 381637792, 3253346525, 2492118775,
  1502434558, 3164497290, 3550998357, 2412448305, 2223955385, 4122879535, 350121793, 1835149778,
  2175117867, 989674750, 3178241202, 3553093569, 3470650311, 2829698151, 3209427769, 1779174943,
  275388428, 4044574515, 715447260, 3180940440, 4020772289, 1322708567, 3189868792, 4250485633,
  716970023, 2307550151, 1074996711, 1217573599, 197006094, 2178394212, 1255233746, 4164251484,
  1405608772, 2808160475, 1304736088, 1796071066, 2761748078, 3570739698, 1616118556, 2232868135,
  3567541936, 3470600401, 3031621994, 3351764214, 1359785149, 2617497797, 3340028190, 356162828,
  2083806068, 2503635608, 4024838996, 2577080371, 2897993505, 3120733934, 905794891, 2506078507,
  4211618666, 3777871979, 809751414, 4080874167, 1562977008, 3917373055, 2132779194, 4014249473,
  4067327082, 2582869847, 1780081876, 1842619106, 3381761227, 921004274, 1393256920, 1883566732,
  2702071861, 865327389, 1622085203, 3021825820, 2687061406, 1748902923, 689023977, 308399650,
  2377287978, 1646969411, 1051806316, 4277884230, 2041056290, 101134519, 2032472116, 4112521069,
  151202901, 2773743461, 551348559, 3476836808, 510935951, 625057077, 3757450756, 2977698135,
  3027776859, 2616998041, 2773430005, 544190486, 2241368212, 1141105829, 1452816309, 4199229235,
  3218013033, 4229475816, 1659576351, 3020348754, 1193400518, 3208584597, 1151197733, 2597187966,
  503065140, 2421841572, 1437291709, 1909275895, 2872630545, 793588217, 3792934707, 1784451785,
  2921385648, 1669902526, 4189978976, 1196986251, 434805516, 1907541826, 2624415034, 1687778718,
  650746582, 1949153382, 4148493093, 841300520, 1164202054, 4203468658, 4106300911, 850346789,
  1715730760, 3114661489, 2866524548, 1360448945, 3601318775, 1743078223, 2413855408, 1211895622,
  325117146, 2721152875, 1284334485, 2446538832, 739014618, 2237045115, 842553465, 2538598293,
  746460793, 4010387366, 2002655192, 4193733112, 1194380773, 3918217378, 1447487475, 5659228,
  3408847694, 4190318700, 1862549564, 781683719, 1194618118, 755053413, 3436011942, 2885435303,
  3081151348, 2017642831, 1053816502, 1086627485, 2157296554, 110650022, 965352898, 1003174194,
  1288956241, 4057404871, 2965068465, 2897064481, 2457377317, 1879872545, 358455290, 375086701,
  3015902095, 1676249984, 924455526, 2084169389, 1989014644, 1993749926, 2009424973, 2113340508,
  3980883273, 2915977458, 203328382, 3020815229, 2415050113, 4103009585, 3700885489, 2916647550,
  1523006503, 174302338, 2476909338, 1969322490, 4285741984, 1528449097, 3355315515, 4217241278,
  599579127, 2572243673, 3035856735, 1539140489, 1782314913, 4238644287, 1746424142, 1978148312,
  2380746849, 184941882, 1106717981, 1720750349, 981701307, 3953154731, 3257809181, 2892339376,
  3339778166, 3676936849, 87425948, 3029257381, 2037942523, 3807628706, 2861474706, 1058852346,
  1322765211, 2686046342, 2689342655, 2303436168, 2571627181, 1986057734, 1183564308, 2829677523,
  1295563975, 503126586, 2025890348, 4179277821, 1735262467, 981331774, 1613447066, 1011606109,
  2000062246, 3581448390, 3477731384, 3641307373, 3508544379, 2327233491, 3931944343, 4189052882,
  2990416380, 422406169, 202291313, 2531006461, 4277024116, 3815144003, 821314585, 1344175168,
  3562834071, 1339615445, 1831545190, 3115548822, 743512780, 4006999448, 3720181735, 1012033521,
  919931041, 2628967879, 1151876565, 1268107129, 3674829936, 834977846, 743987006, 3947536548,
  3706529695, 4121073678, 2507605742, 1595636918, 2708047833, 2427507331, 3868216331, 3254240010,
  2097683411, 3279710596, 3686819053, 1843541720, 1683793619, 3245287285, 3571828776, 3733296431,
  3806747478, 1390930605, 3860422228, 114397037, 1931519825, 2770684378, 1556101783, 1436111731,
  4031950081, 562876656, 1775895782, 612364620, 1313509772, 4283410242, 3252958463, 2176555836,
  3933073367, 3013277102, 1444071961, 3120949516, 2824578890, 325676929, 943677134, 1800649256,
  1721927060, 347498719, 1435221321, 2623572981, 1408548470, 4145586315, 2901889237, 1849377952,
  1239144551, 3382598266, 2992893897, 3738297588, 611280106, 3897415338, 2370299241, 1772308583,
  3697465753, 354508058, 2702360134, 591308331, 3524072501, 976616000, 2563717192, 3078266097,
  1376594703, 4209795919, 2454412767, 2712206031, 2963860163, 3734324882, 2248653800, 324872786,
  3789837448, 3779000146, 527733939, 2844165793, 576499681, 1618787435, 2638888650, 57511068,
  2804627518, 2993670030, 481402236, 2810124845, 1416045214, 1723694191, 1214944572, 3188123783,
  1139185907, 3851015362, 1719652470, 1661343029, 3644307578, 3564178709, 1256656955, 46631590,
  4231317929, 3098958589, 1834956625, 2206185428, 3695688374, 3647957317, 1064098871, 1739100906,
  2579568980, 27974051, 2617466775, 964075233, 907049942, 4164146575, 3377168066, 2524828266,
  1083546008, 2992960953, 2260789066, 1543742095, 2843842831, 1375722284, 3574521313, 110842534,
  2310998251, 3076511734, 783145600, 1287776608, 3087144146, 305559823, 2356293719, 3228441476,
  1678938122, 3775814061, 1620283952, 2512027726, 1031432407, 962295099, 3877418501, 968669928,
  304126693, 3711291137, 3847527101, 494066767, 4050229756, 4169448589, 671763915, 1095747781,
  4006132710, 394725957, 200521654, 2715998750, 1477567673, 895171901, 3370105999, 2684157455,
  4153990023, 3966076501, 2043374409, 144443759, 6764556, 1611650045, 1480956755, 1388276468,
  4136518438, 1538041336, 266773992, 1623357516, 2267298390, 3183919402, 1084292424, 2796136160,
  2413448816, 2850375199, 3510894040, 2644778623, 3317288284, 3697317540, 1465776787, 1843489446,
  1416711171, 744701117, 1286781349, 3748640476, 861982119, 2377742909, 1171768136, 2701877439,
  3839724288, 2869791015, 2386067954, 2629214347, 955801623, 3831079317]

/-- The MT state after `random.seed(42)` (loop 2 plus `mt[0] := 2^31`). -/
def seedLit : List Nat := [
  2147483648, 3564348608, 1266698288, 4212342371, 3595291661, 3180588708, 3037210256, 946923017,
  2565409715, 2900535780, 924383152, 4180157270, 4230508198, 2039675917, 3755350407, 2362848650,
  2818100609, 2097423432, 524478045, 540883378, 281170210, 1485176884, 1493190386, 1773214509,
  380915208, 3667698522, 2648371337, 2961234806, 3857480267, 1582950522, 246289694, 3322185604,
  1944574775, 302623699, 169865066, 1143540808, 3733177770, 513116636, 1411153081, 3205493053,
  768926902, 549624109, 1470655403, 59539609, 3678480009, 3087139671, 1176835859, 2078491503,
  2299934332, 1592059249, 1062716176, 2654193596, 3531838733, 2661260596, 3881209635, 2106865768,
  4154287292, 2082185616, 2301197011, 2177349827, 3082181756, 1787663536, 3714670796, 3018262113,
  1670056238, 1856738750, 99824592, 2279837081, 1414647942, 3416675731, 3458782472, 3997022236,
  468762002, 2666158583, 953353270, 1788980658, 3802061067, 407586584, 1844776834, 1906917274,
  3154715663, 3028370222, 4156024188, 3996363428, 80495456, 2659800972, 2005649973, 3818358673,
  3952623596, 2506862371, 3282302532, 263923435, 3384662671, 3292439172, 3119957588, 1224426111,
  899864150, 215262826, 1619647231, 3347694949, 3497868538, 2029552053, 2992804824, 4080010250,
  2023513186, 1885979437, 3564622190, 3775424270, 2297810139, 3549449169, 2664856277, 3274801974,
  2794883969, 980412666, 2980215653, 2794389321, 2816521934, 1266970739, 542306338, 3646225311,
  3598997630, 2111980720, 2949252482, 2489027658, 352815024, 11610683, 1386663624, 2004196796,
  1161461546, 1921293780, 2463949525, 1647009713, 3550093655, 2563894064, 3486310554, 1506105865,
  243092931, 2659437476, 4200687059, 2284345122, 1974438610, 3591096528, 967119212, 3362401375,
  140678365, 311602112, 2361740275, 2139598582, 3632873481, 2762232439, 4156482318, 381637792,
  3253346525, 2492118775, 1502434558, 3164497290, 3550998357, 2412448305, 2223955385, 4122879535,
  350121793, 1835149778, 2175117867, 989674750, 3178241202, 3553093569, 3470650311, 2829698151,
  3209427769, 1779174943, 275388428, 4044574515, 715447260, 3180940440, 4020772289, 1322708567,
  3189868792, 4250485633, 716970023, 2307550151, 1074996711, 1217573599, 197006094, 2178394212,
  1255233746, 4164251484, 1405608772, 2808160475, 1304736088, 1796071066, 2761748078, 3570739698,
  1616118556, 2232868135, 3567541936, 3470600401, 3031621994, 3351764214, 1359785149, 2617497797,
  3340028190, 356162828, 2083806068, 2503635608, 4024838996, 2577080371, 2897993505, 3120733934,
  905794891, 2506078507, 4211618666, 3777871979, 809751414, 4080874167, 1562977008, 3917373055,
  2132779194, 4014249473, 4067327082, 2582869847, 1780081876, 1842619106, 3381761227, 921004274,
  1393256920, 1883566732, 2702071861, 865327389, 1622085203, 3021825820, 2687061406, 1748902923,
  689023977, 308399650, 2377287978, 1646969411, 1051806316, 4277884230, 2041056290, 101134519,
  2032472116, 4112521069, 151202901, 2773743461, 551348559, 3476836808, 510935951, 625057077,
  3757450756, 2977698135, 3027776859, 2616998041, 2773430005, 544190486, 2241368212, 1141105829,
  1452816309, 4199229235, 3218013033, 4229475816, 1659576351, 3020348754, 1193400518, 3208584597,
  1151197733, 2597187966, 503065140, 2421841572, 1437291709, 1909275895, 2872630545, 793588217,
  3792934707, 1784451785, 2921385648, 1669902526, 4189978976, 1196986251, 434805516, 1907541826,
  2624415034, 1687778718, 650746582, 1949153382, 4148493093, 841300520, 1164202054, 4203468658,
  4106300911, 850346789, 1715730760, 3114661489, 2866524548, 1360448945, 3601318775, 1743078223,
  2413855408, 1211895622, 325117146, 2721152875, 1284334485, 2446538832, 739014618, 2237045115,
  842553465, 2538598293, 746460793, 4010387366, 2002655192, 4193733112, 1194380773, 3918217378,
  1447487475, 5659228, 3408847694, 4190318700, 1862549564, 781683719, 1194618118, 755053413,
  3436011942, 2885435303, 3081151348, 2017642831, 1053816502, 1086627485, 2157296554, 110650022,
  965352898, 1003174194, 1288956241, 4057404871, 2965068465, 2897064481, 2457377317, 1879872545,
  358455290, 375086701, 3015902095, 1676249984, 924455526, 2084169389, 1989014644, 1993749926,
  2009424973, 2113340508, 3980883273, 2915977458, 203328382, 3020815229, 2415050113, 4103009585,
  3700885489, 2916647550, 1523006503, 174302338, 2476909338, 1969322490, 4285741984, 1528449097,
  3355315515, 4217241278, 599579127, 2572243673, 3035856735, 1539140489, 1782314913, 4238644287,
  1746424142, 1978148312, 2380746849, 184941882, 1106717981, 1720750349, 981701307, 3953154731,
  3257809181, 2892339376, 3339778166, 3676936849, 87425948, 3029257381, 2037942523, 3807628706,
  2861474706, 1058852346, 1322765211, 2686046342, 2689342655, 2303436168, 2571627181, 1986057734,
  1183564308, 2829677523, 1295563975, 503126586, 2025890348, 4179277821, 1735262467, 981331774,
  1613447066, 1011606109, 2000062246, 3581448390, 3477731384, 3641307373, 3508544379, 2327233491,
  3931944343, 4189052882, 2990416380, 422406169, 202291313, 2531006461, 4277024116, 3815144003,
  821314585, 1344175168, 3562834071, 1339615445, 1831545190, 3115548822, 743512780, 4006999448,
  3720181735, 1012033521, 919931041, 2628967879, 1151876565, 1268107129, 3674829936, 834977846,
  743987006, 3947536548, 3706529695, 4121073678, 2507605742, 1595636918, 2708047833, 2427507331,
  3868216331, 3254240010, 2097683411, 3279710596, 3686819053, 1843541720, 1683793619, 3245287285,
  3571828776, 3733296431, 3806747478, 1390930605, 3860422228, 114397037, 1931519825, 2770684378,
  1556101783, 1436111731, 4031950081, 562876656, 1775895782, 612364620, 1313509772, 4283410242,
  3252958463, 2176555836, 3933073367, 3013277102, 1444071961, 3120949516, 2824578890, 325676929,
  943677134, 1800649256, 1721927060, 347498719, 1435221321, 2623572981, 1408548470, 4145586315,
  2901889237, 1849377952, 1239144551, 3382598266, 2992893897, 3738297588, 611280106, 3897415338,
  2370299241, 1772308583, 3697465753, 354508058, 2702360134, 591308331, 3524072501, 976616000,
  2563717192, 3078266097, 1376594703, 4209795919, 2454412767, 2712206031, 2963860163, 3734324882,
  2248653800, 324872786, 3789837448, 3779000146, 527733939, 2844165793, 576499681, 1618787435,
  2638888650, 57511068, 2804627518, 2993670030, 481402236, 2810124845, 1416045214, 1723694191,
  1214944572, 3188123783, 1139185907, 3851015362, 1719652470, 1661343029, 3644307578, 3564178709,
  1256656955, 46631590, 4231317929, 3098958589, 1834956625, 2206185428, 3695688374, 3647957317,
  1064098871, 1739100906, 2579568980, 27974051, 2617466775, 964075233, 907049942, 4164146575,
  3377168066, 2524828266, 1083546008, 2992960953, 2260789066, 1543742095, 2843842831, 1375722284,
  3574521313, 110842534, 2310998251, 3076511734, 783145600, 1287776608, 3087144146, 305559823,
  2356293719, 3228441476, 1678938122, 3775814061, 1620283952, 2512027726, 1031432407, 962295099,
  3877418501, 968669928, 304126693, 3711291137, 3847527101, 494066767, 4050229756, 4169448589,
  671763915, 1095747781, 4006132710, 394725957, 200521654, 2715998750, 1477567673, 895171901,
  3370105999, 2684157455, 4153990023, 3966076501, 2043374409, 144443759, 6764556, 1611650045,
  1480956755, 1388276468, 4136518438, 1538041336, 266773992, 1623357516, 2267298390, 3183919402,
  1084292424, 2796136160, 2413448816, 2850375199, 3510894040, 2644778623, 3317288284, 3697317540,
  1465776787, 1843489446, 1416711171, 744701117, 1286781349, 3748640476, 861982119, 2377742909,
  1171768136, 2701877439, 3839724288, 2869791015, 2386067954, 2629214347, 955801623, 3831079317]


/-! ## Reference tables for the seed-42 generator

Literal checkpoints of the seeding stages, the untempered word stream
(105 chunks of 100 words) and the tempered output stream (98 chunks of
100 words); each table is proved below to equal the corresponding
computation of the model. -/

/-- Untempered seed-42 stream words 0..99. -/
def xsC0 : List Nat := [
  2147483648, 3564348608, 1266698288, 4212342371, 3595291661, 3180588708, 3037210256, 946923017,
  2565409715, 2900535780, 924383152, 4180157270, 4230508198, 2039675917, 3755350407, 2362848650,
  2818100609, 2097423432, 524478045, 540883378, 281170210, 1485176884, 1493190386, 1773214509,
  380915208, 3667698522, 2648371337, 2961234806, 3857480267, 1582950522, 246289694, 3322185604,
  1944574775, 302623699, 169865066, 1143540808, 3733177770, 513116636, 1411153081, 3205493053,
  768926902, 549624109, 1470655403, 59539609, 3678480009, 3087139671, 1176835859, 2078491503,
  2299934332, 1592059249, 1062716176, 2654193596, 3531838733, 2661260596, 3881209635, 2106865768,
  4154287292, 2082185616, 2301197011, 2177349827, 3082181756, 1787663536, 3714670796, 3018262113,
  1670056238, 1856738750, 99824592, 2279837081, 1414647942, 3416675731, 3458782472, 3997022236,
  468762002, 2666158583, 953353270, 1788980658, 3802061067, 407586584, 1844776834, 1906917274,
  3154715663, 3028370222, 4156024188, 3996363428, 80495456, 2659800972, 2005649973, 3818358673,
  3952623596, 2506862371, 3282302532, 263923435, 3384662671, 3292439172, 3119957588, 1224426111,
  899864150, 215262826, 1619647231, 3347694949]

/-- Untempered seed-42 stream words 100..199. -/
def xsC1 : List Nat := [
  3497868538, 2029552053, 2992804824, 4080010250, 2023513186, 1885979437, 3564622190, 3775424270,
  2297810139, 3549449169, 2664856277, 3274801974, 2794883969, 980412666, 2980215653, 2794389321,
  2816521934, 1266970739, 542306338, 3646225311, 3598997630, 2111980720, 2949252482, 2489027658,
  352815024, 11610683, 1386663624, 2004196796, 1161461546, 1921293780, 2463949525, 1647009713,
  3550093655, 2563894064, 3486310554, 1506105865, 243092931, 2659437476, 4200687059, 2284345122,
  1974438610, 3591096528, 967119212, 3362401375, 140678365, 311602112, 2361740275, 2139598582,
  3632873481, 2762232439, 4156482318, 381637792, 3253346525, 2492118775, 1502434558, 3164497290,
  3550998357, 2412448305, 2223955385, 4122879535, 350121793, 1835149778, 2175117867, 989674750,
  3178241202, 3553093569, 3470650311, 2829698151, 3209427769, 1779174943, 275388428, 4044574515,
  715447260, 3180940440, 4020772289, 1322708567, 3189868792, 4250485633, 716970023, 2307550151,
  1074996711, 1217573599, 197006094, 2178394212, 1255233746, 4164251484, 1405608772, 2808160475,
  1304736088, 1796071066, 2761748078, 3570739698, 1616118556, 2232868135, 3567541936, 3470600401,
  3031621994, 3351764214, 1359785149, 2617497797]

/-- Untempered seed-42 stream words 200..299. -/
def xsC2 : List Nat := [
  3340028190, 356162828, 2083806068, 2503635608, 4024838996, 2577080371, 2897993505, 3120733934,
  905794891, 2506078507, 4211618666, 3777871979, 809751414, 4080874167, 1562977008, 3917373055,
  2132779194, 4014249473, 4067327082, 2582869847, 1780081876, 1842619106, 3381761227, 921004274,
  1393256920, 1883566732, 2702071861, 865327389, 1622085203, 3021825820, 2687061406, 1748902923,
  689023977, 308399650, 2377287978, 1646969411, 1051806316, 4277884230, 2041056290, 101134519,
  2032472116, 4112521069, 151202901, 2773743461, 551348559, 3476836808, 510935951, 625057077,
  3757450756, 2977698135, 3027776859, 2616998041, 2773430005, 544190486, 2241368212, 1141105829,
  1452816309, 4199229235, 3218013033, 4229475816, 1659576351, 3020348754, 1193400518, 3208584597,
  1151197733, 2597187966, 503065140, 2421841572, 1437291709, 1909275895, 2872630545, 793588217,
  3792934707, 1784451785, 2921385648, 1669902526, 4189978976, 1196986251, 434805516, 1907541826,
  2624415034, 1687778718, 650746582, 1949153382, 4148493093, 841300520, 1164202054, 4203468658,
  4106300911, 850346789, 1715730760, 3114661489, 2866524548, 1360448945, 3601318775, 1743078223,
  2413855408, 1211895622, 325117146, 2721152875]

/-- Untempered seed-42 stream words 300..399. -/
def xsC3 : List Nat := [
  1284334485, 2446538832, 739014618, 2237045115, 842553465, 2538598293, 746460793, 4010387366,
  2002655192, 4193733112, 1194380773, 3918217378, 1447487475, 5659228, 3408847694, 4190318700,
  1862549564, 781683719, 1194618118, 755053413, 3436011942, 2885435303, 3081151348, 2017642831,
  1053816502, 1086627485, 2157296554, 110650022, 965352898, 1003174194, 1288956241, 4057404871,
  2965068465, 2897064481, 2457377317, 1879872545, 358455290, 375086701, 3015902095, 1676249984,
  924455526, 2084169389, 1989014644, 1993749926, 2009424973, 2113340508, 3980883273, 2915977458,
  203328382, 3020815229, 2415050113, 4103009585, 3700885489, 2916647550, 1523006503, 174302338,
  2476909338, 1969322490, 4285741984, 1528449097, 3355315515, 4217241278, 599579127, 2572243673,
  3035856735, 1539140489, 1782314913, 4238644287, 1746424142, 1978148312, 2380746849, 184941882,
  1106717981, 1720750349, 981701307, 3953154731, 3257809181, 2892339376, 3339778166, 3676936849,
  87425948, 3029257381, 2037942523, 3807628706, 2861474706, 1058852346, 1322765211, 2686046342,
  2689342655, 2303436168, 2571627181, 1986057734, 1183564308, 2829677523, 1295563975, 503126586,
  2025890348, 4179277821, 1735262467, 981331774]

/-- Untempered seed-42 stream words 400..499. -/
def xsC4 : List Nat := [
  1613447066, 1011606109, 2000062246, 3581448390, 3477731384, 3641307373, 3508544379, 2327233491,
  3931944343, 4189052882, 2990416380, 422406169, 202291313, 2531006461, 4277024116, 3815144003,
  821314585, 1344175168, 3562834071, 1339615445, 1831545190, 3115548822, 743512780, 4006999448,
  3720181735, 1012033521, 919931041, 2628967879, 1151876565, 1268107129, 3674829936, 834977846,
  743987006, 3947536548, 3706529695, 4121073678, 2507605742, 1595636918, 2708047833, 2427507331,
  3868216331, 3254240010, 2097683411, 3279710596, 3686819053, 1843541720, 1683793619, 3245287285,
  3571828776, 3733296431, 3806747478, 1390930605, 3860422228, 114397037, 1931519825, 2770684378,
  1556101783, 1436111731, 4031950081, 562876656, 1775895782, 612364620, 1313509772, 4283410242,
  3252958463, 2176555836, 3933073367, 3013277102, 1444071961, 3120949516, 2824578890, 325676929,
  943677134, 1800649256, 1721927060, 347498719, 1435221321, 2623572981, 1408548470, 4145586315,
  2901889237, 1849377952, 1239144551, 3382598266, 2992893897, 3738297588, 611280106, 3897415338,
  2370299241, 1772308583, 3697465753, 354508058, 2702360134, 591308331, 3524072501, 976616000,
  2563717192, 3078266097, 1376594703, 4209795919]

/-- Untempered seed-42 stream words 500..599. -/
def xsC5 : List Nat := [
  2454412767, 2712206031, 2963860163, 3734324882, 2248653800, 324872786, 3789837448, 3779000146,
  527733939, 2844165793, 576499681, 1618787435, 2638888650, 57511068, 2804627518, 2993670030,
  481402236, 2810124845, 1416045214, 1723694191, 1214944572, 3188123783, 1139185907, 3851015362,
  1719652470, 1661343029, 3644307578, 3564178709, 1256656955, 46631590, 4231317929, 3098958589,
  1834956625, 2206185428, 3695688374, 3647957317, 1064098871, 1739100906, 2579568980, 27974051,
  2617466775, 964075233, 907049942, 4164146575, 3377168066, 2524828266, 1083546008, 2992960953,
  2260789066, 1543742095, 2843842831, 1375722284, 3574521313, 110842534, 2310998251, 3076511734,
  783145600, 1287776608, 3087144146, 305559823, 2356293719, 3228441476, 1678938122, 3775814061,
  1620283952, 2512027726, 1031432407, 962295099, 3877418501, 968669928, 304126693, 3711291137,
  3847527101, 494066767, 4050229756, 4169448589, 671763915, 1095747781, 4006132710, 394725957,
  200521654, 2715998750, 1477567673, 895171901, 3370105999, 2684157455, 4153990023, 3966076501,
  2043374409, 144443759, 6764556, 1611650045, 1480956755, 1388276468, 4136518438, 1538041336,
  266773992, 1623357516, 2267298390, 3183919402]

/-- Untempered seed-42 stream words 600..699. -/
def xsC6 : List Nat := [
  1084292424, 2796136160, 2413448816, 2850375199, 3510894040, 2644778623, 3317288284, 3697317540,
  1465776787, 1843489446, 1416711171, 744701117, 1286781349, 3748640476, 861982119, 2377742909,
  1171768136, 2701877439, 3839724288, 2869791015, 2386067954, 2629214347, 955801623, 3831079317,
  2468570525, 44967195, 2667364560, 2449893699, 1652692239, 766678126, 273175325, 1513475390,
  2407048223, 2326550691, 3055735416, 2487780036, 476975371, 81632736, 1598452444, 3338301038,
  3898475993, 1749546629, 4084786842, 949316744, 2086501466, 4175211502, 3792229788, 1718685282,
  2499662139, 4222931543, 3063257123, 910424605, 1400804300, 830603822, 3216023045, 2756927633,
  3684278863, 3724968901, 332416530, 52016619, 2751489098, 1877715228, 1932382287, 3281876149,
  3597828351, 330629843, 142483984, 1379430288, 83784318, 2266112133, 1736800492, 3746267091,
  2610492607, 2079803227, 3463890091, 615297649, 2445958069, 138783768, 741209753, 3721915402,
  2027708325, 4005341927, 2093884772, 119215273, 551524651, 3739622759, 3782730527, 404717681,
  321534867, 1286801508, 1706479953, 2882329788, 1029701930, 2373551443, 3296995744, 468358352,
  746091816, 4096927057, 641317208, 2423816852]

/-- Untempered seed-42 stream words 700..799. -/
def xsC7 : List Nat := [
  662051236, 1347945045, 744683282, 3532103569, 3323996770, 674188488, 2147579353, 4002509157,
  1635774310, 2870381986, 1633495405, 3350196287, 225215418, 1170120648, 915993856, 814856433,
  196876581, 2157558451, 3897838842, 3150173549, 626324766, 2067876245, 2163845165, 4042368565,
  1376677108, 1262248675, 2205442378, 3993334766, 9743238, 2593325684, 2920379669, 1534455130,
  3818766181, 931649853, 2158376649, 3577176492, 4105269980, 2743411340, 2855498512, 3468322221,
  4289135738, 3070378031, 130878110, 2012459331, 3649976437, 1132601439, 747682378, 48846564,
  660000069, 1790312343, 3727890972, 1155723235, 1514429407, 1230076367, 1013715474, 4196577359,
  1320124222, 2614278628, 1297893158, 4083753327, 2352894470, 947894400, 2642100948, 1169889630,
  1286436482, 3306394082, 3164045139, 1094362406, 809487105, 2843373296, 2280653556, 2080861721,
  1562856334, 994764831, 4181417961, 1060980731, 2404272427, 3309777776, 1336994281, 634755732,
  3631638369, 1391515368, 1418228798, 4257897983, 2054225289, 567832856, 1330177904, 2462727694,
  814045371, 2591348022, 743574337, 2789138291, 2041853854, 894395601, 2564448893, 2991512555,
  661658788, 4244382938, 592840949, 4198784705]

/-- Untempered seed-42 stream words 800..899. -/
def xsC8 : List Nat := [
  4208381264, 1027548464, 1699297713, 3507187687, 4228784501, 3944198753, 393010807, 1855658975,
  2650303920, 837948699, 3219332495, 2923291683, 2860126530, 3856051376, 2249134764, 165767879,
  2468337443, 1781864276, 2657744714, 35449830, 828146831, 117482919, 3433429317, 1819066727,
  710883018, 3107854316, 3076257894, 928245986, 1936492070, 1083117887, 4108585320, 313911202,
  235106869, 3091059945, 905889358, 259789608, 3447145250, 988142971, 2178196317, 859662840,
  1908755715, 1247277970, 1481142601, 819671330, 2548134350, 1495134650, 4034870622, 2814194974,
  2761218509, 2977430738, 614006212, 981226091, 413177493, 3471336991, 2131872665, 4009914404,
  612529023, 378607496, 2988973248, 2418016553, 3050435072, 3405173865, 239315520, 553425169,
  2806326921, 2194625577, 1297818883, 557367713, 1339678305, 625637250, 3007124173, 1403416408,
  963253146, 557613038, 2995233521, 1599272606, 2877491804, 3025784937, 3444226192, 3778689225,
  2511282536, 2036290414, 3663672933, 870613663, 3288722796, 1883286129, 2240711678, 1598432647,
  1653428643, 1037288789, 3417332711, 632265342, 2992319607, 2229992519, 2627094451, 2902395192,
  1798625598, 1888821172, 2928617356, 2806510607]

/-- Untempered seed-42 stream words 900..999. -/
def xsC9 : List Nat := [
  2169745473, 3263400237, 477483472, 2684152104, 2047416023, 1061764082, 3888197689, 3665203944,
  3081648115, 1585188167, 979304208, 3283599107, 515443754, 3528859579, 2646985622, 1179116369,
  3174096483, 3622666293, 1094110660, 982532210, 3915875056, 3442760653, 2482674618, 3543561277,
  4242258297, 1883210421, 198934262, 3881993543, 3270985024, 3814018289, 3842198594, 3180274062,
  349497396, 2056365044, 3662991668, 2471767104, 2872942732, 1154111690, 3142477833, 2062459812,
  3422415124, 352502659, 3206123932, 769305078, 1282348479, 3011976512, 1592394005, 976424517,
  3257644548, 2159244792, 3015546726, 1321951765, 1457127034, 1008018749, 1340492242, 3250697729,
  1439525819, 2116389080, 3128629141, 3912463512, 2778908372, 5179345, 2764285036, 4013718511,
  76636421, 2440399146, 4124147582, 1565329027, 2314846721, 2825257189, 554997050, 2676063690,
  3230428478, 4066464853, 3785792675, 3491102306, 1012514472, 710423760, 1104362914, 1402276434,
  870434098, 64327618, 245834932, 4099459452, 3866904251, 2240453378, 1724463324, 1330601334,
  3433676187, 829295067, 3806454686, 950099493, 4293362446, 594307004, 79190971, 2311908688,
  54171305, 62487414, 3504337811, 2771970015]

/-- Untempered seed-42 stream words 1000..1099. -/
def xsC10 : List Nat := [
  1836590151, 2595431378, 3416341100, 3453307109, 1174988285, 2852396363, 346848325, 2368812712,
  226406421, 3941277996, 3989222844, 3009299209, 1702732764, 2598609657, 3925497101, 331397553,
  388553728, 3553027581, 2831176302, 1171547784, 2429194224, 1919275555, 2943364212, 392528745,
  2077320491, 416107366, 3505919650, 2641506636, 3367202201, 2496764115, 223919825, 271108961,
  2545966472, 1316212361, 3137675020, 49774935, 2744430138, 3230926645, 1183214045, 1795720081,
  3453588112, 891938360, 4144344690, 2777301904, 1995233055, 3359734316, 896930090, 3330969507,
  3223398016, 1321717194, 4215086939, 3506673919, 100418703, 2598322782, 1873905913, 1698737593,
  1965703533, 60435064, 1751428005, 1152971074, 3618663090, 3158488445, 3727477430, 657970680,
  1511931134, 1717050987, 310598970, 2234372010, 1017571582, 4084110079, 2305036871, 4254307802,
  2941750258, 2165051637, 1472622743, 2543351527, 1796705211, 2214600371, 686749318, 4022876929,
  2100068217, 3727699398, 3217299548, 275738892, 78573358, 2500678662, 2944914056, 1277909152,
  2318080503, 3799903604, 2033312710, 1430582106, 2681053359, 427226790, 4052010686, 1405513990,
  283355798, 2154582023, 3237342184, 2326232545]

/-- Untempered seed-42 stream words 1100..1199. -/
def xsC11 : List Nat := [
  3053750987, 3682467274, 4258665988, 1693455081, 3276042809, 1890575484, 3321173492, 1435919955,
  372744468, 2288550928, 130181578, 464432903, 2644098717, 850876397, 366381834, 1912868480,
  4114884255, 2076074274, 2025154398, 3191648339, 1180631776, 1821926123, 142706752, 3139028750,
  3108622860, 1876156978, 3356317510, 3260050869, 2334989316, 747109268, 4016280193, 2897996881,
  2994915453, 803723030, 1933605890, 3104516246, 533383945, 701195023, 2592103620, 1356972692,
  1491149426, 4160117465, 3960597945, 2567279869, 1374045353, 3117232482, 139766291, 2589485771,
  1707073928, 3210823559, 537281128, 10518971, 1901873126, 2898897661, 573642982, 760245815,
  3807024923, 2334167321, 1211114995, 3530176240, 1229318785, 3602144670, 1250553934, 1010089880,
  2172233573, 2688964066, 3758094780, 2941802101, 1581001398, 3746782544, 2917164021, 252667418,
  1150188760, 3542252877, 1389159379, 1906599979, 3288259755, 778740684, 358910446, 26153786,
  443928973, 1407665083, 298990169, 3405562703, 504530202, 3362938768, 1086122129, 3588952012,
  177358838, 1668686040, 1788441005, 2920778456, 3450590302, 1707705043, 3940504028, 1650147200,
  2144853533, 429939140, 2060161875, 226622212]

/-- Untempered seed-42 stream words 1200..1299. -/
def xsC12 : List Nat := [
  1271791848, 3603087696, 48155551, 966813043, 984177119, 3033759521, 3492815891, 2391190442,
  3575857178, 3965974952, 459455113, 59851712, 416034666, 1727702234, 3862955095, 2038677741,
  405912737, 3651584525, 1433865433, 4162114042, 319642522, 120211088, 3610217925, 1667950605,
  284010502, 2536690859, 1757606927, 98163371, 1298766898, 2843598018, 2749694903, 3031345259,
  2633279512, 2812045979, 34084905, 2989448216, 3311204930, 763257776, 747261640, 127287928,
  326017657, 2610204813, 3746483709, 1345625337, 76875111, 1840566970, 4008707741, 1079217633,
  2855956593, 2685291548, 3345876759, 2476269427, 236192081, 1104449523, 2959661011, 1443336009,
  1217332317, 1447679981, 1510771203, 1090512338, 1276969081, 2493916770, 562738784, 1320360969,
  767511720, 2134514320, 927086037, 4093062333, 155694031, 2248262844, 3602039969, 3852111709,
  747873240, 4147408356, 77841010, 3919474534, 1443286237, 2112741510, 438474856, 4046988663,
  1825878883, 643410928, 4257531795, 1730835272, 1953496822, 3371889501, 4236180423, 629250578,
  1821410507, 3658734526, 237756976, 1482753473, 4242128630, 1631707468, 864075932, 3898745470,
  396198285, 928497869, 919436349, 1052382967]

/-- Untempered seed-42 stream words 1300..1399. -/
def xsC13 : List Nat := [
  3308177145, 3638049540, 3111354594, 2389775542, 710343455, 1451877428, 1967980938, 4098556723,
  1749783466, 1450662156, 3311927787, 2486387256, 3008679988, 72616703, 1506621182, 3566934370,
  2110365442, 460584726, 414300466, 2314312251, 3127334097, 2727877138, 1543123020, 1129883204,
  826860018, 3603206241, 988545782, 3574898682, 2406112174, 1692277815, 2326796932, 3019605386,
  1696899757, 743649693, 4014550675, 1350688969, 2864172020, 479073098, 2599338912, 21955280,
  2884844139, 1643949431, 3069007081, 2817416208, 3742790967, 3787522967, 1598870422, 794309786,
  3490636613, 154908901, 3424354041, 4177758159, 1654285064, 101539091, 2951387928, 602633065,
  3998001109, 1983396154, 3324009607, 3369758995, 2116372048, 643417482, 1197386399, 1612269876,
  3947033543, 3647396235, 4061178602, 3979251351, 255851049, 4200181916, 2557558671, 3678769876,
  362774134, 659367709, 1629597157, 3516234936, 46222271, 1043352417, 2763614531, 369883257,
  2703291919, 1151286133, 2381074015, 2767568408, 3609152857, 1183679641, 2964830815, 1863537088,
  4097676655, 2378891064, 1554640139, 7270970, 3036373658, 2617768134, 1213419942, 1890553713,
  1543412096, 141917406, 3382277432, 3659655314]

/-- Untempered seed-42 stream words 1400..1499. -/
def xsC14 : List Nat := [
  2978079989, 2887526392, 1666098529, 1993170884, 1192413368, 1059107825, 2791476506, 4265942934,
  1124825911, 913721825, 3281640520, 3747125656, 3309843723, 2409455086, 1610404010, 1984453689,
  3772326511, 4294766668, 1849186290, 2652101132, 1538756798, 578610553, 3329335359, 45922485,
  1195363164, 3513237332, 3154967592, 2898370701, 977381567, 3495957627, 2548389955, 878014215,
  1965213043, 1456019979, 1083238756, 2149468347, 2659758064, 1483027423, 3731441276, 2286646308,
  333459312, 3916759026, 948811038, 2576830009, 1127096321, 3928834212, 388628886, 102940927,
  464866662, 2357359094, 952310908, 693889813, 780004587, 1387327675, 1283664250, 3546322423,
  745244265, 4179255440, 3004211711, 3125741961, 1676031225, 2615867736, 3954305252, 1689709596,
  139827833, 2577843891, 536599273, 413014686, 4145702992, 3882963794, 65668726, 3487029598,
  890186963, 3166468223, 3294958603, 1063422948, 510840780, 569266692, 2753161057, 3311241265,
  1251738679, 2843531699, 2266971906, 308804957, 2855931142, 489512739, 3381205381, 3333891042,
  1288256681, 3727660094, 3341274118, 2472219463, 1839145297, 3084127340, 2586057489, 368228866,
  2527066955, 1459201286, 2318660626, 961685238]

/-- Untempered seed-42 stream words 1500..1599. -/
def xsC15 : List Nat := [
  873477391, 1644600890, 771037, 483482729, 21121329, 2919609221, 834852071, 1322665429,
  3346091543, 4278420076, 2441204052, 3693209336, 1327210792, 1085171435, 2002147117, 3971326511,
  23991618, 3647500598, 236880221, 2302923369, 1493921430, 617042778, 583624870, 3460098418,
  3474896004, 2029491413, 826565219, 555941197, 3346835197, 328968225, 3813301698, 3901313081,
  2696893000, 1751285250, 1285057645, 655824319, 3864323598, 2341135392, 1847067471, 885264346,
  4138367546, 961957916, 3386063195, 1232756346, 3839978031, 1363997935, 2036470010, 1560426674,
  1133472663, 1578602295, 3923858488, 1345536850, 1046906566, 1215145175, 2345865021, 3305123764,
  1503055309, 2811916830, 4199650218, 817525483, 1312169464, 1810278984, 771141915, 2403942270,
  3473392212, 2237795182, 1470256683, 348913771, 2017403863, 1083237564, 603941869, 4261654069,
  2711140715, 110237733, 3509925199, 4217511032, 2386139812, 3957873168, 1089203216, 2440324618,
  958372223, 736075789, 1467140389, 3164456127, 2937522701, 3561066161, 642579515, 2774877709,
  786628895, 1035343136, 2545384106, 1991680536, 341666086, 2728058999, 3807260786, 1870253238,
  442608233, 1907015937, 3008327141, 1270063394]

/-- Untempered seed-42 stream words 1600..1699. -/
def xsC16 : List Nat := [
  845233525, 1103639348, 4167039377, 456239398, 1071287424, 2750085913, 740793543, 1259758989,
  106591988, 4270379569, 2203193507, 1749230411, 2268213419, 2177321872, 2857061901, 3419297000,
  3699166438, 3355275273, 76055698, 1819187473, 2648393085, 4180940976, 3141225537, 3024763772,
  86830391, 2890524686, 633601087, 1267541716, 538352002, 2953849756, 1884669072, 2560958573,
  173351783, 3498170308, 1055035085, 833989337, 2718902338, 778847761, 263222687, 3470547723,
  1064738767, 194836893, 346189693, 3904660887, 533113218, 2038448584, 1286187879, 4283929332,
  773472458, 3993873262, 1275437075, 3127823695, 34063330, 1671959455, 1037923810, 832669307,
  777077728, 2322061253, 3961921395, 1692963438, 2945165646, 3134942549, 747813292, 3093587640,
  49397955, 3857420613, 3666761196, 4053726240, 3444851428, 1647754635, 601536823, 591311681,
  2370741825, 3015458532, 4155227231, 3225673726, 2179846361, 3591596255, 2196966678, 2380299394,
  1400759687, 3787050103, 4047301974, 129217328, 1043565297, 3691431076, 3923043189, 1323903622,
  835602098, 3807397497, 1713376201, 1443294726, 957955859, 3259065109, 1717031027, 2695998889,
  1056959479, 4043411170, 1561547506, 3649853905]

/-- Untempered seed-42 stream words 1700..1799. -/
def xsC17 : List Nat := [
  666159097, 2417127240, 2442012347, 4193009839, 251020519, 4227590991, 2372546743, 1221292960,
  2751099824, 3504133702, 1953648909, 908538146, 1813227929, 3037849702, 3960822351, 3660012577,
  2459234157, 4293242713, 4206373828, 1710158874, 787125424, 4200525541, 3383342125, 1419054833,
  994532323, 4107861776, 3525484381, 2361048268, 441543684, 586238247, 4010991519, 173644219,
  2855399821, 1914953730, 3658064521, 1354047878, 1062246725, 2607453393, 3844334008, 3971023544,
  1030837882, 1259136130, 1789086425, 1648464946, 1982656668, 173950333, 2496606702, 95389584,
  1395565123, 114279173, 907833207, 2324183686, 783575327, 2684165116, 4000824250, 120943132,
  1147683754, 3672794051, 4094477426, 1985120019, 3851386714, 1104691727, 1332212981, 3391387447,
  695826835, 2165851468, 3780015483, 122808497, 632342701, 351394957, 3713981376, 2520685291,
  3623151603, 694235598, 3294283952, 2065778788, 3514559126, 3103381579, 3751003286, 2518384020,
  2499107972, 1992535323, 3962909900, 2755430482, 2361416913, 2668981133, 782249255, 3615653525,
  1002799289, 1107905989, 1106093211, 2686048015, 2865472966, 2556090126, 1397470054, 1517821371,
  4027148997, 3549539035, 1608067839, 426731489]

/-- Untempered seed-42 stream words 1800..1899. -/
def xsC18 : List Nat := [
  1369917891, 3683086776, 4221933029, 436978365, 1527991058, 3507110371, 755152754, 1981209586,
  266768325, 2921598386, 2523415385, 3932039670, 3858407133, 2315842610, 2993587041, 1211558704,
  3596248214, 2732118596, 127614424, 2998810359, 2924137621, 1183009028, 1773744436, 1065789981,
  1523294633, 1797830901, 3463127876, 3057459525, 3265870971, 156195655, 1551039731, 1430989965,
  3587901389, 4171133276, 1256113261, 171729217, 3455418460, 695902807, 2374661090, 304242212,
  874289737, 1509456062, 4156832789, 2516214059, 3295171393, 3055022767, 2228444616, 2511180158,
  1806025274, 1448248985, 799958774, 597173038, 3103196783, 3979988283, 2295513662, 1852624270,
  2060889614, 2824435803, 2175962721, 1761304134, 2252269084, 682076585, 847154149, 850446753,
  3132014216, 4179600318, 1070507432, 2754915747, 1028034752, 3134381292, 295506872, 2480087397,
  696739782, 3054901299, 798182802, 4028166333, 1475304520, 3443096357, 1214626356, 3209228563,
  3515107510, 2312339516, 299791506, 2438427395, 2150941940, 3169010755, 3669601461, 3109293850,
  2235981853, 2923107225, 412565561, 3747260923, 3874190107, 685737827, 442172241, 2602406664,
  1504480121, 1636521998, 401704178, 2135257328]

/-- Untempered seed-42 stream words 1900..1999. -/
def xsC19 : List Nat := [
  2370490023, 4206555243, 1641512346, 1854880183, 3309288743, 622452224, 4269098278, 1766464252,
  1556874502, 369827946, 1433632313, 2440263755, 4044302715, 2931888749, 4224784569, 262314441,
  2454763231, 2145414023, 1647836985, 3957280522, 1088566188, 3828997810, 652482061, 2237675604,
  2641204064, 27955843, 2662650762, 3952544425, 3143015762, 2871567998, 1522627049, 2060684594,
  3502262217, 920027293, 47370940, 4199553962, 201221094, 1486146162, 476757395, 318203416,
  3098022893, 3763177174, 1205281251, 1454372314, 2930352720, 2537894882, 1145218872, 911139913,
  1211373066, 2497688918, 2115977484, 2096264756, 532627924, 3615134239, 3578232329, 4056649101,
  2916114742, 1103034377, 4212250880, 3211400311, 1013246375, 3615408985, 269656302, 3013719215,
  1922855605, 1734212371, 3209047216, 3421690942, 2732905878, 84222738, 1978502783, 3340972513,
  3620415952, 734674509, 3760649384, 576951239, 2629950803, 568926971, 1114977261, 2157611562,
  3839952737, 1416570150, 4199610954, 997908610, 3385229574, 1319838178, 1180574601, 1227273830,
  3026427413, 913285504, 633045155, 4159583320, 3157564674, 880695907, 1794318811, 1870624662,
  2657091548, 1959181805, 3203671223, 261944051]

/-- Untempered seed-42 stream words 2000..2099. -/
def xsC20 : List Nat := [
  2943460513, 1326369998, 2838234247, 1491280206, 1136588078, 1080906598, 3294732952, 1718766327,
  2358108040, 1835424060, 3551862962, 802563769, 3656389649, 3657198461, 3618965384, 565719540,
  202027430, 633605192, 21405800, 2268391686, 2623564129, 2005338618, 929622514, 834742368,
  2241837351, 3078015120, 571066371, 1915628959, 1562351775, 3902067560, 1697205622, 2745058902,
  1396299212, 214849878, 431658814, 4098499999, 3924468549, 4187368204, 1215477557, 1285472053,
  4126575636, 3312625816, 1195312694, 3145837769, 720244775, 3182124312, 1793645170, 2379557179,
  1848678062, 935284512, 4042181252, 2665727273, 3658482199, 479281082, 1964975641, 1630596637,
  3139659421, 2084210753, 3427579919, 2594132021, 228874348, 1709860691, 1310317395, 2214959076,
  499178926, 3519850861, 2279688679, 3431152278, 1827592428, 3159440606, 266580363, 3383948786,
  2958477908, 3635598326, 403231787, 3851650192, 3858910747, 166720075, 2468403466, 2009757060,
  3518299507, 1213342238, 2856581525, 2452423853, 2779514103, 4100618771, 446703688, 454859775,
  3179051567, 3834369614, 1056949486, 2166590112, 2326202903, 2117838483, 2212446476, 4274632310,
  1032081420, 3936823650, 3429000343, 649986080]

/-- Untempered seed-42 stream words 2100..2199. -/
def xsC21 : List Nat := [
  2799776049, 2761363197, 197035130, 2880040588, 1083156259, 199894453, 1869856610, 3298381365,
  1582145394, 2886879375, 4060930802, 2136533631, 2482277980, 3106556598, 1777415782, 1786855530,
  3050378671, 3431857518, 2510550266, 1957445217, 1134777824, 524482904, 3350495347, 3668713761,
  1351096083, 2398934467, 3894767131, 350444256, 1957730678, 2688460598, 3505171330, 2140121843,
  1519918902, 3065359756, 123398528, 994170258, 2941559744, 4157662576, 1042356611, 2981635034,
  2188716790, 634841288, 2450243618, 4275372436, 1837351466, 1934838634, 3435215795, 661481966,
  21668871, 2806945763, 217708077, 668692673, 3513775692, 2937191787, 115020394, 3943249014,
  3742996863, 3850761984, 4031821618, 3823776974, 1930687117, 3973473220, 3761380423, 816537339,
  71295612, 2710278625, 1984579877, 332404261, 300108926, 2070292894, 2016340355, 375826244,
  558253222, 1890716964, 1582777824, 1460098409, 702666722, 3808327245, 510812654, 3934033901,
  3300371216, 2825893852, 815662119, 2328588234, 1951247661, 1960980818, 3100543944, 1541867661,
  2513422062, 3804969764, 550437957, 3616232321, 1192593741, 934357401, 1845214203, 1797274108,
  3745816543, 3296699399, 3130146781, 2430067842]

/-- Untempered seed-42 stream words 2200..2299. -/
def xsC22 : List Nat := [
  1581126469, 2152923808, 718905538, 1497801011, 2903392802, 4039436192, 131913898, 711078584,
  2806469281, 813577352, 2965435227, 130003286, 1349528434, 1300602588, 847112042, 3192728198,
  3190448484, 1422694554, 2152911363, 671938793, 2510522940, 3931908086, 178693895, 510120377,
  1411556471, 466839712, 1107568224, 2963071713, 3354591645, 1714911803, 3831538519, 1083428436,
  3860957857, 482351638, 2338024333, 370964226, 763755764, 530069355, 1244728525, 3083760226,
  587883430, 2515617217, 2391264675, 2616173511, 1499332624, 3318986391, 3708941496, 1207873317,
  1638137341, 4236355378, 336050954, 2509567462, 2944327006, 1512254027, 3883142518, 2168306163,
  3235133578, 2739976911, 575415269, 1111376365, 3270560385, 2271878446, 1244444869, 794385533,
  1699800861, 3677040724, 3787996449, 3121993941, 4189227132, 4167263066, 2217371059, 2112041026,
  2326628527, 2514664100, 166395715, 791902047, 2674128432, 3993006197, 524007115, 3443041255,
  2158650503, 2583992703, 323266346, 2900800058, 3093270068, 2584077529, 2259510121, 3587442898,
  3457621806, 593424805, 4241157620, 2070609116, 970934135, 251962787, 1142215657, 4081138451,
  3851363244, 3980320635, 2844989965, 1772655335]

/-- Untempered seed-42 stream words 2300..2399. -/
def xsC23 : List Nat := [
  716429126, 1500598944, 2741222097, 380898311, 2688263343, 3955142561, 873704476, 1470466260,
  1716600908, 1201748208, 4116287982, 3175819182, 1545267696, 4038630771, 807398652, 955798905,
  1554241307, 3571227656, 141814955, 1288720179, 1186685410, 3981895797, 1258760769, 4149642031,
  3803061958, 497927957, 3275788456, 2022876061, 6441861, 3556977918, 3486275420, 1366466299,
  1669615254, 2353145659, 3750418084, 4048354145, 3063594172, 487522058, 2336486576, 1136019765,
  1607478725, 346891140, 410401383, 2728681463, 1755986627, 1753194035, 2280524230, 3339208910,
  623806160, 934117122, 2633072455, 497066257, 109887887, 1185198347, 3368494818, 4171288943,
  3643758391, 1692453401, 399850032, 3694715723, 570971963, 1976244572, 1293505742, 4058777853,
  3528890161, 2457340976, 2157504963, 3110294200, 3119610537, 2557237461, 3154297436, 3709608916,
  3913030199, 1321712855, 573142189, 3474464855, 2830113309, 2076322800, 1682033103, 4082882457,
  460094549, 2094886995, 153667360, 3990759122, 476145368, 1324088727, 1609613194, 3198680731,
  3965337954, 161322533, 3926596220, 2414819061, 855363448, 1491412165, 3251104655, 3809578840,
  802599289, 1510182363, 1811284854, 167490029]

/-- Untempered seed-42 stream words 2400..2499. -/
def xsC24 : List Nat := [
  3049673182, 832481195, 470477731, 1671133600, 9900063, 677968776, 3093484484, 467613095,
  2129507013, 4274430571, 939712607, 2963791278, 3438159727, 19982682, 3538113493, 3232371725,
  2934329507, 1231740406, 1673522563, 3860434160, 3346091051, 2602540635, 4271848147, 1855949793,
  3921419483, 1581794800, 1155183875, 1941419724, 836670094, 2086206331, 1649265866, 871740703,
  3889619321, 3588245977, 1598891587, 1286778128, 1970949777, 1895760436, 1671742670, 2069698873,
  485095422, 1907390854, 1041924386, 1879554033, 932002840, 3029224089, 2932284728, 567208503,
  1187040083, 764622501, 3698454980, 2893974165, 3330045404, 4113950918, 53593208, 1947611812,
  444088981, 403141054, 3699723819, 3235596943, 3514170338, 2375963260, 1594710032, 2927821071,
  862194484, 3906707992, 1681650216, 3627481817, 1475480649, 3438175047, 3510201208, 747430157,
  2012366084, 3402024899, 1446166194, 3838889493, 320205168, 1349442069, 3802305313, 2450885209,
  3607570105, 1051064985, 4114618064, 3284880260, 1846271684, 2726024904, 3262027234, 3752302021,
  4226141425, 365685265, 2756426355, 1005825917, 3326238242, 2835789053, 720697528, 2909879199,
  2053169052, 3554919290, 3706190019, 3780781707]

/-- Untempered seed-42 stream words 2500..2599. -/
def xsC25 : List Nat := [
  712423401, 1842881113, 2845818633, 4154577515, 2867441771, 1473547394, 1553705657, 3232761597,
  1568508801, 3876635055, 4031559095, 1676938981, 1410391498, 1408136106, 1668410608, 610932348,
  3996746443, 1760550019, 1994667352, 3422663188, 1069615524, 1340871056, 3437462379, 2049111072,
  158013329, 3648562368, 3353853667, 2435102986, 201178528, 2623084610, 1645281657, 2388502060,
  3770367892, 2275582943, 3323233326, 2279498798, 2311651609, 297381229, 1670568853, 3426353728,
  373299311, 2550965183, 219673340, 1020448461, 3871372113, 3255392114, 1314935577, 135112786,
  881529323, 1146962820, 462796452, 3204796527, 1211733034, 925407363, 1174103300, 2970278078,
  375446639, 3466935810, 1817875246, 645627749, 2684895746, 1219967154, 4164372589, 868615573,
  1831353441, 1906365598, 1759622104, 1216675053, 1594866293, 2052549115, 546020620, 1286615494,
  1645233304, 4175538496, 4184962004, 720447034, 2232977106, 1868198044, 4232959752, 1348792596,
  3212017104, 4115647074, 1042115467, 504730427, 3596032874, 1608280647, 1558219203, 3259948734,
  3748484106, 1387938454, 2484430562, 2200239610, 3506085305, 593927715, 66747031, 3524587073,
  1417803564, 2349971464, 354769640, 2119451713]

/-- Untempered seed-42 stream words 2600..2699. -/
def xsC26 : List Nat := [
  2268831093, 2585484676, 3478480194, 1137191282, 301316451, 1500099818, 2934351832, 1066351830,
  461955234, 3004130875, 3377298913, 2673350925, 366751063, 3559247620, 2236671159, 2990542819,
  3400141771, 1182415438, 3092286782, 1037316246, 3146697452, 1203063051, 1037518590, 2707870710,
  1032121276, 3865620970, 1703551306, 2484677449, 296226328, 1044003567, 2309680132, 114425819,
  1591465750, 2444772253, 3577517604, 3407677458, 187705098, 1406690203, 3766207828, 3404431292,
  332590974, 3527410657, 3274727566, 2044646604, 849959179, 2014026106, 4277737664, 1555439719,
  3232037395, 915631629, 3464506865, 1580949579, 1778527300, 911086520, 1652069863, 1480751208,
  2051004368, 1854965589, 2430080783, 170590212, 2838191199, 2726087942, 4092936789, 1333856411,
  306599544, 3885013, 4287987586, 3499511602, 1868945162, 1265560603, 4024800179, 1083537231,
  2941381897, 2528147578, 4156012668, 2998958727, 1675340152, 2146882071, 99503428, 1122334285,
  304094265, 3156158624, 2689673825, 1554673315, 3019567816, 1652626269, 3269034365, 2677380405,
  1014019605, 2247445564, 3368197188, 1158899522, 4143135863, 3133315634, 4243554336, 265906531,
  2696350396, 70627762, 507847493, 2650526422]

/-- Untempered seed-42 stream words 2700..2799. -/
def xsC27 : List Nat := [
  389647929, 1604506167, 2671113431, 2730966806, 877120282, 1854660404, 1108064464, 484021277,
  3717756751, 3088057076, 1464710820, 3921498892, 3493740015, 2635167637, 3744878741, 666827045,
  4091447687, 2778995445, 1150776390, 2558555684, 2622824524, 3587013164, 4264442767, 4028168155,
  413201627, 2570631934, 4103000525, 3543782567, 4045766748, 2653315256, 1290126766, 3318710226,
  3637843994, 631102400, 638894877, 1418185903, 3146114292, 2226400900, 1454681808, 3622889410,
  900238621, 698357389, 3342121363, 3488098363, 1733206063, 3426141630, 945754715, 3465392882,
  3516582830, 570000569, 810768720, 859003690, 3379033947, 2945575714, 2011946156, 649179707,
  2265173636, 565999033, 2482851045, 4145114740, 4232761703, 833584, 2667738563, 3371406434,
  1129502985, 1788296068, 3008397962, 1619130746, 2711946762, 2994724858, 1868855866, 2137887117,
  1218882652, 2434013392, 2196283629, 473754317, 2329742830, 1492664209, 2323761748, 3200116810,
  1172988675, 1037254301, 3237987033, 4141979126, 4174254048, 2236296658, 3878052039, 2719462204,
  3246014621, 437967904, 2737225304, 1708759646, 1276362833, 3456006086, 1136111439, 1336711206,
  1108242281, 262160380, 4265290669, 1994436457]

/-- Untempered seed-42 stream words 2800..2899. -/
def xsC28 : List Nat := [
  1352016569, 3058189091, 2261245203, 3879949146, 997043058, 1024091588, 1426147057, 1549605785,
  3477000907, 578432623, 3941509026, 3702585373, 783939541, 2509224766, 1887684513, 636428403,
  3496633989, 1004538816, 3065307396, 1716544137, 3629251839, 3350975910, 2592021504, 2727759441,
  2352494936, 1078561417, 3422528519, 2445065316, 3799592532, 2361067799, 1459171374, 2606670060,
  22458030, 797863594, 2085676157, 867235099, 2513283413, 3497234004, 2155777102, 1254694373,
  3192095561, 477183337, 2135868232, 3229339349, 861153717, 1678470754, 2884593813, 144123912,
  1247608155, 483743182, 538972761, 3346389933, 209435688, 3467821118, 4098935907, 3148905367,
  1884960740, 353364253, 1306510426, 1209608556, 125626615, 1764532381, 3506057507, 1521817305,
  3223876004, 1043370842, 504635008, 2138959734, 1772185717, 2914556626, 2200515457, 2607814442,
  1179339491, 3036333381, 1450990228, 2535167164, 3263843319, 4248447818, 2276265069, 174600193,
  4277075456, 2857776330, 3763726401, 3259957839, 757434818, 1824979890, 2223972069, 42704654,
  2414433580, 437906458, 2340639790, 1855918662, 2081093240, 612957572, 2926040851, 4080771970,
  27242825, 840457421, 3456400447, 2699040273]

/-- Untempered seed-42 stream words 2900..2999. -/
def xsC29 : List Nat := [
  2025386143, 555930566, 223648683, 3129355236, 2885430903, 1280057041, 1419128656, 1309661987,
  1746233875, 2047814410, 910191306, 3572596063, 2854673232, 4240242567, 3793808219, 3113723249,
  461352498, 1941980527, 3854256660, 2218044833, 1431651664, 825146873, 3792015567, 3052331295,
  680335586, 2533117682, 1336501258, 2653744305, 3010803000, 3309052633, 2299919228, 124742460,
  1297826636, 2024239143, 1115424714, 3012887479, 423951506, 256000218, 1825163631, 1734829757,
  3078568337, 34018847, 2564714083, 3498260854, 168287760, 3088863673, 975406956, 3976343343,
  34810233, 3750654939, 358160074, 2174312902, 3006868609, 2473130595, 579349253, 3236407063,
  17810426, 589344508, 610382525, 2207794756, 1796908101, 599079237, 2891208938, 224740041,
  2397224774, 3280405308, 1605007590, 3639943331, 2224515403, 3301162352, 2892762204, 903471943,
  3621812799, 2939100455, 425022117, 1272191926, 2611178723, 338741793, 3597370178, 1022946335,
  1156136689, 2080457140, 2443539265, 1326405062, 458881303, 3044140674, 1458559701, 208218656,
  1227931176, 1179038205, 2487369022, 2258818178, 3215566641, 3981566884, 235923600, 1278458830,
  1276424526, 3883430067, 3253285241, 2247496077]

/-- Untempered seed-42 stream words 3000..3099. -/
def xsC30 : List Nat := [
  3975482664, 700511445, 3164189150, 1583579931, 4288558951, 2383784388, 2287139619, 198889583,
  2209247369, 4010253596, 1891293796, 2397253457, 1485657631, 3525570041, 2095618201, 2550638369,
  2942369437, 449706816, 340876786, 2196777010, 2046231028, 1984737012, 3529109519, 1491945350,
  3462913270, 1765207715, 1194136505, 3386186345, 2726051559, 2599859441, 866416982, 2635317967,
  2606859310, 2416477697, 1141830990, 809595299, 1659001538, 1519894167, 636306116, 3770838875,
  4047164869, 3629416895, 384034315, 718958671, 4016534578, 1358154930, 2283214758, 1971798605,
  2829055838, 555415134, 2605552951, 2497146911, 3882698731, 4208542306, 290379316, 1218113079,
  2135137572, 2690061264, 3171415652, 2732800313, 401731504, 1300399642, 2534852952, 2612613802,
  3903566487, 2675166431, 3955390146, 2776964421, 2671683834, 674057684, 160697105, 2302475459,
  3955901935, 2245496951, 3349208477, 694339509, 1716494765, 1639510117, 4252943103, 2555325885,
  3266410721, 1125833641, 1121283599, 417384981, 1405141027, 576284754, 3327138100, 1590619501,
  1564570001, 2733099063, 4020689770, 853133151, 2169442854, 1988668220, 2956144431, 1381518071,
  299059692, 3895487704, 806404351, 264352347]

/-- Untempered seed-42 stream words 3100..3199. -/
def xsC31 : List Nat := [
  96802960, 4263879643, 1192878415, 805398644, 996173529, 3171747589, 1804441027, 2313884002,
  3144409006, 2170725040, 882145394, 3386892133, 3207315045, 262304515, 3329947759, 2898819645,
  3616671419, 3740870770, 3777970006, 20617654, 226040889, 1495047085, 446562328, 3450624610,
  2650602814, 1136857956, 1110986747, 3032782965, 1254659463, 3121741352, 64395333, 1548376936,
  3872181977, 3048785236, 2801626254, 1109198070, 1408766687, 133733554, 3334764129, 70429418,
  298035481, 3646091767, 2677505147, 1151281888, 1412844967, 1522678654, 4180006833, 3370679879,
  496168857, 419364705, 4252810650, 1836303922, 2563818195, 2812892265, 2567061415, 3274222322,
  535151593, 3927947627, 1149262123, 2427941663, 2842891854, 3938310879, 2508718743, 3412869242,
  2588713434, 708980753, 3758534916, 488091878, 1661189542, 1726412592, 3565546847, 2303387194,
  2587029627, 938040382, 1804089287, 1712317292, 1561497413, 933536840, 2568752537, 1627517545,
  3023725922, 1420124818, 1255319674, 285991675, 1199256229, 2171774548, 1131672657, 3297118890,
  459625226, 2552529158, 2955906144, 946721443, 1738802974, 1341109856, 4272764992, 3047115527,
  4172507600, 3503601078, 1621192794, 3580639574]

/-- Untempered seed-42 stream words 3200..3299. -/
def xsC32 : List Nat := [
  3632407913, 661895457, 602301244, 2216350219, 1855401744, 275613272, 2868548957, 1875030852,
  2330444872, 652052351, 1848130201, 1961841426, 3693922249, 1558538660, 1308316893, 3091546155,
  2398965299, 213364906, 916460413, 3588840615, 3948494752, 1151157732, 3926993201, 3598831403,
  2859851377, 2789442520, 3826386228, 2097635654, 91500192, 2884297266, 27532656, 4066002742,
  245017094, 1979512076, 3716049974, 1346950909, 3306519198, 2870614240, 1321965695, 2765153061,
  2971594974, 1623252486, 3337469802, 2997328875, 3760189210, 180027021, 2453881289, 657814570,
  1165555201, 2694635690, 3421070077, 2259934202, 4012065547, 1140352443, 330650971, 2366756204,
  186787296, 1496986180, 4171056838, 3740899243, 552339219, 1949505508, 1429524093, 722152829,
  3938389944, 1148547715, 2620196157, 1902561695, 3830533378, 698313323, 3716796579, 1446885860,
  2461191019, 912241025, 2207400631, 2644435324, 977141634, 863596315, 3103149099, 3664948227,
  1419358487, 2150264172, 227503669, 4074669012, 4050220371, 1576396689, 1546325419, 517129356,
  3566703919, 2833020569, 4092753203, 2669238546, 600574477, 1161301956, 1556551229, 295628449,
  1668641257, 1917835055, 1230270815, 2586284371]

/-- Untempered seed-42 stream words 3300..3399. -/
def xsC33 : List Nat := [
  589580707, 3310877503, 2434321484, 4132904814, 2142725173, 878634768, 1863494195, 3679191429,
  2874335960, 4205911662, 3458379856, 2498767862, 547606092, 2721142550, 1011310284, 4281360245,
  4287005998, 2446400378, 3963470641, 2434045816, 882013157, 639176274, 1554359196, 3276226095,
  1592374556, 2793572939, 1587686864, 1608973597, 3378531393, 1713126695, 2808418981, 2359618977,
  3775202943, 2838161, 3174414564, 1249669510, 1457695141, 3255296231, 50860840, 533482105,
  3296251558, 2754691660, 2693284143, 2579011229, 3021968740, 120623694, 3762180740, 3626096267,
  1434502866, 4191279137, 1027080430, 3849207056, 214967096, 608873772, 2518886300, 648157578,
  3906933704, 2312390932, 4009823712, 4212014243, 4158837270, 3450289126, 1776645911, 2418336910,
  2317362987, 2086050423, 4207808040, 4218178001, 4283011880, 1521501577, 1675228057, 1023092848,
  2469808637, 3775691545, 3513897938, 2687083755, 1328941808, 2257146828, 3877875696, 2605786513,
  1853873770, 166996234, 3097501128, 4173863813, 2853823859, 3523859221, 4107188526, 1372768789,
  3757459229, 2350924754, 3140271303, 2325619423, 1937629164, 2545191961, 3148466431, 1196485512,
  1852635992, 217648630, 1583096707, 2673637004]

/-- Untempered seed-42 stream words 3400..3499. -/
def xsC34 : List Nat := [
  3265131305, 1858654957, 961615689, 2800684571, 2957347801, 543906858, 443627666, 3361563282,
  369161339, 2689149126, 1073757029, 3201212980, 3430926404, 1390455677, 3060451205, 2758018045,
  3202071269, 1224534808, 532389552, 3752558709, 1212131742, 1488461129, 1474800748, 1240516691,
  1391994104, 3133812236, 2798489851, 2234839248, 972458947, 2423156891, 859631384, 3489724074,
  3629654448, 2676868748, 2559737749, 1152618365, 739924704, 2405525910, 4279268340, 1829848148,
  18181188, 1453401183, 1382400432, 1004339347, 1869240953, 2074058109, 497732432, 2906989324,
  3182506111, 1457933293, 2657063193, 3679013211, 2031531916, 2406391075, 1890070832, 1172273655,
  3157120359, 2793725841, 1921682788, 2641677939, 499462694, 2638293521, 2888100048, 1128008677,
  2083141259, 1902967259, 501593232, 1908167899, 1388669239, 1242741759, 4142665711, 1547247976,
  80761962, 459012154, 2642880803, 54863893, 2277867701, 684307475, 1113806574, 2534299897,
  3497468394, 895137654, 2837266906, 2442453316, 4104442581, 1240002184, 715893784, 16269249,
  724262473, 1514062141, 347462342, 1197935453, 1386823658, 1152461858, 1021231626, 511465644,
  2867509270, 3065511401, 1571845050, 1795120719]

/-- Untempered seed-42 stream words 3500..3599. -/
def xsC35 : List Nat := [
  1220715556, 1498182750, 1101154723, 88768642, 1716680062, 1372850388, 576560635, 34305526,
  3058241717, 2529186200, 3013299283, 4137541573, 284758428, 1508550588, 1771916719, 3935497747,
  3130525787, 2110336613, 3867445459, 4195050102, 3309080957, 3805124861, 3638973814, 2250357113,
  1658765004, 3606482005, 2271511713, 4023578183, 981025928, 3142835172, 1213743648, 3535102435,
  156856981, 1949474646, 1748766709, 4265709424, 501732722, 641365282, 1362315665, 1830558037,
  47826302, 245038022, 606255482, 2502698886, 273610073, 1144503177, 1391154984, 1624571796,
  761735467, 997265817, 1431959720, 122892160, 1561603064, 438882414, 475089027, 4023250407,
  3276223979, 2254115136, 208067749, 2913433654, 126512892, 307883148, 3771167239, 3562374578,
  437050167, 2523894982, 2005784258, 2172330414, 557308495, 4254696089, 909193685, 1813950727,
  2986285948, 2861750753, 3639436904, 2501173325, 695014863, 4118062515, 1544904260, 1280819909,
  903543378, 488328733, 661535400, 73068853, 17196393, 4180353429, 615787800, 4036201909,
  2892282488, 103828324, 626443264, 1365451601, 506938575, 2901936134, 948439213, 1303453416,
  2486139845, 3061574164, 420554155, 133123923]

/-- Untempered seed-42 stream words 3600..3699. -/
def xsC36 : List Nat := [
  840740566, 4198765171, 1734173243, 4098499927, 3096048406, 1996072591, 4241919858, 4208693822,
  323803723, 1256145021, 4277964437, 2390866535, 1747073844, 4277118897, 310616148, 422192218,
  4203262464, 4230695055, 2894593848, 1433896779, 1023411359, 1112924316, 2627949457, 404127180,
  3239167811, 1074854764, 1768228830, 1683642437, 700581391, 3832601095, 2047530739, 681182018,
  1474859684, 1647072672, 1445217765, 3813601195, 273706725, 2809972726, 734380411, 46598101,
  528897757, 3158468988, 2770081764, 3256891935, 1943714914, 2946487912, 3017614262, 1863075813,
  3039550151, 3984168303, 4094883256, 2597227348, 1857668267, 4280265808, 313893224, 1950763476,
  1096975172, 1362859455, 1361641124, 3911781585, 734963992, 2321866487, 3990489103, 3448733917,
  2051250582, 761868334, 3782528172, 916903517, 1054392838, 1450068579, 3625324906, 2066063830,
  722658898, 2298786068, 2116430812, 1460609877, 730524380, 3606641155, 1712098975, 1186429214,
  2672104651, 774621698, 2376488372, 4157940415, 2152045724, 2030168520, 3500697382, 4036516786,
  1274051745, 3653620657, 2297836952, 867525366, 628776753, 2150040007, 3962215013, 3190356767,
  2448540443, 204788222, 2441146989, 2935960675]

/-- Untempered seed-42 stream words 3700..3799. -/
def xsC37 : List Nat := [
  2995728599, 976287875, 3597274644, 2140507162, 3494668568, 4194390326, 41323820, 1621094692,
  611713887, 2318748992, 1744512813, 1124915906, 3247684172, 1568194989, 3231476913, 730650458,
  561681571, 2510617998, 3074662137, 1514183452, 1890130510, 4259189418, 2157195614, 2819109982,
  279813339, 2805216194, 1929374325, 3430557591, 3737274115, 2909549469, 29296691, 1005034153,
  291854732, 2014814658, 3219925659, 1892974424, 1209653446, 162431163, 972116484, 3795362334,
  915813253, 420139524, 2853151432, 623654552, 3360674668, 3955984607, 3705491271, 2344808418,
  2200703311, 1626522196, 88819100, 2662483152, 3422450497, 1602713692, 3254240243, 2417464123,
  3784292686, 455537767, 3015435160, 3115174693, 2010042639, 3528885274, 3159939589, 2349773089,
  2476457222, 2280671091, 257133605, 2982826866, 603711097, 2176377469, 1750116474, 3348050506,
  3510662374, 1817512421, 376249485, 3087530141, 4054649714, 2161137572, 1724349177, 2347662035,
  3056581636, 3877229769, 2124342455, 2550054604, 1779256560, 3752488241, 3356579851, 1252802065,
  3731899483, 3502516869, 2598264257, 730662372, 2770136926, 3301413042, 3319681715, 4112913069,
  2792172678, 2600311529, 1595490481, 108981249]

/-- Untempered seed-42 stream words 3800..3899. -/
def xsC38 : List Nat := [
  2973797317, 1298911355, 2090641830, 862988158, 2670073082, 2038172281, 3722085223, 2406470623,
  497163575, 3755962463, 639235168, 1286917356, 4114178326, 2091117352, 900584507, 2679552503,
  566726740, 436230176, 2460235277, 1651437607, 3297923805, 1222160512, 1728512579, 1634130350,
  2093647451, 149034037, 2632619657, 1163344222, 4067610975, 3945306186, 2209053941, 3187282226,
  3164591599, 1388978913, 3232512951, 2756839792, 615380143, 1091146788, 195799725, 3058969842,
  3098836964, 2430277941, 2866166486, 2401512912, 2657479293, 8903551, 2805977089, 4046609272,
  292823408, 4004139275, 1721093487, 3282817043, 1441106549, 699861350, 1568111582, 1854886668,
  3733889153, 1421205736, 3652638947, 1969369067, 933321168, 2823371013, 1747857126, 1222579850,
  3608979701, 145956558, 3265035007, 1871290704, 1612162789, 892667871, 2444918794, 3362682813,
  3218187837, 1327571479, 743811608, 1538444189, 361568109, 1690365898, 2621858274, 724096603,
  3548558706, 788201995, 2184327902, 2283548690, 1797398093, 3803851077, 1705257648, 512831172,
  1901516649, 2059680334, 741627085, 1214988055, 3769513412, 1454937122, 1572342447, 2928220012,
  2487820924, 1087865070, 904581480, 1980504467]

/-- Untempered seed-42 stream words 3900..3999. -/
def xsC39 : List Nat := [
  162575942, 4216700182, 2738800011, 3637412488, 3605908661, 3116599642, 2144876788, 2130255549,
  3654912277, 985359294, 4173086969, 856090324, 3026674267, 811199840, 3205822267, 2199832952,
  4216968275, 1067257433, 2725422457, 2378716954, 537418383, 1367872021, 708019049, 1500206869,
  3080166590, 3641480267, 3587488724, 1415328274, 538938123, 2028727250, 3409656839, 2246383732,
  2270813697, 1701303556, 719840479, 1948771449, 2603476683, 970491979, 3852223911, 3192977627,
  361778192, 797588982, 1661377766, 3795525006, 2259188391, 2568048439, 3807098068, 534626496,
  2006443856, 4022675382, 519305743, 2903837220, 1295162766, 4165325816, 320922008, 927495395,
  1953571850, 522572865, 1591321194, 2736569729, 3223118190, 4268237583, 3862620859, 1780858773,
  1538662813, 4038967884, 938236303, 1822030135, 1519557411, 2584775562, 3493096706, 2727325701,
  1311495184, 2185318192, 3111514474, 3309568211, 1926730946, 240834130, 3454224405, 4287756965,
  460152022, 3061269763, 1956134325, 2592002117, 2113235348, 1581377740, 2982132066, 2882957893,
  896891390, 2168446225, 1756374294, 3963581586, 1939920232, 2813838646, 2948056906, 3009966680,
  1748397870, 15221139, 244535520, 3067834782]

/-- Untempered seed-42 stream words 4000..4099. -/
def xsC40 : List Nat := [
  1863426051, 1711065973, 1822939786, 2257773639, 2217362209, 2056746013, 1854064590, 2049703522,
  387288476, 83474464, 1713335065, 3707690913, 2579123416, 210745015, 2532024225, 2815339437,
  1108794454, 1577191777, 1210413088, 2452263666, 3267040841, 1945695149, 4203227627, 1579902413,
  1955676992, 3669588938, 2348932051, 1886060278, 492732014, 1906587119, 392074807, 1294917144,
  1767415322, 617754122, 2416476869, 2073950485, 799511870, 2753832829, 2274262477, 861670587,
  417177252, 980425571, 694929682, 1171801243, 2941576795, 3109543995, 3751683281, 3991814305,
  1438492550, 2909371105, 603759046, 3107550053, 2581437607, 3312771333, 1834435083, 2657010055,
  2767092492, 1458238432, 1185637971, 2861758623, 1434097194, 3206808141, 3537546074, 606552717,
  4082218708, 580471413, 850533476, 369746439, 874276692, 2751684478, 2575744086, 1505084061,
  4076621398, 823699538, 94261002, 1845459638, 1880469317, 516019703, 2018303031, 3539718169,
  3825063537, 607272300, 4181558506, 2423011730, 3273508159, 2409933963, 2381617862, 2428301898,
  167245111, 1725756590, 3909717048, 1735830705, 3031626734, 1625476567, 26554852, 1652526288,
  949550018, 108110916, 281301864, 624678584]

/-- Untempered seed-42 stream words 4100..4199. -/
def xsC41 : List Nat := [
  2186102977, 224657775, 3376240446, 2109114264, 1047377009, 2294857999, 1675798265, 819489991,
  1242527055, 2540168402, 292069165, 3888054710, 1454242052, 1878968275, 2754223029, 1476544668,
  1486662751, 844838344, 1196757825, 4124797391, 2498484745, 861942642, 50202772, 2955440238,
  1819392705, 2352170342, 1957255634, 983141625, 3552557436, 723041193, 3653974131, 1421997104,
  4070810006, 3206360578, 2629779840, 2443510235, 374222944, 1434081009, 2672238850, 1881396905,
  3619015309, 358482829, 4263213123, 13577266, 3623056120, 3456208834, 1473264505, 1365706217,
  3824936160, 4035539430, 3079311593, 3937091322, 3299178937, 2985859780, 3826135612, 4256924318,
  1123198073, 1714260770, 3133530060, 3383375032, 1987768213, 2608263368, 3684784140, 2587952244,
  1050015144, 4153219354, 3032935192, 3300886115, 2493075693, 1249064818, 3528548932, 152264429,
  497121060, 3360114816, 477386496, 1495134892, 3805368193, 2312367761, 66800648, 3046750116,
  3144178520, 3424337685, 563857656, 934548340, 369697287, 4155681718, 3375791960, 336739370,
  4116703596, 2650538458, 1788358466, 2451930213, 1467593695, 4126962106, 3281916267, 1114445469,
  1448171429, 3158498870, 1896706300, 2207641128]

/-- Untempered seed-42 stream words 4200..4299. -/
def xsC42 : List Nat := [
  569617718, 3615448648, 2053591406, 1748691435, 2581578115, 3730068801, 1689531104, 2196168381,
  334128406, 650259257, 994027072, 734475432, 492424574, 2736053090, 443503410, 2741398342,
  2537806098, 2919010719, 3404200934, 3770669141, 4236914748, 2050483520, 697787694, 1899509829,
  2764241013, 3828699426, 368497642, 861231496, 2273880301, 1389141299, 4227804504, 1417977563,
  3337643260, 3371446363, 2757989262, 1661243398, 2726746919, 794737459, 3496725900, 2768115160,
  3952255535, 3232260157, 1417533655, 3315494598, 2133391663, 3749472567, 3726748692, 2067481911,
  334532123, 3459951108, 4111399216, 4185452696, 1904846358, 1745617013, 1680342871, 917124924,
  1085415231, 2772698138, 3850443026, 3094878647, 929844721, 1558368935, 3824601632, 3110866575,
  3120894915, 3573577279, 3410272619, 1630584981, 767553623, 1887787209, 2874595254, 751418343,
  1457756755, 2778160653, 2693334283, 3152672012, 2464591049, 1789292914, 2199541647, 3110919429,
  1960942341, 1170423129, 868415280, 4043911040, 3402640452, 2840515211, 1432193070, 677075681,
  2844826202, 3797994764, 3866925436, 3963475927, 2426855323, 515445969, 1805333228, 563418237,
  2692810740, 3868567992, 3946505192, 3879287608]

/-- Untempered seed-42 stream words 4300..4399. -/
def xsC43 : List Nat := [
  2204919180, 4019239066, 1319421497, 3871315455, 1238642934, 2124412653, 807006617, 2749306943,
  1488112008, 3513366393, 3894416459, 1072516016, 978253196, 3381624842, 3378922289, 2185390704,
  4291282066, 102003157, 2708103649, 1698865852, 653829416, 2422077453, 2886247998, 4174893942,
  3261163738, 1005671522, 1525747893, 2859170893, 1885645300, 2282099112, 1308196618, 3042837761,
  2379376559, 2300020144, 291373478, 1791404137, 1624454363, 2821593514, 2994301467, 3742892938,
  1697429780, 1719886870, 891421970, 1623728504, 213138589, 119475182, 2715775968, 1169532091,
  553265811, 3800649073, 253612922, 2585274783, 1133374583, 2910743828, 3194155378, 3675067834,
  387148616, 1597349345, 749456284, 3601812981, 583196288, 2152196226, 2696499412, 3557661053,
  1509900275, 2319511654, 582340069, 4086440763, 4189288253, 159215423, 1160666051, 258853504,
  3195596520, 1433770423, 1581131649, 520908191, 2672479688, 242860495, 1000884152, 3026363678,
  1701007400, 4258513904, 946198483, 2686286881, 1325844783, 2111898129, 379968759, 1068970262,
  1099326382, 83898049, 2191797709, 4133533259, 1851382011, 3236871973, 3883409222, 4231621278,
  2773549919, 1081040093, 2350387836, 1702359709]

/-- Untempered seed-42 stream words 4400..4499. -/
def xsC44 : List Nat := [
  2284806994, 4129249955, 3319955226, 3116798339, 1666692138, 3854339724, 3194415298, 3463380256,
  2059843922, 3701199906, 3421158563, 2688135413, 114822699, 491905383, 1104461528, 3889274563,
  4288661891, 2441066180, 1908327916, 72295836, 562695185, 890896876, 3629830210, 3623461528,
  1140819668, 1329800239, 2586705303, 778086219, 852093867, 3447889922, 3062214875, 1309048775,
  1756585393, 934856912, 2763831499, 695653789, 1486085805, 3101817986, 3172259980, 1304036692,
  2920609650, 2318792939, 1264165770, 738345123, 3381709279, 1617742360, 3490493570, 1541915598,
  3880673157, 3203047093, 328443114, 83042309, 2443255047, 3442203983, 1839747345, 1087369925,
  2728475804, 1117880412, 112040547, 229518964, 3899718217, 952038919, 2016315007, 4275889365,
  4265314166, 2231423207, 3815506736, 1034479566, 434322781, 3739910152, 3171369850, 932374935,
  1898049901, 878967420, 3286638049, 3758816254, 3672190647, 3686089951, 3460258078, 3351660169,
  39251969, 3522438137, 3574829078, 1533195223, 677914695, 2442530401, 2618790642, 2246748500,
  414932416, 1538279296, 3467173415, 319189102, 1452426511, 3281641838, 2618248084, 3948909462,
  2384296221, 3179020986, 2551738102, 3308101946]

/-- Untempered seed-42 stream words 4500..4599. -/
def xsC45 : List Nat := [
  2549557736, 2930390522, 2004168446, 3139958384, 2765308072, 2181254880, 4251108620, 2558010620,
  3986069796, 1091625576, 4265720034, 1802762031, 2485964716, 3662615191, 2506519989, 2579988664,
  2302445341, 1369976052, 4219034721, 3665972901, 2127746214, 1903057496, 2208016491, 2757319895,
  3678369587, 598553074, 2338224764, 1897018121, 3010559031, 826858051, 1087089278, 4231021731,
  599934770, 2505007418, 4200360789, 3683240058, 2303017417, 1856167689, 2120363788, 3739922298,
  256489465, 1096261970, 3299230205, 919296266, 3084437504, 763039882, 3506420201, 1026780023,
  1708327671, 3336764372, 2465843839, 1264983424, 126132619, 3865329257, 3902402679, 2864772651,
  4206230314, 3246538170, 373639138, 424420373, 1291022666, 3130561450, 2900780251, 706417363,
  3219851089, 2214208616, 3993341261, 3211801752, 3003347794, 1146609528, 791068952, 931122997,
  821925941, 2007907896, 1396646313, 1180918868, 3735790733, 1183687606, 414491441, 2041937522,
  1004812267, 2433622087, 1401682853, 1998396415, 3104390329, 3334344222, 984949472, 2517728913,
  3088648612, 1648872652, 2068436281, 3988701885, 2269689251, 1253047140, 1004358630, 2661719349,
  140363943, 429171574, 4106713654, 3339920521]

/-- Untempered seed-42 stream words 4600..4699. -/
def xsC46 : List Nat := [
  1381560990, 3787928404, 4190904338, 3539755939, 2353714065, 3639404989, 542473699, 463070434,
  3539154838, 549063522, 1828648412, 364672464, 3832962118, 1660800636, 162040671, 945162522,
  383503450, 3581922920, 2949943143, 440594284, 1502752563, 3761354550, 3881095761, 1272013697,
  3952708024, 3125542713, 4281741409, 1395847709, 308039794, 4070776061, 2228448946, 1759343332,
  3888140956, 341962129, 2031690287, 907779902, 64274342, 1503118252, 1792431612, 1741905920,
  2874692872, 1707476680, 4005877690, 130740856, 1904967629, 3589431750, 4065470373, 465743281,
  407288841, 122850676, 2949438947, 1297136099, 4003040775, 143263315, 150456391, 107324582,
  3756766983, 663306598, 2864722834, 2137036590, 3164761009, 2121479922, 3922748191, 1425871359,
  1020346860, 2845916165, 4133394374, 548811904, 1335277609, 3181248829, 3288191020, 2739804700,
  4023437239, 2180179041, 3732130467, 849879305, 1163419368, 4231050544, 2463428633, 3285590145,
  2791220415, 3623178983, 3431874133, 3357308809, 3292213669, 1874907086, 3333767149, 3520602403,
  4042974178, 1635223629, 1825613065, 3828724956, 2533457752, 2947505435, 3363485279, 547166838,
  2254885921, 3217581311, 23942348, 3491993104]

/-- Untempered seed-42 stream words 4700..4799. -/
def xsC47 : List Nat := [
  2718670936, 1724433189, 1350542125, 840398160, 2309773929, 4070677355, 2414893632, 4207977025,
  254723427, 2481577333, 322751218, 4120601091, 2734191670, 2828227822, 1868124115, 48374839,
  2999554484, 3462547157, 574207494, 1256077550, 3231789900, 2490196512, 4190271690, 372469154,
  1657189074, 3162948969, 3153519350, 298402575, 868672930, 2676804957, 977498316, 417090256,
  2310061193, 752761413, 2879890471, 2260755878, 4024906078, 1968965095, 124965729, 560605532,
  3278014579, 801393866, 975340672, 1514265286, 135804237, 4194719787, 3264640658, 2447554841,
  2004351211, 4191093890, 538782324, 4074810253, 4012498169, 1051940506, 460507409, 2317397244,
  1858489666, 244583102, 770339985, 1759862530, 653982365, 4127194068, 982553585, 999756880,
  3171249680, 3630638066, 2660055395, 615517829, 643262131, 910617758, 2272291617, 2250586736,
  1430235257, 305283394, 1214706698, 2659782388, 2652812982, 3774796641, 901504207, 4294263656,
  3581082616, 4126875537, 3457543287, 411057215, 3426305502, 2073422820, 1416406575, 330927006,
  2170429223, 4135915863, 3511443773, 1823416312, 3871588305, 3341630575, 1659972401, 3184773312,
  1618246456, 1629285016, 468792931, 2560462634]

/-- Untempered seed-42 stream words 4800..4899. -/
def xsC48 : List Nat := [
  2857335215, 314738605, 1555021702, 2199882017, 3112733923, 1215907661, 1651472328, 2850559543,
  2866247068, 923845641, 1024722410, 2208745487, 2285899507, 1341732161, 101412988, 1252876436,
  1488581649, 2207149395, 360773932, 896052910, 1418630271, 1130099608, 2674682401, 1487150652,
  841682002, 2314523265, 1778835619, 3351224960, 400927019, 2341878114, 1250409506, 3317686554,
  1384467710, 1036693187, 242908854, 3697266985, 825255635, 566844485, 68108403, 2950148303,
  2903193196, 1826322092, 3506525679, 1755239492, 2825141448, 3139386864, 3151381393, 3539723222,
  2452299687, 2913975204, 1383845701, 1901423889, 1243939199, 3267995341, 2692222383, 824467980,
  265401359, 3605178229, 425671399, 1871417296, 3670409431, 1361888489, 1684313554, 4011155054,
  2697675629, 2581596488, 1159485283, 1304729920, 3547366028, 2178154928, 3814711356, 3782969375,
  4075762884, 2295683901, 1736365565, 1619160834, 2858171793, 81236631, 1443209853, 1472737607,
  438830174, 2050442446, 3276871842, 492118304, 2431686890, 2604357250, 3135119542, 2024297103,
  2382085426, 360350581, 3178086762, 3003517208, 149627070, 3824548893, 4024064428, 4260349407,
  912072420, 179430006, 4273660058, 1068179724]

/-- Untempered seed-42 stream words 4900..4999. -/
def xsC49 : List Nat := [
  4104248536, 1190547899, 4145479508, 2787124149, 1205443395, 2335542145, 4216502081, 3275141789,
  442141565, 2787179074, 1161390630, 3505618056, 519088456, 3045815123, 1053719063, 564215024,
  3072570106, 1495088255, 1844940349, 2269248674, 3706030535, 3186083755, 1392609258, 3352356583,
  3355457714, 4281829135, 2054482992, 3336681507, 3230632076, 3514559294, 3136309648, 3858054829,
  1126035464, 1659429050, 2770732953, 302628773, 3073252720, 4001848245, 3032110907, 3709572735,
  1922161883, 3873755132, 1883469161, 2713043744, 1598294540, 1950213401, 917885269, 2710669089,
  3382036497, 1303527503, 2584634203, 452257320, 3095776701, 3708444019, 2456744272, 3962005162,
  3674673029, 1928097823, 3031936571, 550606395, 952710800, 1804837365, 3914097763, 2641456596,
  1176352748, 501469672, 286144992, 1546659554, 743164221, 718093680, 2710812740, 2171441371,
  1380601420, 2232983343, 98966793, 2411314703, 4017107464, 2133611213, 2674270544, 2761976157,
  2283874485, 220671199, 947895001, 1067917826, 246939391, 2109136123, 2615878499, 3540899259,
  4041180135, 4072850908, 2606150930, 1490314577, 97592498, 621978717, 587656133, 963318215,
  3321139354, 828885054, 279690336, 1520094877]

/-- Untempered seed-42 stream words 5000..5099. -/
def xsC50 : List Nat := [
  3422949754, 1437784022, 2226674811, 3970899618, 3726062233, 4035020793, 1995656615, 737750960,
  1375940166, 1548726995, 123446452, 3975836681, 3760016475, 3426091030, 4051787876, 1870283653,
  1341849114, 2733665950, 313764535, 761499297, 1041375966, 1694310927, 1449165137, 1684261521,
  2199648022, 2030045678, 1568044852, 3689194426, 538755307, 60607463, 3827890097, 3303788618,
  1714728284, 2660407622, 1627160210, 1890828886, 2695922789, 503208582, 692500401, 1854364397,
  122088995, 2127827594, 1217065562, 3514057414, 2567138725, 967676173, 1586790370, 896620309,
  4260548944, 192029749, 2526870854, 2991016280, 2939519616, 2823587857, 968109500, 3132405548,
  2420792586, 3251720344, 135019275, 3888386935, 565858434, 1357910768, 3129136003, 641342826,
  4258992367, 1638109622, 551428161, 281797212, 485299104, 4177989550, 91043235, 46900181,
  2103624309, 4062155236, 1233830667, 66265595, 1379067356, 3181860626, 3359253676, 1534435121,
  2744739555, 975597633, 938702134, 2732685812, 330656937, 3158362375, 3387772261, 2782643052,
  2326010949, 366122058, 2982227337, 892497180, 3063236940, 463468254, 2399493460, 1927858917,
  2615540878, 1537498643, 2441016800, 110564160]

/-- Untempered seed-42 stream words 5100..5199. -/
def xsC51 : List Nat := [
  2080852365, 6388082, 2590637209, 1920988494, 3039114164, 1015835254, 2742147187, 2534711458,
  3958698785, 2371539419, 1604351370, 3702339082, 3068360002, 75693946, 824928952, 1069166442,
  884372418, 4083836064, 3333013715, 3605867759, 3175873856, 2748739287, 2675512642, 2108066320,
  1575286923, 2231400421, 574151220, 2798156940, 133691083, 2309463506, 3927716299, 823318481,
  3955096245, 3295832880, 797440469, 273476779, 1376764886, 2525159459, 2618342612, 3278264857,
  3714016553, 2591712504, 3588795261, 3360348329, 1638535507, 4113754839, 1281745430, 678593153,
  3962658642, 1454291668, 642863036, 1219507830, 1050368753, 1511078159, 1643195053, 2439949077,
  3688651683, 1591135461, 2284968592, 2662850611, 2360426465, 2585202719, 1031596056, 1770157651,
  3459025692, 266454810, 2256419578, 1769847003, 2958641081, 3241417026, 1713686084, 4104469416,
  1464637683, 3871442101, 3290597857, 1398745099, 3884511140, 2001349567, 3600559586, 3319738408,
  3184214958, 3645657761, 2039071871, 4252940064, 1872771530, 2076978313, 3973361549, 3191080423,
  711898049, 122032666, 3267983256, 530320965, 2143829588, 110975340, 3733418407, 2906502648,
  286925420, 285513807, 2723947249, 3826724053]

/-- Untempered seed-42 stream words 5200..5299. -/
def xsC52 : List Nat := [
  3864940276, 2427780174, 3009610038, 1804245282, 4003721777, 1873505373, 103175293, 229443126,
  1853369296, 1696934825, 2913414549, 1388018221, 211106461, 1061648672, 2094662714, 712206825,
  2543138926, 2260209889, 3465517844, 3640094782, 702084582, 426071774, 3286905692, 2899896789,
  25448852, 1817029737, 2867613587, 321636461, 2697728983, 1301959253, 3781422291, 4151224658,
  2698805832, 1082931017, 556209496, 1614282853, 758207981, 2592559556, 4040257668, 3950029430,
  3867797282, 1063491336, 576402483, 4198193500, 2464724229, 4161893184, 3515060158, 199157250,
  2698014028, 2968725950, 2498888512, 2318786351, 3646502735, 522174573, 2945063624, 335341989,
  3500445168, 1101846137, 3756400597, 1742664335, 2992208016, 1435980908, 1130000982, 3038555873,
  1864194530, 505732204, 761406417, 2794184986, 1412244073, 2829799767, 94217409, 203981694,
  973395895, 3497697740, 3402742587, 1404479116, 3594491843, 200255930, 2977274635, 432597468,
  4220004514, 752104565, 3305438395, 387176461, 3202927585, 2783754843, 347220823, 1070788724,
  3710401581, 3249379424, 1986070314, 1125710884, 3865321975, 1092667479, 1097658194, 4060987556,
  553045313, 4082917421, 3264676750, 1607396609]

/-- Untempered seed-42 stream words 5300..5399. -/
def xsC53 : List Nat := [
  3423062908, 2582121432, 4212162916, 2551514972, 1330990782, 930450265, 2792559658, 1485590254,
  1304827814, 2376161823, 1392892346, 1808276824, 1442037246, 1720561470, 2546014466, 3240403945,
  3675097624, 1291110009, 1702682663, 749638531, 3715331198, 3484677938, 1526268397, 3403689122,
  2982711134, 541693097, 530360808, 3789149286, 3761832984, 3717321145, 2518619313, 1807409626,
  2893034515, 3941580042, 886153596, 3129526586, 3641932716, 2969854652, 1154782414, 2944908696,
  4206587087, 1614262715, 450179869, 350677604, 3109868976, 3125345462, 2650053182, 2351473705,
  614317244, 3263325241, 2890570568, 1141344858, 332308884, 2132370002, 2863028708, 2586253392,
  1187000367, 1724338951, 1920132354, 2622382618, 668260636, 3040223418, 16381957, 3937810224,
  3244344902, 2164391572, 3997611898, 1079758672, 1047656498, 3030618164, 431174906, 2199477753,
  3386206358, 476804908, 2282383256, 44892657, 167186841, 3001064427, 1302355976, 1241021520,
  1566260304, 3993804858, 2770076820, 1370068530, 1680421135, 1282483127, 2205968923, 2452850921,
  4129587686, 3945972854, 2731721166, 1141868698, 348303701, 483311541, 711927267, 1137582938,
  3358407139, 1108851777, 4225875154, 407094184]

/-- Untempered seed-42 stream words 5400..5499. -/
def xsC54 : List Nat := [
  263609818, 133683033, 1822788031, 2368836184, 2495550632, 681470726, 278372072, 2614616385,
  2760288083, 3401000887, 4104286959, 4127688326, 2575701245, 494546892, 3361966619, 2147998966,
  4258807026, 716788447, 24504869, 267518920, 907226144, 1249335881, 2708697709, 3711250020,
  3245173574, 2349595954, 2089834650, 596818010, 1837166391, 2186590930, 3866501862, 3150465279,
  2905325190, 413947528, 2507592430, 3008404598, 2614165974, 2929890731, 2012072551, 3116462154,
  2810773334, 907704492, 818364094, 618316430, 2803231021, 1479614171, 3030744864, 818770895,
  2224525121, 803337170, 2399615125, 3548263902, 1770434776, 3484389762, 838088928, 3381573032,
  3396842987, 3864974216, 1078587673, 1632371198, 3378522548, 3123185086, 4007356637, 2075447003,
  3974818450, 1096379052, 2671755348, 4072405318, 1659636208, 3870860580, 2470881463, 1123387913,
  2932256402, 565631171, 2860310613, 483024172, 144656903, 1573303624, 3534220841, 1203330455,
  2909152008, 2049783652, 607727181, 1691303236, 2956068050, 3990115644, 1347706296, 2067032569,
  426201288, 3101485368, 2482954817, 1185224868, 1590615220, 1556992975, 1329501642, 760920075,
  1976126486, 4012539616, 1013560575, 3055712672]

/-- Untempered seed-42 stream words 5500..5599. -/
def xsC55 : List Nat := [
  186243160, 2027674330, 3780775664, 3677066732, 921963485, 2430408538, 1466071372, 4092617943,
  1632214836, 2557209824, 4065280405, 3088389496, 1985563454, 168086498, 1716647160, 2573053042,
  1767888561, 25963516, 2766646804, 3175788165, 1148729708, 2117181215, 2916634658, 447095597,
  154138671, 4179393572, 2513849348, 920892930, 91913927, 531720731, 1619455693, 2607856607,
  610662008, 3304038713, 1895166122, 46023426, 241980265, 2506773614, 2065204000, 1315071107,
  2467004894, 942829251, 3263454648, 746061348, 2333054323, 217850834, 2521714735, 3111348263,
  689996906, 667121653, 1889026156, 3515829016, 1223975222, 1122274592, 170654703, 2176318492,
  3974472164, 495232930, 3149303511, 3085384363, 77897743, 4152638014, 1292743386, 961750302,
  2188772674, 2784861861, 3210566664, 2501470665, 3273782248, 2559011688, 2636552491, 1151238503,
  1167682638, 167451468, 3243431741, 2715282109, 890239583, 3850232800, 840186127, 3880097417,
  2674387586, 703938086, 1397187474, 1520741223, 3389403938, 3755763692, 3539391728, 1155138282,
  3150432334, 142533877, 3299746881, 1313706503, 2489802796, 4270811992, 2581968866, 1465179924,
  791113596, 3259533985, 499986977, 3194843538]

/-- Untempered seed-42 stream words 5600..5699. -/
def xsC56 : List Nat := [
  4210421397, 2277078832, 3388310912, 3572446492, 1836825947, 3365342651, 1445719377, 3272111088,
  1239383704, 836838906, 2703739952, 2236497955, 890257753, 3470209170, 1733364382, 4107015103,
  1622353543, 710477043, 3249713318, 909703448, 1149066154, 574290899, 4153144523, 3996004702,
  684644266, 1622483504, 1846824185, 4189418569, 3871319162, 2396299187, 2563573120, 3183379339,
  2679177904, 322587826, 883059610, 1300279713, 2896963516, 2355282653, 414324635, 3195759600,
  201463939, 405991327, 264153977, 3805359517, 2177856263, 3008174674, 2764789343, 933156779,
  922181310, 2412268023, 4039606201, 141278188, 348989470, 3616314269, 1105678463, 513456537,
  2367551089, 2517114287, 2207361492, 612060267, 1448311755, 417151465, 488341983, 24823320,
  2445843694, 1403564874, 2440778025, 1912731995, 4089708789, 529334607, 2808797659, 2582413701,
  2223029278, 3219849603, 1777260387, 3540864513, 3805218565, 3554487883, 3458494024, 564371037,
  2940680654, 3975845306, 1667501260, 2594872746, 3458652912, 3288344583, 844173131, 1854214428,
  3405368677, 1740425250, 1943093237, 3801899842, 2111499643, 1149364826, 1792448627, 3310737429,
  3753340374, 1854634477, 3657738795, 2279595132]

/-- Untempered seed-42 stream words 5700..5799. -/
def xsC57 : List Nat := [
  1063613258, 3462525443, 3900187243, 2153466281, 2581413303, 3378402482, 1456071021, 2108958083,
  4245021496, 3653711904, 908254450, 1818802735, 2805800729, 3518790563, 565010295, 36566126,
  4111667799, 2491174123, 2799291657, 1396450035, 2820099097, 1199697722, 1846620587, 3535951887,
  4011508313, 2824206956, 3474817799, 294338946, 647884769, 1776964118, 2426521021, 3657876114,
  1333317480, 951206793, 3718709202, 976758165, 3660223325, 3940218057, 2814902989, 1812099807,
  867301810, 2618139726, 1797491418, 939141137, 3379539016, 3948618933, 3281644429, 4085446134,
  3854111794, 4240719160, 163716459, 3554456469, 4258247373, 2043733054, 4150422837, 2846634818,
  2106089347, 2924323576, 173964629, 224532371, 1453744631, 1056812736, 4194688721, 4190851362,
  3629606418, 2296669761, 3008346120, 2060859816, 2611194743, 2763435187, 2705723323, 3172416218,
  1739292344, 2238117873, 2636870428, 2942671309, 2479053741, 3647497701, 1076932173, 3155360824,
  3028769677, 238229159, 1474608346, 867536587, 3381108594, 3842570971, 439267677, 598926721,
  2960447923, 1311944615, 3571796396, 55711297, 3311899140, 3427745578, 2940990493, 831459150,
  854530541, 1715432708, 3023676861, 1985813404]

/-- Untempered seed-42 stream words 5800..5899. -/
def xsC58 : List Nat := [
  3948330572, 3927753164, 3275256489, 1810520968, 282294895, 3621284847, 3657092377, 3904370279,
  2367396029, 4230317195, 2629179723, 104454685, 3699338977, 4086460220, 2451354903, 2216941412,
  187713603, 1927621709, 416499963, 3706351898, 1862637472, 297997893, 3159882145, 1544046598,
  2316498054, 1149022906, 3416800515, 1420601170, 1768190401, 1408114529, 3526997511, 1514645683,
  1661806768, 3656436548, 861765177, 3600634633, 776116586, 2672479789, 159335432, 1054530926,
  344164413, 1492756, 2562173856, 878664820, 652980124, 3762792712, 4183571757, 79655776,
  2366938424, 2079679453, 1051944375, 2711645854, 2674965445, 3350006351, 2181177568, 3067209054,
  2006594760, 2287898412, 346698598, 270604441, 511304784, 1288360920, 943252634, 3756577837,
  3553823065, 2425830749, 2204551006, 3699307230, 1681544767, 1736404134, 2805882524, 2443658657,
  3946090125, 4004665343, 3951855843, 3277026758, 1498355998, 3875697373, 3634200545, 1017081574,
  777144446, 4145868618, 4101861377, 2486258233, 4240684953, 2721878271, 2818419652, 568186682,
  399464415, 2460098792, 306132629, 1658240261, 3740642110, 1253913494, 1947580644, 2010045425,
  934302121, 1527428249, 4030190275, 915916576]

/-- Untempered seed-42 stream words 5900..5999. -/
def xsC59 : List Nat := [
  4196193630, 3898387001, 2682862319, 3742045012, 482313390, 1974378698, 4079141508, 691793121,
  654604360, 2956306872, 2235819408, 2042262585, 2765546551, 1231129822, 1326018318, 1623420225,
  2653166806, 1399277660, 3684336400, 3030989572, 3827788435, 194845108, 867835466, 4189358184,
  578780161, 2811030169, 3419758546, 1490015253, 1288931184, 4215384190, 3961351902, 3208525412,
  1451641186, 1061883312, 1213213487, 3623632327, 3934384063, 1036144755, 2515688196, 3401308693,
  785295424, 2317066171, 2373062000, 3685394536, 4087723890, 1387134240, 1984705698, 4042460086,
  2393740721, 1642030431, 3794711100, 2667987029, 1603641967, 488290688, 1683370351, 2846704951,
  480087187, 3402175747, 3343033871, 603026110, 1613787863, 3217864117, 771488601, 1048548837,
  63544523, 866790300, 1718683629, 790598506, 3240745493, 635029445, 3907439322, 2602660374,
  1393731190, 2512168489, 2441162971, 3965601016, 3276311569, 479277465, 2664382397, 128391685,
  3552312674, 3462078388, 2810905167, 778187533, 3033969317, 3542757768, 943262731, 907412180,
  2122142090, 2368111980, 2582034058, 3345979915, 2461380187, 4288029301, 3797034891, 4282982204,
  3934459685, 2772647031, 1699285757, 4200089259]

/-- Untempered seed-42 stream words 6000..6099. -/
def xsC60 : List Nat := [
  85854939, 4227547928, 2342103013, 3178153349, 4000200184, 314485767, 3569760033, 530281429,
  2969778083, 3478272264, 3819240032, 2996166529, 2425460960, 1262997946, 1102389708, 589115846,
  3646767266, 1490709378, 582289388, 2021244458, 877416917, 2461739636, 2108616346, 892614400,
  4241241719, 459526589, 1892012720, 2701734936, 3193173071, 3413360093, 4278787063, 3684210969,
  730548459, 983778481, 2478060836, 1490035228, 2996343661, 563047577, 1178219622, 2727571608,
  1069971084, 196014298, 2212157056, 272227923, 3470143926, 2439135506, 2993743400, 263397891,
  1472653532, 3256866284, 1304499243, 635057090, 1163325395, 3096652912, 2420126706, 1072803458,
  532165669, 3632455536, 66053768, 786802779, 396964174, 3517131733, 3397249836, 2105992897,
  3293049467, 287103831, 750238761, 2650918004, 4110874790, 2196050992, 4113651020, 3181959395,
  3082244321, 1742148024, 1828743567, 4191667540, 1545775900, 1716091335, 2238133322, 1665389039,
  3028444043, 2066639027, 2256004513, 1395269650, 3578433011, 4207884247, 4109618987, 671912217,
  744908430, 933692592, 2796890254, 2728725921, 2748018639, 1405952986, 604800773, 1935212918,
  2930552856, 721985129, 3754060599, 1987287889]

/-- Untempered seed-42 stream words 6100..6199. -/
def xsC61 : List Nat := [
  3226537307, 1540869928, 965176274, 1341917338, 2585061743, 1401509912, 251195460, 910903831,
  2180433364, 2622971613, 816041498, 4033880061, 3193103459, 1997171259, 1116691304, 950548869,
  634157520, 899710064, 3983757791, 3826322741, 2099776742, 3005862468, 1826613025, 1916583301,
  1734826484, 3231372731, 1526861270, 946757743, 3761381780, 4099409481, 2147193312, 1813728052,
  2040223418, 319672977, 1966171741, 1546182103, 3040332873, 3060473836, 1964286464, 1232191408,
  1235720480, 1568323588, 2809039580, 4229431392, 4118230796, 3447106305, 1626511949, 2042111579,
  924002214, 2035365960, 2730840937, 3117085629, 828174155, 1654560875, 3430889765, 518093900,
  1077856317, 2489816715, 3194034149, 3367555081, 905848711, 903637695, 1774567257, 3808702288,
  4174632909, 3031463384, 2625643783, 2990658086, 3429207634, 526226872, 505130148, 2805331271,
  3628398085, 1308628116, 3627331130, 3940001066, 1085088719, 2117336852, 2682109531, 703034013,
  1406724689, 3766863579, 1800825021, 3351735371, 4044032028, 2714009442, 1062789169, 1628139638,
  1950009912, 1918195037, 3992687070, 1650025791, 2146016808, 2984967079, 3562562310, 3823463474,
  556026467, 1363612059, 1388459927, 2426268550]

/-- Untempered seed-42 stream words 6200..6299. -/
def xsC62 : List Nat := [
  2801948633, 1367579779, 1190412131, 2365290832, 1215016586, 3077344884, 3019767657, 4139312371,
  2713005122, 3471861815, 1276064376, 2838845058, 236843821, 2204544756, 3359144712, 1951326620,
  4066455744, 3574885755, 2898654593, 2233866725, 1203427322, 901516868, 3766462453, 250695856,
  3869214703, 28559421, 2419055653, 3937100969, 1186493722, 2038751634, 2632645757, 2323745460,
  172900090, 3293958457, 3291800347, 1921230800, 3896090945, 2416738095, 301688449, 2042674044,
  3345212188, 1634498975, 2013351242, 4217630071, 3503269556, 2155367766, 258909829, 1613445632,
  2732702572, 3551295545, 2431008251, 2408834122, 3305189051, 1017335920, 1725875458, 4052448535,
  2196675460, 3847761466, 1682993430, 1037916981, 3852113152, 1189449270, 1206753252, 1838231539,
  3030297481, 3639464197, 183719561, 3861479376, 1376288243, 1220005232, 3539862873, 3584925417,
  261018934, 1394338091, 1267138549, 1570798803, 1892756733, 3023703243, 3013599185, 3671106612,
  1788842616, 3515410200, 4106532968, 2912499999, 1306850139, 2490013368, 777571159, 525172537,
  3094835824, 1539896167, 2643372723, 1689076446, 3352488751, 2785697819, 1275018345, 3074860713,
  1142432814, 416189986, 220647228, 1608016828]

/-- Untempered seed-42 stream words 6300..6399. -/
def xsC63 : List Nat := [
  2536584770, 168976043, 806271653, 1266759675, 271856410, 4107612716, 1846976314, 3549499123,
  2150026351, 1180160731, 1684580508, 1765727134, 2299614150, 1410588686, 423796920, 3414401260,
  367522205, 181851240, 419910004, 3423656228, 3179294707, 2416337615, 817295176, 4045277629,
  2503006135, 855034589, 2941685594, 364323679, 1064887665, 3421187003, 3895372420, 2761300211,
  1063961608, 1441373757, 2574755807, 190904967, 1837224915, 4185772414, 4050052554, 500424087,
  2755460241, 2297105715, 3359545379, 2832166659, 1449167853, 1131641301, 1417187821, 2477645077,
  3875745650, 2455344765, 989404484, 3978370779, 4100979888, 3394920407, 1433207078, 2274248224,
  1896453970, 1361636873, 2819615009, 3448156107, 4285012010, 3218986980, 3005305959, 2901356688,
  3094203851, 8742765, 3414432615, 1829785348, 2984221313, 1605029829, 2245622427, 2276179221,
  3004478877, 3172672551, 3378433870, 3506195999, 96029271, 8181036, 3978095132, 3599790165,
  1975011607, 274249552, 2170079066, 4066723865, 2333688299, 443238482, 3026024600, 1507169422,
  3903252800, 811754333, 2658087812, 1812640425, 2145620830, 1428918789, 3972681547, 3215995150,
  2229690015, 1351488810, 1771014526, 145615628]

/-- Untempered seed-42 stream words 6400..6499. -/
def xsC64 : List Nat := [
  3149698745, 556026307, 4108245814, 2212904662, 2686633112, 3023036470, 2838824231, 1998267880,
  185142121, 3209265356, 1326886484, 1882838042, 1607833710, 355091687, 3114978185, 1451819834,
  343067336, 592894735, 983491224, 4288061953, 2197114149, 1464598791, 2563498492, 344921413,
  608792957, 2857811484, 3848848962, 912480817, 3815184811, 3003246896, 1638412988, 2549010955,
  1349975278, 1689142035, 749517090, 377629677, 3073990569, 2617890860, 3945053488, 3532482515,
  589072397, 1566142378, 1513871633, 2246310672, 1157453446, 736541070, 3944889830, 1119071673,
  1468159769, 1554188715, 1688666905, 1260720080, 2974578514, 540784633, 511705135, 2000609602,
  1434223664, 1548547006, 952603631, 1567584847, 1391986416, 2156609823, 1844365671, 2070992256,
  2416385189, 497070929, 602871110, 3558225106, 1364176155, 2645025539, 3107738823, 3594905640,
  1686785127, 2302649473, 1895501135, 1951487569, 695356865, 3521588619, 3573225189, 3201053919,
  948705254, 747363505, 1620265348, 2379377068, 3275573206, 2018247515, 2334228988, 360423795,
  2544279623, 106886219, 61757084, 1602957385, 3948046166, 426539463, 938634719, 3197799018,
  2800113232, 1043395063, 3020170250, 1663654329]

/-- Untempered seed-42 stream words 6500..6599. -/
def xsC65 : List Nat := [
  4187119770, 3200315610, 66046880, 1744308418, 2410969966, 1353307918, 163623415, 2381773163,
  429793208, 2805624202, 4252488322, 3742099563, 2637924044, 4266647746, 3073282404, 2534254575,
  1050045100, 2810476225, 3326255097, 1157788452, 310872712, 3941361111, 3960292665, 2031505025,
  4125649889, 3688555156, 811461142, 3647927317, 818220750, 161471463, 2249486676, 62263102,
  3973048048, 750218738, 910459952, 189075115, 585569460, 1139547931, 3226983905, 2248367533,
  1033913376, 881844528, 2446802286, 4277990411, 1326995634, 14310993, 4039810320, 1974935852,
  449357660, 1432109217, 74535784, 3008959503, 257302242, 3646437429, 1244149869, 1413202368,
  3561925987, 1426984908, 375437007, 3542254344, 2449475291, 2475592285, 4147488594, 988186611,
  1702407804, 3084903282, 1879476643, 3723372328, 3787322275, 4078469746, 2427906776, 2285826538,
  2861857701, 1701824755, 1160138208, 297881242, 2631191229, 2447029548, 1627327647, 589924902,
  1983276425, 2948915966, 3598122879, 3625524966, 3620078604, 1744479314, 1269945830, 1736730256,
  2785591850, 420570958, 3143694629, 32608286, 3412145232, 4294409738, 545322511, 3629566394,
  3430689806, 1410421289, 4052000617, 1270367050]

/-- Untempered seed-42 stream words 6600..6699. -/
def xsC66 : List Nat := [
  1784351796, 1597104207, 170357698, 744797414, 1733384950, 668064740, 413784332, 4141588634,
  2043522964, 1145893248, 3916319091, 3022514478, 486017764, 4172162013, 2741692756, 955551410,
  3600925368, 1984860318, 330186039, 2477434899, 2659368161, 124156650, 462725764, 1600252717,
  1836299430, 3041651283, 3474077969, 3431697477, 4050890527, 1203073145, 1428371427, 564916118,
  3548839090, 3639048215, 3076094711, 1128384281, 3672795153, 1875656370, 1639402745, 1937455167,
  2034725158, 2834319487, 1790303279, 2539410173, 705383989, 1145673173, 3842816385, 630974145,
  2213894406, 2695432356, 67866441, 3798481797, 1458032685, 65338214, 3265767010, 799673601,
  928578487, 1752311854, 4219912965, 3492939143, 2908833152, 263299857, 130782113, 3906626799,
  2581504065, 3939096176, 60373029, 74944726, 367546147, 50571781, 1530059470, 1864245992,
  183063416, 348784428, 1348383832, 3961622575, 1089118099, 747051744, 350083217, 664329631,
  209377345, 1601696619, 4182017456, 1588075671, 3986019979, 1576625785, 3131355632, 3922939666,
  1359846507, 3804080044, 1953510330, 3934544118, 1557281097, 1501020128, 332064892, 2476520884,
  3997985759, 380948703, 3937274498, 177936873]

/-- Untempered seed-42 stream words 6700..6799. -/
def xsC67 : List Nat := [
  588490941, 1917359978, 2633502329, 2856045787, 897100045, 1321751786, 3612943574, 2334253504,
  3370448773, 2212634318, 1088197119, 3574494353, 1671397635, 2558203323, 3709966204, 1598793599,
  1874355622, 2292229569, 1713877234, 4228136794, 3588261420, 2166089883, 1554773789, 533094434,
  1406867043, 2831651299, 1154964980, 1838195954, 3607387350, 76788610, 3855949078, 2404325764,
  2274019519, 1368479482, 751191626, 3753893206, 1169680456, 3694165814, 1515668598, 2413672996,
  3835682554, 413108564, 2081264042, 1073900767, 3188760547, 690347190, 3843333433, 557065842,
  1403633621, 2173453266, 4230598249, 3320937259, 956191087, 1335894758, 4016263567, 201893267,
  2568061552, 629437093, 3031093514, 1868345355, 2005066244, 1288623408, 805163379, 104126500,
  1834042137, 3554711695, 4161756573, 1193009062, 3409708143, 2024194199, 1529370617, 1418840929,
  1014153845, 2023785595, 2958747693, 3681443878, 4246453323, 3141959461, 4230588969, 3057764899,
  1248019375, 2349859648, 2842630427, 398003839, 3605563980, 3146439100, 3802174624, 2002869730,
  3386290353, 545064206, 1673948896, 55208277, 4168165806, 2131451889, 1467772244, 345454718,
  2484635704, 3165437381, 4250215295, 1405770397]

/-- Untempered seed-42 stream words 6800..6899. -/
def xsC68 : List Nat := [
  1517696889, 3552584210, 3694806795, 741347146, 949020318, 2354874398, 2579664092, 246669703,
  4280737103, 282214328, 3902580445, 3990577424, 3352870435, 2102140169, 2409653456, 2583432510,
  2565646914, 3511470246, 1879254535, 50045374, 1314670104, 2431212827, 3491249273, 116766525,
  2782407863, 1274425351, 1304821730, 242146161, 1149740917, 3402710185, 3459282496, 931908823,
  3651231520, 2125348912, 3795913691, 2815157981, 1174382330, 2373088503, 3456145888, 633901700,
  187475391, 1811981131, 3815715487, 3044845893, 1821415356, 3130613266, 3570532427, 885379017,
  3736546859, 2324429897, 3007113638, 237997611, 2307496602, 1483732976, 2311801119, 3025449058,
  4237764666, 2922510001, 1491745918, 2123537613, 166328159, 1722579304, 2141297319, 4183529887,
  2255663778, 1572334172, 3619847771, 287351420, 3905711828, 3020570546, 2806632445, 997954435,
  3029801238, 880220067, 1649546468, 2021490308, 4277706908, 929361352, 1134899665, 395353583,
  1900604539, 2962202345, 2823557188, 93696311, 184610613, 3631220983, 2146575009, 774283419,
  4207934284, 3686434874, 3687766791, 1775382119, 3465687240, 3018754646, 4155109245, 1378821560,
  3011964495, 3891860971, 3636898910, 2877912537]

/-- Untempered seed-42 stream words 6900..6999. -/
def xsC69 : List Nat := [
  2548019606, 2426006383, 2169094709, 900028079, 71526764, 1858045093, 3898405327, 4085256499,
  1430435895, 929059012, 3355841492, 4054740915, 2836770581, 762008694, 2609245821, 3958135075,
  682633086, 2290556241, 1747944317, 1054747486, 1427175665, 358191074, 3161490538, 3855937790,
  3400879957, 1805772559, 3058905803, 722055472, 1210191484, 3958587876, 452721533, 3965943781,
  3035303256, 3849154712, 3216935951, 3429654118, 3924553417, 1283309987, 4040140007, 2959395090,
  2635104143, 3517071302, 2034486253, 2825962112, 1504388217, 1048364886, 1568901979, 108027176,
  1097350442, 1258336432, 3423945042, 3580875780, 339391713, 817891510, 2798852180, 2293317330,
  3077557315, 1885765158, 1408750616, 675451273, 1831845445, 1416967343, 140411714, 3466667743,
  21842288, 2806036664, 1119010170, 380054483, 2687403361, 3476646275, 3504091786, 3448834138,
  4177635159, 3093828507, 2393643456, 698237325, 2108284134, 2527022842, 3325450299, 1081776838,
  4265403709, 1651250624, 4089660073, 3869609573, 2053806423, 1949486054, 959129667, 2998711358,
  2508510809, 2469882911, 1891434406, 3971366534, 624775090, 1676365839, 2647044595, 197062270,
  3206799963, 1065824350, 2783403185, 3886471041]

/-- Untempered seed-42 stream words 7000..7099. -/
def xsC70 : List Nat := [
  2023681773, 2262080803, 690940115, 516892703, 3010077837, 4236626308, 1450958576, 2531742597,
  3240470377, 3007423831, 2069087288, 3803971308, 2058574029, 3986099554, 2557260905, 4129782046,
  2480962771, 3433822618, 1553101266, 587904574, 390878564, 1673243115, 281136632, 281965499,
  1966483963, 3342487268, 305743350, 174544181, 2312622601, 296252743, 1472044478, 2753352693,
  2482522232, 4266253302, 917441418, 3503034744, 2203036948, 1833006022, 2258624653, 3454131015,
  4126130257, 2465142172, 1061154017, 1084144655, 602044666, 2087114489, 3518274499, 3312471673,
  2244084245, 2729205592, 3301747450, 224596157, 309773471, 1024583356, 2626749099, 750573826,
  1636740607, 3630574289, 2780981758, 1530216491, 816491558, 2547209539, 1468392939, 2373538339,
  2749285154, 2048247223, 658075404, 1766985468, 2046033804, 3606981740, 1294847814, 3730377967,
  230713880, 2139697432, 290932769, 3323008386, 1134466922, 628382062, 900791946, 2738346114,
  1984532015, 211824695, 65780122, 3588959042, 930932449, 3071666194, 1126888973, 2564999634,
  2977206303, 1851133956, 3545269238, 2011026672, 3396119298, 307553511, 2046973544, 58849336,
  698178861, 1178401157, 2556135540, 958828329]

/-- Untempered seed-42 stream words 7100..7199. -/
def xsC71 : List Nat := [
  2240557497, 2435264329, 3188970548, 2730404719, 3089740623, 1944884499, 293185849, 282480528,
  1436626843, 2916929722, 3592474961, 2581270473, 39305741, 2116356591, 2565572704, 3479619815,
  235144198, 1497324855, 1990159186, 2648775648, 1979597426, 3987471736, 3132307899, 2404376066,
  3097062790, 2570144142, 2557833656, 2416282657, 4174184680, 480324113, 2857802437, 1217160880,
  2099425888, 2531727502, 84760025, 467630929, 1212653733, 2475776870, 589302939, 4133395011,
  2812403657, 1638666590, 2305646769, 569631290, 620339045, 2267124030, 3680353473, 4142693854,
  2025127592, 3831394657, 1349204523, 2463615026, 4133927459, 3042511457, 1792194223, 2118515972,
  3181967133, 31045989, 1892239471, 2778236674, 1569968074, 111006240, 375734383, 3074149593,
  1446654267, 4163123792, 1444021192, 4204549078, 1221042225, 1093043557, 3534443030, 1422882775,
  2379896793, 1606099695, 2262067184, 113455707, 4272168053, 805957051, 4285674724, 2803192463,
  1514606416, 887878636, 2703261526, 1734836209, 2695465943, 678234033, 3963183791, 1603529083,
  1335543062, 3914692428, 3763746123, 3902472318, 3737975169, 183093270, 1387811622, 1819019372,
  612777253, 4065268858, 3312561943, 1852011222]

/-- Untempered seed-42 stream words 7200..7299. -/
def xsC72 : List Nat := [
  4035266829, 1742417744, 940213406, 3753533181, 2172469125, 872781659, 745936309, 2514478907,
  294733801, 3592136794, 3580345645, 1768880194, 951744577, 3180585998, 4064574513, 2956217457,
  3972846362, 3119789182, 3231537755, 1124293045, 2431338948, 1007439512, 1851969499, 2316198977,
  2300014758, 2700404048, 4053044722, 1261847446, 2503766225, 628753493, 631437394, 3482121031,
  3735269700, 4223945366, 3438585618, 2405016091, 371065958, 719761554, 3200367029, 1373878673,
  2528134445, 145955373, 1727700424, 1168740988, 2400765167, 1364730000, 2511532919, 569741111,
  3759598621, 3997196719, 4018341190, 2491895467, 1038632455, 2711645912, 447914750, 2685709392,
  3839064467, 2501480474, 1555333286, 663080111, 2309997743, 2675711273, 1886993848, 3219920263,
  3761366822, 1791868485, 1598505702, 971167636, 700673961, 2494628094, 2338062256, 572052601,
  741495467, 179956920, 1833755492, 2008636124, 2740855531, 3852433867, 3284051682, 2429684123,
  153678507, 945476598, 3719129886, 926814015, 112610182, 1060049137, 4132487811, 3847048409,
  3803692667, 2403453222, 2403506760, 807556204, 3801915498, 178258539, 1591549832, 2089244208,
  3701157882, 1694668138, 1900114983, 4106065166]

/-- Untempered seed-42 stream words 7300..7399. -/
def xsC73 : List Nat := [
  1774894184, 2184254646, 1289079698, 3702213525, 2479296516, 152222802, 1433101846, 3649820085,
  4216599508, 515498338, 2701298891, 3337787403, 2253077444, 957542352, 2913008041, 1175796836,
  1122881524, 3669358536, 2115210794, 608316978, 3221634135, 1330991913, 3754214419, 2702981548,
  2132324912, 254754711, 4113815963, 1178129888, 3057845564, 2512340575, 3878574991, 1163098194,
  840800884, 3894366489, 2740569351, 3177603013, 954854072, 3098548975, 1870032041, 898363614,
  3816680400, 3958919193, 4049917770, 1693730576, 2159679909, 2176983043, 2449615857, 3306912156,
  1623229782, 3638073153, 3112668283, 2468037613, 3682111567, 2862612275, 3617718499, 570479720,
  1953071468, 3157637600, 1733527579, 536430148, 3103729429, 1747384290, 473015875, 973623256,
  3755909068, 489079886, 1331109107, 564207847, 893320965, 586129138, 1902768387, 2485514320,
  2280108247, 1010953002, 219967636, 3183699648, 3280887826, 4275184179, 1306208804, 4209933083,
  2123596780, 1887952426, 2430801374, 2255062559, 666817533, 4265545737, 2793597712, 4063485593,
  3060084408, 4083834494, 3568706314, 3937174483, 494922436, 3800996075, 1239156409, 3489034708,
  3833493383, 1401853663, 964184004, 1784625443]

/-- Untempered seed-42 stream words 7400..7499. -/
def xsC74 : List Nat := [
  2601561506, 1640497723, 3303761813, 43847037, 906095643, 852297910, 1975608687, 1899186806,
  1764663090, 3497014534, 483905792, 491414352, 2018739510, 3722073567, 3342757134, 1940017601,
  265840747, 3420980193, 3805322305, 3569401245, 3451332139, 3038409286, 2625738237, 2427819590,
  3685680499, 845429837, 947615091, 3972872770, 1643473759, 1961607920, 32186081, 669442557,
  2087487623, 2167469572, 3811727283, 3950356519, 833951233, 3535245125, 630259421, 1959538016,
  3577053277, 323837933, 2974391470, 3420647446, 680012332, 832173240, 2574332660, 454029120,
  3237996100, 1216360490, 338802982, 844895171, 479513563, 2525804242, 2314933538, 3119308609,
  1512907853, 2374684000, 90288374, 3160171065, 1685438514, 2884955106, 3720211289, 2323703398,
  2246988264, 377393189, 2455068140, 3774353139, 369079588, 2509974834, 2260976967, 961274661,
  2366991979, 3425470372, 4293589245, 3838976336, 2188876375, 1919815958, 3467450010, 1134809626,
  1873814879, 1992801473, 106255081, 2033136355, 2790239406, 4201446698, 2183180479, 3398868478,
  4054312967, 3264262730, 4152116409, 3562524748, 818454940, 2515211719, 4250381962, 864609058,
  1468152816, 3128096194, 505834299, 323879653]

/-- Untempered seed-42 stream words 7500..7599. -/
def xsC75 : List Nat := [
  1359714908, 3583429459, 3849954548, 49472521, 1691354720, 2543365824, 1259364831, 2510304750,
  2372560722, 995936913, 3106271149, 1003599392, 1391613164, 46079967, 145550133, 3321800223,
  3602287629, 1839127849, 1496696496, 1649895314, 3763615809, 851331495, 2957728771, 2541025073,
  3024539650, 2834114018, 929533574, 1810565342, 744908347, 3790799786, 1013183443, 1617886400,
  312644656, 1902669820, 945050291, 920016001, 1208765273, 902351658, 705430597, 3524470907,
  2757349799, 1086294216, 1501178315, 4050453331, 3491311673, 1613483039, 1453872717, 1012149026,
  2743930993, 1575349673, 4103659828, 1527362830, 987144037, 558273786, 3909212877, 3962995600,
  3876191763, 570010967, 593844065, 3756056015, 388563223, 37136299, 3847502668, 4016661920,
  3496019212, 2329885056, 565416350, 379636019, 4106630066, 1185784376, 1741449604, 2685273904,
  2755819611, 3020458840, 2947322782, 3017109497, 3233321754, 2867724369, 3611548804, 432522929,
  3534536736, 4267305711, 2938711155, 3690393233, 252154728, 1669122490, 2711709172, 4166615981,
  2072423358, 2104031486, 2824039150, 1455517091, 3820142672, 658048438, 1198105802, 3501628529,
  3889375200, 910163427, 1508008009, 3107151524]

/-- Untempered seed-42 stream words 7600..7699. -/
def xsC76 : List Nat := [
  923683927, 4145015894, 3724422051, 1704501843, 2414094547, 3979492271, 280235254, 2595127192,
  1251916761, 360591648, 2671238144, 4101244942, 783029977, 3738997955, 3295199706, 3841689953,
  1536640678, 1130220332, 2943612140, 2615585590, 3175940292, 3257342014, 623749835, 20557870,
  3387713681, 4108813170, 4231011827, 464326459, 529196793, 2950072557, 2430997600, 3483078512,
  4066732738, 141068147, 1080997120, 2373944203, 3871060919, 3387505643, 1717166047, 2829781888,
  3146754322, 2843170279, 1646725854, 75383513, 1664968651, 3937434301, 1169110175, 1847886345,
  2525451572, 3583850246, 210668547, 1179409576, 3820533297, 329628588, 1741415271, 671698787,
  198127371, 1522309924, 260106561, 1036738061, 4153429991, 2037716778, 344847707, 3528083190,
  2613052811, 3808934002, 3448488888, 3301227552, 3027665998, 10183056, 810706933, 4083260409,
  1624234772, 4212615049, 3300317121, 1355560148, 1443414900, 2205255852, 1677885250, 3042651643,
  599200613, 3675922909, 1300156299, 1115189854, 527161118, 4155241180, 602438647, 899326371,
  1341569510, 3458292959, 3190415640, 3105336878, 1023510035, 4106467919, 1457272923, 1394573352,
  2858399166, 392221064, 440625636, 3973719518]

/-- Untempered seed-42 stream words 7700..7799. -/
def xsC77 : List Nat := [
  3734416147, 3845294008, 4115254545, 1616637343, 3979786706, 3478702679, 1767262139, 2902910704,
  1833781448, 4274559280, 1969116682, 1744655486, 2370303272, 2877878596, 2977462150, 3566321030,
  313684198, 3397218189, 3583454288, 3171860437, 805165530, 4051331760, 4128445545, 3427570675,
  1810485945, 1093632289, 3675907981, 2484597540, 896020741, 1959641271, 177849281, 3607634290,
  2172044957, 3104356776, 1078264533, 1430861451, 2638675641, 3041930141, 3312083596, 368072431,
  3072852379, 870538908, 3406703599, 2890509620, 1531650965, 2640636594, 636520595, 3155725954,
  2116480352, 4235322591, 1182695934, 3357560950, 2142568501, 3141825339, 263011206, 318193419,
  3934293997, 3891128800, 4102681015, 2945053885, 2023801423, 4039959585, 2498865535, 2194936930,
  1159644037, 3081897154, 2196429158, 791523018, 1127170135, 2916894580, 2317041084, 2890092397,
  3406578800, 2811591559, 893374267, 1102511551, 2655115334, 418974396, 1680558988, 3171570740,
  4171430039, 1215155749, 4277846033, 2311068150, 582435911, 2975811465, 1567984508, 3845957973,
  1042594435, 2388474536, 3525790795, 755656139, 860146669, 149305493, 3855598087, 1797499009,
  2960688016, 1688623740, 2053582530, 35178174]

/-- Untempered seed-42 stream words 7800..7899. -/
def xsC78 : List Nat := [
  1963248986, 2417330668, 2035775073, 2912621746, 2963012007, 3352552239, 4085041558, 1542501652,
  862444008, 4009467, 758622963, 684388835, 1473671708, 1216532366, 2350121874, 2380818337,
  941366517, 2165261181, 1626827157, 1761177117, 505319307, 3168387998, 2810651930, 1184445369,
  1171417675, 1172775430, 266780933, 4005061450, 872781604, 1389203878, 4135575825, 1579432952,
  3326078850, 3809436351, 3994616761, 3486201638, 196592423, 2132628167, 895917801, 1489665876,
  2183565052, 1026481192, 477271396, 1407377988, 492563552, 21636062, 132721097, 4190550167,
  2455595670, 1575480370, 1688375781, 1518002214, 1062351239, 4007748058, 2774779463, 1893416539,
  3526667686, 4137437161, 289402530, 3110758641, 488365882, 3322337541, 2089217948, 1961566718,
  347604514, 1428459835, 2323628734, 621509562, 3252372911, 4059481018, 3448518045, 3393102106,
  77134517, 846116412, 3178206595, 1367066344, 3310157930, 1104665980, 1447430784, 148486695,
  1495888801, 160539444, 2730695147, 2517663107, 2349475183, 2008840093, 3140871185, 2273885300,
  2501605591, 992891944, 3468373308, 371786368, 3915331597, 2284207200, 213935811, 996613572,
  96966604, 116659783, 3367843479, 3899161278]

/-- Untempered seed-42 stream words 7900..7999. -/
def xsC79 : List Nat := [
  282094515, 2775155888, 2175631558, 2341735166, 2673664343, 1255459533, 2009897659, 552351398,
  1569003898, 4015922709, 2849400045, 4147689724, 2953516623, 1682519763, 1837861781, 2126047699,
  309980469, 2437377756, 2270430518, 323752430, 2252534010, 4151587479, 1765886639, 3736791946,
  376986579, 2083097645, 1535586507, 2541036305, 2713442705, 3757866522, 3583424410, 2426183736,
  2147760870, 3772756225, 1467423274, 778622250, 2722229976, 4203125249, 83348044, 2888897234,
  2261912224, 3463557267, 3333466783, 2881084946, 887060166, 1669201542, 3984630531, 1349615810,
  1877296548, 1434601595, 2941319427, 1892175911, 2465764049, 830896789, 4139667213, 744946751,
  3653949668, 3258814877, 280215119, 3707909057, 1012401152, 2935391326, 1334628068, 2901936977,
  1503966030, 3185051945, 1737127271, 779992470, 3926588994, 453480136, 3468956154, 724263230,
  671093197, 3762028145, 1822269355, 2324829592, 808889241, 3030856016, 2569026114, 1166131331,
  2774446027, 3842789204, 487300137, 1878502584, 2482934289, 1671008841, 2995639121, 1464831401,
  3193931270, 710055897, 185349326, 3330870488, 2797980603, 592875832, 624908002, 2580818147,
  4093424353, 2358576630, 2997025805, 2865460345]

/-- Untempered seed-42 stream words 8000..8099. -/
def xsC80 : List Nat := [
  1106565697, 1406294569, 3855184109, 3775404464, 549119401, 1817887075, 1731602404, 846537142,
  4001036030, 2914760089, 1775322725, 2038813467, 3370805430, 925801209, 157440099, 1889226721,
  638764546, 801243080, 183590177, 3631431921, 4163486501, 4185121253, 3338962127, 3186677057,
  2370497470, 3239718359, 3663655135, 4144794504, 2306018743, 3669980169, 2499981705, 2215425598,
  4025219500, 3172409622, 1431667900, 256777075, 3084433355, 1319672948, 3356715484, 3375560438,
  4101930657, 1685388653, 2122353072, 3352248127, 3682761310, 3082752948, 547595582, 3938565613,
  2095279463, 582102908, 1895804568, 2887806779, 2140324734, 2518417066, 1682154347, 2470142904,
  1381362340, 518945303, 2996199220, 133026909, 1398543810, 635030536, 4121764246, 3089478614,
  2947763694, 767709374, 1027278687, 3596786666, 635577972, 281676830, 509941220, 1025777474,
  1695169483, 233960794, 2044723625, 85966756, 1453438811, 543103860, 2676244313, 3410760574,
  3894675306, 3889372732, 4160602008, 2685291967, 3815125528, 3874073553, 4230618050, 1609365454,
  338764232, 1974223210, 2644481624, 1581767856, 1609107362, 1343656130, 3768990455, 1582907973,
  2548072552, 728889660, 3092754866, 3702228801]

/-- Untempered seed-42 stream words 8100..8199. -/
def xsC81 : List Nat := [
  1264172727, 2587434702, 816459749, 1805492762, 3820794819, 3429110571, 2907083657, 1242473974,
  1957158305, 2061234539, 4082840444, 1842438579, 385101496, 1501787794, 3986904146, 3447662617,
  2832428564, 2953902713, 1340961553, 3265144309, 2501854849, 3671843713, 2882055273, 759323362,
  3040330545, 3120686317, 806991973, 582510723, 2930103248, 2100101366, 2168721417, 3655979774,
  2389843802, 4065779122, 2097474998, 1962685196, 1997087013, 881369512, 1288657708, 1113120918,
  2341398680, 1091659981, 1335056922, 3143320010, 1360067280, 108600296, 3254704809, 3697383675,
  2734858342, 854756844, 3947851749, 2571360273, 1288703480, 2629728765, 2806144369, 2833945481,
  3880274404, 1353985564, 318716583, 1024110485, 4198225044, 3682183383, 2657743304, 1768273620,
  2597936741, 2973920886, 227484580, 2010522211, 661448259, 1961636198, 3046361987, 3155250721,
  2491922573, 3620524953, 1039489605, 3951475401, 1159791110, 47752378, 114495983, 2020924679,
  4168228065, 2114212962, 2594054663, 190245040, 1512993431, 572105705, 2864087313, 1416136326,
  3952679070, 525665835, 1050730263, 1674029719, 3733903413, 1416380837, 1048231438, 555971248,
  1090767716, 2568116277, 3955844637, 1214011456]

/-- Untempered seed-42 stream words 8200..8299. -/
def xsC82 : List Nat := [
  742674054, 121401833, 1601783327, 425773961, 1384346872, 1471945892, 2977040148, 3806160511,
  3568446345, 232468179, 2329140657, 3997026254, 1563291190, 2795791910, 2770832295, 2407982638,
  2043548930, 683206315, 2010837567, 3576453195, 3779190550, 2428950041, 2236450737, 829629461,
  3071472605, 1163221251, 1091540367, 3742269175, 3158570785, 2912122518, 3965658748, 3707570330,
  1726339571, 1756219876, 1213146545, 539249997, 467488551, 199566984, 2465245044, 2770455525,
  377519983, 517710357, 1030232698, 2025080416, 1322415063, 3245291675, 3639580902, 1171736498,
  2197823580, 538196713, 1764680195, 461842461, 1341774206, 2452486895, 2428587056, 4030838998,
  126060399, 3040209673, 465291044, 96374952, 1089145916, 3211910028, 454794931, 3927925570,
  2199619160, 3103845555, 1376085829, 1558740379, 3357831404, 2237637408, 1775619812, 3502362820,
  3715205175, 4293678048, 3387397049, 3560408736, 1801515690, 3658674164, 556562517, 3816678436,
  3141907256, 4203439892, 349600865, 4036328840, 1649734018, 567809350, 784922406, 2276763608,
  1415188529, 2473115722, 3662147014, 4119334857, 1838145654, 3155854458, 1994057417, 1434831870,
  3024686853, 3845574363, 1430390056, 1309563505]

/-- Untempered seed-42 stream words 8300..8399. -/
def xsC83 : List Nat := [
  206123276, 199310856, 2260375942, 2658307638, 2497362757, 1614014531, 3933219409, 3885100261,
  3691439954, 1057043132, 600550833, 3298651883, 1492235617, 2738809678, 57090265, 3552137758,
  3603246226, 1878604458, 2009603236, 1254546813, 463927302, 3985083909, 1748258986, 1638098238,
  1508424416, 1543235557, 898548049, 2109923934, 1688062778, 3708402919, 2099171682, 2501515175,
  4076887987, 3622418572, 2045775817, 1912874805, 790596041, 2884044991, 127516528, 1605179083,
  3853873547, 2271789690, 183551788, 4281172729, 2293092129, 2917943802, 1035001043, 2044927746,
  1665438670, 525135728, 1732879216, 1988848492, 426751081, 2891835738, 154957882, 1997930561,
  564747298, 2020483516, 1782970724, 433705177, 838236323, 531750128, 2802624676, 4120219959,
  1836650214, 4030791172, 343684620, 2133051789, 1336090004, 2221125260, 2773943947, 771984480,
  2705938776, 2730596950, 4168200384, 1171296419, 3059221678, 2895770150, 154203979, 3768122065,
  4014509325, 1141773685, 1713821960, 34641948, 4057656531, 3247398599, 2086708644, 29099401,
  3231754934, 3743194491, 1056137649, 575032977, 2813087180, 1216527738, 3103733002, 1122681979,
  3190701178, 1980013761, 96632865, 2611434670]

/-- Untempered seed-42 stream words 8400..8499. -/
def xsC84 : List Nat := [
  2612025031, 266403715, 4110651603, 2692271762, 4293325687, 2695283000, 1016386044, 807472669,
  4288890745, 4096059321, 2696940741, 2620694281, 624377533, 1521326059, 2615477436, 1798557111,
  2184096446, 2505019083, 2405355016, 3333593597, 641690779, 55126383, 539955695, 2072096201,
  2434309315, 241855986, 1586614809, 3976266378, 4259131553, 650584788, 1956155651, 1261475852,
  3467262598, 1054958258, 1873849937, 4284027527, 697977108, 2363087992, 834749633, 2552975507,
  1059813191, 1280610226, 586342911, 4022985240, 919865188, 605642930, 795373896, 1520458476,
  2989836058, 464934892, 103749040, 3977263183, 1815318992, 3812152792, 2954650379, 2673606880,
  1159493398, 39524223, 3138949897, 3124136127, 3458977880, 3421821466, 205615847, 449710169,
  1433553052, 2630479302, 2362489543, 405637471, 511620090, 2811510337, 3714034420, 134006428,
  2946289282, 1941332171, 1760180129, 94472256, 392464900, 2727850495, 4209117167, 1726189485,
  1886087620, 3630087009, 1979464817, 1225681138, 255735636, 1710797034, 1070268503, 1253510957,
  216736718, 505708524, 3097157279, 989762640, 3254488430, 2915814740, 972500246, 325107049,
  2624124990, 3999970554, 3095147440, 4292282370]

/-- Untempered seed-42 stream words 8500..8599. -/
def xsC85 : List Nat := [
  2668084574, 3804534521, 1230236524, 3741121445, 3738844782, 2839889023, 830302778, 1682444624,
  408808453, 2420391606, 3008439218, 2983329078, 2085568338, 160784824, 3433047704, 4194122984,
  3615219322, 86994552, 3896213803, 1869360016, 644366214, 3415002461, 565311137, 1697221123,
  4152495235, 362071371, 197418766, 3673158008, 4152617905, 609510404, 2382665061, 3122149368,
  3465828246, 663988472, 2618142875, 487316650, 3559725322, 2349258916, 1657383645, 3368416036,
  2879216672, 1087185474, 2585746153, 3588510959, 2370540350, 2589985068, 1704700088, 3381814576,
  1251735756, 3707729936, 4077995113, 2419975927, 872798440, 1598397084, 898413122, 614454857,
  879678648, 379935863, 2184084786, 3793791199, 866272595, 999025391, 1679601244, 1819708569,
  1440178217, 4257831648, 175241666, 3218787048, 3067493689, 2771920498, 2534752920, 3210702323,
  505797912, 3004174477, 2559543246, 4080036473, 3733414629, 3307090985, 3115361708, 898291739,
  1414238539, 3631028162, 3231689086, 2139446818, 1863672723, 226729494, 2527946158, 1562648836,
  2555734203, 1304502984, 3802877948, 1484550599, 3183688032, 857620209, 716601618, 3266028973,
  762765675, 1242659201, 726304428, 1616559179]

/-- Untempered seed-42 stream words 8600..8699. -/
def xsC86 : List Nat := [
  3096576766, 3034688993, 3189293117, 1040180116, 3726628236, 3736963456, 3613600909, 2143253722,
  2898947214, 3865608319, 4039110167, 4009045968, 229549556, 2045165507, 586712037, 181075892,
  2394412519, 745327296, 3081038399, 1197122659, 248004481, 2024209363, 2391264920, 1205657989,
  3336896778, 2922285192, 3944962166, 1390777548, 2697277421, 3331883809, 3108134473, 3369830408,
  1869851435, 3514090001, 2515228495, 3688264482, 918231578, 1031376939, 1030850598, 910056892,
  1296918543, 127212275, 3724729616, 1731394547, 1895747302, 1976843440, 21119874, 1620711748,
  4207710043, 3557349727, 518157, 1286187719, 4198328105, 2367175170, 2936494485, 2317929591,
  2018292319, 506614621, 3583976810, 1280233916, 1505045640, 1270422207, 2613078524, 3400386203,
  1743458833, 243335193, 583303123, 1391086184, 394987112, 1923298144, 1134660657, 3517776136,
  893417228, 387425796, 3585662382, 3455854245, 280733881, 3976623322, 3834481043, 85550210,
  1967609868, 2841070737, 1168267793, 1823636983, 280490363, 2177762242, 3861139796, 2582804143,
  2635461189, 2345943447, 838813100, 126049190, 2494360521, 2212638773, 113215230, 3052609216,
  2708260076, 2024217343, 91429198, 499426800]

/-- Untempered seed-42 stream words 8700..8799. -/
def xsC87 : List Nat := [
  1671032177, 4263549138, 1611104767, 1668712881, 3514711777, 2166151203, 2951485869, 30961864,
  841145942, 199831952, 653792021, 86419376, 1596887135, 822397819, 630514037, 589275167,
  909064077, 297890619, 3436873133, 3389771098, 4168298954, 635237839, 3829255702, 1624020922,
  3816176541, 2032243869, 3390691599, 936465504, 503197619, 2264404599, 3153832286, 2105630817,
  220204053, 147911556, 2343047510, 321387353, 3162867199, 2239793563, 1315363301, 673613912,
  3365252187, 845033423, 1102749389, 83676645, 4048170855, 618096576, 969737953, 2784718529,
  260345844, 3769997900, 3984395933, 3771786603, 1795310896, 2456741845, 3055228935, 2965038108,
  1568606941, 4035371966, 2154180222, 1813542875, 1037563948, 3127516429, 1009233121, 3521801542,
  1971772445, 1157629904, 3580384193, 3272941896, 1139912630, 602441570, 584853581, 3704275725,
  3273215962, 3375673237, 473643495, 754187824, 1269363761, 968415758, 1564483564, 1201798170,
  924814738, 2784731086, 2735878492, 158547698, 3792779459, 3441067478, 2526180277, 2814794430,
  1663753684, 584793998, 3465882999, 3748242391, 3351200339, 2310057180, 2027609383, 1704808864,
  1473707873, 1357340517, 328499272, 2092260379]

/-- Untempered seed-42 stream words 8800..8899. -/
def xsC88 : List Nat := [
  2994488016, 49201126, 1443017765, 2075581514, 3122404888, 771163248, 1881254979, 3763607775,
  1349089001, 1288460585, 363928929, 1524232156, 3676417500, 284539642, 4124001424, 773502078,
  3204428485, 4254470395, 1223542943, 2638404818, 2795479604, 3327818435, 2793769357, 995411496,
  3498570154, 2650707324, 4125256016, 2446571650, 2671748019, 2795619255, 3583631476, 760115351,
  22588982, 1258451594, 144807741, 3260849045, 4114264940, 992254747, 2838912199, 1900654453,
  4105337929, 2149403173, 3109315406, 4262935148, 4245098771, 1812633912, 2263582390, 2353657520,
  2198136717, 923317376, 4048776737, 30165573, 4175901635, 2634861384, 1016795265, 1254061003,
  4073613267, 74284110, 1103175281, 4220894311, 3565572437, 2626880757, 273557007, 3841168754,
  2870800894, 600147227, 174358156, 4079804731, 3190437473, 2994016611, 98129962, 1904139976,
  3168178459, 2900197980, 4098964885, 3710936036, 1142330615, 1214729749, 881424044, 552866881,
  243957593, 3805985287, 2297922595, 1480143937, 25869979, 18504428, 2034327581, 406384548,
  2385632313, 1808427649, 2110867593, 1140402791, 1278136713, 1445894305, 2055905802, 3761992364,
  223681168, 3193632050, 3149316696, 1089474137]

/-- Untempered seed-42 stream words 8900..8999. -/
def xsC89 : List Nat := [
  975098366, 472273243, 4232238263, 1293512997, 2420361040, 938346364, 1028905542, 74260685,
  3116058162, 1388716418, 1869098523, 3818015164, 2289722343, 2332534711, 2050933140, 3956408958,
  2514027434, 3550119447, 759283289, 394321044, 1752295303, 1813939306, 201098023, 2806537322,
  2102887931, 103699853, 1392370411, 2969305100, 389143596, 3426165768, 2310459164, 3212660040,
  3734782333, 654409642, 3130947426, 3344086073, 443958327, 4265816998, 754585279, 877397526,
  1190680110, 510717735, 2675211902, 1006390158, 3188327654, 3099635192, 4208623557, 3565644986,
  2435430114, 1743920737, 1580066453, 3510164992, 3467508273, 3029774782, 2757029740, 4252414133,
  3977039409, 1577786981, 3716924196, 2208790574, 2217461508, 3362049774, 2784608483, 391613925,
  3325356198, 186563187, 2394487291, 365689620, 1688734514, 2255110267, 940393060, 3236456064,
  728830072, 174708569, 2663308151, 2587616543, 4137381601, 2850239104, 1112757652, 2077682465,
  2925131531, 2201609397, 626965679, 3700196947, 4284353990, 2480962092, 2413432735, 1265336159,
  2185912847, 1981396967, 2004040031, 1381454551, 1194446998, 516644955, 2484397944, 1398080282,
  1921534537, 1592061997, 657079171, 3627371917]

/-- Untempered seed-42 stream words 9000..9099. -/
def xsC90 : List Nat := [
  2675463814, 3249271453, 2243376007, 2768503400, 3266797675, 1850962792, 1185525780, 2532985636,
  1546944626, 3710018446, 2426768617, 3259067800, 1000111028, 1357083570, 804113705, 1895627570,
  1184522547, 3538597874, 655651125, 3634912366, 1807372899, 3811782120, 1750006775, 2198234333,
  2384433275, 2954754302, 747191122, 1418169268, 1388175226, 138992859, 4205767579, 482676091,
  3471689587, 3108575998, 927393668, 2616875368, 4170326531, 407084863, 3058219480, 3661035651,
  3277507904, 2992645012, 3561703519, 1961407575, 1698313363, 3253924023, 965393129, 924540042,
  2171554874, 281399390, 232015725, 929159461, 3466396694, 1453756686, 3024876676, 3094003440,
  4191253230, 2068383619, 2347387147, 1435863740, 1299094710, 3377038722, 1463911171, 866629648,
  487513282, 558341351, 1185767033, 2950201339, 2450651772, 2933939178, 3544651546, 3827151518,
  567390926, 2247887982, 600398408, 4112330597, 110419564, 810938235, 1315064373, 2590574664,
  86634536, 3089099226, 2393671499, 2514194431, 1637290307, 2666076125, 1878657172, 4265571611,
  2465722902, 3475950515, 837673218, 2753800195, 2835819236, 1691069430, 2966585973, 2850312480,
  1386648025, 2829382437, 1940789992, 3076838425]

/-- Untempered seed-42 stream words 9100..9199. -/
def xsC91 : List Nat := [
  614394492, 271093437, 927536365, 2082676757, 4248871802, 3615479883, 74653752, 152397043,
  3492209266, 236631255, 3832152840, 134164348, 235431194, 4228169613, 1162323340, 2932611726,
  1026526251, 556457474, 3544302604, 1109044630, 555467484, 649378770, 2681271981, 1121371199,
  1445990033, 3743365102, 4136026964, 1433652937, 3515630523, 2768003498, 2134735245, 90538381,
  1070340135, 1694190495, 1552277078, 3348945307, 1443664222, 1228422487, 2674710472, 3821505754,
  3381661835, 3609965022, 2623805366, 2263686249, 1867796582, 3834770902, 3155994954, 3401077017,
  3218888208, 236891296, 2319426774, 2677981436, 1409574799, 3438745734, 3991935984, 1887172583,
  2684285044, 515417998, 4059603741, 4102737400, 1627526136, 1391596243, 3811593643, 1337518631,
  2653266567, 3103593236, 3350633662, 6135729, 1396763569, 3988367906, 523598102, 3678926976,
  2529104368, 442133806, 93400862, 3408616086, 1213256495, 1156300724, 1518306811, 3566899309,
  650948442, 2772685301, 359552005, 768957511, 3670432717, 4018508810, 747933373, 935905231,
  4135609246, 3770760194, 146466961, 72828645, 1501735242, 3308411063, 3547135282, 733668798,
  116062434, 1951039875, 544793443, 3711570389]

/-- Untempered seed-42 stream words 9200..9299. -/
def xsC92 : List Nat := [
  4058938770, 3261499809, 1509308877, 1169561243, 2245376353, 572293419, 68437040, 14415389,
  2247633854, 772279928, 2988349137, 1786513732, 4110478152, 3197085793, 3193829219, 2628517567,
  3063814208, 1646790102, 3926536414, 2290225404, 2731240516, 2175902766, 4201704928, 1858161462,
  2644284930, 3777948482, 2261433415, 2960636992, 2935305821, 1997411614, 3671832581, 3570554412,
  2221900680, 2818504640, 3783318732, 451138184, 2027523248, 416382404, 3341029954, 2781815192,
  114628306, 2906065129, 2321095132, 3640053292, 2008120004, 542611065, 575577203, 1221120742,
  3022285228, 501176268, 3933515451, 125155154, 1247349169, 3911230633, 820662192, 3154950704,
  3120172300, 693367011, 1898853610, 2511358590, 1056793140, 704521111, 2162522038, 1195124443,
  2189533849, 2571753296, 816264613, 4213549619, 2290761164, 3572132254, 1151711477, 3243557857,
  855518407, 3766615600, 2286369078, 628707185, 1447677279, 3277806456, 3950841793, 733212134,
  3233220735, 2659477041, 3729643054, 3574326442, 3348969987, 2248834549, 2848708910, 2811471201,
  1459729745, 3744140341, 450010404, 382427126, 404096343, 4269091006, 2265907071, 3367092730,
  2775288040, 4187716045, 468390163, 4035237453]

/-- Untempered seed-42 stream words 9300..9399. -/
def xsC93 : List Nat := [
  3011458563, 3364302430, 3079773476, 1010266730, 3187079660, 3048986594, 892896876, 2491070538,
  3103320123, 4257132513, 1076495479, 3054852286, 1108051913, 923118146, 4261337288, 27866925,
  399991670, 1924276861, 3201967971, 4189145234, 2173736534, 2993360594, 2802189272, 4200781758,
  2545205068, 2594532040, 534192158, 2502510035, 3383644787, 4189563108, 1020205169, 3830565969,
  3532341379, 2382862701, 193345323, 1723406978, 2408604085, 1873331053, 2407026604, 2350337539,
  1844229839, 4196554629, 3419012131, 1091966158, 3939243066, 3781108487, 847046219, 2309517261,
  3274490179, 601139957, 423521807, 3251087767, 1164676618, 2876971003, 2998652454, 1309996398,
  2694060136, 2062119206, 3590245630, 3095816711, 3207839629, 2730361467, 3549404599, 3947820972,
  2300549743, 649668721, 2024889079, 1748875239, 2235564606, 428483609, 219683798, 680925084,
  3570088176, 1403690715, 601396083, 3395122312, 2652991381, 1211799562, 3351491314, 2746438206,
  4105464153, 2915241167, 2675932373, 2165640290, 2592414167, 920896946, 3699374939, 2194263337,
  1886523707, 1351406740, 775060099, 4292703580, 2835959973, 1339045959, 3073396456, 852249692,
  271273271, 3357562170, 3443394456, 711187255]

/-- Untempered seed-42 stream words 9400..9499. -/
def xsC94 : List Nat := [
  109445161, 724639976, 3908805787, 1407129062, 1444311123, 200711509, 2418216724, 2395767780,
  3285095198, 3341802752, 2117497112, 2874357031, 4276620237, 2463541465, 3245647611, 207057512,
  2753129068, 3990828765, 916057653, 3949028901, 1950959578, 3668360470, 2364078956, 534043018,
  893247088, 2456881582, 3772874736, 3974132382, 2493320089, 4176371507, 3969165867, 1961472714,
  2641501536, 2546235999, 766968307, 2825452880, 1718801157, 2298033305, 1030837115, 1937212149,
  1498157251, 1126409203, 2450165974, 3855731034, 2551023720, 541082823, 3576198120, 2324206737,
  3478056592, 2155993416, 640194423, 1259075332, 729201222, 3959835773, 2144875732, 2925093190,
  1385114715, 1199817540, 1827973945, 4277328446, 1667500690, 1813201520, 4216305133, 3683123787,
  3252119561, 2609783781, 3670326446, 3781045892, 3677504629, 2301418119, 2664576372, 2939927005,
  2077477945, 2213518268, 2435204891, 291455122, 1398354536, 758224420, 3139616360, 3929442951,
  2870352526, 2298638423, 416208092, 1253152121, 4262642246, 2684458802, 2815000775, 1802705611,
  3776205253, 2245478640, 3886212761, 1151076726, 1501294398, 1917557168, 3281700183, 266978718,
  2189732016, 2810549984, 2949444115, 3388855907]

/-- Untempered seed-42 stream words 9500..9599. -/
def xsC95 : List Nat := [
  1572530661, 2449703520, 2886464910, 3355722284, 1799009956, 906919183, 3735537433, 1501226989,
  2651409223, 2078660351, 3642200952, 1502438592, 1793587306, 237751733, 526876813, 3894308170,
  1832186042, 664259617, 651617952, 1589413919, 3780661799, 3671432787, 834762249, 3093618711,
  1853940159, 3166882711, 251715072, 3143554475, 2473602528, 2839048199, 2802406099, 2703973109,
  3705194275, 2609127870, 2780011668, 1707960599, 557173989, 1026909373, 2214353281, 149358108,
  3351271830, 844543803, 174676327, 3135709290, 1153261640, 573363759, 3927271079, 1714676852,
  678728907, 393233010, 3793541048, 3693891930, 3166632140, 1527531408, 3398951799, 1072218642,
  2855737137, 562045888, 519054994, 112775751, 2972057790, 3304292523, 2090801545, 2901166754,
  4187489313, 2160226451, 3521735620, 1927918780, 2789343609, 799830814, 727032467, 2723729227,
  195992808, 2221057502, 2704539853, 1030917252, 2040525354, 1259608505, 645153042, 2867157453,
  1568024598, 2625515444, 264718713, 3800169450, 517674577, 504011856, 1780816938, 2619984862,
  2117726109, 1306218901, 2712341030, 3142295542, 3162814611, 616037317, 1212777639, 3505949186,
  2243329898, 2605696690, 4236465612, 915291999]

/-- Untempered seed-42 stream words 9600..9699. -/
def xsC96 : List Nat := [
  123406235, 1123105209, 1857991111, 268772559, 2427378319, 207903866, 352166344, 2333831098,
  3828560345, 1100663749, 2108162834, 44603407, 3571953310, 2127484715, 854250653, 1407908208,
  3336688742, 607652159, 2524443857, 155567454, 4188729486, 1034806262, 2279496261, 1603757684,
  838671531, 384642692, 2028067331, 4275372227, 1545115996, 3417275537, 1487024244, 940322922,
  627551378, 1098480063, 4025234728, 2650844868, 4015940825, 4039649107, 2469218494, 1152224139,
  3148084000, 200683198, 537091167, 1221391234, 3695616041, 3686146833, 1944773780, 2857254712,
  2192064873, 3668731589, 899095632, 476262861, 257808156, 1153350370, 998917372, 719542527,
  2756366924, 3073890793, 2031394430, 2016656574, 1122829599, 915627295, 1551577550, 132101541,
  3519620435, 3462154123, 2416666625, 4074355285, 4208094071, 1472691581, 4267468575, 2562338421,
  1747102952, 1254809729, 137414876, 3892341915, 3956445647, 1007512885, 389982332, 1469973297,
  145391459, 3810893966, 3298010136, 1949852160, 1663500677, 2656885351, 3877701174, 1843619059,
  3854056668, 1091676686, 1433177449, 2296354103, 3439201808, 3009885987, 2471557067, 2346360082,
  2345852080, 3476461648, 213753520, 949592847]

/-- Untempered seed-42 stream words 9700..9799. -/
def xsC97 : List Nat := [
  47045854, 790614750, 476824758, 298699388, 826172105, 1702645010, 970194343, 1121264368,
  528370534, 1865666710, 3970342699, 3077126989, 1587429940, 4282347590, 3765075477, 3046622391,
  4155677963, 1724061564, 275653094, 2837452557, 4279324925, 3125659683, 2371034957, 3503021454,
  916021601, 761317562, 1860499126, 1662695512, 1622466202, 3996280210, 1434861706, 1126811549,
  3893073851, 3969042077, 444952659, 2567797194, 3706665446, 3149152702, 1324050823, 2910359200,
  515809972, 919036555, 2299739009, 2109280724, 885887432, 2956340521, 2799655647, 1397286320,
  4116317604, 1250039715, 1272297388, 3746459837, 4005362498, 3918975513, 551855538, 362713388,
  38626583, 2303442424, 468551399, 3084816268, 638619594, 2852517744, 338603898, 3707073663,
  1453374546, 3452850778, 3533256951, 2959765925, 1986000, 1416039874, 1186183225, 458443584,
  1696825471, 4010456268, 704414730, 3682473939, 822857265, 2498026048, 1025055350, 3007414518,
  340792407, 1801650726, 1169007854, 3669368525, 2448530038, 3059789976, 4167833483, 658268450,
  2559379745, 524572630, 1976186277, 1227931942, 3055461762, 2658391887, 1598703868, 3978135937,
  1652639113, 698168604, 2278384128, 4136519072]

/-- Untempered seed-42 stream words 9800..9899. -/
def xsC98 : List Nat := [
  2786556420, 352547567, 2385998957, 721003911, 3233628572, 4123777999, 621233969, 3911038255,
  3955025329, 3229990648, 1617766610, 630925214, 1852441169, 3077626045, 118151283, 1392032568,
  4132097297, 3357373631, 4002868521, 3220292834, 2275019739, 3246212553, 1735209527, 4248912291,
  1668559549, 158398965, 2371716301, 2629397492, 2331494899, 1823773663, 2304798494, 2454900560,
  1533041478, 2499435135, 4263865112, 3736290429, 2278928170, 3146664060, 3589658511, 2410193598,
  265999808, 133156082, 397144334, 2542035524, 1692457768, 3947856417, 2116378821, 4150573967,
  1295685207, 1572058297, 128759892, 4287575898, 1835672587, 3431249630, 2495359957, 506419352,
  2555381617, 677535250, 1971181870, 420178634, 1293010781, 3430824969, 3437706760, 2889150384,
  2136675320, 3590440016, 685173917, 3229306434, 2195019101, 2821497529, 1822989041, 3327431935,
  2505672951, 3755475734, 3925140625, 1049392494, 1999930446, 1843542920, 40201429, 1403048346,
  2300572236, 52256393, 540769728, 4214514518, 985692413, 2036737445, 2191859468, 3668272268,
  2050471607, 2636127171, 2739261539, 2508995509, 2754179908, 1800471716, 1266379642, 983944651,
  1736933989, 3128949636, 1393441042, 3658414744]

/-- Untempered seed-42 stream words 9900..9999. -/
def xsC99 : List Nat := [
  1801801021, 3834052579, 3185154664, 1384228143, 3930582770, 2014856043, 1025241444, 4067185341,
  958934699, 2423670927, 3203989615, 2444192754, 683797666, 2856863908, 1720109832, 1891339944,
  2116763217, 2414035465, 3968300490, 2655767140, 1453472538, 1202573213, 714098411, 1264973678,
  2876575615, 1467306018, 1719802426, 473341992, 1975662895, 1190627200, 468751961, 4098532875,
  2192288317, 3234746179, 1507823279, 3883087965, 1957758391, 3529110351, 1857359876, 1433793423,
  1601098151, 1712315771, 3377422590, 3078280736, 1073123349, 1139613706, 3557915858, 3033206619,
  4146036039, 3266875202, 1129828280, 3410425991, 1371217096, 2844510801, 3359305391, 2432290308,
  809048571, 2303585216, 1886735068, 1993021374, 38672372, 490297221, 1175350804, 856805982,
  531487395, 2986813257, 3455288519, 735619241, 3747627991, 1227225211, 3764754157, 3428008374,
  2027210892, 860413191, 3936584100, 2549072545, 3325504641, 310923455, 3091466762, 4277598070,
  2497866378, 169591757, 3503625456, 3302754830, 1092357146, 3944937699, 3262772314, 4221039138,
  1615975319, 2977870558, 1910710099, 1409334605, 402911369, 3558159644, 2753657451, 712757672,
  2763715184, 3461824863, 1048441092, 3007022954]

/-- Untempered seed-42 stream words 10000..10099. -/
def xsC100 : List Nat := [
  2333604041, 169696627, 2326249164, 3529067074, 1527639288, 3954054339, 4090169031, 3222939747,
  806543615, 4070238620, 47859846, 1891639860, 2653346514, 1987942933, 416471948, 1426133420,
  3785685802, 1850872529, 274130696, 654554054, 3127115218, 970279728, 556061893, 4174050626,
  1007002984, 716701842, 2673987411, 336917234, 2314243226, 2250699751, 1839195253, 2707032083,
  2522625359, 1511817149, 1706860387, 230707336, 283531851, 2581580656, 1672519338, 2087106407,
  1486353164, 3310264246, 4265654517, 2356047612, 3847105076, 2833420447, 4028344359, 2634343651,
  3360014622, 387812815, 2335275244, 2956068782, 3960432307, 1646223623, 3872240273, 2219755331,
  3193839151, 1186160440, 2254877176, 2974908955, 160329964, 966095482, 2113943000, 846927764,
  51849562, 3706757092, 4248847891, 1138495988, 3469172302, 1027590394, 1271437523, 55028832,
  2869915269, 3023674273, 3537977357, 1484901236, 4072153688, 2017501758, 3903031289, 2636448505,
  4014299004, 1003409046, 559297927, 3923903032, 510394154, 3520246535, 3989297968, 3035808646,
  414293284, 2709872735, 3701209330, 2345304349, 194976204, 1740633639, 250487411, 1714684830,
  2849730407, 3174238627, 2398827702, 3170177475]

/-- Untempered seed-42 stream words 10100..10199. -/
def xsC101 : List Nat := [
  3376465924, 4100307877, 3533668594, 582977801, 2959848316, 1308755643, 4025527289, 3054932847,
  1394447632, 3939962236, 394616556, 2470633664, 999129565, 1753013407, 3102433335, 1451901224,
  2751846171, 461373975, 3531135354, 2775263004, 949211092, 2241176236, 3344143909, 2421311048,
  3011394228, 84657109, 3188513678, 519575151, 1720283579, 193120571, 2805229062, 2085354382,
  2632063179, 294664408, 2661998813, 207344286, 241901194, 675442934, 2778750295, 1583060223,
  545988203, 1978513496, 3337452152, 3616515997, 2072067583, 762281489, 460393136, 3102407450,
  3234077321, 1829775851, 3485609316, 3805092239, 2598492414, 2886599564, 3584802189, 2191977057,
  188061535, 1227446291, 530883167, 188349584, 1197231554, 3240694448, 2734734163, 1464936828,
  309991437, 4069067880, 1208378298, 1026580867, 3994093235, 1699570546, 3294831642, 2999216815,
  1213530419, 3844019982, 3671926774, 2839544097, 2940120202, 4279537372, 2494732686, 3718784911,
  4182498225, 3343056358, 179116024, 682236324, 1916574538, 2536666823, 1623012079, 3884623163,
  3293634323, 788192246, 1248135168, 2508483264, 3855687366, 1095886161, 2751234003, 2595687843,
  1259645588, 704063060, 2464810996, 1142632857]

/-- Untempered seed-42 stream words 10200..10299. -/
def xsC102 : List Nat := [
  2412404996, 4187595053, 462806680, 2827761802, 481773413, 1722752617, 3484813955, 1116164477,
  85888485, 3855063781, 3402166241, 2802338571, 1422385398, 3534516553, 2788310489, 2803580673,
  2049834979, 3436146143, 2088564812, 1524158268, 2578634309, 3663777933, 3895754456, 1042268514,
  1982295388, 2418678072, 573679058, 440935761, 1278178126, 2161733160, 3621059999, 2954675403,
  309051902, 3441362766, 1481036987, 442578864, 351613654, 2192019991, 1496669836, 3176542433,
  3177786965, 2330038587, 295957251, 3715203949, 814015274, 2326887157, 1221067004, 999670616,
  849599602, 2220656923, 1588119036, 1376381382, 2523336197, 4080064361, 135457479, 2604882643,
  1066598375, 1516895969, 3998900081, 2029762556, 3144735947, 740965180, 4137559442, 221750235,
  3693403183, 3938025562, 1476447910, 4022080455, 832388833, 2276838079, 2571727200, 1024637535,
  1555829538, 2865767951, 171822298, 3488295568, 893571262, 2532596370, 1011555086, 4264169365,
  2693545260, 2588409262, 3092715804, 102771839, 3304210792, 2824546591, 733407254, 3093451418,
  3350454624, 2936877319, 3525278305, 3883314238, 773558661, 1533461827, 2525607441, 3134588986,
  2169636965, 1339096253, 2924423922, 1206818493]

/-- Untempered seed-42 stream words 10300..10399. -/
def xsC103 : List Nat := [
  1933024740, 3648918579, 3930487347, 1877323062, 1238528633, 2330613237, 3879285753, 1205757793,
  2917667706, 1388754588, 102432926, 750248260, 2975491584, 1584999771, 697678274, 2127469100,
  1631472401, 205206472, 3458715540, 1316386708, 2406927, 1219554603, 3815793350, 2830991624,
  2864505036, 2161039085, 3021206781, 1222068671, 3336281388, 1467928318, 64297073, 3218380495,
  2040262384, 1084970163, 1957346838, 1012053002, 3578312031, 4273525049, 1350677060, 3646717831,
  454907681, 2967236804, 3675454065, 1116065722, 3752744665, 232384003, 3440298459, 4208447419,
  2468726513, 4028755326, 2715753060, 2200196601, 840102172, 3570400203, 2791589246, 3414428345,
  3837991594, 1937665776, 1892501355, 4069884984, 1279924231, 1624761537, 451384782, 1093947344,
  2854842732, 941715528, 545725461, 988665487, 4110294547, 210397128, 3190543685, 1093418797,
  3508978975, 1050399078, 239432603, 3080349480, 2161373240, 2679144381, 3892465945, 47176362,
  2829835632, 22400545, 2571742631, 1480446138, 1546363819, 1437857250, 3159094896, 738989035,
  3889052573, 1397004279, 2523701617, 1383415525, 3636103817, 4065791865, 815383587, 1166571091,
  1388853524, 2426234399, 108253593, 2312656628]

/-- Untempered seed-42 stream words 10400..10499. -/
def xsC104 : List Nat := [
  4016929326, 2219944653, 2967519578, 2082346622, 3399815119, 3060026361, 1778096182, 2981303946,
  2624759210, 4019432674, 2067015989, 3883052805, 3633339692, 3276839138, 3272787368, 3747581394,
  4174086286, 633351294, 973217503, 228134109, 1436516319, 2686111443, 3790614387, 404690838,
  4202573820, 217648413, 2288997253, 2945761738, 443874325, 3491679711, 84562626, 4032922978,
  116244757, 3212877546, 1347076786, 2871213074, 1735870052, 272970503, 2389972631, 4142544545,
  799701961, 1215429522, 4175682928, 2699578065, 897155044, 2529350024, 4252032818, 1895858116,
  1204821160, 2006060129, 1883468952, 2857646458, 2138628104, 646025821, 1398883065, 564092653,
  330101704, 2831566867, 1179506218, 1367414379, 2430083952, 2880737187, 1572169455, 1394104374,
  2169533550, 1390454283, 3063153091, 3474539457, 642703604, 4156158910, 2144038517, 3474004190,
  1029705846, 1260281046, 72505589, 3709763240, 2719928948, 2382258377, 488523146, 55033186,
  2801924192, 850134608, 2546397110, 2148707478, 3848163386, 2284437621, 786546724, 3302839607,
  120248596, 1006494467, 755631354, 71747166, 665280985, 3076272897, 1436477799, 3795405381,
  3898198836, 1958458359, 1649705192, 1730564357]

/-- The untempered word table: 105 chunks of 100 words. -/
def chunkTable : List (List Nat) := [
  xsC0, xsC1, xsC2, xsC3, xsC4, xsC5, xsC6, xsC7, xsC8, xsC9, xsC10, xsC11, xsC12, xsC13, xsC14,
  xsC15, xsC16, xsC17, xsC18, xsC19, xsC20, xsC21, xsC22, xsC23, xsC24, xsC25, xsC26, xsC27, xsC28, xsC29,
  xsC30, xsC31, xsC32, xsC33, xsC34, xsC35, xsC36, xsC37, xsC38, xsC39, xsC40, xsC41, xsC42, xsC43, xsC44,
  xsC45, xsC46, xsC47, xsC48, xsC49, xsC50, xsC51, xsC52, xsC53, xsC54, xsC55, xsC56, xsC57, xsC58, xsC59,
  xsC60, xsC61, xsC62, xsC63, xsC64, xsC65, xsC66, xsC67, xsC68, xsC69, xsC70, xsC71, xsC72, xsC73, xsC74,
  xsC75, xsC76, xsC77, xsC78, xsC79, xsC80, xsC81, xsC82, xsC83, xsC84, xsC85, xsC86, xsC87, xsC88, xsC89,
  xsC90, xsC91, xsC92, xsC93, xsC94, xsC95, xsC96, xsC97, xsC98, xsC99, xsC100, xsC101, xsC102, xsC103, xsC104]

/-- Tempered seed-42 generator outputs 0..99. -/
def wsC0 : List Nat := [
  2746317213, 478163327, 107420369, 3184935163, 1181241943, 1051802512, 958682846, 599310825,
  3163119785, 440213415, 2906402157, 3181143731, 3831882064, 2342331444, 373399426, 2536146025,
  1812140441, 136505587, 127978094, 402418010, 939042955, 999270936, 2170484433, 2585650756,
  113971123, 2410529190, 854001193, 3075280817, 2791232393, 3012167820, 2340505846, 1801823908,
  946785248, 1929338154, 2530876844, 1194819984, 3476477323, 3733616459, 27911967, 3259052811,
  3460967357, 685731524, 2998485882, 1815115025, 1461364854, 1193448329, 667779376, 924765563,
  4111198819, 3279182318, 1445662585, 438989805, 398340369, 1631775357, 415393687, 1541804686,
  3639960595, 1477278577, 2592983555, 1136108454, 3466589567, 186618211, 3134174160, 1973214822,
  2303082117, 536124280, 4179500364, 3961228449, 1625792787, 338444264, 2370996465, 1259191105,
  3562265906, 2699987374, 2656522106, 3802986287, 3701002945, 1553210608, 2479708607, 825873196,
  3026113008, 298737106, 196814233, 2840104345, 978815630, 3320303242, 1242911821, 4231494220,
  342703921, 3673561638, 999829240, 3721519026, 433797840, 1632629719, 1193887545, 1947382419,
  2730243887, 3582477022, 1566942273, 698594025]

/-- Tempered seed-42 generator outputs 100..199. -/
def wsC1 : List Nat := [
  1589915144, 1525876051, 899825838, 2878380452, 1146660997, 3014295294, 4022900809, 2935814872,
  2783290795, 306671447, 2616197747, 2727210979, 735034881, 2294113287, 3131575764, 1051454923,
  701808367, 1985392498, 1629748727, 1159417075, 4249970406, 3974524834, 2748778024, 2955633092,
  2392080953, 943239974, 2940395823, 1392783743, 3620021413, 3299881676, 3332894265, 240251661,
  983753977, 3529615275, 137869475, 3457645390, 1354860540, 1722989659, 1149938334, 284277889,
  906164396, 3921889760, 4049766372, 2436019774, 3763970286, 3083418319, 1351531223, 913224047,
  2815087637, 2144181937, 1699226064, 3799685197, 3927951973, 2761027762, 1970753705, 613628803,
  1137651678, 599707677, 1059257080, 3199703321, 2411057787, 2314889832, 1128466620, 3208399878,
  2510777721, 1840109255, 3856119925, 2506254832, 1715412119, 1554762903, 941975480, 4283481572,
  4284391408, 594130308, 2188398760, 2119634399, 390452952, 3246059658, 202363285, 3698408854,
  470939445, 656448479, 2694860228, 687117441, 3401954956, 2922644564, 1813163240, 2561557300,
  272849424, 1652563013, 1639042338, 2559321289, 4278308761, 2010258946, 2272528809, 1079815404,
  4170749881, 2376087131, 3697020653, 4047709743]

/-- Tempered seed-42 generator outputs 200..299. -/
def wsC2 : List Nat := [
  49310608, 2921794983, 3095476665, 491995979, 2927923735, 3800137469, 2306270004, 3224995600,
  1146005448, 3301106403, 2752909971, 1461042543, 479112937, 1260573448, 1867302554, 679282378,
  1948728483, 13938521, 4096608204, 3101361778, 3761759725, 3091004939, 1131247330, 4174227595,
  2150000991, 3272602734, 767303988, 2180476188, 3919706735, 457031004, 3738848790, 2685643886,
  1281810600, 3614942327, 2744267175, 2180395476, 2615507143, 854316681, 656439677, 1605947756,
  3274958945, 693847829, 2316615266, 4095250239, 3344175247, 3961824197, 2277851678, 3944899549,
  2456273, 2572447412, 1392239675, 2098545541, 83651970, 480468219, 3990448177, 1558990517,
  3774081712, 4231923083, 3571976249, 3465071405, 1320763135, 1028439863, 248786714, 1034535593,
  3771022520, 2436779490, 4067116918, 338258951, 367878761, 3143519183, 2087313121, 3504793184,
  297265480, 4200411392, 3266761413, 2287955558, 3289233844, 540137296, 551437149, 2833608204,
  2041322270, 4066684108, 2361388464, 709214891, 1138409539, 2266341635, 3747071386, 2605301030,
  1817363615, 4141907136, 909666337, 3989653086, 2316259067, 3243839315, 3135030058, 2962958940,
  863937247, 3062092518, 1338811290, 1713658874]

/-- Tempered seed-42 generator outputs 300..399. -/
def wsC3 : List Nat := [
  4274133950, 2884873529, 2791205006, 1603828849, 1881625505, 3863813067, 2222971316, 1939118223,
  519709079, 1064746525, 965067727, 274989148, 1452066459, 90341465, 2526766690, 2379074819,
  988335251, 2527331058, 945826486, 30884438, 304912982, 3040153710, 2710566582, 252860896,
  983297492, 289482182, 3888749350, 134917627, 3692105921, 1419179580, 304330003, 2208283728,
  1022222125, 1196050747, 2873237671, 2084839399, 920140090, 2315992115, 568275055, 3106775595,
  4018003062, 3789806435, 2452611418, 2474810179, 2030106617, 1043665192, 3369914783, 2031403296,
  3468173213, 1748309234, 817804383, 405126228, 416314667, 2830309370, 1851350739, 1521696479,
  1819256337, 1765670844, 2005855667, 3710150572, 3131356954, 232663462, 2892078691, 2806569935,
  4226957392, 2775320897, 422701550, 260329455, 1729245242, 3127653547, 1457293575, 3438518641,
  3700855390, 469306919, 1067970820, 822873088, 816941039, 2303329764, 1926780541, 602078388,
  1811967841, 788075126, 1196342297, 1986972437, 1072910527, 3755888575, 3965395580, 323775634,
  1903232052, 3470429115, 3699466215, 3676349806, 2363629219, 420514789, 217275224, 2800940984,
  4291885525, 2321807489, 3590711152, 63384488]

/-- Tempered seed-42 generator outputs 400..499. -/
def wsC4 : List Nat := [
  4161807235, 400560567, 3978715881, 3236539184, 3645120421, 1015242176, 714300770, 1745535098,
  2085812759, 2067418686, 918037633, 3713645169, 1722454917, 3875962612, 251837136, 707111048,
  1627677155, 9257255, 4231869256, 1676848676, 1139038460, 3979364815, 3367557574, 3372104909,
  1954246074, 1225136114, 1816803306, 2991837720, 4111647939, 3137496438, 4275307901, 3364512142,
  2387006772, 2842715617, 3085540042, 2090237817, 664847319, 815605132, 1274350418, 935018220,
  4160575046, 251183830, 2487560384, 3159967109, 2328710672, 261810763, 3212530587, 1346922426,
  245522987, 215359682, 2509023674, 2047791082, 2159725924, 3948737639, 3662404042, 2281169403,
  676168421, 244295904, 4126513954, 2181106786, 344076115, 3656488400, 798112150, 294296873,
  2555656321, 291889680, 2900015820, 3701485292, 1010193046, 1734202799, 514909066, 4044124555,
  3823754905, 2446737272, 1057486868, 2486438403, 2553440342, 170689150, 2660223333, 352116052,
  1800557283, 2823396242, 2506853388, 2427631155, 2245334677, 1358798143, 4014532821, 1119980130,
  877286584, 2876451163, 3076020365, 1349409434, 1025148381, 1140805649, 1699887270, 562117925,
  2884887548, 2772404776, 1288477634, 1963764597]

/-- Tempered seed-42 generator outputs 500..599. -/
def wsC5 : List Nat := [
  1357970698, 3990103355, 3229233394, 4018948187, 311570307, 40009587, 1968321319, 2667858669,
  4288329154, 2418039268, 4278201677, 429416213, 314652384, 2309122187, 915490795, 2172758220,
  1139027119, 568896616, 4008318526, 1498981529, 3783282817, 295456419, 3776436931, 1049193572,
  1587106770, 1224011538, 677517496, 1881988384, 3580907314, 2333103372, 3021680963, 1299301222,
  2627135980, 4225617788, 4240133721, 3466467857, 2808806886, 2271782991, 33599984, 2868450609,
  3509435546, 2381998678, 1285821930, 4001861726, 2849232839, 444900634, 4032673646, 3771526597,
  576775951, 1135872495, 495762348, 3821286999, 459716009, 3188655387, 2376077463, 667643690,
  1169726681, 1210133979, 2597724331, 904647469, 3082120871, 1472659626, 874443787, 2952777682,
  2724031273, 3663232650, 1133802214, 2170715377, 2098228320, 1078557553, 3888390599, 3900513400,
  3633987776, 218179599, 396418889, 2724230947, 1819244083, 3562022940, 1188332531, 189351213,
  15228622, 1432614422, 3311931853, 561866144, 2736381108, 4208200162, 1125089309, 693989311,
  3183562527, 1897669065, 2369449369, 3030818620, 1836901321, 2409076656, 41531046, 480494664,
  323169889, 4058962851, 3792913072, 2967906665]

/-- Tempered seed-42 generator outputs 600..699. -/
def wsC6 : List Nat := [
  3882343658, 640183291, 2343292475, 154739678, 3584558315, 1585770584, 2501859536, 2373077218,
  636057975, 1845919895, 547374338, 179653598, 1323959527, 1566166314, 3861096073, 4007582471,
  3419319262, 4175551143, 3696689457, 171347175, 3860851904, 1536778950, 902271852, 2929454134,
  1071722055, 2864457210, 441495235, 1519038154, 3350573756, 2404681399, 3797329628, 3756862531,
  1745377599, 4182598148, 2665720874, 3218981849, 663801533, 3976125337, 3993808565, 1016779084,
  3713453204, 697939765, 4192772969, 3435488617, 3482238042, 760434128, 3785653776, 1770791023,
  106456634, 770348179, 3163520297, 3970642689, 1426725702, 3360324392, 3997823785, 1768294570,
  3445573666, 2877229210, 3711126727, 3157048077, 3482141802, 1065870178, 1145921803, 683749521,
  3381747775, 3011966884, 464267175, 1643004186, 3745927824, 166320906, 3687629943, 2021598245,
  955345537, 857158768, 3507212752, 3944720882, 1976987348, 1501771491, 1310784794, 3524176919,
  3415982886, 3742303947, 977515194, 957449367, 101637979, 2834820954, 829486135, 1711398352,
  1409874348, 1196591018, 3712367625, 298159856, 4152757072, 3321412630, 1198832728, 1508161137,
  2755143093, 2187880715, 1716605598, 2918508077]

/-- Tempered seed-42 generator outputs 700..799. -/
def wsC7 : List Nat := [
  4214005797, 3623497101, 2303029031, 1422277848, 4033992825, 118543408, 495389030, 3766851291,
  4167838882, 1121910732, 766942939, 2493613917, 4134053399, 4224317562, 1140169349, 164313410,
  465585404, 2562254028, 1866437132, 1484714820, 3129077209, 3377683299, 1347233823, 1874297457,
  2603647189, 4227260783, 2196545325, 496694873, 1654401763, 3863343401, 2476426797, 816382125,
  1094024844, 190638698, 3044209616, 1872852789, 7263971, 2233040884, 3975315062, 3463937792,
  2312633708, 2950028965, 3089928308, 4038399339, 3186651306, 3165552769, 2880327491, 846259450,
  1564319318, 1852408227, 300535210, 4075384877, 2852879124, 3954680709, 1418198351, 2676432103,
  1348257414, 2849227494, 3642197907, 535261654, 3091320992, 3865671731, 1289874320, 2178074590,
  1328367510, 2864283209, 1754034197, 1400944900, 1728296502, 2994487334, 1269829408, 2381183483,
  546696950, 823946934, 1805803262, 2855850145, 4038831207, 1628416575, 2909058412, 3213213454,
  3877520294, 747441732, 2643616431, 2444288473, 1292569882, 1744079573, 2353372386, 3580822352,
  1743499, 1305132983, 1232285036, 902727745, 1846355528, 3374808475, 2491015654, 2605591588,
  2811939242, 1384049914, 1997109065, 1897456484]

/-- Tempered seed-42 generator outputs 800..899. -/
def wsC8 : List Nat := [
  1899061865, 2901796894, 917840538, 2195475598, 2032319170, 3409067573, 3870542148, 4122447047,
  3418900313, 3160930353, 728818981, 2829742424, 364194056, 1218853328, 2213849513, 2851230518,
  2718460279, 2659704908, 1439622619, 401094954, 3515101988, 4088807393, 3226113732, 1008752943,
  2889635392, 1333241445, 964824319, 3464161270, 855256552, 632880459, 104906255, 198486416,
  1051590706, 4225973028, 2040695043, 2625401719, 3649595613, 3300636585, 312794864, 1955997540,
  1780010572, 3805929053, 2704821724, 2472487690, 835092972, 3085272193, 2990818727, 1649174966,
  2123333781, 1716495971, 1047905204, 633814084, 2817747689, 2953315788, 23814791, 3833944737,
  3225367864, 3695564089, 3307323181, 3803044105, 457788949, 3343290201, 1825989011, 939915527,
  755427535, 3453625530, 4114432816, 2988918316, 2224611603, 1995226582, 215686308, 2394039673,
  1070298438, 3940503685, 3643576871, 521231222, 1960488639, 572687073, 3442058095, 1995627518,
  2867224513, 2281194061, 4242965764, 2400565848, 2557448229, 1362784338, 4080389027, 3243774098,
  3828645201, 1900838388, 2631321682, 3500426290, 3089258120, 3831197998, 2168005699, 1832837596,
  3567267411, 3894911417, 2353092123, 1915184358]

/-- Tempered seed-42 generator outputs 900..999. -/
def wsC9 : List Nat := [
  3853479481, 683577992, 3193975799, 3700092464, 2038711176, 1933034905, 1113219231, 3228856718,
  1061886576, 3607183629, 2738735023, 1191043170, 3289144721, 3340087993, 2238965651, 2081328344,
  2691864041, 1027553177, 1179387055, 1889238423, 332788471, 3064651867, 1227193073, 1007142260,
  1167007513, 1442454200, 1373142116, 3835521053, 2319936135, 346078411, 594312071, 647812758,
  993260504, 1645124051, 2980491761, 656293602, 3034047118, 918920620, 275860817, 1781844052,
  1750625978, 1421124738, 2330497115, 2001129658, 1785736751, 267429212, 888346940, 3577240334,
  1804502687, 1672790155, 3886251649, 3306247679, 2508601974, 4063305495, 2987248494, 83889094,
  3679636056, 3782391589, 3288203651, 2472571231, 1633724084, 2048612358, 25323460, 4049044592,
  1510792572, 1282531582, 3236151037, 1674979897, 3665531029, 3829571259, 4094952113, 3589427315,
  1799682701, 2311639723, 3210555359, 3155229266, 2345620385, 3435407619, 2590950133, 3856070374,
  947206476, 2096929657, 942408767, 1172248246, 1871901278, 2085816511, 124660666, 1670128972,
  1443665390, 2872790327, 2916892179, 3427995190, 1736526879, 3110335359, 708861714, 3609944328,
  2007425404, 3949401194, 548157187, 4212168831]

/-- Tempered seed-42 generator outputs 1000..1099. -/
def wsC10 : List Nat := [
  2672573305, 2294043548, 115820025, 3895229819, 1692304102, 2542160120, 2424045110, 2847562279,
  116402431, 360551585, 2760588734, 1840877826, 582824840, 3723098211, 1982979741, 780520225,
  215970859, 1117362852, 1628238707, 1405969000, 909074012, 1952918745, 1403792057, 1449553823,
  3269456693, 3778024983, 1628334692, 1195103064, 3229857594, 4085390589, 3573087602, 1810607153,
  1083497965, 3585915088, 351784589, 2019952485, 83250566, 3217034696, 2316787198, 223705953,
  4294571397, 4088463963, 1503068227, 963026855, 2792347639, 294713656, 3355370399, 4111510355,
  2799264931, 172907376, 3239406957, 133272825, 4078551333, 1062073697, 856247605, 3604460472,
  87531510, 2668616333, 654477195, 1024542722, 542114964, 2033929266, 2875303857, 491298929,
  2422230882, 4070585433, 936150587, 1997305752, 3004179184, 1100558303, 3293802269, 1584392711,
  720648887, 2602289301, 2608108101, 4139209207, 3212316223, 3085320828, 491914923, 3340590688,
  3518871744, 703368777, 4143444172, 1335901990, 464280597, 2485432021, 110287971, 3989540022,
  1339846171, 2473028098, 2909184445, 3899942615, 4115320994, 1611931113, 1703617827, 4043585413,
  3070964768, 851819913, 326402374, 2543040948]

/-- Tempered seed-42 generator outputs 1100..1199. -/
def wsC11 : List Nat := [
  2966166331, 3567277991, 2693985578, 1043030161, 437662764, 2994421136, 3317780148, 1295287749,
  3651981656, 2938870196, 2578748240, 3459716271, 519927529, 3419769846, 4225579315, 2430661792,
  3361393222, 176390590, 1491228808, 2288123416, 1839869544, 2841212515, 1591589823, 296166921,
  2173085046, 2781177100, 1465576748, 54340558, 3648899533, 1804138557, 3531884396, 2105400301,
  453285987, 1861968817, 4126551191, 1555585773, 2729817240, 3829285512, 3559270786, 1974565461,
  3037867512, 657091982, 1870403050, 756502473, 3151626818, 2240885202, 4146678097, 2793693337,
  1159995046, 2645323395, 3471189200, 3949727766, 2311435034, 3327059683, 2076605983, 1996617659,
  1870778191, 3546503094, 3139733667, 2544659112, 1152750071, 1384287616, 3658080160, 1054393708,
  3567962531, 4014170428, 372214308, 1197987692, 3786577118, 1936179853, 1047385483, 3223271103,
  1995907669, 2447485590, 2621354709, 2869847630, 1627746667, 1444812497, 123265537, 2123030247,
  3654814605, 1395925222, 780996231, 2094011037, 911047815, 1523961606, 3426663902, 1109615163,
  1461744198, 1201124041, 3780945510, 2560466250, 3011561274, 3780032269, 1186564497, 2387104291,
  43598698, 2218897149, 4071897791, 820581106]

/-- Tempered seed-42 generator outputs 1200..1299. -/
def wsC12 : List Nat := [
  367704871, 1036616336, 3092697141, 1745595491, 2098425880, 2384463652, 3256292393, 1032183433,
  2966144543, 2044804330, 2774131811, 3057339843, 2108061573, 1924895021, 3405620755, 74059253,
  399661102, 1263732197, 951749308, 1736889606, 2971203213, 1044987715, 1315144891, 2851686578,
  2497762234, 1584930775, 2032638323, 2377148230, 2280292341, 1476426754, 1827524957, 4280499551,
  3203768294, 2363900493, 1420737819, 1511014697, 3018739003, 1948821078, 1163577186, 1316935719,
  1079770569, 990153355, 518213060, 3097892639, 827143233, 1355268102, 513483708, 3190649866,
  2301518177, 4083988011, 3273579452, 2964229896, 795212538, 822662216, 929364954, 3172282824,
  2079617090, 1187556862, 3112068867, 2532256470, 4194495212, 3265068044, 2253298195, 2563196714,
  1215470157, 4211261115, 431756350, 3576111591, 833728665, 1272368870, 977032766, 1549972386,
  770695571, 1298229437, 60766757, 3040916238, 2294092753, 543669676, 1178158203, 195488441,
  4184564874, 234187462, 2376658660, 1254717325, 2995384868, 4054834021, 542366274, 2739629302,
  3730012426, 3233217762, 2108307952, 440610570, 3748302739, 52679490, 2465587067, 1221228113,
  2016044512, 2056061866, 1891799103, 1463320861]

/-- Tempered seed-42 generator outputs 1300..1399. -/
def wsC13 : List Nat := [
  791835934, 4146780827, 220661337, 1084386400, 4041837371, 3701071948, 2051831252, 490000526,
  3530959836, 280647907, 1721025347, 2112035409, 318180503, 2478286982, 2703448716, 2948284698,
  230249217, 651662547, 640798731, 3483828685, 2417377633, 4076463610, 1304963614, 365849190,
  4268845844, 1065972034, 508745584, 2396905421, 3283259600, 1787453807, 2604114475, 2560345306,
  3396205985, 2656086594, 969318858, 3331578385, 2244431947, 1633711193, 1934944879, 3901996605,
  1901472238, 1277121963, 3694387705, 2527696207, 4252151888, 1841810119, 1311598149, 2442244963,
  2667292043, 258687184, 2618344818, 4123635783, 3178659381, 426204934, 4069868910, 3275930923,
  892442253, 2686566602, 906346324, 1136646449, 2836517266, 348697524, 674555072, 1030213097,
  746523513, 2370788647, 322401182, 672302490, 11492154, 1754569613, 1934898666, 2960826470,
  2550399650, 2018258729, 1250949136, 140187131, 994182853, 1237401063, 3036352185, 1214266162,
  3019308557, 3691982799, 1950049698, 305714736, 2952295757, 1002547591, 3968167735, 1136253459,
  3383695608, 3398383187, 2684603688, 2533126989, 2839759520, 3452748602, 4010075517, 849627058,
  1825957977, 492960451, 2338877621, 965549222]

/-- Tempered seed-42 generator outputs 1400..1499. -/
def wsC14 : List Nat := [
  2781569954, 639904576, 3901597465, 1140882778, 3550353803, 610900200, 306702926, 256143439,
  712632936, 3404313767, 1321182659, 2555694670, 3216748927, 3540085129, 2444725646, 3956491798,
  1239573053, 1886149718, 534094883, 2013042435, 2957849462, 1306061701, 3005333281, 1728760924,
  4048763624, 1169288485, 2149511642, 2319203166, 2120834317, 1880160025, 345495128, 2568547910,
  171200764, 3820042236, 1855548990, 3154799197, 1384360647, 2592930364, 1075321966, 111088881,
  392245997, 983222878, 4131376705, 2896089430, 3590414903, 3695891819, 2470461357, 2521673791,
  4083595988, 89101055, 4293130825, 3284620817, 2887427412, 3527977383, 1157541038, 2474961963,
  172793727, 3277528204, 3248149900, 752438459, 2020785643, 2228932714, 2798211967, 1899360801,
  3934502656, 1194673401, 779489931, 4281848220, 2513971584, 1872111746, 2726379588, 3497155420,
  2111946238, 4162060546, 391883149, 2018679284, 1494481363, 1753841726, 1431548670, 1378934717,
  2878201524, 449253056, 3683935600, 690737494, 1416495962, 1768002206, 2979305739, 2128023255,
  1237886015, 2845774616, 4059575358, 1719929315, 3494239516, 3266321661, 2362646960, 157612991,
  1953462417, 378213925, 1350840898, 1084044802]

/-- Tempered seed-42 generator outputs 1500..1599. -/
def wsC15 : List Nat := [
  1388450337, 497879474, 4166911649, 3318068090, 1735918651, 3714762680, 2210174072, 3543035341,
  4243939720, 4943787, 2824629834, 3733904907, 2330421741, 1984173309, 1774884818, 232804774,
  805660882, 2226680251, 1553830525, 2674192109, 3248898619, 2141011556, 2686110098, 1898551433,
  3264134512, 221670908, 874275988, 1146997816, 2358880404, 562697526, 3984324182, 1237075775,
  1881694278, 3783207393, 2998961044, 2081821325, 521521078, 123993296, 4179633740, 2705925058,
  2615083895, 3433026356, 1027774780, 3048494026, 680229045, 1334661688, 2365835550, 58731376,
  2371901750, 1752306681, 400330495, 965081954, 4261711961, 3613809882, 3921003983, 487311805,
  1981903597, 4067594934, 504513251, 2781891923, 3574027737, 661300942, 2140506492, 4005714396,
  3077787850, 1253535854, 2185588660, 3029719886, 1174350979, 1784517419, 3585112032, 2072319898,
  4210118640, 2028168523, 1046816259, 1961882949, 2367665472, 621232513, 1647489402, 818665301,
  3959393557, 2574307168, 2182878006, 3205302077, 3776677517, 586298866, 3710967433, 299832023,
  1186473561, 3318614428, 3393050713, 3669673229, 1782164134, 1459753033, 4012566291, 3383220511,
  2180716723, 1147497835, 3524233168, 11017705]

/-- Tempered seed-42 generator outputs 1600..1699. -/
def wsC16 : List Nat := [
  1214784185, 3118365242, 1282287615, 3596931684, 2520878317, 2490751945, 4290252845, 2834423953,
  2102989254, 3716265973, 638212450, 1917906456, 2313185971, 2080230418, 1482296058, 1427818730,
  2370467256, 3276513211, 2334014365, 1620104855, 1955690228, 4006569938, 1382023198, 3734910807,
  810255760, 4212394947, 2995732958, 1025662000, 2455852189, 1644847276, 1003143045, 3676547724,
  3330938159, 1764265618, 187463722, 1366556920, 3198484273, 2031417512, 3028930672, 3923152675,
  3484974703, 1637375316, 1658195603, 4245205804, 2850521812, 3403304832, 3525083896, 2800400286,
  4212581851, 653287375, 2127420335, 4143889422, 158998032, 542223599, 2157324056, 4146162107,
  2534805646, 1425906387, 3735334423, 431062656, 3754619063, 3629416688, 1891100776, 428258482,
  2258942692, 3910317247, 1962491159, 65917432, 3102872611, 619142798, 1760844750, 3740628617,
  2812264367, 4165932723, 662976399, 321384892, 2016446768, 3356625550, 4162697889, 1138264176,
  1454109425, 2676878743, 2975143612, 1707177877, 2791027186, 344951668, 3658304095, 1411178445,
  3660778145, 2896343368, 3690846590, 2291890389, 1632127923, 4097998347, 1360049298, 2692081959,
  3086867825, 3811520099, 3261605950, 2095718469]

/-- Tempered seed-42 generator outputs 1700..1799. -/
def wsC17 : List Nat := [
  3746856528, 2323646093, 154185462, 2651968205, 293864877, 1008330525, 2710815922, 2939473765,
  3955360367, 1234283419, 4283911723, 977046129, 3207337120, 388176285, 1863893256, 4201928545,
  422809996, 3265762953, 2721926191, 3023188080, 3747699292, 431675310, 1905584866, 714531298,
  2980712298, 1286196999, 3880176825, 124327519, 197529702, 1393178591, 3419410162, 241030242,
  1260005019, 1539588337, 1609930218, 1849785671, 625217504, 1048819999, 2281341978, 1769748771,
  2430642523, 2928310291, 3403845222, 773338452, 730074215, 751917162, 339166473, 2617747281,
  3740227599, 1643015259, 2661635754, 2934040683, 1034356087, 2137464556, 3920570781, 2504640817,
  614685938, 997241761, 1980623803, 2739779525, 1090824373, 1973840257, 1096619850, 2864059081,
  40361651, 3860782736, 3455872736, 1998247509, 3870665004, 1235368585, 2910316591, 2347621138,
  678500147, 317234448, 1897214963, 4059756133, 1484193033, 4241931722, 2523601252, 1284857706,
  2744220825, 4131883398, 1822393017, 2964873967, 1074163698, 1962094851, 3630552730, 1297602688,
  855630484, 4292276786, 1652244897, 3665047890, 2075362821, 458072318, 1018790736, 1637947177,
  2456389272, 1541717841, 2468798461, 1270762239]

/-- Tempered seed-42 generator outputs 1800..1899. -/
def wsC18 : List Nat := [
  4263579856, 3003380792, 1268006448, 94229853, 4200239562, 3564984187, 2827075539, 1699972733,
  1178884276, 34780500, 2430646623, 3715436184, 2945486396, 3342822939, 3198328318, 4181592277,
  210643427, 3911070030, 2604496061, 3200490039, 2133427445, 3577015837, 3883317382, 3878075939,
  1229194523, 3331782118, 3431078106, 988350974, 2607324296, 3444271529, 1513206988, 940617318,
  2734252963, 816610683, 2666707262, 1076433900, 2910976189, 3245179885, 3096363800, 3296261873,
  2831163141, 2924250367, 3600630513, 587462342, 2698305085, 417315900, 3880089348, 2694912057,
  2776011793, 169318686, 1326856608, 3387056244, 1893321208, 143299564, 2489250532, 1567067057,
  3145461251, 564409423, 387119894, 3906821722, 1267489756, 1403247962, 3210405862, 1784572192,
  754368373, 862407093, 567622001, 3378046814, 2316738668, 3764369596, 4172515979, 1571346130,
  2279993598, 2155192095, 3923396682, 1170496062, 3566852761, 706712922, 1103678092, 3925810350,
  3542015770, 4055255806, 2069520666, 4154882964, 3463841709, 1267622868, 3206447974, 3738326480,
  1454770940, 3454152476, 494650131, 2011467975, 4135595227, 323408297, 604546780, 3239055974,
  4151086814, 969007714, 3694275735, 2904788278]

/-- Tempered seed-42 generator outputs 1900..1999. -/
def wsC19 : List Nat := [
  3110487082, 2896552701, 4208819875, 1706869362, 4154391920, 3632444865, 3455677607, 2393639475,
  1570991899, 387847884, 3395953188, 1694684834, 59780189, 1135840948, 2304560537, 530809576,
  1953291127, 1583063357, 2889775885, 3216980347, 2887681752, 1125974687, 2510666490, 1636492037,
  3532255403, 2742548209, 4038522943, 1595467139, 465342967, 2898400928, 1004257438, 2024977737,
  107480046, 2660933507, 3797759723, 4050880598, 2411226340, 1408776235, 3930994199, 2620283102,
  950764876, 2781645815, 271515109, 2729039064, 3538431800, 1994013856, 3905790156, 3011103518,
  1297896903, 2788462200, 1753617371, 501119337, 600337712, 194763060, 4064162365, 159824875,
  1307235909, 4277475494, 2115806625, 498733671, 417436465, 1008458444, 3810749722, 2308745090,
  582672654, 1669221121, 1948385094, 1593482331, 2879716355, 4077559346, 3191762519, 2991375951,
  4062927768, 2320109101, 1800135697, 2522607583, 3188021127, 3120719599, 663670797, 3802823261,
  1781915481, 2812868150, 425294682, 3580684522, 2101729519, 2644206129, 1752844368, 4033202199,
  4086753847, 1201474778, 140515379, 2964732879, 1591414076, 933166190, 1904315855, 1909954149,
  4082603360, 1014096062, 3674130601, 1557724698]

/-- Tempered seed-42 generator outputs 2000..2099. -/
def wsC20 : List Nat := [
  426724858, 4213052475, 2944974316, 1577691630, 2338463041, 3872755741, 4199801677, 2769510048,
  1540492440, 260060661, 1709996749, 1184901787, 815221547, 4158416864, 524671997, 4075970287,
  3642274789, 3539873758, 1952996248, 393734347, 2846570058, 910987546, 2756099698, 2746601166,
  2564722363, 4170814022, 91729577, 217233051, 3379257051, 1432410914, 1046120419, 4246953455,
  540838949, 3380045208, 2424843951, 881351238, 294678352, 3564040452, 3286325893, 2380304322,
  889734128, 2518496186, 927503999, 3492035954, 3735313433, 1000721711, 1411152518, 3325887726,
  633740357, 3387199116, 3867751337, 2559721644, 12178595, 1190886387, 3686826237, 4226368665,
  621430136, 4241397494, 558311957, 2320207740, 1076551580, 3429590757, 749459431, 472130062,
  2839220941, 3721365350, 110724913, 566090561, 63824611, 1538638860, 3392958303, 3386287675,
  1021908455, 2529104043, 1390587865, 67779246, 748381742, 1139744790, 225052083, 544423789,
  3185654811, 1808011838, 2259520140, 488120041, 3202607993, 272979685, 2045460840, 1925327382,
  3341557731, 1554945552, 2204340231, 2549776132, 468383404, 1941348507, 2163970710, 951548935,
  4060529257, 2641863774, 186251406, 3123484878]

/-- Tempered seed-42 generator outputs 2100..2199. -/
def wsC21 : List Nat := [
  3363934309, 3903058753, 3723654635, 2829967158, 2239615923, 1295492409, 1967277638, 2763127185,
  4140460939, 133790981, 261243105, 4288897470, 2057211631, 3639119547, 1724932977, 1830831254,
  2946766309, 463692519, 2105688676, 3059740329, 3907135299, 1905085701, 315640205, 3862321353,
  346992476, 1383459732, 2612617557, 637088959, 282103057, 541988748, 1181184718, 2681423225,
  2719043833, 2514122177, 2355172948, 3058672970, 1396660850, 1635971911, 4271893674, 2565778475,
  2278724262, 1266576188, 1948692883, 2171325343, 2600288277, 1847692041, 425968237, 3406321789,
  3014119648, 491404673, 3662716909, 2811970742, 2795665767, 3769719482, 3302669787, 2367966782,
  3095983853, 3717261214, 923517027, 1847136322, 1939413575, 3814321889, 981372436, 1777315761,
  1455700196, 3553738511, 1947762953, 1712533097, 1786661942, 3133661881, 408390575, 1342384949,
  1832937460, 1342278523, 2856616537, 1094743340, 1607610633, 4095648684, 655579180, 2949873860,
  3964190549, 2036965074, 288335378, 391807468, 3572433066, 366637148, 400420225, 1854895521,
  414741061, 3197985262, 3173104657, 1600506062, 3486522557, 558841618, 2389594115, 257616339,
  2518848328, 4108671461, 2411995282, 2412411754]

/-- Tempered seed-42 generator outputs 2200..2299. -/
def wsC22 : List Nat := [
  1415818695, 2877685081, 524979361, 1764409657, 1518692176, 3752115103, 2857615772, 4042121987,
  3222446335, 1816499958, 3728427375, 3933518616, 3096932037, 220959215, 4159240421, 1235358894,
  2578741716, 1341957809, 1510308881, 444961037, 2482141132, 2179320310, 913706213, 664561034,
  2820660931, 2070987704, 963124353, 3639017775, 464794418, 1503728142, 3630851168, 2389142017,
  1578662692, 493428666, 3275366252, 1196441373, 2465740756, 971345904, 3466989388, 1843023757,
  3629913789, 2409329326, 4185645789, 3296097622, 3515116601, 2670283403, 2635277155, 2899002906,
  2760371883, 2391179068, 112759345, 2615613239, 3990386632, 2825363606, 3562506969, 2978436070,
  1148679234, 124352982, 774881143, 1173687378, 3018068234, 3274523942, 1327079104, 3957973511,
  1459535801, 1507634128, 26224160, 779130936, 3736031885, 615260464, 2432330583, 2823273703,
  1721355673, 298867122, 609346980, 3182437887, 2719453060, 4173893550, 131671246, 394096254,
  3204525618, 2278405793, 923988689, 1615742667, 1803166816, 1948393831, 1464137110, 676067682,
  1589365925, 1338472296, 3099231080, 1393213895, 3336483568, 4043314087, 2437795758, 2560761628,
  364887703, 3793925798, 225953184, 668210614]

/-- Tempered seed-42 generator outputs 2300..2399. -/
def wsC23 : List Nat := [
  676070354, 3240277427, 2653594796, 213728259, 2894673596, 350389989, 1168672809, 1903155722,
  2843005049, 1821129578, 2085901151, 2607371597, 1898565319, 1778905619, 1173242669, 925861658,
  3242456102, 2200510647, 488842470, 1482506118, 1846465000, 476267947, 1216534332, 2912923661,
  2914076272, 2547492192, 2090071756, 2263164755, 2865312534, 1324651201, 195066088, 947119487,
  1697643337, 4228161896, 2574081104, 235286733, 33015788, 877990647, 1294586283, 4060136033,
  907243029, 3295741120, 589418977, 3282046063, 1097447932, 1243165953, 1409274786, 515328854,
  33199694, 2136253713, 3208401216, 1849649210, 754603440, 554848380, 1632978535, 2287423767,
  3022245086, 988317990, 2148610411, 2399699438, 3579229053, 2869245055, 3462603446, 1521136431,
  309561891, 1705407682, 3701249758, 3187043237, 181686832, 1873548915, 80494302, 1974629461,
  3956362540, 334417350, 3702734323, 1344585158, 2472866768, 1843761970, 2462732890, 1736983049,
  3047274825, 2749387529, 1793981895, 1243458354, 494665880, 1739600515, 89578218, 4149796066,
  1394868732, 738189691, 3441652418, 4069972464, 2654827789, 1976101133, 3573524070, 2961852565,
  3950381001, 1554145481, 378514962, 1875662813]

/-- Tempered seed-42 generator outputs 2400..2499. -/
def wsC24 : List Nat := [
  3627032705, 454678712, 1045036297, 1871216424, 2529182928, 1719918855, 2250402001, 337786687,
  1699805002, 3738873895, 1332619083, 3203207350, 1458198451, 951644750, 1430518844, 3346285771,
  722124509, 328046924, 2192509020, 2719679239, 489740688, 2278930366, 2190227431, 832810061,
  3890908506, 3333874861, 1500555353, 1507961865, 3124069454, 4115537945, 3517357447, 2772156452,
  3500557310, 634323009, 1014766981, 441542090, 628973138, 1099375147, 847275937, 745172634,
  2587283948, 656570734, 3265099819, 3260534643, 2815389788, 323639855, 760836806, 4085768637,
  3319357265, 2697019445, 2122216473, 1992663260, 3240320145, 2421225455, 3263647494, 2488796494,
  1928033396, 2925445989, 3969212295, 3788367999, 2424473755, 2761628889, 2728585503, 4237122451,
  2682300615, 1388168801, 3711912062, 4170297539, 2693878240, 1357806226, 648357091, 1888766939,
  293287259, 2014000727, 1899269162, 2711778437, 1300603858, 3420209944, 1179714407, 2540128512,
  241257421, 1511580323, 2178995337, 318646463, 1333191560, 1983168873, 1940955281, 161521910,
  244340918, 1583715924, 3572109834, 1232986477, 329557138, 2768821397, 3711925630, 4197765864,
  3673457063, 387820537, 2641440900, 2551553388]

/-- Tempered seed-42 generator outputs 2500..2599. -/
def wsC25 : List Nat := [
  2177839698, 1651339677, 1987331439, 2492495810, 2380770668, 4098392965, 3400831547, 3173641705,
  3847761430, 176191212, 1931591531, 3904339835, 3478132873, 2455246775, 2799620568, 808482355,
  1380946943, 2598480273, 2042811108, 2153356179, 647943369, 4113386226, 265745534, 1934982045,
  444537179, 3483075928, 3861720326, 3596507613, 1475054001, 4219313948, 3067961943, 362190850,
  2167021467, 2775094726, 741134891, 168114160, 1064051191, 3039212077, 1880157459, 4256252574,
  1887302225, 2250857309, 2245185702, 2619094295, 681809785, 1562929828, 1601387070, 3942508505,
  1215018687, 1663941470, 1755651176, 3326300928, 1453275827, 2915843503, 2567900251, 224908174,
  3389703852, 2709637214, 2780155330, 1437308013, 283089268, 1416011033, 405899939, 2396433758,
  2913617098, 1660280619, 1220401982, 1082313657, 3108412367, 3657449238, 2819921250, 4142109526,
  3892712252, 2588580274, 3750707607, 645848526, 1431779064, 350048353, 2502847163, 2850192297,
  607430264, 3937396035, 1502468844, 1332435144, 4156224862, 2817733555, 2999948589, 2843848856,
  1683446724, 553843145, 2555682594, 3044418910, 4028688786, 363865392, 1329644079, 2400552009,
  1617825308, 2763782498, 3400162238, 1410796055]

/-- Tempered seed-42 generator outputs 2600..2699. -/
def wsC26 : List Nat := [
  3492602049, 548870021, 2878128023, 3018635601, 3560351656, 4067800563, 3173013051, 4282787247,
  2943832590, 3918934263, 2260842187, 401377436, 2774655465, 2879586763, 1818516501, 2183941426,
  1554039848, 78299575, 1557345129, 1326569692, 774223342, 4085241101, 919950484, 1467729242,
  4070204217, 3290615870, 2088517710, 824656200, 972994972, 4294866888, 590838716, 665484476,
  331421524, 1270417388, 3626792293, 3384950377, 434396266, 2180510715, 3310881714, 2318297747,
  3586812331, 3172451816, 3795386003, 2261436148, 162124225, 2842964443, 1446391956, 3764078277,
  3291266105, 2654424954, 562851356, 2565153945, 1617999521, 662510569, 696846464, 776727492,
  3570599829, 2975749366, 3311839873, 2683239935, 3474816314, 3876877928, 710985298, 3097457395,
  1879792991, 187657564, 1764624310, 1564654057, 2904956613, 3090596936, 1020184428, 4164351345,
  1907818922, 2622487366, 1223756141, 3231495430, 3214939842, 3366396905, 1928130926, 1005034996,
  2293560436, 1027220866, 1329154472, 4147205961, 3473013060, 3368844542, 2014406658, 3882540201,
  3586784711, 833293142, 1579864877, 2913305623, 4067893091, 2449932632, 4228136712, 1892351448,
  1982900391, 3304713421, 1210200352, 3342017284]

/-- Tempered seed-42 generator outputs 2700..2799. -/
def wsC27 : List Nat := [
  1640129626, 2159967797, 2265422548, 1798134537, 4150090143, 696034559, 3508521152, 857695227,
  3441382168, 2597009738, 594417160, 3749514711, 1073755632, 224110541, 2753842979, 2064121137,
  3754303694, 1594343845, 2381734362, 4012760260, 440619526, 3055443931, 3633079661, 2215813941,
  3655730355, 535486944, 1224336336, 360240905, 3277561834, 688536251, 1171629709, 1929811336,
  3888260570, 2204833223, 632857647, 3569318475, 1878930355, 393906783, 4064813995, 3910589015,
  953645978, 3507713760, 1937579958, 3799455941, 1501456453, 3996346509, 114547603, 1781968664,
  228736604, 1702756809, 2156104136, 1606152369, 1012659111, 1658570832, 4271453859, 350492684,
  1610237679, 964386641, 121064582, 1368741091, 3997866845, 425558776, 3604234700, 3069631473,
  2791559885, 1440061103, 3398953973, 627276995, 590985753, 164510971, 1232137626, 3940186531,
  3563798877, 2029178475, 2989606411, 3569592370, 596110070, 3259197927, 3030254796, 2014812671,
  1926728669, 2642900640, 22553699, 3890628295, 340272119, 81621076, 1099184899, 926230061,
  3586139213, 642181881, 2357096258, 4038239697, 3123449625, 2615120114, 2266761348, 1817865363,
  477543926, 3333636070, 1237386857, 1020657023]

/-- Tempered seed-42 generator outputs 2800..2899. -/
def wsC28 : List Nat := [
  1293434554, 523334661, 205082311, 1024089868, 1803136972, 2744276785, 3409770698, 2674951016,
  1963288053, 269754673, 476131010, 3593546368, 3887576262, 2146750150, 2562974666, 2302333490,
  70589284, 2714225802, 2213521907, 2469810046, 1039116361, 3086124402, 616657849, 1251003660,
  1843567009, 6718781, 2640587058, 1515333350, 1033215551, 2450982005, 1789144223, 804507108,
  2853453016, 2869961166, 367709135, 2248349034, 4186109152, 1548781344, 290680473, 4094837600,
  2259408103, 2336814230, 2178955870, 3377615237, 4244851418, 2180222420, 2380064537, 87335169,
  1676986013, 3750929953, 2019214800, 186978937, 2730185259, 1661642599, 4213532237, 1603321558,
  1089419573, 3209700340, 69759864, 1533706498, 3386667704, 290166087, 1480915452, 1035627944,
  3147957706, 2822241896, 2698343112, 445232926, 3313573165, 2499255738, 3157604063, 3249911242,
  1428156550, 572989855, 190420322, 1513112872, 2345111169, 1454049402, 3493993978, 2760786161,
  752002052, 3566470640, 3346391957, 2940689225, 1995540139, 4212586327, 2986674107, 2055275742,
  2713284816, 782878018, 3485356009, 579187439, 271014739, 3075390099, 3333712367, 4052753278,
  1965718821, 158844179, 1260326267, 865826728]

/-- Tempered seed-42 generator outputs 2900..2999. -/
def wsC29 : List Nat := [
  188146518, 3397788197, 856716405, 3804440746, 179984654, 1355473709, 4008797844, 1331765783,
  2213555655, 1710359289, 4248249657, 3502142446, 2332299081, 2033236512, 1087974350, 157284993,
  3235359859, 2778416511, 820782998, 1228836941, 1533192415, 3702856787, 3353689019, 205316740,
  3718575271, 2816344780, 1425605673, 1173456409, 534616074, 3433149532, 1580630311, 1876691885,
  3820315488, 1718080443, 3192482284, 1888654461, 3842438768, 4108044807, 1660626647, 1456151216,
  4182110973, 802373824, 2131176633, 2972411520, 2136846691, 1577743019, 3969883220, 3424338263,
  2230272804, 1145556651, 3440904834, 354813720, 3122790501, 1823212172, 338988898, 1849443634,
  2587517187, 4273914075, 3531928910, 775054695, 2342794700, 1261717180, 1379592595, 440654676,
  343893360, 1408405265, 2838626452, 1269763934, 1316389690, 1915193614, 2588240189, 3082338725,
  1830154607, 715733827, 2962517290, 1906571986, 1509882812, 1920407276, 181914018, 3121644055,
  3736781190, 3915323244, 1514230707, 2640766997, 4287024177, 1868055235, 1179206294, 2746499773,
  4209185099, 3399371362, 4071218314, 246351029, 322299355, 2882712850, 2738095498, 1744659652,
  1560409439, 2203687670, 3440681022, 3220787325]

/-- Tempered seed-42 generator outputs 3000..3099. -/
def wsC30 : List Nat := [
  2918046336, 687137742, 4092199300, 133747952, 613233132, 3645006924, 2609505739, 2912369511,
  3355709367, 1881937953, 149460439, 542153826, 288765093, 1013592436, 3343698064, 2770953471,
  1573368806, 1555424924, 1644347110, 4077930204, 2436297208, 139093888, 2598862507, 659011900,
  2916549321, 1932402710, 4075166047, 1593280440, 1597785308, 1906704716, 3277422858, 330220406,
  2464975279, 591395970, 2274012889, 1576038028, 1709543220, 1350275186, 2789842140, 1196963451,
  1072073884, 4125402225, 487258103, 111296943, 3159699467, 799070274, 2143377496, 2223699008,
  1662098122, 3923635189, 2412365931, 505779640, 1124322241, 3328447109, 1117936038, 3023819391,
  1916728422, 921572928, 4279355578, 2627992499, 1226543337, 2980624159, 3936246925, 4289078224,
  2109688769, 859759428, 526723719, 582949109, 3662861038, 318051098, 1941508568, 741553420,
  3859797024, 3063900355, 1911737999, 4283209430, 377058351, 3481127747, 2928863857, 4155643847,
  3631485960, 4237305912, 1372619017, 2868350055, 1492180259, 3047453184, 278911214, 2362219754,
  2328608265, 1247096480, 3828240439, 1288304114, 3656572173, 676479877, 3057196804, 3047553254,
  3982828212, 3007418808, 2738900744, 747715196]

/-- Tempered seed-42 generator outputs 3100..3199. -/
def wsC31 : List Nat := [
  3408900003, 1552597094, 2185089287, 963110410, 521247759, 4231112087, 863204110, 3401896171,
  596471620, 1016774160, 3394626443, 2121808073, 112889043, 1550038771, 2379503963, 2457912746,
  1584461407, 2007492791, 3451700819, 4222004215, 2369305560, 557363168, 2628298180, 3797809576,
  370292681, 282385977, 1328393535, 1710084067, 4293228022, 3079206353, 3087521674, 2055850987,
  2257845661, 1764351603, 3303536605, 1758503592, 3536215780, 2469178881, 316756902, 538274418,
  4176339146, 1361623473, 2758823240, 318536327, 1932625737, 2000738353, 2921045865, 2222044336,
  1479679716, 551192946, 3770810142, 3560758637, 3351203772, 2367830246, 2747893988, 2524521602,
  781525718, 3297597008, 4150074940, 554192345, 1858081385, 2159783506, 3911479401, 3728940550,
  237996376, 3570796341, 533267960, 2225231724, 657196424, 1306204982, 707196784, 695642802,
  1385817349, 4014668424, 3046558332, 968387506, 1486157809, 4069409058, 4041152132, 2228649039,
  3843677566, 1219978197, 3633257620, 338700713, 1076341629, 843110305, 2727549434, 4107498945,
  2365845882, 1178758213, 537602307, 2684450592, 1300621767, 2638949369, 2291270703, 401271939,
  2158535229, 2753020051, 724285673, 2541797909]

/-- Tempered seed-42 generator outputs 3200..3299. -/
def wsC32 : List Nat := [
  4044171208, 2493857758, 662259333, 735301069, 2829236141, 2682117678, 3095094148, 3874064330,
  2599051823, 1450065086, 3618638812, 3968247952, 2420721027, 176928180, 3544362760, 3709911999,
  121863227, 348849508, 195256953, 4073977697, 2755022797, 3311515868, 2477213586, 1136688451,
  2796581976, 905415100, 3294063811, 2457310580, 1789226605, 2654755464, 2744446292, 130076950,
  2139057162, 3818212529, 2693648923, 2343237444, 1244130290, 2756970807, 4108781210, 1297484349,
  2074232200, 1051742593, 3456109296, 3467538895, 2942013255, 1744154114, 1277468755, 1947957237,
  313416738, 2957572769, 257324536, 678950361, 1888091245, 1785081806, 2079842771, 1994763896,
  876272170, 1461115950, 2605585995, 617052325, 1342531599, 3700050210, 3085345100, 1371453454,
  3153363918, 4243528050, 3697010641, 1483355242, 4189199982, 1712474804, 561636336, 3267031264,
  1591458030, 2211822827, 2412273600, 456056539, 1370592316, 1038256217, 2003484425, 526227599,
  1148782098, 1931000173, 1064803502, 605064858, 415802902, 217348079, 1246451043, 4060397193,
  1649910946, 3711555475, 2643025991, 1795875043, 1066312714, 4134704228, 3716467404, 3875395503,
  685904828, 3493860743, 1406326125, 4010432317]

/-- Tempered seed-42 generator outputs 3300..3399. -/
def wsC33 : List Nat := [
  2481146933, 3097223039, 1343100352, 815331250, 3277581356, 684370461, 2140034179, 4277656042,
  2210726347, 2004955678, 2142156616, 3775601223, 1325171272, 2136189070, 99541460, 386757895,
  4059743975, 1688962331, 2170867436, 1963790638, 4151887478, 1033921654, 924038246, 2505443885,
  1515672889, 208985103, 217069388, 1208416260, 2125554417, 2566323583, 3789619196, 3620011676,
  2810025457, 2888454001, 2021155136, 1227279967, 2305069227, 35121678, 3638577630, 461696451,
  1850820685, 575246182, 3790118526, 1135902437, 3124623359, 1571002995, 3280739820, 1731963069,
  1571688961, 194314620, 1720484983, 219720597, 2449341007, 2412985084, 836038153, 1557027753,
  2376074389, 1239534867, 315816454, 1659355558, 2165761020, 1934257315, 3283090686, 2361618235,
  1201391159, 3544685115, 4248112223, 2676802207, 2922289913, 2624410325, 510289448, 552605034,
  4187948804, 415243819, 1691803583, 1602874642, 3414057576, 4238220747, 1456360258, 2395869480,
  4032753406, 1570267413, 3242550727, 619623590, 854947088, 2587558681, 2186664545, 1723944394,
  2147818256, 172893522, 194576436, 167134213, 588566728, 3064853643, 1430398942, 3453007060,
  2034715642, 2230517007, 1962750929, 639695273]

/-- Tempered seed-42 generator outputs 3400..3499. -/
def wsC34 : List Nat := [
  2603869092, 3835971404, 2214080278, 600354779, 1408602588, 4000198258, 2633107545, 1368076065,
  697940975, 1687727081, 4254662195, 2647849438, 3175352477, 3618947732, 1285201700, 2550027973,
  1444712976, 2178901271, 3557475817, 2189205388, 2286382166, 2103875358, 3044014286, 2417741295,
  1287590685, 2039648170, 3503614567, 71455195, 1582084743, 1422663210, 2893976444, 470748124,
  4208630005, 1789026838, 2506981604, 1321466224, 3422035846, 3860175304, 3115243748, 3745637173,
  2955124970, 2702653209, 114448659, 2563707272, 2038349447, 1140444523, 4153536997, 2815741776,
  3362547012, 4174952433, 3333590511, 2484528348, 2480920839, 977290717, 3098389895, 220568746,
  2506213395, 2063511828, 732343731, 2251560728, 2701642822, 3097456697, 2661745020, 3326907975,
  3612785308, 1632905061, 634691836, 3529008370, 2923699745, 1040226318, 135594311, 2459170565,
  4072510194, 3008714405, 471997674, 819412471, 81335390, 1894246230, 1347298951, 1798647685,
  650392310, 1773650170, 2965676060, 875708102, 1762557538, 2155298355, 3328480679, 2626278260,
  3953607378, 2025530021, 3748723498, 3643751454, 3160397021, 3124168227, 267496095, 3031281545,
  593059748, 2227727430, 890525840, 2408990341]

/-- Tempered seed-42 generator outputs 3500..3599. -/
def wsC35 : List Nat := [
  1396077115, 4286905071, 2844242456, 2054587733, 2256907178, 1618450083, 1347557120, 4108932916,
  743812855, 1974239820, 3917543432, 2289763301, 1470283342, 2346225613, 1521651018, 2902833426,
  3315670876, 3726547274, 3096347407, 2923781318, 2762991549, 3451661340, 2977757985, 1135426914,
  2620258967, 2079537716, 825768309, 4111732824, 1058791632, 1198323340, 2396963917, 1282044148,
  965796553, 4043649618, 4178619315, 4218775843, 1278244804, 3312168268, 1241263320, 3027526473,
  890251346, 2964557845, 3027901531, 2100252248, 1361679629, 2060740001, 1498098234, 2407275865,
  4010212555, 4013584167, 3416239981, 3099524925, 1174491176, 1236045959, 523445293, 2463064097,
  2906070430, 2332987057, 1630774093, 3847261858, 4209757465, 1694503971, 3514904439, 1482342139,
  4100013833, 3320285987, 3455798713, 629110165, 1247484671, 180674181, 1235362881, 4103041180,
  3067213499, 339428835, 1487619960, 3968591159, 1899990924, 2817378520, 1101418477, 3209794402,
  2057629778, 919066362, 867875464, 3556025499, 2313174562, 1164506150, 4007307266, 2413849014,
  2990032969, 1166605339, 589582865, 469124598, 2644312718, 3182102503, 2520417815, 1027708670,
  1041349374, 218035843, 2876914972, 3887736492]

/-- Tempered seed-42 generator outputs 3600..3699. -/
def wsC36 : List Nat := [
  2280805846, 969252345, 2739951076, 1000025413, 225447588, 430346953, 1775115854, 1418600299,
  3081029401, 2028959334, 431837075, 2925697292, 3310415016, 590416424, 22254113, 4142576544,
  2363746243, 4200094503, 3990452762, 678351760, 1747654202, 2804153202, 4015932278, 3782352003,
  3772697661, 2043114400, 2050625761, 2794042404, 856656865, 3246613269, 4139979288, 1233708056,
  1379404786, 1225849566, 2774110439, 254101373, 3899559523, 3301648719, 384230848, 2801601713,
  2465883999, 997378157, 2298461504, 3172634443, 3105766766, 3652152841, 4022964382, 160194739,
  3922291794, 3957687327, 751897503, 1794802316, 3789213290, 3597485607, 755006725, 4011167067,
  3949801453, 156078445, 4282820287, 3591465377, 1705078697, 3384265148, 2127657643, 800202342,
  4022703928, 3216944250, 4132322812, 3746459966, 3977310212, 1243251189, 3765583254, 160916026,
  39802179, 1281584789, 2439377645, 2588933132, 460852958, 3987683174, 4221926600, 1438994940,
  1222182982, 1951414407, 4248149866, 2754415831, 2333457812, 2251930945, 2121337685, 3819342448,
  4031086659, 576384364, 3655273742, 2165576952, 2010133918, 1171826349, 828118650, 3473829163,
  483814153, 1420277403, 697907532, 3140133190]

/-- Tempered seed-42 generator outputs 3700..3799. -/
def wsC37 : List Nat := [
  1971022633, 2784364341, 1104944224, 3086355679, 799718923, 60491148, 3163749761, 1447885778,
  3396321272, 1267119521, 2438601776, 2896530837, 3252504650, 829621429, 753744909, 2624029587,
  3677121224, 2743306394, 3852769339, 1741567887, 3551894263, 1836971472, 2213113588, 1408434291,
  372535899, 1721565695, 2874432021, 409675904, 793629209, 4216305802, 603923411, 2050649750,
  1389858576, 4019339446, 1065354117, 29335155, 1120064235, 1647439475, 1011556076, 1918714457,
  3237360169, 1146731886, 4097548370, 1415729895, 1296847488, 2501649877, 3104756811, 2460489491,
  49116110, 1123362233, 2807548688, 1544264464, 2975418439, 1014911848, 266821961, 2868119543,
  507771858, 1998856257, 1317723211, 685978550, 1741251076, 2946663769, 2158308965, 3964710116,
  3844504107, 3813078037, 3021754447, 3306442136, 1335640103, 2964774623, 504296774, 2743244243,
  3934750046, 4039999237, 1267176863, 1578589030, 2639796200, 948540266, 941150163, 4111832212,
  573673552, 2053775623, 657926994, 1954118497, 3211496671, 4247026705, 2601628976, 1604706474,
  1786043319, 3014812471, 2358944233, 3920432795, 2022191192, 3252795722, 2308620882, 3444542251,
  2852263888, 3545940090, 938070754, 3272162158]

/-- Tempered seed-42 generator outputs 3800..3899. -/
def wsC38 : List Nat := [
  1062855922, 2922046273, 3241581669, 2559003646, 3750086519, 3381731378, 351630288, 2257033897,
  1918767949, 2268486276, 3022652502, 1553854176, 335448617, 3939536009, 2423086220, 481933114,
  265248799, 3559557470, 2352135602, 3877875107, 2171050399, 868256753, 2459734963, 2304937838,
  643611097, 706681697, 1409254497, 3669989454, 2234849897, 1897690739, 499247083, 2921845810,
  882192670, 3079139213, 2504600194, 2099500153, 390591367, 3860700382, 2192045446, 1913333579,
  3473306055, 238953970, 1947476917, 566696611, 2204382691, 1784234958, 1961934510, 2421980125,
  247977570, 2400015680, 1985899701, 2889515311, 3465675062, 1323578190, 3106464319, 93503397,
  1700586760, 1092885428, 3506639908, 12951344, 3203205881, 935878994, 2483827971, 313659437,
  194518221, 1819766421, 1479740208, 3008130163, 273846739, 2324279536, 4269728610, 258795967,
  4014002530, 3840638976, 296434961, 4235427218, 4010535503, 2027530378, 136300252, 1233045201,
  1756070122, 773013901, 3302709858, 581662546, 3289204852, 2755328890, 4201909448, 3132274557,
  2774036963, 4139414619, 1805440796, 1608297407, 4264286599, 3828248698, 1642737456, 1926452312,
  3734990683, 3938979233, 3894535958, 1621334484]

/-- Tempered seed-42 generator outputs 3900..3999. -/
def wsC39 : List Nat := [
  1613385303, 344671094, 2932304514, 4140968571, 2842377282, 3756179616, 2316277000, 571186857,
  2806907561, 3694902744, 1493660313, 509525588, 766538381, 4264244440, 2307507627, 1688173960,
  2271361431, 546951552, 3126126880, 4203589186, 956447193, 3585531525, 14917670, 3247765887,
  97647459, 4202585492, 1281459294, 1988586594, 2892659845, 3088485099, 2338374929, 1821616017,
  2284637470, 1628980027, 3536306171, 986399651, 1063056115, 1978370498, 1486744752, 666241244,
  1183906581, 809517372, 4026146818, 3758990493, 3113954138, 3287754238, 484664056, 138372291,
  3476682312, 2835527487, 1800624665, 2641075042, 3290174590, 4021111273, 3795705770, 3818403515,
  67198189, 1033653860, 885113834, 289012242, 433348075, 2550970716, 144208994, 1917449772,
  2567466567, 2886319543, 3020591489, 3746123831, 209063208, 1051125170, 3180599722, 189995314,
  1727716512, 1885330933, 1006479526, 2318250726, 933164135, 3240061941, 3709693137, 3333167876,
  242425303, 601877719, 2164216179, 4266978891, 1242377075, 1005716063, 3503775287, 3935895288,
  3141843676, 2474375067, 1369680934, 2480235438, 2568036839, 3318026336, 2888502524, 3514926033,
  1377246195, 1017495081, 1296068379, 3763500857]

/-- Tempered seed-42 generator outputs 4000..4099. -/
def wsC40 : List Nat := [
  615298850, 4233530195, 2835590759, 2238756255, 949371357, 1776227561, 1290641764, 1181777110,
  261811056, 2391086093, 4073863487, 2541190928, 3778342396, 3157711961, 3915196257, 752191321,
  2688620050, 2915209592, 1834812535, 2387360437, 2128675098, 201365642, 4175954779, 1479250414,
  4044082844, 2763021449, 2883394191, 1637046672, 3375005052, 2252551683, 1368954072, 2990621826,
  1788100692, 1753459822, 640884760, 1288011277, 1616884203, 789754192, 3240192475, 2310384304,
  2033747850, 1034950478, 3647891535, 967847466, 1291653057, 3683111580, 3039019230, 619986018,
  3460782270, 1988677919, 3928783441, 247492925, 2415429277, 1772436303, 4156610039, 1788887661,
  2393528385, 2276297510, 575923974, 1668247132, 1043069385, 1095197958, 873324617, 1418468740,
  2777580509, 339604915, 3960930968, 1931819683, 3638410176, 1593765711, 397129827, 2300537106,
  3112067620, 3562272871, 818112342, 221348142, 1153033730, 1619924126, 2893398852, 2598323977,
  2589530484, 169855455, 3752171298, 312606333, 808155185, 3455948081, 3271461204, 2523652725,
  3110867299, 2883858045, 2400244542, 932078864, 2058982440, 897171779, 3734361749, 3895676325,
  1430070821, 1302182635, 4110368570, 3904100195]

/-- Tempered seed-42 generator outputs 4100..4199. -/
def wsC41 : List Nat := [
  65857791, 909707455, 4025070544, 816145550, 4132091628, 3184611760, 503869216, 3207821845,
  4293129062, 3239825860, 2056949493, 3927495468, 1041929790, 2987692130, 2595884821, 3022663059,
  878377268, 1703521697, 3930438209, 1027918636, 2371162526, 1381325941, 3330806782, 1215730003,
  1634929736, 2002530485, 2292009846, 2786236956, 1543008060, 1324663629, 1123398645, 1544661869,
  2202530266, 3791648448, 2135789708, 2001472250, 423519117, 3448071114, 4214730670, 3102742670,
  2016446001, 3271171496, 3606617978, 1375391482, 3927019611, 872425923, 1592165525, 1343989841,
  1777816561, 196346343, 2416025300, 3711216152, 950365001, 3183654731, 626733282, 69663945,
  1120016279, 2376455067, 4014756121, 2508397912, 2487399910, 3092427725, 1793484162, 1267841227,
  654602021, 842637307, 1416760621, 987922467, 1631399401, 2447227327, 3579265601, 1055402371,
  2144483523, 2364991672, 2811519776, 4052149370, 2941393812, 1449827559, 1105209993, 3278608906,
  3528710502, 2098611616, 4151121405, 3107657723, 2756056675, 3176532420, 2107091983, 1979245480,
  722558006, 3147232770, 3414393842, 1512585138, 726990714, 601117291, 3093723050, 2347398593,
  2097302637, 790479137, 3938052866, 3819791572]

/-- Tempered seed-42 generator outputs 4200..4299. -/
def wsC42 : List Nat := [
  2328460033, 4253407226, 2756550636, 4111301175, 252252252, 2250324141, 145271935, 3603771733,
  3636537575, 319246679, 4059552004, 3513265673, 2869963931, 208367732, 3282810353, 27418321,
  1771211118, 590521614, 3618701993, 2708842947, 993998848, 291920078, 3037270171, 648667392,
  39262289, 939393836, 2172106337, 1958546579, 1602884797, 259631271, 2653582116, 2739023440,
  2863689749, 4011085924, 2647930485, 3920237643, 2075346043, 2831604672, 2095318649, 67567428,
  28399849, 2285835206, 2369291047, 1766685440, 50899550, 71838242, 2273831457, 3101794134,
  1180002487, 2300977631, 4198241832, 1231317910, 73626894, 2157001409, 3492483651, 2997281896,
  2894949501, 1849297832, 3462463897, 4036031904, 3907446848, 769945233, 459632043, 3942989764,
  413665007, 2252218154, 639509845, 1034953269, 824341906, 2661938440, 2261111254, 1084127872,
  3501319147, 1522312933, 1148151005, 3414225544, 1704657157, 339385087, 1602244331, 4120152660,
  1743874444, 1971380304, 2426665919, 1044569947, 4253018483, 2994607170, 970049535, 1288381269,
  2937936410, 3556499523, 3641561499, 346247039, 2807773530, 4259210415, 3686023201, 2791275402,
  3262396395, 136083924, 401581601, 1740657035]

/-- Tempered seed-42 generator outputs 4300..4399. -/
def wsC43 : List Nat := [
  1628926576, 1619930972, 2373834610, 2044426338, 241011818, 2734812163, 40588163, 3018696945,
  736086849, 355134188, 2146875428, 3630663819, 1863627766, 2769855512, 3368870594, 1422796478,
  2430335702, 4197597033, 3684911471, 4182609867, 409575959, 3843098977, 2268426402, 3947728706,
  182758417, 986839603, 908029328, 3870937882, 3728533643, 2973353078, 3812016707, 2434319360,
  2042258186, 1164344392, 199982132, 3969233836, 319322484, 2939599052, 3975356499, 1204192904,
  3862514132, 2332299091, 2420256439, 2826557688, 141312095, 770321709, 3989021123, 3652558724,
  1350701477, 67251004, 4129478722, 889737338, 2521300895, 619298045, 3230908336, 3524839894,
  3061072141, 3525748915, 1710668371, 3989487508, 330444012, 1285384455, 697718498, 2422182038,
  1032820212, 2433940416, 3584796846, 3648327424, 1671414897, 2907843037, 3850548856, 2321697981,
  1424768819, 1648606935, 3245317068, 3177181331, 601083212, 3395163419, 4245480499, 2960566236,
  3110258855, 336844365, 2150888898, 3201711520, 4184686840, 1485455239, 230624431, 419557255,
  1877279755, 997050893, 3602080228, 326495888, 1462834697, 2599179944, 3302854133, 2636531097,
  4101085574, 2558119733, 1703826594, 4161481962]

/-- Tempered seed-42 generator outputs 4400..4499. -/
def wsC44 : List Nat := [
  3322393065, 1401777036, 127241247, 2723537339, 1173930637, 3365313627, 4263123881, 1935098341,
  2107125807, 979846924, 1528197464, 2375278922, 4042177742, 1612446667, 1854772804, 797737957,
  2919267198, 2516314486, 2837564236, 1632399901, 368053428, 3316433748, 2656935034, 1268645208,
  3427620889, 1058493748, 3062777850, 315708805, 352350576, 1150931110, 662373991, 1632087531,
  3056630093, 3366783129, 2722583581, 662614186, 3176795294, 1673413661, 1360122653, 1549195708,
  457632732, 393077279, 22313296, 4049983353, 1323998648, 1910126009, 1545833869, 3269958296,
  1158638062, 439080604, 569113257, 374938761, 804841598, 1851042925, 1927768913, 2392232487,
  2382590159, 2200916676, 1752536389, 443639751, 112794026, 384909986, 1520050282, 2380355948,
  399707954, 2563771436, 2568578538, 3369138661, 1393417638, 3709641319, 1654584280, 53002550,
  1253474844, 1777300707, 1665586415, 3346505855, 363781647, 3113180606, 3870349834, 2403191167,
  3887836924, 4263743731, 4201221330, 1042571199, 2456551333, 2238126936, 728353118, 2943409776,
  1635231601, 728004476, 596313527, 1154998170, 1293348937, 1152798401, 2117951204, 626785308,
  271730355, 718150313, 1866920369, 1185247208]

/-- Tempered seed-42 generator outputs 4500..4599. -/
def wsC45 : List Nat := [
  1808620775, 1287426116, 2079757650, 3361527572, 330374745, 1551019709, 1081042134, 4055403877,
  1059096258, 3096239582, 2684499242, 2129455245, 2550379054, 2648572296, 839873216, 1966500767,
  459442845, 581923103, 1308496151, 29065628, 4075165736, 1699484121, 1426862057, 3614701965,
  2663705160, 1631614931, 3453482080, 3703113566, 1415370893, 1890743044, 1437681124, 1849482575,
  3502440472, 3537056904, 3691560745, 2796181989, 4184266143, 2552898167, 584650163, 1290359719,
  1377246344, 2590772665, 4068531997, 2986257683, 862650571, 2057331177, 1349406919, 762946257,
  4142816475, 1710425977, 4160643151, 1370685826, 1251760286, 3156261362, 2984820893, 2718295375,
  2108860330, 4156510788, 2473382684, 3358554365, 1041204430, 1399670743, 1615145225, 1203879959,
  3506817238, 3375271059, 1687643539, 1567729816, 489144474, 4003197921, 2421719519, 858134663,
  2543595727, 4283220239, 2343459102, 772781491, 2927933468, 3296893809, 2362657890, 115603785,
  4093123633, 3123357626, 1982652348, 4050046415, 3042413312, 900432998, 1883149695, 3426033231,
  1251258015, 3570328188, 2975704877, 297034217, 3517430304, 3641221409, 3417320075, 3414694962,
  1757249751, 2890416998, 2144490990, 597769760]

/-- Tempered seed-42 generator outputs 4600..4699. -/
def wsC46 : List Nat := [
  2720157590, 1300656317, 1039472999, 1085259583, 2828935922, 662040130, 3071916904, 1817320723,
  3389058904, 1619163247, 317677825, 1928726872, 4255026720, 2568106346, 2058297345, 2500719008,
  1721444792, 2295090505, 2175884729, 3966384045, 3953054324, 3735048390, 2970866955, 1796587803,
  2334938378, 157905153, 3396120475, 4159366766, 1544167403, 3013496306, 3846149700, 3488788932,
  2305993661, 2550437218, 2740963777, 3927323476, 364994639, 469738105, 3302632494, 1066143895,
  2824377567, 2854838525, 1524751277, 714418371, 2778843173, 2631431563, 190252832, 2419012709,
  4224565086, 2770387920, 2909719639, 2777742652, 1716345122, 4152422191, 3232747923, 1424196985,
  4147721961, 3419786374, 1848792488, 455028401, 45302356, 423511939, 1111272861, 953487391,
  2193337732, 3207709343, 2228219449, 2396563469, 2493307092, 2953496140, 2470617247, 949324089,
  1914604319, 1606831312, 1679908454, 1988841342, 3317184619, 2918668580, 2527974623, 2965405644,
  2149484176, 647444557, 1481623643, 4285100605, 105495798, 2073486033, 449036081, 1268871731,
  1786600854, 3953721569, 4130589741, 368743555, 498513988, 3570482517, 4040173327, 3135973483,
  608490241, 1496060167, 1339558843, 1473460179]

/-- Tempered seed-42 generator outputs 4700..4799. -/
def wsC47 : List Nat := [
  1955638763, 3368413994, 888488384, 2238171141, 2074151376, 1495938377, 2045102506, 419287737,
  1881908383, 3100940360, 2992575455, 1943245911, 1369705770, 288511612, 1289624427, 191912243,
  3479722104, 3052772528, 494287462, 97002315, 3647200370, 1473508573, 2783009621, 469709122,
  2908291293, 3436189121, 705895455, 3993986472, 4225820344, 3180378138, 1047598131, 2216176949,
  749270915, 2370436671, 687777633, 1421589752, 2404532947, 1831242551, 4116565613, 1984507492,
  995811976, 3426335013, 1739665472, 2704799972, 792214339, 800525739, 2750835809, 2823115971,
  1856003347, 1699013395, 125379850, 3167058912, 2637569206, 3792874364, 847501988, 1930909978,
  2543493201, 1844915411, 1670036982, 19112776, 3026816435, 922542252, 883837629, 1195481928,
  3231213392, 3022625060, 3473467988, 3418828570, 268709250, 2479690385, 437021700, 3433836469,
  3745122698, 2305920746, 802986386, 1571069113, 1400094541, 846427583, 1965164102, 489432865,
  1126799232, 2880640679, 3704995758, 2102317678, 2266518721, 4148579330, 2744950470, 1346060408,
  2563970187, 1669192918, 2625549685, 1685963666, 2521166052, 490623034, 1494324956, 1511763726,
  3631471321, 1966496239, 2651552513, 741000011]

/-- Tempered seed-42 generator outputs 4800..4899. -/
def wsC48 : List Nat := [
  3494979199, 2893042129, 3032196927, 3438608304, 1277515811, 3945711630, 2639190897, 2534753843,
  364006941, 2886690817, 575301286, 1345122542, 506211965, 1024662077, 1311597141, 502291736,
  786170238, 1603337351, 2978287288, 607130330, 2193976097, 1668437028, 1796323275, 2561629386,
  592135522, 2468773157, 1648021756, 1816937739, 797806061, 2090232661, 2729458763, 2308026394,
  2978271740, 3947766401, 2771370988, 3997304302, 4294535887, 744037800, 2383331379, 716681967,
  2102996505, 1240535933, 602569046, 803582272, 1351110867, 3616298963, 1937034431, 2660345628,
  230258601, 3717389692, 1542061491, 4088130061, 41160563, 2081379485, 586412136, 838070464,
  3501325792, 1649027664, 4139614407, 2411976659, 2170839755, 2804913277, 2125879326, 1757218651,
  2940749808, 2111946589, 1785119108, 3050038261, 3607307823, 1906328733, 2098948446, 718348264,
  355067637, 2428365056, 132545712, 3418282368, 3268713302, 947167036, 1254516608, 140424329,
  1180484299, 965695131, 2309011435, 1239829538, 722452036, 3353253610, 1964180409, 2429450217,
  3189091602, 3318066826, 3289599426, 2127354612, 2361055973, 2193894984, 486237535, 2459788151,
  490513828, 1150574089, 3329085107, 2332623275]

/-- Tempered seed-42 generator outputs 4900..4999. -/
def wsC49 : List Nat := [
  3535972704, 4255855681, 1575659319, 2328058564, 3533087021, 3250372185, 178715833, 3264192875,
  3087996613, 1895655026, 2346569443, 938630454, 4251054395, 1826025489, 439875261, 3161047381,
  3565126577, 2807498587, 3227004325, 1063140236, 1278650124, 3757279658, 4292015249, 138428506,
  1931585714, 1128782794, 1497126699, 3703119199, 3507822591, 373589152, 1885790857, 3716394243,
  4269015757, 504169141, 3331312549, 3487036345, 1017675569, 901419863, 3481941646, 3168023631,
  2525113890, 2959806220, 1505947987, 3698175999, 3052665002, 2621054475, 2717729159, 1838963536,
  712885628, 2646349248, 598009614, 3370902138, 887424665, 3494084172, 888812214, 3459340599,
  254939955, 2448450685, 1506741005, 2286128610, 1207250969, 2563484242, 2313993297, 723175276,
  1390081665, 4204773646, 3023887882, 1256856463, 1242676804, 2459880594, 1148229704, 4090515451,
  3685154296, 2209395548, 4232640021, 3866137504, 2917568337, 3501175349, 408988968, 582349911,
  4135074226, 3221629787, 3374517348, 1767792297, 3946081594, 254630933, 4262695885, 1191095508,
  3723941036, 2817053070, 544980513, 3012603993, 3719780110, 569902893, 1072355594, 628110811,
  3055417606, 1383394833, 3558302256, 1063239503]

/-- Tempered seed-42 generator outputs 5000..5099. -/
def wsC50 : List Nat := [
  3270504139, 3623043944, 2904405303, 1686636869, 2102209245, 610622521, 2480023764, 2716145826,
  1154131362, 2696435541, 1779083221, 1611352885, 1941289685, 324339920, 2721410516, 3412775111,
  3780108435, 3302332663, 399839065, 1730230896, 2214542998, 3220376717, 1194970235, 2983729287,
  4021532985, 3768049371, 1585148616, 1952902914, 4081310187, 2096135091, 1405696743, 2499480048,
  10621799, 3731930416, 3324885738, 3638555957, 3147025728, 400040376, 3139328744, 4175353719,
  1969024554, 2726619389, 2852475970, 2994833348, 1538554904, 3651178503, 272003213, 3417410681,
  2295335613, 1708176663, 935572425, 4158080605, 1845303066, 3542693668, 909895115, 2124784519,
  1153356934, 1386695233, 3557708750, 1218023007, 1450647350, 2350680837, 2482206102, 560898021,
  2431561831, 3661127093, 2084510429, 3385738429, 1476350425, 3840365022, 2931538190, 3273856102,
  207916194, 197323378, 427670241, 2689420564, 3366780879, 3593608497, 1973888646, 69927882,
  533594595, 3991883779, 3683585586, 678534043, 1895308730, 1960730480, 2903074, 4259912770,
  4114715114, 1837384013, 868950062, 4276473449, 2957479588, 3905874257, 566562369, 3788795778,
  2791716713, 1296502486, 682802977, 3755619762]

/-- Tempered seed-42 generator outputs 5100..5199. -/
def wsC51 : List Nat := [
  4006025776, 3764947017, 1176904638, 400892179, 2811433912, 1548058189, 1075413763, 353993484,
  1597056829, 2854043590, 3881792602, 2787052438, 710924824, 222424647, 1702274064, 2686949912,
  1312152192, 3118096268, 3004077800, 3243697409, 1005640129, 1843532841, 2815287619, 391697534,
  3022360089, 408810792, 4665657, 916636971, 2047869247, 334744286, 569941254, 2549834042,
  971482353, 2230996082, 2920503582, 1911547690, 39887139, 34628465, 2987566830, 1475639733,
  3509456565, 517946362, 4244092994, 3695133408, 1813824517, 2980840461, 567687951, 2051706927,
  304205279, 983319304, 1645272822, 383674057, 3138604802, 3461558269, 439921366, 443247229,
  1345834347, 1578665411, 3783818927, 1285291868, 588965831, 1643774394, 3321987467, 3493388627,
  3234788123, 3755937285, 571858688, 2755548556, 4264645498, 2908281627, 613549255, 293825615,
  2278515709, 2419317349, 36398723, 2621301168, 2791815554, 704875220, 1890212621, 1508339770,
  3102821948, 915066176, 2697583218, 3213790202, 650146942, 3950915172, 1768280529, 2646026315,
  2948779260, 1900024225, 3693510920, 933058809, 372322246, 3850837385, 431494396, 601351841,
  3231729466, 528956230, 2532200677, 3135365431]

/-- Tempered seed-42 generator outputs 5200..5299. -/
def wsC52 : List Nat := [
  1649404491, 1509834067, 4137121697, 1844210621, 1350782959, 3397648387, 600566083, 1064234397,
  1189567020, 2768624284, 361845490, 1065869250, 2376820435, 2581271298, 2577014150, 3097442962,
  2609592494, 1223725552, 3345649167, 4042763554, 2965572185, 115209930, 3641668841, 3638138040,
  2827829512, 3761649148, 1295574037, 882382645, 2223715568, 2606731065, 2188382776, 810230640,
  3211963986, 1682557807, 1269343434, 2775278048, 234372626, 3366402219, 3856505073, 3409250682,
  4100282913, 1027962091, 2125526570, 1657365938, 484230338, 1035438246, 2145690670, 2740542751,
  2550908958, 304994238, 2268973245, 3817042760, 4199176431, 51827414, 4238628199, 1550904983,
  4011174770, 1359239702, 566862173, 1661457617, 3697167992, 3603362908, 2441175185, 1807595119,
  1569434583, 2346582107, 2933213766, 742042844, 3275882971, 2022992405, 4099344326, 4240705819,
  3308701294, 313497572, 71680424, 2522707023, 290050198, 59242317, 1126077199, 926608888,
  171055058, 3962447893, 259711746, 4074549547, 3389974724, 1709289717, 2175875968, 1230455714,
  2699690577, 3060718580, 2151988914, 3294712372, 1784266819, 1819241774, 3014253738, 1727768349,
  354024760, 2751086697, 2304528350, 2309212177]

/-- Tempered seed-42 generator outputs 5300..5399. -/
def wsC53 : List Nat := [
  2645901955, 655757505, 1191714875, 359046710, 1331039957, 339395013, 2196036938, 3955342162,
  872726570, 4184644106, 3470591645, 667339697, 2303778262, 1403381840, 1678179022, 2518728422,
  2724273037, 3278022672, 3584263897, 2791039531, 2925111890, 2762327862, 283962143, 1332167822,
  3000790068, 1878988236, 3135147357, 4094941977, 3635552887, 1024939794, 248704157, 1050032570,
  370281126, 3971245964, 1866092821, 498158588, 1947217245, 2629794700, 2614915281, 236346130,
  1328390707, 2860790008, 3185549370, 2826313349, 3181102664, 754393408, 513003815, 54395639,
  3040409964, 589320181, 3012917912, 48750473, 703655804, 2132077306, 4093173412, 1489087190,
  2246290917, 2221455181, 3362903987, 3532640104, 3095664338, 1113457241, 717100421, 1597167064,
  545162815, 3220265024, 3354901921, 3751482398, 1154334685, 3147935449, 3807122420, 507049745,
  3313267864, 3865030023, 126084156, 1438861395, 3466501821, 1843934986, 1168147769, 2249936731,
  274328104, 1129360134, 3059405041, 4187810396, 2476700066, 2695232998, 331013265, 2130937594,
  1955059570, 2193791472, 1546720356, 238109164, 2145808627, 3690922160, 2434757387, 716750131,
  1579206999, 675641216, 1095715220, 3321422584]

/-- Tempered seed-42 generator outputs 5400..5499. -/
def wsC54 : List Nat := [
  441973220, 3840853628, 2464934576, 2895325210, 3104309491, 495354059, 980989514, 3181625698,
  2185386258, 11031667, 189141363, 3688041196, 3706249669, 52776893, 1050340486, 197489159,
  2026213491, 1563267151, 1644884312, 3952342924, 644608746, 768631342, 3999302060, 4124638097,
  3682870880, 151885397, 2374536171, 3449354722, 3925375344, 3066695975, 3181135507, 2816224192,
  1801177461, 964285941, 1382129132, 1066282253, 1787808459, 3933566253, 3093613064, 1374110948,
  1165044057, 3547630097, 334522402, 2454728281, 1601198885, 512823094, 2156249415, 2891911919,
  3873807154, 226225156, 770278136, 958572516, 3454605491, 2215233002, 4215140451, 197261797,
  4097739848, 1721959126, 296036788, 3766648694, 1997564262, 3719580124, 1212498755, 3322275210,
  3628588115, 1334436786, 1405746777, 371022983, 2375509447, 1961709893, 34227351, 1584496586,
  861876057, 1252391379, 2421531503, 3369432855, 1305280521, 3176454660, 2674551397, 1041890333,
  1992549954, 1581723170, 2541293188, 4174097228, 2118967967, 4285463021, 3318348689, 3332404822,
  839332926, 3145906070, 3867374499, 2347454072, 3266246260, 3418680334, 1052811909, 646677686,
  27392783, 4004616914, 1761091683, 102693781]

/-- Tempered seed-42 generator outputs 5500..5599. -/
def wsC55 : List Nat := [
  1000717686, 2325918921, 1487878460, 2731349392, 3605942891, 2978391464, 3767539382, 41209408,
  4084472077, 1438888667, 6279398, 3259575902, 2823098529, 1616088091, 3646452930, 3170040891,
  3123364825, 1320748157, 446457642, 881303105, 2275535874, 4222449983, 1022922016, 1803095297,
  2113247935, 4128258411, 257247382, 4177110109, 4281907480, 611489444, 3056524105, 1201840395,
  399546384, 188550198, 3956843441, 994167107, 3853820334, 3631413038, 2232348845, 1774065466,
  3010114541, 3846477959, 1599840853, 1969062219, 4185680956, 3212203479, 364653118, 2494390866,
  410500102, 2170795726, 573437604, 2736820502, 3521713809, 1693725910, 321394470, 2542172946,
  2438771483, 267502879, 1868237222, 2845174979, 4141285960, 561387824, 1016926858, 1252738994,
  1120947541, 3654646530, 1352952965, 3977319895, 3439482075, 1687718878, 3009593554, 3572982562,
  3158316538, 1401239832, 1366047498, 1944580162, 1168041588, 1003352579, 320780067, 4052536540,
  870644102, 584595923, 3349803836, 3307754533, 2511301900, 468034755, 667483244, 453796587,
  705985174, 1930874468, 2001691476, 1348762713, 1745958114, 518560332, 2301778419, 1538832840,
  4143074588, 3308571144, 891790792, 1940969078]

/-- Tempered seed-42 generator outputs 5600..5699. -/
def wsC56 : List Nat := [
  1324171556, 1990058467, 1138200363, 3661383114, 515024824, 388354759, 676952884, 3468602282,
  2946583125, 1306593403, 3549303780, 3026684093, 2993068140, 2591164476, 173215225, 923507241,
  3590269471, 3678954178, 1407863065, 637045876, 391756438, 3054397788, 1066091571, 4159246365,
  1527903519, 1701857002, 2205292512, 210241300, 2908480456, 1283511098, 1117407868, 3522258053,
  4254923696, 746756255, 133496549, 4089223793, 1736851379, 3670484662, 1942189222, 2387803202,
  3212972476, 2362751242, 1073108894, 406841968, 1984460654, 437688716, 3452710250, 3409386903,
  600406558, 521637779, 51354601, 264867118, 3566422012, 3354197617, 4220094152, 954720281,
  561417687, 850974890, 3537650376, 1720485787, 1598757527, 2947572742, 2707107352, 4026853527,
  2768901084, 360946585, 2501061666, 2517360884, 1111626210, 3940325728, 3490722186, 322067505,
  93631055, 4282775714, 276905285, 849331223, 3876191142, 2774492599, 1904523027, 3475911318,
  553155490, 395045224, 3887280261, 3639020267, 3562057634, 3474144101, 1423995953, 526252306,
  183379287, 4047064636, 1979958124, 217487269, 721508131, 3969115542, 2464813860, 1860392455,
  3529111904, 3111406814, 1696506450, 2130846652]

/-- Tempered seed-42 generator outputs 5700..5799. -/
def wsC57 : List Nat := [
  126625486, 1643810426, 2934377138, 1832508021, 742201314, 1520174713, 922198636, 3901136913,
  803807914, 1181037719, 1201966146, 1915604499, 3794276323, 638367047, 148818209, 2637567649,
  2659343022, 2649896750, 1055637578, 2780039555, 1267467039, 2142723159, 1769493025, 3791505105,
  2365189801, 2057422183, 261903104, 376761189, 1201628712, 1645038111, 589424206, 1800599868,
  856664739, 2760171573, 3799553602, 3423939099, 2258354191, 1070081452, 2709069459, 4269572329,
  3445285668, 2334987658, 3413838650, 83880626, 4249456160, 1642816742, 3358302654, 3063903685,
  1542374768, 2060228976, 2338686158, 3356238229, 2081682554, 1477615282, 3919917928, 2429453032,
  2157762617, 1381280467, 1668084889, 1161512446, 772303297, 111939600, 1369568735, 2564595211,
  940684569, 125857393, 3847280438, 3481884317, 3343796479, 1206596621, 251647421, 3473141960,
  4258594593, 2025869016, 2273894381, 1535162577, 3293562040, 2508213290, 4293274004, 999705716,
  4183211669, 685583357, 430073711, 1064537936, 2821211202, 1035743379, 1144724751, 2292179207,
  3505918051, 3398337932, 3939599460, 3165649201, 240125829, 3281568562, 4279471232, 4070780669,
  942365574, 2472578783, 3635711661, 4220512452]

/-- Tempered seed-42 generator outputs 5800..5899. -/
def wsC58 : List Nat := [
  3424766939, 1668262032, 1523874287, 4016679296, 3604432125, 4258640120, 3630196130, 746087503,
  756345332, 1015979384, 2544851934, 1365818354, 3462646554, 3170137258, 2996283266, 1540961801,
  3925514210, 2540741595, 121146276, 3021307114, 3008885753, 1510463320, 4069733765, 2438044056,
  2420671425, 610324690, 2418534256, 4073211715, 808457424, 3593585539, 4243454356, 3480646467,
  3786556364, 4167783482, 2114097693, 2328407443, 1327372855, 754010571, 2106408413, 163053047,
  387652480, 241239647, 999109703, 2584122005, 939777262, 85590073, 2261079164, 2052947074,
  2935589, 1424786638, 3942334096, 2637688758, 865282924, 3463656690, 560448350, 1463548951,
  3079223686, 762184337, 3946133408, 3446386747, 3626172534, 3728964043, 1389803385, 255790920,
  94115188, 634418273, 2519467229, 3026647734, 3939447721, 608393560, 3325878813, 476400290,
  3635607734, 2260419271, 3696547227, 1567189960, 4125568431, 311520864, 1604560177, 3025967700,
  4045529385, 2843867732, 1699070000, 2516922421, 433929868, 1445518797, 1296071464, 1385570227,
  586055431, 4191289674, 676474018, 3145427973, 4074607702, 1876335418, 3400937735, 2745626499,
  4126012290, 2092508149, 2788208029, 1362721798]

/-- Tempered seed-42 generator outputs 5900..5999. -/
def wsC59 : List Nat := [
  748194762, 3037327498, 4160719060, 2413674172, 2978819212, 3820803827, 3989359784, 2635860024,
  3380104018, 1532554057, 958796521, 2858436754, 2529521639, 3498054328, 753129506, 1625147377,
  1317795722, 3152484405, 2957078297, 1264942028, 546957087, 763251269, 3130305126, 7721941,
  4075013872, 3015103300, 4074627573, 2460306692, 1681915310, 3653973312, 4270413512, 3310691309,
  4145433459, 2437319900, 139082827, 782035199, 2587239638, 1366731217, 3955829012, 3473799264,
  4155516933, 2625862062, 948737873, 2747261955, 2429019820, 447150027, 4023043447, 2131098613,
  604058666, 1422357563, 3201225242, 334176969, 1022184735, 1489538120, 4219288481, 1372322277,
  721070971, 2732401365, 3802421513, 4136395494, 381075297, 3529010576, 3044984963, 2877733629,
  2744925141, 3132259278, 3808147844, 1442032976, 1918260963, 48943839, 1139078760, 900587144,
  1071769843, 2977168607, 291176364, 1505305132, 1102337464, 3380225197, 464005062, 3094152811,
  5502537, 206791755, 1657587204, 1882141157, 3146426435, 1802396869, 4162260671, 714418166,
  3799121913, 1778198758, 2117771015, 3787176141, 1626558140, 1508526390, 2345155074, 1612105539,
  435632331, 3559698862, 2059390655, 3387569514]

/-- Tempered seed-42 generator outputs 6000..6099. -/
def wsC60 : List Nat := [
  3711069596, 2482729424, 2795892991, 3256631219, 2951331472, 968870456, 698604397, 1938264714,
  316579418, 3432514526, 3632522232, 143506818, 1266622851, 86234365, 1368878709, 1121534958,
  4087357728, 449790661, 318688299, 1468055063, 730596287, 3813635764, 1612579345, 691079537,
  3143852021, 322132937, 2349545786, 4045146821, 3857413933, 4200656353, 399881571, 1451486688,
  2551341740, 4231728613, 2635584024, 3836377197, 2073338701, 3025824435, 133114792, 1852519609,
  4047758661, 2807341727, 708657549, 2608409338, 3821461211, 1864876473, 674755608, 230020161,
  434898985, 1422040412, 882832553, 4185009345, 815976168, 1757843634, 2994437044, 2379894770,
  3101130031, 3975308329, 3135214487, 2319821061, 1139303499, 2837246354, 1209132386, 1277326067,
  1020262123, 411955771, 213182609, 1687502175, 2455732633, 2360783034, 3607147617, 2108606793,
  659663750, 234096568, 1549748436, 16387764, 1836553621, 376360931, 1265080225, 3538611992,
  2843355206, 2684745185, 2577906075, 2062994753, 857596764, 416555576, 110533960, 888856289,
  733718685, 2741008001, 1253320675, 4196430851, 351912852, 2033970459, 3623960580, 496107065,
  1324367744, 3371019229, 1707109267, 2022691021]

/-- Tempered seed-42 generator outputs 6100..6199. -/
def wsC61 : List Nat := [
  2100654796, 3843469524, 2839145425, 1138185235, 391429896, 2756795104, 2337003495, 1664416298,
  794058803, 1593521006, 3803162153, 1638294596, 1586568081, 801367625, 1914590233, 191628232,
  1130847576, 1888670721, 1997408731, 1131297865, 971703178, 3595225887, 1153464986, 2423420650,
  264739091, 649101302, 3230825332, 2991319958, 2866755218, 415334610, 368110105, 2869644485,
  1476572736, 3471107346, 2325505783, 1778059107, 4169148536, 3248957571, 2532855799, 977159856,
  2377702111, 261923195, 3611196345, 1662608027, 3515023631, 2244473790, 1798011065, 4147339412,
  2300016872, 2950934291, 3723281419, 4021641735, 2039355231, 2459789133, 3786674545, 1012074766,
  2045530940, 1283560032, 339109365, 1695671834, 3877398554, 3667643585, 3067919621, 149157745,
  2156509381, 2453370912, 3867425036, 2219713803, 3437908017, 2454511113, 2909990149, 4220899580,
  2664052763, 633282877, 516606697, 4077018390, 3252100938, 1928610987, 742509523, 4076188022,
  4227828349, 717967293, 4175416378, 910061300, 3472312361, 827752234, 541964762, 183291591,
  1818381356, 336590217, 4244629987, 2934001543, 1869999754, 867236691, 4283238704, 3532885614,
  2693916084, 635132230, 3582467100, 2555710238]

/-- Tempered seed-42 generator outputs 6200..6299. -/
def wsC62 : List Nat := [
  1107613491, 1373313591, 3911875479, 3122883618, 3926347136, 3467514661, 287814151, 373780031,
  1666873181, 2389566051, 1706626708, 2371054709, 1400703953, 3679172843, 1186273502, 2232043732,
  1967770105, 3939180397, 3751509023, 53102106, 3378209272, 3008247146, 2676013419, 2523620074,
  2244386751, 3357314353, 1802141793, 483264745, 1780016559, 642708893, 636513034, 2433502391,
  2525157887, 2502579013, 3257206064, 4143920417, 4035765954, 430372878, 3972536230, 453698094,
  2416708343, 3348118981, 433750626, 3374751777, 1228759446, 3725777905, 2300528259, 3780154405,
  1476906868, 3770524142, 1764759274, 1134458188, 1645159179, 2812291645, 2085570788, 2456821088,
  2615472543, 2031719772, 160913827, 739592196, 1182894728, 1730759996, 617842513, 2655339870,
  2614154439, 2924068985, 2979252408, 1725373847, 166569717, 1699916883, 3820692142, 3775094300,
  1423756197, 2965734008, 1020395327, 211703120, 3202971098, 2041046587, 3954956131, 1153561013,
  3852720361, 1599620611, 86899610, 1451123758, 3510645808, 3408709637, 1301611123, 1335517080,
  1204079697, 3619998445, 2111488438, 3686090309, 2990082548, 2941417062, 421840452, 4176841254,
  3731897202, 979069637, 577181411, 1290553691]

/-- Tempered seed-42 generator outputs 6300..6399. -/
def wsC63 : List Nat := [
  4184240549, 3194268714, 1903145590, 3324437391, 3546884199, 1378118917, 1157150012, 3130169646,
  1790025237, 2598365569, 2772636814, 383484123, 807177651, 1897158366, 907915284, 3923164030,
  3538921787, 1748783374, 3182333695, 2080741273, 3261998854, 2218356672, 3724548266, 1605932109,
  3526242854, 241402174, 2213066496, 3399425369, 682781467, 281822724, 1336263518, 3047577372,
  2176669141, 1732526008, 582611532, 3352292520, 3656285641, 2251792132, 3776704724, 2442428958,
  124331395, 746196273, 827912699, 3758871860, 3577406847, 862114934, 3594787485, 247508299,
  1071552532, 142039044, 1960432117, 217150457, 3942913436, 1547799171, 3026379752, 855169963,
  1176724393, 1582059473, 3536932597, 1993803105, 2169501271, 1704854104, 2729064332, 3964570811,
  532029870, 2925621610, 131267917, 1039116218, 1599732557, 2099323053, 2551397793, 1915999663,
  762716154, 4125403585, 3738686447, 2038315396, 2520631487, 2367960313, 1502207340, 1478538226,
  702285630, 3597695521, 3841813556, 1110935906, 3216763571, 3568560335, 2958590550, 388230363,
  1224363672, 117898946, 1660286914, 213249628, 699681969, 3667134656, 2457829635, 3349344896,
  4144289583, 920491305, 3681264539, 950695647]

/-- Tempered seed-42 generator outputs 6400..6499. -/
def wsC64 : List Nat := [
  2780475472, 966848837, 2910678913, 887902820, 1155705163, 2798546298, 1758820024, 2204526134,
  86124217, 3713557275, 3351378715, 4153827615, 3296699774, 2930025537, 38216544, 2036231979,
  3914929023, 568284681, 2780439666, 743891149, 2581885004, 3439688162, 36351450, 961084962,
  1084008690, 2612817084, 3457816169, 4050175493, 1311939403, 3061197085, 4153338344, 3046713215,
  2760548616, 1182741899, 1820236332, 3846070092, 1616949739, 3657534761, 1497694598, 1971381481,
  1082326234, 937200760, 2004452735, 1297703275, 2908535332, 2236122747, 3540388030, 2678367783,
  1705757183, 2510353238, 439427140, 31557592, 2196934660, 4292516499, 2844794993, 4151023395,
  3621876966, 3605102857, 1607304606, 2411439945, 2780313235, 2550233647, 2615850281, 1214087964,
  1281944343, 2939532043, 464305421, 2069050782, 274178050, 1444327294, 4244978019, 1187486518,
  2751333497, 1396453077, 3700078247, 1189211712, 1121617417, 2818012241, 3054124492, 4089615434,
  3832716261, 2798027184, 1283298067, 809000407, 643941414, 2221759035, 3287687478, 1032089545,
  3864126433, 243845356, 3459294749, 3682141408, 3446126047, 3479047947, 2577123417, 1735589535,
  2836956156, 1372610291, 2923823693, 600992653]

/-- Tempered seed-42 generator outputs 6500..6599. -/
def wsC65 : List Nat := [
  3097887746, 109329542, 2814924004, 2136200004, 4284097182, 1269612255, 1114227340, 3895155510,
  1797725951, 1737739017, 1667628074, 3164240280, 151693971, 2504067741, 3041133003, 4272434746,
  2456903534, 3504756453, 815679418, 1473891248, 3120507945, 3063897771, 955042637, 2947713853,
  2296240256, 2741535989, 3371107191, 2043267129, 3893501680, 4040138099, 2885653126, 1539733450,
  2178900724, 1289326948, 3631048029, 730087155, 3610515710, 2824433548, 3764516447, 2397657114,
  777972586, 1261792922, 419201975, 2021988477, 549515893, 3182222430, 1110901233, 3114652880,
  3471810472, 2401022668, 3276708783, 3919693525, 786272577, 4067004956, 2919342370, 3863714615,
  1441530442, 2810775408, 383539822, 954571559, 1525930586, 959186138, 3196357282, 3742772931,
  1318921193, 1805915915, 3384822653, 3808964060, 1422996266, 1596363878, 1119093377, 2515006996,
  1262939955, 1991836726, 3655935832, 505867569, 2020939193, 230540762, 3721131196, 2724713263,
  2506433915, 2492425802, 4055741848, 2665691647, 305869263, 2028168087, 3820055862, 835559278,
  2149533961, 514605529, 3725874491, 2923574632, 1639256813, 2275639056, 1281428200, 1774282158,
  232194392, 3740268586, 3668931881, 647588523]

/-- Tempered seed-42 generator outputs 6600..6699. -/
def wsC66 : List Nat := [
  589979266, 4262101582, 860267314, 1471755952, 1757465583, 4239955643, 2445569788, 3834740605,
  3893907252, 4237626298, 1965254350, 615143045, 1358856601, 3703953781, 3073772623, 774626412,
  3345526911, 347082594, 2094143791, 1428632583, 2710265109, 4237588145, 759454456, 1346103176,
  2725152347, 249166485, 20244331, 1941553836, 1174793230, 899290419, 3269300253, 3322338756,
  724156214, 2475099081, 3283432667, 680473653, 2102717570, 3372455146, 3279504577, 3349011298,
  378134712, 555794362, 2639170397, 1862776335, 2720808271, 1844300709, 1732561822, 1842650262,
  4146051494, 2050418568, 1646331504, 20053819, 162028997, 2292578829, 856477685, 3138156825,
  1602458325, 4080513633, 60460757, 3831138280, 1383894864, 3250636259, 3578689864, 2280772748,
  818520766, 76949178, 2906611156, 17711717, 2691599845, 3150801944, 1068687175, 971803809,
  2978666109, 3766622488, 1478971008, 1340426053, 553753599, 441128454, 1647336743, 2161813706,
  2528321354, 1314754322, 717346250, 280405602, 3538382315, 196358835, 1280768911, 4073619179,
  1249095871, 1958188576, 3126014242, 2234621711, 2561389287, 2251068157, 1450990916, 1862577974,
  3813819460, 2949698295, 4275521470, 574621243]

/-- Tempered seed-42 generator outputs 6700..6799. -/
def wsC67 : List Nat := [
  1472026313, 4278384048, 3871413840, 2105301413, 1542970785, 3221721910, 809283659, 708169264,
  4071991274, 3895081081, 3943662204, 3487549177, 1732553940, 82140117, 981049082, 963452923,
  3123166308, 4230025371, 563524533, 907055132, 3152835101, 94116768, 2532711433, 2167384632,
  725783958, 528976690, 1574498300, 3054194567, 2794049663, 3402160254, 160474695, 1611439217,
  3764728389, 2750158124, 1098606132, 3312492080, 2296662600, 2676343517, 208679403, 2550884435,
  4272119095, 205988231, 2843139149, 464343720, 2807051534, 3591108099, 84790270, 207167992,
  2962452613, 497313534, 1790037430, 1908315331, 1633177480, 530836767, 2350559943, 1085502712,
  2037516736, 3014501050, 657675888, 882593929, 2985827033, 2945230984, 2707166618, 39962746,
  1293285336, 1807629146, 2841827734, 433705141, 2845342687, 2234711156, 1159543038, 2674896065,
  2601179659, 3009596757, 589112843, 1798842890, 3567626270, 3859551800, 450603215, 2197239905,
  3087077414, 2652992543, 505666123, 1214216328, 489680170, 3370518841, 456399159, 2137772998,
  853180912, 2615642860, 857917067, 3341308097, 1129550258, 3571260246, 2246895401, 4179517389,
  866179751, 1537262560, 3021237834, 1759889613]

/-- Tempered seed-42 generator outputs 6800..6899. -/
def wsC68 : List Nat := [
  1268523764, 688799369, 169246232, 2354238065, 2131827254, 3909951947, 892038856, 2955813290,
  4007738542, 2064435929, 1419931729, 1007192464, 11759631, 54758244, 2884642366, 382264279,
  3895020135, 474297175, 3587294825, 2465967350, 2873427320, 2122160665, 640570713, 4077839614,
  386902139, 3348039631, 2197757742, 322329612, 3107682060, 3107736331, 435039291, 3885997885,
  1099048201, 2767405445, 992825867, 1961731598, 4246287820, 4197432692, 1271405590, 1134408349,
  1994056084, 215092803, 428676004, 3492574713, 750338556, 3754404646, 169412921, 3660380242,
  1247976542, 1547110201, 3442829039, 2906690116, 1343066791, 1829635479, 3172006012, 497791242,
  408015311, 3656073292, 3256461381, 3823775103, 197092148, 41542315, 3659306670, 594399606,
  2849088142, 2779696951, 732344664, 1411587518, 1535568489, 3841966874, 1879969532, 4102076702,
  2670640892, 1152380087, 3773023694, 3148502863, 399222877, 1600399955, 3500244968, 1471982906,
  785418196, 488904732, 1721326325, 1719061621, 4133089672, 1960818751, 1167514229, 3589340010,
  1656635401, 2963108379, 3653606617, 2054046672, 3435540461, 1811358735, 2786774414, 3805873096,
  3422700486, 716309186, 485574228, 569132884]

/-- Tempered seed-42 generator outputs 6900..6999. -/
def wsC69 : List Nat := [
  2990026838, 3119911995, 251884343, 4215807469, 4047864870, 3626454979, 684598046, 445444412,
  1786825410, 3913689120, 2537253239, 2073072687, 3445701000, 2443593434, 2913676335, 1881894932,
  778508164, 2625612966, 1631017155, 3346485166, 1540170604, 2625764422, 123764767, 3704734739,
  2939751069, 3779357509, 3601486722, 3123637939, 4180912634, 3830092090, 561160362, 2074811306,
  3953079243, 2096471391, 485062769, 3812186906, 1766452453, 1892740043, 197449658, 272026241,
  1123618706, 2813090060, 1349641712, 53086688, 3026097251, 3729458718, 2911682538, 2254075750,
  3296510731, 3193839966, 2476688619, 3108583686, 2426709025, 962007876, 4200029418, 4104964066,
  2876959590, 3750123059, 1452990192, 2229516148, 2246711008, 2955975343, 3008968974, 2655316364,
  409061875, 1859067602, 2842036826, 3120946447, 1067630048, 2069872193, 1484982750, 2850615512,
  2904667340, 2754811152, 1653032484, 638465996, 3603619372, 3549523407, 2398070237, 3831376592,
  4242532705, 2632445649, 234359689, 50014313, 2763376419, 4013094698, 673997936, 2171396180,
  3645763976, 2015580633, 3658758727, 2129594795, 3734111722, 710404224, 321543768, 3227367284,
  2111611923, 1377111768, 1034622484, 1421182517]

/-- Tempered seed-42 generator outputs 7000..7099. -/
def wsC70 : List Nat := [
  4166741258, 1194675791, 216254664, 2177244907, 956517221, 2364360455, 2763026830, 1626236090,
  1732061472, 3509431976, 1009317340, 338574832, 1971796256, 1907776673, 3441391011, 2461166285,
  1924568778, 378042415, 3679022701, 2140852855, 1920142971, 1357473928, 509842017, 4211948762,
  2136202250, 3200776977, 2806215682, 76317824, 440849718, 1732760138, 1770980600, 153896961,
  2392859462, 2358361363, 728926, 3547251133, 390393407, 3400683300, 2595033294, 4136789018,
  2658868885, 2738205384, 1308238270, 3822997184, 2183293974, 2415200001, 888419332, 2811468334,
  2883960470, 1959398103, 4081744201, 1463957634, 1560544045, 3544683724, 233110260, 3507221724,
  957425987, 3626315792, 1951890759, 1425811567, 2405829565, 3296028351, 2661840210, 2576770578,
  2032093686, 3078022953, 2822511659, 1560338203, 3074825074, 1943612110, 489726608, 418488804,
  3261254352, 2829998009, 952396600, 9435833, 1466117662, 1525310290, 3564324148, 2721554031,
  4142211132, 3435598975, 1254059868, 2352313121, 2241908873, 1605846862, 3015479599, 456650521,
  196615480, 3852057916, 705041929, 2114937010, 603224661, 3529770169, 3078873557, 3189059975,
  3099072719, 1757546829, 459396179, 1092164263]

/-- Tempered seed-42 generator outputs 7100..7199. -/
def wsC71 : List Nat := [
  2623588379, 841476312, 805492785, 518599264, 3995248395, 3660146949, 1687477596, 925949882,
  1962997637, 3541433082, 3356175095, 818529567, 3078580665, 1451413560, 462850341, 3251931664,
  1780136605, 199717518, 3979830631, 2719747078, 3596890088, 2886826923, 2528924461, 529222385,
  3316338263, 3830055793, 1934902523, 1964465977, 2828049969, 2531093634, 4106806163, 2165512104,
  578257249, 4139724658, 2142452709, 18629956, 2277897510, 3162014755, 208613457, 2376088968,
  4017118465, 1858906417, 3602687762, 2513074317, 2074176983, 3970142676, 2183273171, 3354719481,
  3956361996, 3909199720, 761078677, 2971334438, 2484872186, 745822208, 3137450661, 3501446994,
  551395583, 444760892, 1663894274, 2824034657, 2579325504, 2603440682, 3791149875, 1382308441,
  2165136471, 3785543655, 1652113468, 1798151372, 4206923716, 2615607979, 3933804513, 2974331558,
  3274374218, 1066177492, 1175085349, 1708838608, 4138602728, 1472567340, 4168229907, 1263465731,
  1944957475, 3456576082, 572827654, 593478613, 1772728313, 2587822801, 3006538443, 3807217286,
  3214468916, 2200288670, 1283822131, 3620977113, 3012895123, 2352808730, 3696710765, 1348236583,
  3057477077, 3164611982, 4017993761, 2377614706]

/-- Tempered seed-42 generator outputs 7200..7299. -/
def wsC72 : List Nat := [
  2716924538, 933479178, 862812038, 900709165, 2680779364, 3068258220, 1248029429, 2948973070,
  1483024614, 3956488487, 2887823121, 569820733, 4214803857, 3051129498, 2792099745, 4188364018,
  4115980792, 763699730, 2164205833, 2329983136, 2982047218, 2735367768, 1384617549, 3050941750,
  495661785, 3267503871, 1512849852, 2414975110, 2063173119, 2503133882, 2450872378, 4048752488,
  2865418497, 3049957779, 1793054056, 2895853722, 3212071708, 3839125227, 3613739544, 2293095089,
  1228051310, 3768736001, 3639130492, 1814135645, 3471642620, 54848947, 2245108207, 457287198,
  108543028, 1635825546, 624173500, 227912437, 2878719791, 243115672, 858574346, 1146662918,
  3222020108, 3373835078, 691212228, 4224239486, 1231004412, 2935139119, 1076151332, 628905148,
  3605117440, 266428954, 2966082283, 3368789394, 1267619081, 876177193, 3236661365, 2324316421,
  138754863, 1540529329, 3496215976, 1943878598, 440148273, 2646167278, 3728183547, 2901362116,
  3176096024, 2413277601, 3714465905, 963392891, 3188638426, 2779356860, 2410638666, 1670255496,
  1020464793, 2194394567, 3368573654, 3422374449, 3430913303, 2989849148, 1235398622, 2976137781,
  2853978147, 201777040, 3979221965, 1638884924]

/-- Tempered seed-42 generator outputs 7300..7399. -/
def wsC73 : List Nat := [
  1664534549, 1789138357, 4109003671, 3384913221, 4191126681, 2942691532, 1342838606, 4148222076,
  2371357111, 231078662, 55685277, 3194038184, 1079501936, 872252973, 2665292162, 3731682155,
  3354046875, 3695582004, 3737128762, 1902944754, 3564751926, 968723414, 3914804162, 2722100861,
  3026358804, 3047474523, 2781559918, 1579436068, 3243162896, 2527095794, 2347694143, 3171618722,
  2591527330, 843828285, 3333524884, 3113484131, 4141593270, 831066348, 1263483694, 1927645417,
  762038402, 4223899864, 2931997465, 319841893, 803058282, 4133799712, 746444391, 3157142361,
  2206955437, 512620717, 1620054076, 174522691, 1840427040, 1198777962, 2390572890, 1134900434,
  558631501, 691184145, 2508201018, 3633603304, 1095286033, 24245671, 1419756364, 2002877824,
  3048092317, 4026508020, 664885408, 171543543, 660150996, 3988427908, 1385685421, 2563581525,
  218422454, 3322848469, 4004549630, 2685929361, 2644019132, 3621258644, 2842796831, 1293450101,
  2106900240, 3392629814, 2459628934, 2362919975, 1537965898, 313020613, 3367389408, 3039469163,
  1365194028, 2256554634, 944729659, 4110230967, 789711774, 2235986982, 292815703, 3376953419,
  2169561289, 684491050, 1786411073, 2332511514]

/-- Tempered seed-42 generator outputs 7400..7499. -/
def wsC74 : List Nat := [
  2306551869, 1732663107, 394903139, 1500674245, 950038526, 3794160110, 916347640, 2848999900,
  1425428846, 1421919938, 1549614875, 1260892281, 938215334, 4081542966, 3232631578, 2655494969,
  2278475421, 2039496086, 4280497897, 2410914100, 3537714726, 3230389876, 4213934976, 2788722772,
  37811610, 492727022, 2873068834, 1486090002, 1914126243, 1032286260, 3884782716, 2758504398,
  2635826143, 3945388306, 2667740351, 1047229693, 4118430494, 171271484, 2931535772, 3803881422,
  1378413965, 1637982876, 3933899809, 3419681228, 4058691146, 486937758, 1657324532, 1102048042,
  2320301599, 3109451569, 1214741296, 106110279, 3914158014, 2219930371, 3530931523, 3309247923,
  1610432533, 2208940597, 3448071630, 2185002745, 1913652314, 2090810307, 188341455, 1273174184,
  3858090129, 2798292304, 826834424, 1375732811, 2207160929, 353670997, 4072538783, 412129737,
  718955214, 4173113772, 4107175031, 3321377743, 2310584302, 2290101581, 31484632, 2692657073,
  281199333, 905299540, 2879067453, 2703744107, 3322510552, 915580209, 3714935617, 2943792834,
  1821965723, 3589154183, 446362270, 882957524, 2309636755, 3559448428, 3018257606, 3773718154,
  4192849811, 3184181519, 3329487584, 1869331955]

/-- Tempered seed-42 generator outputs 7500..7599. -/
def wsC75 : List Nat := [
  2776959016, 3507933204, 4036200310, 309755155, 3207871655, 2946534590, 660370908, 102018113,
  1972357370, 3078925832, 1424706705, 162720486, 375899416, 314597900, 233079614, 764470510,
  3411126545, 1081936639, 2396953414, 302546464, 2469444227, 3528828126, 977730531, 3912657541,
  1110884543, 1750769451, 1666587357, 1937569973, 2706762540, 1737091024, 1859828364, 1358945892,
  72546169, 1672897780, 2891796055, 508119378, 2297096148, 25335682, 2754889723, 3093603451,
  2655790301, 271603383, 3246826017, 3203835290, 2515167269, 195493385, 3010265377, 3643211329,
  311769311, 1536310375, 3985934731, 2159668272, 455848684, 1244838690, 3379674961, 2945826425,
  1294291435, 2605180473, 371537098, 1209108201, 3286827811, 3980107027, 1879804739, 1638158847,
  1696998516, 3530988694, 2837784389, 132367258, 2035761595, 671404204, 2291226621, 944316108,
  585753895, 3207283636, 1679300279, 3422102965, 3425170310, 3648434874, 2343868762, 1266922864,
  4123745252, 2723205427, 618799724, 1280142912, 2908934292, 3809542002, 3926325579, 4146212798,
  3414572522, 3724333525, 3132425211, 2782883717, 1602583329, 4111965810, 4077921573, 47889782,
  2377368257, 3757095359, 2384006407, 607196157]

/-- Tempered seed-42 generator outputs 7600..7699. -/
def wsC76 : List Nat := [
  529290976, 179414276, 21602991, 2459807647, 2562613232, 1692568000, 2307050488, 2351603889,
  4067245523, 365617071, 1308638549, 902170293, 3213909354, 3184419679, 3880702131, 3117877161,
  1476831585, 909403244, 1772337553, 3889642781, 2774254671, 3656987906, 2201397080, 611840071,
  691293717, 790242728, 948277118, 2649500547, 3585216937, 1085517692, 834624758, 492300084,
  778926596, 2881828165, 3434513777, 2436503348, 3660390742, 233595980, 3656682429, 3225700031,
  4004498051, 4252345843, 4270542027, 2357297588, 1981118951, 2768855958, 2360791536, 314153552,
  1248343708, 2884866198, 289320836, 1076695131, 421776124, 847902091, 3116382122, 2493639344,
  2092466848, 4086832798, 1420993922, 1533897596, 550679848, 2883192498, 2815235019, 1007310926,
  429690260, 1224654701, 2660800029, 299826879, 3865979921, 831070024, 1364880195, 2086758111,
  1935509747, 1410235649, 2647170586, 2832197001, 1312866234, 2978379982, 2508990774, 654531367,
  2429027360, 2434653305, 1565487367, 3469044073, 1358640560, 4117408704, 1839566253, 724301196,
  20752792, 1345247256, 1057314172, 3374384508, 951445658, 3058871961, 3177486462, 2752380581,
  1873138608, 1188330817, 3608245220, 1543980627]

/-- Tempered seed-42 generator outputs 7700..7799. -/
def wsC77 : List Nat := [
  576839151, 2918774631, 3148094176, 1424052026, 3770490924, 2061386599, 1987918631, 1912797925,
  1540783437, 3327598766, 1311991364, 2091526171, 2369412470, 467432617, 754927096, 2772623033,
  2605446007, 352074333, 3615473387, 1205236284, 3688147053, 3549548567, 601302589, 3828091626,
  2313346852, 843668735, 1130584220, 3150550131, 3806783398, 2691307645, 328403409, 3124268175,
  323840346, 3831562592, 80016490, 3648949564, 2178314265, 2712815143, 133978190, 3490272519,
  2499200634, 2486359959, 1740039271, 3303689934, 2534186676, 913800164, 3892544235, 157437641,
  2369078206, 1119338568, 2334182974, 3839640326, 4289504837, 2317895570, 2027671011, 2808514071,
  3329446784, 638373812, 1571179066, 1685767569, 959094724, 3828695073, 3316336858, 2532315957,
  3149185230, 3681492019, 1249831874, 575015625, 1995876216, 2152307647, 2192202822, 388926568,
  1704179289, 1562790683, 2156792018, 45490921, 2846182436, 1025985237, 3642054244, 4140349625,
  3464063159, 4217027382, 2637264426, 2938451957, 712292620, 3252175315, 2208200227, 602887521,
  1916502228, 683855081, 769422699, 2432485873, 4074686300, 2430146316, 2832158562, 3746049660,
  4156392601, 627920145, 3160751508, 3143935269]

/-- Tempered seed-42 generator outputs 7800..7899. -/
def wsC78 : List Nat := [
  2076631329, 4033727012, 1541015125, 173601852, 939820934, 3270498955, 2094407076, 995358283,
  269986628, 1135405173, 1586712032, 1005102559, 183860832, 2871553289, 888087890, 2224300124,
  3898653873, 3399296772, 1551562813, 1666847218, 2017235435, 3942358816, 1952678750, 3786236940,
  199447370, 171389355, 4211601043, 2785392585, 1391874847, 443348057, 3022524173, 4159424154,
  2239279558, 2721149457, 3563307395, 1174653422, 3585749068, 3186477946, 1130933907, 2485203088,
  2337965699, 2448819206, 746679280, 1617740533, 2807514105, 1625724671, 1568937696, 2524061336,
  2806059083, 3857853947, 3588312351, 334309386, 2219050244, 1080555408, 1616319802, 4177603484,
  3896576569, 957345013, 2217799930, 1743078982, 1515685383, 3510005169, 3726826559, 1481902553,
  2091054466, 3404437849, 2070647070, 3810374469, 2595066420, 28336833, 2155373421, 3788308237,
  596864325, 1889350539, 711271599, 987802843, 331091398, 2209937925, 2763712703, 1206067650,
  908459040, 645277642, 802753761, 675844672, 1555735702, 2585657398, 3080791678, 3508795329,
  508224423, 2839444315, 989329953, 1780752198, 3483959915, 1418304567, 3093474499, 486786005,
  2068098256, 2900088306, 2056493243, 2057380250]

/-- Tempered seed-42 generator outputs 7900..7999. -/
def wsC79 : List Nat := [
  904966590, 2537427612, 692547412, 2779957226, 3579275417, 1764798660, 96405016, 1046556006,
  185303518, 549262370, 2463105817, 2544113848, 692044390, 578635360, 2703855522, 2201784149,
  168323465, 3825946852, 2457877922, 630780803, 240140248, 714430728, 1109216714, 3961879157,
  773255350, 2218954863, 4115602322, 1741421625, 2574220936, 4162869927, 2420663750, 2738568701,
  79972435, 3773167333, 3090432112, 3126625885, 2842173377, 3527470850, 1217428333, 4068424407,
  368287033, 930261655, 1929313730, 2605008864, 4263939703, 2024705373, 3725035441, 2068750029,
  732578761, 942160389, 3566384410, 1764230206, 2580582653, 612943949, 3412850018, 2502446090,
  3523819579, 3296344958, 781186472, 2676674027, 2833169800, 2193890388, 1136107759, 720359227,
  3110358607, 2944591628, 1471761915, 3961471438, 1947639426, 2562091291, 2536590481, 295678014,
  987042690, 1624405402, 1655546199, 567851370, 466305100, 71135963, 869080406, 2245028124,
  3691918197, 3905582211, 2166207663, 2939337464, 1803005854, 3549851402, 642360440, 2600650037,
  413599241, 762022478, 2043842561, 3872377816, 2640323269, 2576180666, 167660765, 3769918874,
  3366688428, 2282474254, 2161782487, 3231461054]

/-- Tempered seed-42 generator outputs 8000..8099. -/
def wsC80 : List Nat := [
  504729135, 400247855, 2071209024, 2832069709, 559758111, 3873995019, 2591903901, 2316215674,
  3554178984, 5154842, 3852452290, 4027540463, 3328043118, 2914390260, 2788429082, 1853264746,
  2242162891, 1806824124, 1590759039, 3757341777, 186566008, 2996353041, 2275544610, 1842353139,
  985635941, 4030490187, 3445853096, 2070704425, 3391115405, 3301419700, 1637398296, 1505462528,
  2529942267, 3455821033, 3184263164, 3899224188, 3270786064, 3595705864, 2992336359, 2474420092,
  419690931, 1827463042, 575023565, 1093146603, 2049305985, 3289338885, 998635233, 3908786838,
  3689605624, 359993773, 1216621076, 2569646059, 3765682640, 2335306968, 1755124229, 1107263953,
  811839103, 23491105, 3045771064, 3193933871, 3390543744, 30554742, 2482435875, 2244294928,
  506070001, 2232360156, 30898225, 1610741069, 2811254192, 882266582, 2953935626, 3454387034,
  1356787523, 1755976246, 1555936898, 457771446, 664768939, 1829963525, 2798497340, 2514145814,
  1089344285, 1122287361, 3672097945, 2302552969, 1819182998, 2425240213, 1570429425, 2628007501,
  1183523503, 4259742875, 2923179238, 1707052548, 3242579642, 874857628, 1774801423, 2371272694,
  3366345605, 2394713470, 2072183247, 767594840]

/-- Tempered seed-42 generator outputs 8100..8199. -/
def wsC81 : List Nat := [
  1590052587, 2401289703, 2383326135, 2077734079, 1089966667, 4245610678, 1317064971, 2480992821,
  1478999069, 3325139990, 3030076274, 1709954268, 3160161496, 592999772, 3672192390, 3710123841,
  2831598303, 511469461, 3211837506, 986860232, 1918110391, 3363428658, 3003519744, 4076977004,
  694904767, 430693397, 921090693, 2183318911, 1720395994, 3376192710, 1453579468, 3439640577,
  2364706816, 2637218862, 2993838759, 2940181914, 3035639663, 223565082, 690364509, 1671187564,
  4142797693, 2731069282, 22723101, 3454740118, 391222487, 3535855298, 624180869, 2025801466,
  3976546098, 2578034538, 1869931869, 378561387, 275223478, 1129971523, 952495966, 1592724766,
  343768060, 2615759047, 162157936, 3111681099, 1650667644, 3997261590, 4228172410, 1720756561,
  2636962116, 2818251159, 2237701770, 1230375990, 3056323761, 4138329059, 2566125120, 246801831,
  4061818680, 3322622988, 3522855590, 752783751, 2750030242, 2123296018, 1885370603, 46000830,
  866326003, 3653160191, 2821296252, 3997577165, 3452766772, 2225451403, 1228388623, 836429847,
  144351055, 3367080161, 2574896934, 2192786308, 2215402672, 2999818762, 995019253, 2642220886,
  727923480, 2894912687, 154881394, 1545071541]

/-- Tempered seed-42 generator outputs 8200..8299. -/
def wsC82 : List Nat := [
  1027599387, 2813285701, 1233817, 4190367237, 676220116, 372987009, 4281297027, 1185139825,
  3348669509, 1715554644, 1516671766, 2876176605, 1697126768, 1741398650, 2517195150, 860326545,
  2223687972, 65998711, 3165071083, 3022033155, 294708501, 3947836984, 387259395, 2360482466,
  1221891492, 3118741999, 3563812694, 2401375748, 3929933610, 2503675679, 1495057700, 1492394136,
  4137289017, 3502609744, 1187592160, 971931819, 2604310993, 4136298935, 835479352, 1953175066,
  3993090528, 1734979825, 2469205576, 19977835, 1121448210, 751768690, 1748629903, 2174276085,
  457263513, 2399300652, 310895379, 2161095131, 1263801968, 1460142398, 4067400473, 502549822,
  3448610677, 2204549513, 4109035369, 1106784665, 3762876894, 2310277450, 3492441275, 3407580927,
  2469150409, 1074349518, 2981531341, 1901676820, 4149176576, 1619547472, 2418790740, 2077174577,
  3306983924, 1044850685, 3253323002, 1458831845, 4128488864, 3331171506, 1970738992, 2927426836,
  1978779220, 3850540508, 2520400691, 3702361794, 117470362, 2070046110, 499368558, 1107327477,
  290143353, 1643569086, 2721556673, 3387251783, 4270048042, 946534877, 2907319100, 3011528431,
  987542412, 3436667023, 1356052995, 1771356036]

/-- Tempered seed-42 generator outputs 8300..8399. -/
def wsC83 : List Nat := [
  4103607981, 1516536926, 2218368729, 2300607428, 41760776, 3009992758, 3574173191, 1131078331,
  1066258326, 1233899367, 399472479, 1713394023, 2893510498, 3216020524, 3526488946, 1468848245,
  326541305, 2381780551, 4000316394, 766590443, 2046790105, 1348073339, 1518433834, 938734379,
  3841059048, 2464076949, 1155671697, 785053225, 4067841299, 3204716713, 2933923529, 3995415914,
  3908108692, 816763181, 2143185843, 3165873005, 857561275, 1008721904, 3158643786, 1039624809,
  3748400480, 1139907416, 888107487, 984438848, 870875721, 3586042076, 1072433719, 3592030218,
  2656853453, 1529125930, 669995863, 3345515321, 458227039, 514874186, 3952177946, 337101561,
  2902590965, 4105042466, 2849384717, 2115979460, 2636366799, 28448463, 3282403895, 3681170666,
  2325612900, 4114549022, 181518732, 3642177784, 2071428721, 1594276982, 2665746525, 1354705301,
  2114585794, 3857401161, 4232094676, 3783811398, 3852584676, 2467541927, 3731333752, 1179969405,
  2107992942, 785428658, 4227942946, 3282481668, 3934219389, 2195302260, 1203735991, 1708879427,
  953881229, 3221952990, 2476758136, 550812184, 232564616, 2258016513, 3432838172, 1817526512,
  2054369077, 4035785006, 2322580659, 139855492]

/-- Tempered seed-42 generator outputs 8400..8499. -/
def wsC84 : List Nat := [
  2158114593, 1491594744, 1691001287, 3695390421, 2947802029, 3332482152, 750761833, 1963642008,
  4194066484, 516977385, 2998937576, 2225674121, 1975988150, 1355711871, 2960136787, 36157653,
  50766424, 2895250612, 905174602, 1629630857, 2495411322, 432708635, 1397737837, 1553070149,
  2631861860, 3701583308, 1115406331, 803813604, 2356061869, 1128928014, 1018504919, 1157099546,
  2024412906, 4116841339, 2633175934, 1473588088, 1571632270, 789903223, 2142200920, 1820820806,
  904230112, 1799990470, 3009537802, 3230656215, 1599057680, 1567998012, 3669302613, 1720532107,
  1200999709, 1935866295, 772618336, 2454186065, 563238419, 4205943146, 2473440423, 2946398734,
  981686710, 3496922300, 428937279, 3095878831, 1159422567, 3453529865, 1012775490, 2385167359,
  1856365377, 3677818023, 1635881694, 842085114, 626394068, 3436134704, 4119508935, 3172013806,
  642304025, 2031463806, 3460319291, 41842844, 758522476, 1810417494, 2145756342, 577551466,
  4275905241, 3836567195, 3648101888, 2708629635, 2220528056, 2293437741, 3094783061, 1356038189,
  3372979284, 2090017854, 1288637003, 1077925250, 2414366240, 3687237928, 2438830691, 204909902,
  1711123163, 425093520, 2965860354, 701548051]

/-- Tempered seed-42 generator outputs 8500..8599. -/
def wsC85 : List Nat := [
  257854279, 925425090, 3495322009, 1092165878, 2046721228, 3603356055, 2705237613, 413613460,
  1932111726, 3198003537, 1437338886, 1115699872, 1550320086, 1547504991, 2406685070, 2394407686,
  4002241962, 3478991743, 1106876746, 1478071244, 85192104, 1768499634, 520711069, 1507922155,
  3725319704, 2918798987, 4136554113, 2600929253, 854518584, 2477568014, 2473447848, 2791150990,
  2787996193, 2312574703, 749638562, 4206375567, 3351402058, 1222385190, 1525181720, 1396252148,
  2891341222, 2192342557, 2093769694, 3327501719, 3163355791, 1919550221, 3820942294, 336757755,
  1636687473, 2635665829, 1230609389, 1991800019, 2713183192, 4108541819, 622118862, 3729138222,
  719731446, 2751272944, 3469118718, 3988163457, 1449071761, 1811688007, 2711298634, 2629852007,
  2455164679, 1738485570, 3646001048, 3895849088, 306420495, 339783148, 695782515, 1475860255,
  980188582, 1346395203, 1360981688, 2804669917, 1251366008, 3051288583, 1148785172, 2600108647,
  2768726167, 1698467700, 1165001700, 3812607276, 1910824002, 3354257922, 3705725627, 4031985745,
  1559781099, 3212186697, 2520801229, 2237401751, 4146902728, 1933975047, 1778069478, 718625803,
  789785197, 3668811953, 99218439, 537042335]

/-- Tempered seed-42 generator outputs 8600..8699. -/
def wsC86 : List Nat := [
  3125758723, 1007716123, 2843365198, 1080815661, 4039147595, 3194920263, 3009470378, 3220107677,
  343875431, 904397668, 716875001, 1705297819, 442421654, 410400118, 273986261, 4023498120,
  3773949004, 2032317504, 2355504998, 231178500, 113236420, 3311135069, 1705155784, 2250488948,
  3285634388, 4277846424, 357561213, 446369090, 1127223900, 2654728627, 666898313, 362114114,
  2812484901, 4001146754, 3803070343, 1674376708, 1328736852, 985076350, 1062559949, 3167938795,
  1220523522, 1903359542, 2690714075, 542934161, 563830893, 2262341093, 3601406440, 732755730,
  122712790, 150989488, 2849921830, 1532621454, 3695255926, 3931064960, 1396729008, 3711887444,
  2045069031, 2006580699, 4187513842, 3740479594, 2321791292, 4015182702, 1170011066, 2355984014,
  1910594463, 580314097, 4164152315, 4073716910, 2996267442, 2316222488, 760366580, 2537599506,
  2566604583, 1960839066, 2710328466, 3216550841, 2730959828, 3767947806, 2422294927, 1868213586,
  2248242739, 2747862122, 2746752914, 2292585396, 1329985271, 3903795231, 1491076495, 2068678214,
  2317856944, 975509246, 3456193555, 384631600, 1897775581, 1322283789, 1571027407, 1770401882,
  1115862756, 668801732, 1303835765, 45336904]

/-- Tempered seed-42 generator outputs 8700..8799. -/
def wsC87 : List Nat := [
  396634, 2247626139, 3502029525, 3256845564, 3641902461, 585405992, 1476974480, 1231634482,
  2015189868, 2298232225, 35721701, 2953949477, 3960339514, 2112830350, 4067151551, 3244730547,
  2048987473, 1286817379, 39224201, 3289383176, 1848705588, 3427232626, 1258093032, 2564111605,
  993062551, 3422089886, 31001012, 2354553463, 1604788242, 809906184, 1768392070, 3788857221,
  2407562635, 1877357553, 1695447268, 1073295668, 701237129, 3070635258, 3165897064, 2774509349,
  1673848685, 3558066256, 1625035499, 947437263, 1129491690, 340203212, 1813504336, 2685741915,
  1028910147, 2218823320, 3283666959, 3435798036, 3908224388, 2633743591, 3468507947, 2980383293,
  2940507653, 1167651784, 1222677762, 2785101763, 3190846712, 2284683201, 3473806695, 1154581796,
  1773408660, 807456518, 3665677395, 294050451, 783432867, 586795774, 1243802345, 473976901,
  2735433372, 1955683348, 2653127632, 1944620470, 1168807171, 3008506904, 2674707124, 2113106808,
  806549529, 1377154307, 83302600, 653476296, 213168097, 4164899444, 2297681898, 95051435,
  798595882, 4176136758, 439261284, 1211672712, 1156184315, 537039291, 3071743181, 1882985094,
  3122901114, 35236295, 999913493, 387393108]

/-- Tempered seed-42 generator outputs 8800..8899. -/
def wsC88 : List Nat := [
  647181551, 63242750, 2119908041, 932815734, 1468504537, 1804930077, 1338211662, 3374664629,
  3433664649, 2140593461, 4286220365, 1595138315, 1991509618, 2993312165, 3399143287, 136309890,
  1418407139, 344555557, 3623003768, 3223671786, 4087280062, 627442454, 240682864, 1144624141,
  3331403881, 1685438702, 306594932, 2332991673, 2019265031, 779982123, 825459614, 3846997817,
  3614383717, 1074083133, 3510065121, 1638862478, 3557315473, 54183126, 523820885, 4185868692,
  3299160525, 3069538076, 1069285207, 1652694369, 3312387558, 4187473785, 1902502763, 1061553531,
  3168049525, 4271497065, 143925622, 855471045, 1979269680, 3158187289, 3311402472, 403556437,
  2238275479, 2860482054, 4218155484, 895273628, 2030770268, 1671270375, 2926772459, 4128382252,
  1340499510, 4021013875, 1387545832, 681230929, 2702239879, 3127754456, 181187132, 3198567695,
  4026192219, 2360427902, 2237361243, 524593800, 1087969934, 2066865372, 2742422573, 1283392443,
  853511493, 1548020689, 3811867564, 223714148, 3709381416, 2863432302, 935393402, 4180180262,
  485024047, 1013465558, 2718323324, 1864710094, 1393774816, 64715310, 718807242, 3411880793,
  1185840646, 2511253899, 513891087, 1699983711]

/-- Tempered seed-42 generator outputs 8900..8999. -/
def wsC89 : List Nat := [
  3389346722, 1044060736, 38353417, 4161114352, 180360149, 2495706809, 3365000541, 2966754731,
  2041272017, 2956683572, 2560712271, 665685329, 1595145112, 3310547909, 384313264, 1068253975,
  677309706, 2147136659, 392566677, 2946109800, 2657059443, 1453511837, 3997965080, 4164622342,
  4281966871, 3262286054, 2684922912, 257922823, 256732224, 1526936792, 2768428107, 661074643,
  3012181425, 2303619991, 3399321649, 461243650, 540424819, 2095269219, 999329934, 1360386030,
  4216265074, 2398096865, 3386847262, 2768733387, 3249991124, 1491718314, 3459705130, 3830234433,
  1884283304, 3149022054, 828779668, 91709704, 2960306120, 1622505239, 1538317686, 3111270714,
  578670284, 1076732154, 3859728403, 169602003, 2084356796, 3034935482, 1879048201, 2400993184,
  1265789564, 2331025091, 2993754459, 2104929112, 815080993, 2433965438, 801555686, 2334832473,
  1493208421, 1390198781, 3145644409, 2011740002, 1182509541, 3726579225, 3570619301, 2571310779,
  3927635922, 3696080738, 2381646593, 688669716, 295822679, 2281217890, 665829369, 1930090462,
  1269904391, 3519375872, 1131076509, 2326179846, 1576737058, 1950254385, 3091620, 3332542030,
  2740301061, 2173071915, 1627979724, 3151036012]

/-- Tempered seed-42 generator outputs 9000..9099. -/
def wsC90 : List Nat := [
  796863703, 3792165664, 80401162, 2661739850, 3680053785, 1563691059, 3332965784, 2663727197,
  1025580463, 1377370646, 3096686730, 272050780, 2827331508, 4153934129, 2314800617, 3517791825,
  1664260498, 815483101, 2250862526, 2934425509, 2136957354, 3288802900, 2368536195, 661989794,
  2632983517, 1216030167, 1385556630, 1760097041, 2752661410, 1383082793, 474439845, 413417661,
  2247129194, 2829915449, 286387753, 188021892, 3587128140, 4027818352, 557376230, 767247805,
  3751622928, 134319747, 867922818, 459798459, 2084649514, 822987217, 424143426, 136653625,
  2452478646, 2756302415, 3591879104, 1669019208, 2825750278, 2104145858, 2258385550, 2679932830,
  3012120782, 2535323133, 1099247629, 210821160, 1573478551, 947997148, 2602550993, 3083121646,
  304401362, 56204397, 3995225968, 3955816119, 896523274, 2816422066, 2110570534, 3987463595,
  3821521562, 3573746499, 343411869, 2010298703, 3440354470, 2744126400, 260705324, 1550165596,
  2396677171, 3193211278, 4029726676, 3824370344, 1786505393, 3530577008, 1585137766, 3411275966,
  3042699946, 250396691, 3537519596, 2649708468, 1141669467, 2272127173, 174603960, 3153795953,
  302314710, 3583963389, 1305260125, 334729865]

/-- Tempered seed-42 generator outputs 9100..9199. -/
def wsC91 : List Nat := [
  4057041081, 927283698, 4125688658, 2231172272, 417124022, 434758564, 3114589739, 992214765,
  2283466831, 1654984428, 813726301, 829441721, 2259977516, 2821263164, 1068429057, 2448250186,
  2685750629, 4069495876, 768360597, 2398410571, 3217765256, 2397199956, 1783204262, 3204511084,
  453179940, 3291162219, 2742870469, 2476322069, 1537440949, 2896923497, 1970189949, 3017431048,
  2857194152, 1834273114, 3791700311, 447116404, 716440566, 3403596665, 774797220, 2362083683,
  1724674934, 2167639004, 1449606729, 2824077950, 679362694, 2293085064, 4288239528, 2576618444,
  1902722773, 4009437732, 1513220374, 3876143443, 1353580387, 2362581359, 4258301089, 4281439498,
  1394378770, 3628620372, 1596523152, 1771000941, 3282146861, 2719748617, 1849361671, 3548308593,
  3117577972, 1389211119, 2613115539, 1033895513, 2418688092, 2343446878, 918814341, 1610883633,
  3288691744, 2363257229, 3977770729, 3197939663, 1091304489, 1546224907, 4130262920, 1943058119,
  1921996951, 4122414553, 1705490992, 840218, 3119491798, 148876024, 4221765919, 1221841614,
  2558781873, 70018477, 2223115272, 580188682, 4266672092, 3823914858, 1296400037, 28212913,
  1289924514, 4227941857, 952996130, 922656948]

/-- Tempered seed-42 generator outputs 9200..9299. -/
def wsC92 : List Nat := [
  3675291263, 1352505293, 93206686, 3313666361, 3530205072, 4051648402, 2962321335, 3531912488,
  1185226852, 3947556326, 2377965146, 2195894317, 2389389445, 2451001264, 3976806647, 2455054143,
  664494972, 404960131, 162076186, 1977273278, 1527529840, 670474924, 594458674, 1138115565,
  1576609019, 3820911776, 2500339713, 1073127233, 1000702246, 1100558894, 3483537336, 1289789131,
  394729488, 2450223707, 1717120387, 2444115276, 3942272347, 933885988, 3153648273, 331578205,
  3107754709, 1394541743, 3405497598, 2072464202, 742610535, 2097131154, 3546377018, 3861279076,
  2961788388, 3018708717, 2474899565, 3519791250, 3898351305, 409585493, 2556498528, 2758462618,
  1290179211, 160509766, 3138716394, 3471798881, 2475119635, 1638728074, 337057834, 3350598093,
  240186197, 3959407935, 3310996751, 1436192596, 1494348846, 3778680010, 3509596891, 1865323193,
  1788947133, 3995376498, 3727306207, 517717617, 3735704638, 3308800114, 973744985, 3211255362,
  2803665224, 3648480958, 2586865814, 3988535000, 49110293, 2722524375, 3338987534, 2715250922,
  1642768997, 232477787, 1309034704, 2252209366, 176876436, 1371454094, 2318980522, 2426282426,
  642441295, 1403731150, 2157798468, 2996893560]

/-- Tempered seed-42 generator outputs 9300..9399. -/
def wsC93 : List Nat := [
  948316671, 657978181, 216980930, 2893241312, 3142106042, 4283659940, 1687418351, 4170586106,
  1913907148, 3233424036, 2556073288, 2470700778, 2167796058, 386903346, 953850512, 1855149589,
  1244608630, 3377426131, 1693601838, 635708419, 567747634, 1443831341, 354528565, 2043780174,
  2454318650, 3201103712, 211789542, 2354296652, 1714513575, 1127677925, 365411459, 1711660604,
  2155313861, 1866125107, 3323553651, 2997331061, 559957102, 3272906474, 579265528, 2065546403,
  2402158803, 850869632, 2095347470, 1697881328, 2801385697, 2453846612, 842240083, 2410196532,
  2645686265, 4282420684, 3159668929, 2251627092, 1057617830, 1040735415, 307708574, 1143565474,
  3336209905, 1847118259, 1389042400, 2940927197, 3969142846, 2473979489, 384806111, 483312111,
  2885133776, 1776321392, 1819093035, 1568812602, 1495970877, 818147210, 1377560770, 1479723230,
  2550682924, 2814963909, 103967542, 3305755992, 1309186996, 726945805, 4241932686, 1502020490,
  2646649013, 3528676629, 4252701305, 3447982663, 1899277934, 2676546979, 626285594, 1891776000,
  192747606, 3969465472, 3514021643, 1002830207, 857641458, 2943595471, 1605548088, 669977163,
  3254441811, 3128826758, 3662594124, 368570209]

/-- Tempered seed-42 generator outputs 9400..9499. -/
def wsC94 : List Nat := [
  482632941, 3176478919, 234238999, 1043884514, 4075670192, 2667185159, 3980273734, 634268193,
  3731262928, 3575322996, 3522448525, 1235598059, 58984033, 1474339313, 2979827806, 3454359624,
  477935341, 1310472034, 1932999727, 2023746966, 97702405, 1425399664, 897689138, 3178331555,
  2310715848, 909997553, 875320136, 2346874134, 2247409826, 3222750830, 1110927658, 2357078276,
  2074582277, 2675944972, 3134997913, 4261905194, 607082537, 2985307816, 3001130854, 2870157362,
  78978066, 1617513325, 2503987156, 3891413386, 2849832530, 2262584884, 186753800, 1097176652,
  731517326, 258170698, 1219828872, 861982997, 3389538782, 2991559353, 2654138501, 1165144965,
  227999411, 1996991502, 2812163622, 4059502085, 35795037, 286035346, 1669218196, 2836279709,
  1165269194, 2847484445, 3659668357, 3920741537, 2835109520, 1547129428, 3712064103, 463390201,
  81940786, 1256258938, 3725499475, 3794184040, 2789199634, 1660104622, 992861641, 4208178252,
  1635099223, 2184164080, 4194516332, 3048090198, 427794685, 3882100932, 1354873079, 2081608088,
  3722760596, 2564552498, 2283035614, 378045890, 800656591, 854162477, 2150278891, 4152337319,
  1967036002, 2408134650, 3978642846, 3060031897]

/-- Tempered seed-42 generator outputs 9500..9599. -/
def wsC95 : List Nat := [
  92292243, 170735270, 1062541120, 3961119979, 2273821684, 1309653729, 1432670675, 2104245546,
  1689639333, 3197133819, 674332429, 78908105, 1489408344, 2939094899, 1511455193, 1526337459,
  2685346571, 1298481206, 1014491722, 4277763415, 4201527107, 4203002719, 2152858629, 1184888162,
  3487053308, 266329625, 2687757741, 1106724433, 3773890169, 1662885003, 3824247814, 4294760259,
  3499791179, 4253570650, 126555049, 4055036227, 2383446351, 4076423980, 1203423402, 968870326,
  651581691, 1467960342, 3853338653, 1687263275, 2821500440, 589530134, 377076704, 3134852244,
  1641567077, 2236466111, 4125770024, 2911965893, 2630445805, 3748224279, 2686607701, 2948595172,
  976795716, 1792433036, 1032341816, 2460580557, 656052639, 1831653186, 4168425428, 1341673745,
  3907283761, 2600039571, 1414267186, 1929166962, 2328876246, 565956995, 888015719, 2802348672,
  595181663, 2495507871, 2325096977, 2937966520, 3436425084, 868915819, 3704785815, 593176411,
  1327137995, 2957222810, 3028537698, 3859643028, 2249727410, 3906542112, 580905051, 1847112068,
  4276437939, 3904134250, 4190929901, 3307339566, 623424790, 2818493901, 4007333093, 2425987715,
  3938966574, 678810634, 1363635846, 291259085]

/-- Tempered seed-42 generator outputs 9600..9699. -/
def wsC96 : List Nat := [
  2393758362, 2289052391, 4074212691, 3089973470, 508469555, 790854733, 1364071251, 3605721705,
  3778016973, 625015806, 3122782825, 126630005, 3287518348, 1368752128, 3780137715, 4178556644,
  1778288911, 4128306189, 1766312876, 1302870199, 1902689772, 3202369378, 4010505278, 3529168246,
  3840259504, 2735238728, 4008278366, 3171144507, 1175945569, 652650570, 3346242886, 807168703,
  458579821, 564985269, 793480168, 112520487, 3274687003, 4234647010, 2628440956, 2649765075,
  1146166176, 2601051560, 2435431541, 2630074869, 991756673, 2561349676, 997216402, 991761103,
  2952265565, 112032032, 1543015709, 341344355, 2955544302, 3349328241, 2046990957, 575897664,
  2157467661, 3634136054, 2597217228, 2013323898, 3058098865, 2789875688, 1606143397, 790172950,
  3659868053, 1664129261, 2110742781, 2035157048, 590612666, 703457120, 830044665, 971835392,
  138424884, 1754877060, 3283669369, 4161029102, 64485730, 3974713419, 1159034297, 4081069523,
  1774010584, 955863041, 3188440541, 2883379418, 4244473159, 871163569, 3254625665, 878587567,
  284053367, 760545067, 3981877920, 4100401254, 4233238476, 1886715571, 3724290706, 2650249767,
  2104288707, 2954347827, 1395416065, 3722769857]

/-- Tempered seed-42 generator outputs 9700..9799. -/
def wsC97 : List Nat := [
  1965140504, 3812156793, 1059928520, 1836337675, 1738889526, 3333816842, 179642495, 2611039285,
  3158225922, 3540464024, 1633694617, 3093239371, 1343884495, 1692864410, 2626393424, 4033571858,
  3188875151, 2456439760, 2550376494, 2302787027, 2255847950, 2754765491, 3761459214, 3024140370,
  3379795093, 165407669, 2236170837, 469509900, 1939648421, 1962372361, 3551981339, 3769980437,
  182174975, 3770036112, 4277084664, 1055366449, 2227810934, 2310130385, 1699137133, 4225520430,
  3157531471, 168584421, 2395307335, 1663861118, 2216747224, 3286336636, 2708614883, 4134302513,
  211722336, 815401018, 1250605847, 1887869509, 1709568319, 3798458667, 1308050094, 3322917458,
  3554605180, 1227993812, 1981470996, 715054503, 1814461270, 1264523083, 2633391667, 3947215928,
  234276135, 2963325389, 2220367731, 3881257367, 610914498, 1991056435, 3564365447, 2774984836,
  1940028539, 388440314, 3103744348, 2150308852, 486068287, 772112249, 3344624788, 2514478795,
  4028002667, 3841109580, 2989787464, 2346800656, 581137750, 1688208703, 1776223687, 1389254115,
  1936540028, 106996713, 768277634, 1948543914, 2535385657, 3850942873, 3060741383, 3847409832,
  867291356, 3790516721, 1952849519, 387318705]

/-- The tempered output table: 98 chunks of 100 outputs. -/
def wsTable : List (List Nat) := [
  wsC0, wsC1, wsC2, wsC3, wsC4, wsC5, wsC6, wsC7, wsC8, wsC9, wsC10, wsC11, wsC12, wsC13,
  wsC14, wsC15, wsC16, wsC17, wsC18, wsC19, wsC20, wsC21, wsC22, wsC23, wsC24, wsC25, wsC26, wsC27,
  wsC28, wsC29, wsC30, wsC31, wsC32, wsC33, wsC34, wsC35, wsC36, wsC37, wsC38, wsC39, wsC40, wsC41,
  wsC42, wsC43, wsC44, wsC45, wsC46, wsC47, wsC48, wsC49, wsC50, wsC51, wsC52, wsC53, wsC54, wsC55,
  wsC56, wsC57, wsC58, wsC59, wsC60, wsC61, wsC62, wsC63, wsC64, wsC65, wsC66, wsC67, wsC68, wsC69,
  wsC70, wsC71, wsC72, wsC73, wsC74, wsC75, wsC76, wsC77, wsC78, wsC79, wsC80, wsC81, wsC82, wsC83,
  wsC84, wsC85, wsC86, wsC87, wsC88, wsC89, wsC90, wsC91, wsC92, wsC93, wsC94, wsC95, wsC96, wsC97]

/-- Outputs 0..499, grouped. -/
def wsP0 : List Nat := wsC0 ++ wsC1 ++ wsC2 ++ wsC3 ++ wsC4

/-- Outputs 500..999, grouped. -/
def wsP1 : List Nat := wsC5 ++ wsC6 ++ wsC7 ++ wsC8 ++ wsC9

/-- Outputs 1000..1499, grouped. -/
def wsP2 : List Nat := wsC10 ++ wsC11 ++ wsC12 ++ wsC13 ++ wsC14

/-- Outputs 1500..1999, grouped. -/
def wsP3 : List Nat := wsC15 ++ wsC16 ++ wsC17 ++ wsC18 ++ wsC19

/-- Outputs 2000..2499, grouped. -/
def wsP4 : List Nat := wsC20 ++ wsC21 ++ wsC22 ++ wsC23 ++ wsC24

/-- Outputs 2500..2999, grouped. -/
def wsP5 : List Nat := wsC25 ++ wsC26 ++ wsC27 ++ wsC28 ++ wsC29

/-- Outputs 3000..3499, grouped. -/
def wsP6 : List Nat := wsC30 ++ wsC31 ++ wsC32 ++ wsC33 ++ wsC34

/-- Outputs 3500..3999, grouped. -/
def wsP7 : List Nat := wsC35 ++ wsC36 ++ wsC37 ++ wsC38 ++ wsC39

/-- Outputs 4000..4499, grouped. -/
def wsP8 : List Nat := wsC40 ++ wsC41 ++ wsC42 ++ wsC43 ++ wsC44

/-- Outputs 4500..4999, grouped. -/
def wsP9 : List Nat := wsC45 ++ wsC46 ++ wsC47 ++ wsC48 ++ wsC49

/-- Outputs 5000..5499, grouped. -/
def wsP10 : List Nat := wsC50 ++ wsC51 ++ wsC52 ++ wsC53 ++ wsC54

/-- Outputs 5500..5999, grouped. -/
def wsP11 : List Nat := wsC55 ++ wsC56 ++ wsC57 ++ wsC58 ++ wsC59

/-- Outputs 6000..6499, grouped. -/
def wsP12 : List Nat := wsC60 ++ wsC61 ++ wsC62 ++ wsC63 ++ wsC64

/-- Outputs 6500..6999, grouped. -/
def wsP13 : List Nat := wsC65 ++ wsC66 ++ wsC67 ++ wsC68 ++ wsC69

/-- Outputs 7000..7499, grouped. -/
def wsP14 : List Nat := wsC70 ++ wsC71 ++ wsC72 ++ wsC73 ++ wsC74

/-- Outputs 7500..7999, grouped. -/
def wsP15 : List Nat := wsC75 ++ wsC76 ++ wsC77 ++ wsC78 ++ wsC79

/-- Outputs 8000..8499, grouped. -/
def wsP16 : List Nat := wsC80 ++ wsC81 ++ wsC82 ++ wsC83 ++ wsC84

/-- Outputs 8500..8999, grouped. -/
def wsP17 : List Nat := wsC85 ++ wsC86 ++ wsC87 ++ wsC88 ++ wsC89

/-- Outputs 9000..9499, grouped. -/
def wsP18 : List Nat := wsC90 ++ wsC91 ++ wsC92 ++ wsC93 ++ wsC94

/-- Outputs 9500..9799, grouped. -/
def wsP19 : List Nat := wsC95 ++ wsC96 ++ wsC97

/-- Outputs 0..2499, grouped. -/
def wsQ0 : List Nat := wsP0 ++ wsP1 ++ wsP2 ++ wsP3 ++ wsP4

/-- Outputs 2500..4999, grouped. -/
def wsQ1 : List Nat := wsP5 ++ wsP6 ++ wsP7 ++ wsP8 ++ wsP9

/-- Outputs 5000..7499, grouped. -/
def wsQ2 : List Nat := wsP10 ++ wsP11 ++ wsP12 ++ wsP13 ++ wsP14

/-- Outputs 7500..9799, grouped. -/
def wsQ3 : List Nat := wsP15 ++ wsP16 ++ wsP17 ++ wsP18 ++ wsP19

/-- All 9800 tempered outputs as one list (balanced appends keep
kernel traversal cheap; proved equal to `wsTable.flatten` and to the
first 9800 generator outputs below). -/
def wsFlat : List Nat := wsQ0 ++ wsQ1 ++ wsQ2 ++ wsQ3


/-- Word `i` of the untempered table (`chunkTable`): chunk `i / 100`,
offset `i % 100`. -/
def getX (i : Nat) : Nat := (chunkTable.getD (i / 100) []).getD (i % 100) 0

/-- Three-way `zipWith`, used to state the twist recurrence as one list
equation over the word table. -/
def zip3With (f : Nat → Nat → Nat → Nat) : List Nat → List Nat → List Nat → List Nat
  | a :: as, b :: bs, c :: cs => f a b c :: zip3With f as bs cs
  | _, _, _ => []

/-! ## Python `random` draw primitives, as consumers of the output stream

Each primitive takes the list of not-yet-consumed 32-bit generator outputs
and returns the drawn value together with the remaining outputs — exactly
the consumption pattern of CPython's `getrandbits` /
`_randbelow_with_getrandbits` / `random()`.  Popping an exhausted list
yields 0, but the mock-data run below is proved to leave the supplied
10376 outputs non-exhausted, and `mockRowsL_append` shows the result is
then independent of the cutoff. -/

/-- Pop one 32-bit output word. -/
def popW : List Nat → Nat × List Nat
  | [] => (0, [])
  | w :: ws => (w, ws)

/-- Binary length with 64 iterations of fuel (enough for any 32-bit
word; kept structural so the kernel can evaluate it). -/
def bitLenAux : Nat → Nat → Nat
  | 0, _ => 0
  | fuel + 1, n => if n = 0 then 0 else bitLenAux fuel (n / 2) + 1

/-- `int.bit_length()` as CPython computes it for `_randbelow`. -/
def pyBitLength (n : Nat) : Nat := bitLenAux 64 n

/-- `random.getrandbits(k)` for `0 < k ≤ 32`: top `k` bits of one output. -/
def getrandbitsL (k : Nat) (ws : List Nat) : Nat × List Nat :=
  let p := popW ws
  (p.1 >>> (32 - k), p.2)

/-- Rejection loop of `_randbelow_with_getrandbits`: draw `k` top bits of
one output, retry while the draw is ≥ n.  CPython loops over the unbounded
generator; here the loop consumes the finite word list (structurally), and
the runs below are proved to leave words unconsumed, so the cutoff is
never reached (`mockRowsL_append` makes this formal). -/
def randbelowAuxL (n k : Nat) : List Nat → Nat × List Nat
  | [] => (0, [])
  | w :: ws =>
    let r := w >>> (32 - k)
    if r < n then (r, ws) else randbelowAuxL n k ws

/-- `random._randbelow(n)`: draw `n.bit_length()` bits, retry while ≥ n. -/
def randbelowL (n : Nat) (ws : List Nat) : Nat × List Nat :=
  randbelowAuxL n (pyBitLength n) ws

/-- The 53-bit numerator of `random.random()`:
`(genrand() >> 5) * 2^26 + (genrand() >> 6)`, over denominator 2^53. -/
def randomNumL (ws : List Nat) : Nat × List Nat :=
  let a := popW ws
  let b := popW a.2
  ((a.1 >>> 5) * 67108864 + (b.1 >>> 6), b.2)

/-! ## fetch_aqi._mock_aqi_data: the seed-42 synthetic AQI dataset

Python draw order per iteration (fetch_aqi.py lines 109-121):
`random.choice` over 3 categories, `random.uniform(24,49)`,
`random.uniform(-125,-67)`, `random.choice` over 2 parameters,
`random.randint(5,150)`.  We record the raw integer draws: the choice
indices, the 53-bit numerators of the two uniforms, and the randint. -/

/-- Raw integer draws of one `_mock_aqi_data` loop iteration. -/
structure MockRow where
  catIdx : Nat
  latNum : Nat
  lonNum : Nat
  parIdx : Nat
  aqi : Nat
deriving DecidableEq, Repr

/-- One iteration of the `_mock_aqi_data` loop, at integer-draw level:
`random.choice` over the 3 categories and the 2 parameters is
`seq[_randbelow(len(seq))]`, `random.uniform(a,b)` is
`a + (b-a) * (num / 2^53)` (we keep the numerator `num`), and
`random.randint(5,150)` is `5 + _randbelow(146)`. -/
def mockIterL (ws : List Nat) : MockRow × List Nat :=
  let c := randbelowL 3 ws
  let la := randomNumL c.2
  let lo := randomNumL la.2
  let p := randbelowL 2 lo.2
  let a := randbelowL 146 p.2
  (⟨c.1, la.1, lo.1, p.1, 5 + a.1⟩, a.2)

/-- The raw draws of `n` iterations of the `_mock_aqi_data` loop, together
with the unconsumed generator outputs. -/
def mockRowsL : Nat → List Nat → List MockRow × List Nat
  | 0, ws => ([], ws)
  | n + 1, ws =>
    let r := mockIterL ws
    let rest := mockRowsL n r.2
    (r.1 :: rest.1, rest.2)

/-- The first 9800 outputs of the seed-42 generator (the extent of the
output table; the mock run consumes 9131 of them). -/
def pyWords : List Nat := (List.range 9800).map pyWord

/-- All 1000 raw rows of `_mock_aqi_data()` (`random.seed(42)` first). -/
def mockAqiRaw : List MockRow := (mockRowsL 1000 pyWords).1

/-! ## Kernel-checkable auxiliary scans

These Bool-valued functions let the kernel verify the reference tables by
cheap left-to-right scans; the lemmas below convert each `= true` fact
into the corresponding propositional statement. -/

/-- Window of 100 untempered words starting at stream position `o`. -/
def win (o : Nat) : List Nat :=
  (chunkTable.getD (o / 100) []).drop (o % 100) ++
    (chunkTable.getD (o / 100 + 1) []).take (o % 100)

/-- Twist-recurrence check for table chunk `c` (meaningful for 7 ≤ c ≤ 104):
chunk `c` must equal the twist of the windows 624, 623 and 227 positions
earlier. -/
def chunkRecurB (c : Nat) : Bool :=
  chunkTable.getD c [] ==
    zip3With twistGen (win (100 * c - 624)) (win (100 * c - 623)) (win (100 * c - 227))

/-- `true` iff the list has exactly 100 elements (spine-only check). -/
def lenIs100 (l : List Nat) : Bool := (l.drop 100).isEmpty && !(l.drop 99).isEmpty

/-- Stepwise check of the mock run against the expected latitude draws:
each row's latitude numerator must match, and the word list must not be
exhausted at the end (so the finite cutoff of `pyWords` is immaterial). -/
def chkRows : List Nat → List Nat → Bool
  | [], ws => !ws.isEmpty
  | e :: lats2, ws =>
    let r := mockIterL ws
    (r.1.latNum == e) && chkRows lats2 r.2

/-- Quadratic duplicate scan. -/
def hasDup : List Nat → Bool
  | [] => false
  | a :: as => as.elem a || hasDup as

/-! The 1000 latitude-draw numerators of the seed-42 mock AQI data
(reference values, proved below to equal the draws of mockAqiRaw),
as 10 chunks of 100. -/

/-- Latitude numerators 0..99 of the mock dataset. -/
def latL0 : List Nat := [
  1002781114211435, 6633542971356286, 268389492715941, 6449331323894606, 5307633428651526, 3806572092091041, 835380291373993, 6572839605269369,
  2640715197796212, 626497084648598, 7804591037443307, 3334293731134485, 5719375964225272, 3417830772206899, 2063081623094942, 596173955533794,
  4496675428442247, 1257678109969387, 3597479932243762, 818839189580738, 1440989766686426, 5367285807843134, 6127448225875174, 2643614140019482,
  6863145351442564, 4572620732208611, 8588362216460354, 175430899502451, 2169578427978994, 4377412938996633, 4280963081802419, 3811287739630067,
  8963508543671988, 1089908902845176, 4989281523966770, 5684470086388071, 4631106619160444, 1191759185229448, 7273286356489299, 3815257057589246,
  3626490112094418, 1713249538353175, 4166983192923458, 881883423690093, 1497997311486721, 1482919357190535, 2569296642386143, 2672506504670459,
  451642022834854, 721579930011223, 1079842619797958, 738440868874571, 6032355300827490, 6050047675661864, 4127869017788715, 1919923362596515,
  3328404118295484, 6015576950748914, 1039689034174681, 5447822767271756, 4400303734597101, 3815231382962336, 5738607137214503, 3852261297905246,
  324512618291219, 376760860125203, 6143510566634681, 8771544104537776, 7939091381760129, 7782796872430316, 973638845577476, 7355158265364135,
  213150278606781, 8708962817401584, 8459896070357840, 8669738371590113, 6562150527356269, 1712077396039162, 8336839940890108, 630268059428288,
  7638242593578439, 6006837268853184, 1727941942610299, 5126044427496500, 1893157322634393, 3982621414774688, 763770295195879, 6060004662435481,
  416256167163904, 7981611706802487, 2197616462339313, 1971145724402595, 2244578558836034, 6013005655433481, 7340926005447002, 8081332158790218,
  6771403311098985, 5645248054492382, 2447392110012522, 2083018227858023]

/-- Latitude numerators 100..199 of the mock dataset. -/
def latL1 : List Nat := [
  3671328738693778, 7502016719763994, 53107199663633, 6733022576526313, 2458382736706505, 6117166280690744, 8833558265016557, 244113531598418,
  452923713283690, 3039934685085644, 7520208970571578, 5855977392194532, 1795681389600462, 4265458835228318, 2308038032707004, 973666977354427,
  8480013273541840, 6957889251234327, 3127333496129528, 5832551115353012, 3904831657334962, 1586500704626697, 4187210689414973, 7482559814241668,
  5132749294861003, 7664701753053315, 3065499774508747, 4653364596625642, 5000582759210064, 7142104338901047, 2191498090745362, 4782119622541808,
  4086973993413405, 1734645104451328, 6652759284634049, 2668350923141464, 4811061177982710, 6281777421664109, 5170710811191769, 8696429651729433,
  3609251775220841, 7306118304913669, 5026675021498947, 4057873552396024, 5593716823534851, 1900745981886308, 4971904142990798, 5348575754137788,
  2546500719598584, 7096124014476505, 4904981851681906, 537171705063337, 4221656008570061, 4863721528206708, 2903214725411816, 7529645804170069,
  362374696365170, 3983248361918204, 4233477279207399, 2970607312799306, 330538364812770, 8738647148271309, 3722203211727174, 3981550966946549,
  8355733400121628, 8765327274222735, 4961516693356717, 4156353128548938, 2628855228077502, 2195332835557333, 4577826979984412, 3061324036483996,
  6539685869500575, 4851102578112304, 7832675633147414, 7710279439362132, 8227447526842873, 1137125307340956, 898123129590507, 7844666810466046,
  3049488495032246, 7740266280807907, 323350345303883, 814064640746244, 6251006756300604, 2642422013038851, 3711432206287525, 711283669212829,
  1289089822081742, 6006367211593594, 4923318337651804, 8665187547774474, 9001556834381062, 5151421648311037, 3565101174559074, 6987253573355619,
  1712556712119012, 5821718650707556, 3286377826217912, 3742519153384189]

/-- Latitude numerators 200..299 of the mock dataset. -/
def latL2 : List Nat := [
  8227959195767144, 6724408827398487, 1267826480660553, 813375993522312, 4096348370071172, 8469396426875798, 5580382079120603, 569408486025043,
  1258999402884964, 875427697553259, 3341774645793776, 5899012027016685, 6217495480069172, 894906900707408, 2484919108525356, 1910479342607097,
  2193873589013879, 1865907711800526, 7103471435785422, 4865828260457342, 133849928357648, 1569470255447168, 6716355709572443, 982271197633154,
  4125680263677926, 3839531425894487, 2901325342762373, 5702248199317975, 4778831150709164, 1030550347924095, 7999212791396920, 6571765235015214,
  8589197814025568, 7491935133985217, 5011342075194279, 3184928359355118, 5408013326217882, 4343175970136178, 1034794910410877, 8777935428377045,
  1625043508909105, 54996061766240, 6674055957077566, 3388457970690193, 6499558662875911, 1417822307912406, 5962213700546797, 1941672623935440,
  2551257394216640, 2777994916430307, 2714944252936969, 2955463439867181, 3424604221693252, 7762083319372206, 7765196672111351, 1037389516423370,
  4144184471846553, 7606438896363362, 3564749497002688, 7017669885438715, 1746529318578741, 925980865983865, 678721949623755, 6844364895641621,
  3961031311617237, 505953479320458, 338735954280802, 7784472261481291, 4992838006809102, 5871229835723224, 8626396117031889, 5819795453817672,
  4708495713661140, 3681867410246988, 2969590323791402, 6518813237969148, 5248850921490926, 6291348200490690, 3392825564786661, 5818874283854855,
  2782018236094167, 2040518359906783, 4572862402093102, 1180384828298386, 6945431653170167, 3700685379275495, 2566402661839572, 2154238310147366,
  6109644729212029, 7008718248413585, 7217101486632165, 4328775793711235, 2567619367789404, 1327198704434665, 8380946048569198, 2123700091186977,
  2870458172648045, 345004474483638, 4225368387706415, 1942445253656721]

/-- Latitude numerators 300..399 of the mock dataset. -/
def latL3 : List Nat := [
  2140472872296698, 7150807459676685, 4828343246574701, 3866240238066196, 5984124693921927, 4900654623981801, 392123241917768, 146297011939844,
  5918670262064587, 3173227705605690, 4310225612367299, 6991301589745773, 7125678315815377, 3586883417595028, 6785041402588437, 2989711787804184,
  6695120611199569, 4469401332264346, 3823553033065021, 2893215336828781, 5427933076185862, 381501391258120, 5759827496897605, 5742202456110483,
  7644133576288151, 605584297666757, 8552039462525895, 3350798625314821, 3585171962064449, 6626370046034785, 2357874686267466, 2572247839974108,
  1222532903029579, 7300454056348585, 584919217812083, 6391182451381386, 2019788909725296, 236745466679003, 1168875323564695, 9003551734768599,
  664287366370729, 6125877193721554, 4529394322543041, 2739310355323869, 8060776051039631, 8614049662373829, 4526776454766338, 5624808471653774,
  7433067492049678, 1898793080544691, 4914125103210415, 7247986542950855, 6202479649577431, 1837675935718256, 8899323357130655, 4638528679911807,
  2409170666808037, 8515270100999826, 7327157052197717, 4487977019105127, 208753536021972, 5254296650734932, 7947407473972218, 73655524753703,
  3294632084385911, 5136640397757675, 4541930026117554, 8782765208305784, 6800121737231058, 408056322578704, 4116187010597862, 2869063464675055,
  7460567539905150, 3317872190500984, 7855170490764931, 7051772248154847, 4327497926613686, 2181512676004869, 3972522244651162, 4519988267946582,
  1243736463057329, 3394135843227740, 4920391733266997, 8622928681529219, 6946120301801651, 3141739690717301, 5165419840461942, 2616164910568314,
  5908470964853055, 2442146451516064, 5545525725539359, 8153174370142551, 3722687756253309, 8687612721336223, 8422020421634162, 2892821487174635,
  6653496692865269, 7946556264789272, 1678145992201820, 2687678097496011]

/-- Latitude numerators 400..499 of the mock dataset. -/
def latL4 : List Nat := [
  8909016009847859, 4215556321796762, 6585336617889196, 3036436570423039, 7711482155240994, 781264375936007, 2914744721623298, 4023835859081416,
  6511146971078748, 6014882595540975, 4526302014030515, 8251768928679420, 4307079650925741, 4947064658506810, 6798089509805359, 4757360569526289,
  8132493564026470, 7696525728994409, 8096475498848214, 4622925590783247, 6059752836188164, 7353956888155772, 3103240150135217, 285842306628379,
  8942857214802369, 6149488336652457, 1607547538156755, 6811058661967853, 4791232002023692, 1397209117115372, 3776183606292077, 606102570357111,
  6670201050188900, 6794902393615795, 2109139442687352, 2718052395338204, 2478366187744173, 4464155187741282, 6271788567384321, 6795176108807850,
  1300204967501154, 8717043036225801, 2296796589078401, 832841640607140, 3397227102983949, 7247648445430309, 7831524227468598, 8665624246437190,
  5443965047318710, 6985208060566085, 3239390735048647, 4228793779349622, 3728351523950599, 2348844368435022, 1767138479163444, 5896184384592785,
  5779869811431463, 1260634354325982, 8622023437460545, 3714498918402708, 1360354119081057, 5564965076142265, 59558816971855, 6504933744006562,
  7324269114203025, 4723243795118229, 7160149937908740, 2190621963321253, 8932211666374912, 3416106618468541, 1543686011005867, 8802999051652389,
  8117945124844450, 8324086657458661, 5927721060380929, 5287551159215859, 1463221777169986, 3457379333422703, 8775924348758270, 3067786732220762,
  5711671739278090, 3204862354804613, 5277093955143469, 662089346843077, 3509402766427980, 4005824551751222, 1687875132936881, 807214766516353,
  2628727245094355, 5151761565588589, 2422206687894465, 3915215768556991, 2267109690630709, 963521429552580, 3421744529891281, 7345150045670610,
  5433244087092092, 8688115826281501, 7043398959119891, 1025810319962063]

/-- Latitude numerators 500..599 of the mock dataset. -/
def latL5 : List Nat := [
  8583902426344094, 7487520887895708, 5704583904369090, 666218714093605, 4563161020737758, 7122180854754201, 5923149042984323, 6102124355535860,
  95005891164446, 3523023392615741, 4348415352442620, 1276096547172420, 4349810696300757, 605052665559149, 5836394155998405, 1571335028680696,
  7185545341879489, 262940631700975, 3869068030257911, 6776345641133668, 1683984492171890, 6041141404456702, 3535722075723715, 1553989686609049,
  1206494250972099, 3362442164180026, 1241798228613620, 4840282160239431, 4410303293408333, 482887324814197, 1757561204426743, 4429072980089606,
  744630798972836, 2475655000636762, 6688009845413562, 6981597486916614, 6845508641373275, 6629196848823822, 4050828823175023, 6986268818759630,
  5549796627485596, 3159864920575543, 2635819033052921, 8275532856472944, 1317243834628068, 1280568227481763, 680190120875447, 6753619464218417,
  2947959760350247, 5982075728037407, 1962037628329241, 2908110734768463, 7100408080104775, 5640123725296639, 3974750469847421, 8191211983017017,
  840731839056974, 8140709107891246, 6300007800331156, 1922327065935876, 4008806040830596, 6251275516074220, 6582131387616447, 1235150881417222,
  4778393753145193, 6507089209469749, 6184038293635142, 6777427866819821, 2832797205663744, 4984553729387596, 7888749995549584, 5820179912581368,
  1015504633781794, 8889047614342074, 3790801712066223, 150324767192529, 8309855483718540, 5661661505108847, 3623392793356276, 2791393069165319,
  2943105025186795, 3940523960924725, 776535853420958, 5999511486299776, 6376201820864831, 4710813513392861, 1143289273107809, 3017511066565242,
  8782474927570374, 3243707683357959, 2297881375007627, 4583087124160849, 4249277659657793, 4979763310912487, 2236155960114987, 5147938296545644,
  7244832809428759, 7800524856431885, 4981804403766597, 7066212822889472]

/-- Latitude numerators 600..699 of the mock dataset. -/
def latL6 : List Nat := [
  5329478148632237, 1356181356840940, 3120307272102998, 6835826103227458, 4772144671012324, 6409995639753348, 6312667762725474, 1202585852478020,
  3917977458464691, 7664349296628146, 4078080189954969, 981540026655729, 3661539554599529, 4173455105678908, 2740124967123023, 1335981997123306,
  440907966279567, 7697564234091986, 917899794919605, 7479329048998905, 3352837543084432, 196358589716450, 8152217620290603, 8487309667733261,
  265552887540281, 8181277056279690, 5531380309690730, 7951362515265466, 1236112151235556, 8911755510525331, 7038541702909905, 1619637403562048,
  527742885695427, 901929928347197, 503580403327756, 8423587075284243, 5336941281518319, 6310090745847645, 7536295160297446, 1581274786837751,
  1970855736535040, 1814629843586259, 197373822714321, 7752221378061743, 910016887956343, 8545071674645100, 6369737481125411, 5304791404249162,
  1600653963711145, 1640046657067155, 8436933596026863, 8848489295851495, 102642622632921, 7088846012326047, 6598534512884115, 3163609126346984,
  4064835705469561, 2870746695820559, 7997773852997640, 3043988250577290, 8488765204812426, 912049279535733, 4991001087401460, 2139644735141832,
  3250057990367290, 873580310714997, 7599996177631224, 8060339801614255, 7975809122212241, 3960829608998951, 1361264098036205, 3096597520683924,
  7573227610858890, 7808287114188168, 711163865483160, 8110578158614676, 1557155355023045, 384390340380976, 1331968869802096, 3495686401800073,
  4126713020361853, 1347858189500844, 7021514413533705, 3450148883431592, 2480710054880564, 8012572196605304, 4280384937193309, 7362357897245472,
  6168598668415769, 8774988475241136, 3753955002384294, 8227471284223652, 7395067244940804, 6391232956134743, 7882925652896661, 4111324094383567,
  7417485256776725, 3354882336916610, 4965972677371765, 247252032149471]

/-- Latitude numerators 700..799 of the mock dataset. -/
def latL7 : List Nat := [
  2027629007205822, 7787894062122988, 5831004580305795, 5479474568652889, 7670406343627782, 6099640715125273, 4607305974770282, 5348227602688724,
  3028973876679909, 5909800019306743, 4659366398515332, 2878572422830089, 2336704130231660, 6377718203195576, 6425459330102061, 2703914635998613,
  4240417126286281, 804341290341996, 3347817704378378, 483479023726546, 4507899434545415, 3720939350481925, 3086495932154671, 7767754083719217,
  5683837916041690, 2463719956572244, 7072551084614931, 3867778937066286, 339799460452328, 6817078381459941, 6607710564830077, 925113432719732,
  7420525528666314, 4686341399031499, 8972421689967705, 172260281935483, 197377207818352, 5859546827006817, 437632444149153, 6212713419542939,
  2276464164980775, 3790873068669798, 7481854564773976, 7068490283143268, 8765083237647210, 354935060384585, 2112235656891840, 6026013833819752,
  6517281670885676, 8905111034707701, 7324460003812615, 2816615220787222, 7674122281531205, 8057188488591419, 7340545741353652, 2448454812419053,
  7981494411725071, 934164608713515, 3946619690654814, 7925887204501838, 1017250380047724, 5899477441431447, 4711694530036330, 6545099068443383,
  8034979115401125, 7645721228512583, 2888012664319064, 2005962029511964, 4135156491671922, 4026831636506018, 3633861395627027, 8675475349695610,
  3272698093182547, 5045390274581914, 4076050002002570, 3198807543237908, 3367704976093764, 7402464565137287, 5502063572721571, 7426923468696747,
  418838025133461, 5930850652485042, 4777097355715088, 7035356678407468, 3489439244438885, 3770996786659903, 8679278994462304, 3717680715070507,
  6411994172391574, 5622001844324254, 5855457627772275, 5064569901540887, 7903612296733413, 227631211872990, 6757065941082765, 7560479253693832,
  290990031063666, 6687059441264250, 2590818674512136, 8617205271299765]

/-- Latitude numerators 800..899 of the mock dataset. -/
def latL8 : List Nat := [
  116780479120542, 6346734424199957, 4042565434584866, 6621007398710750, 5013394680616147, 4200339281983690, 5376220081689458, 4955402360761853,
  8619779057010734, 4837189831432541, 2989340948103963, 8976854744485508, 3116556612033790, 7977317524087734, 4866025122519516, 4013219755752687,
  741701858293770, 6037842048622449, 4843659355792253, 6179330855891415, 659759593656844, 5178799948387987, 4063378742269868, 6064535840040229,
  7640367927809251, 2714325889130392, 7405019999802525, 1228414987840782, 6100477385917437, 7879200018555956, 5374189457607207, 6740056458344845,
  8157172119990033, 1988681233051822, 6043631743064597, 5806711800781639, 1778179591569630, 6046492919805007, 2862361257018779, 5105838019919300,
  2821187939603797, 1209719393346525, 3231257091202178, 5464016261738729, 2371006948648529, 7652401851357632, 4968317052444417, 3535310808197759,
  4513716255762801, 5968877195664683, 4019196449196851, 364069427089950, 3327576327037591, 3495631970693703, 2918973061051345, 4903069473560592,
  5884732455241911, 4651063531509017, 7990934468474440, 2071572656353335, 1683496663851593, 7306393502754416, 1897852470884426, 388609589048400,
  4617475990233510, 2326196091131369, 167714371114971, 4046064184005919, 7479250171240464, 1510702785597753, 3406625008957061, 7742513647659474,
  867380468493865, 6776864957290040, 8079178083614095, 3336063493853681, 7111684478148266, 2292494593726390, 7897208882776019, 6698164826955358,
  3377968870998358, 960016267771462, 3815103254378730, 3722028359441151, 5035869525785262, 3586034003702003, 7053621146163276, 3607931897836147,
  8688076449325885, 8339421605045949, 3340185870923247, 5910301041328762, 4452874482450915, 7061278931937084, 324809811582894, 8978530634993457,
  5278940827295274, 2562492226572519, 2038288775703175, 41896551079876]

/-- Latitude numerators 900..999 of the mock dataset. -/
def latL9 : List Nat := [
  4532144939290713, 7891324777189413, 5072571828485292, 4149800817003095, 2322233993538801, 3714802909339738, 2587674516864477, 8389271517316343,
  2423619187321816, 1798436302126975, 1826358797204131, 1079769469699532, 8628834650507014, 8089556606845583, 8866639052184264, 6756925132669265,
  293298250090716, 6289227953382494, 1898288731424966, 7762782829801215, 4245501617997837, 3818537996490195, 2518678911159270, 6492528468848009,
  1313643584240900, 1590736930710301, 2260573127418168, 6219859979879192, 867410283112125, 5047184415973132, 3708812514829742, 8821408953993561,
  6978276886197226, 2580774945219027, 7275269257091630, 1459161676111708, 2409177119713801, 6736443776500095, 1656299635521154, 6311316851506118,
  860671386407627, 237474028023717, 5567369420144702, 2228349744401315, 7552696713130972, 4208104734876047, 1217006898565039, 6745596019547279,
  5760358365173838, 2045791157355856, 2340133812532331, 3097439970370816, 2698651634326030, 4937856480877696, 1470600876660915, 2368715741011035,
  7273988401566760, 3719107488809788, 994001638141338, 5609267385585101, 8734427192741727, 1126253014572115, 1357238053573639, 7077184685647426,
  7128520096513970, 6986460319307523, 8067739169963129, 8778402908771527, 6643881420154749, 5998865713835975, 1428644811785122, 5751276976602126,
  2125391318227273, 5266481121756524, 5233876526057301, 2240290922527668, 3202218540141425, 2095746761643871, 1738076897795460, 8094437102612399,
  4888513972126789, 2915458142304997, 1396345370585951, 4089979848408242, 5582073086436520, 570531822835358, 6153936347954566, 3691191037085982,
  600598633042930, 1820166076604382, 5780385146887911, 6316875132467159, 6465774701548335, 4215901967892114, 8450949375839498, 2394254384936867,
  8508231779161319, 2080825187265473, 2240658169902421, 5027292668044838]

/-- All 1000 latitude-draw numerators of the seed-42 mock dataset. -/
def latNumsLit : List Nat := latL0 ++ latL1 ++ latL2 ++ latL3 ++ latL4 ++ latL5 ++ latL6 ++ latL7 ++ latL8 ++ latL9

/-! ## Verification of the reference tables -/

set_option maxRecDepth 8000

/-- `init_genrand(19650218)` equals its reference table. -/
theorem initGenrand_eq : initGenrand 19650218 = initLit := eq_of_beq (by rfl)

/-- The first key-mixing pass equals its reference table. -/
theorem seqUpd1_eq : seqUpd1 19650218 initLit.tail = updA := eq_of_beq (by rfl)

/-- Loop 1 of the key mixing equals its reference table. -/
theorem keyMixA_eq : keyMixA initLit = aLit := by
  show keyMixGlue1 (seqUpd1 (initLit.headD 0) initLit.tail) = aLit
  rw [show initLit.headD 0 = 19650218 from rfl, seqUpd1_eq]
  exact eq_of_beq (by rfl)

/-- The second key-mixing pass equals its reference table. -/
theorem seqUpd2_eq : seqUpd2 2 (aLit.tail.headD 0) aLit.tail.tail = updB := eq_of_beq (by rfl)

/-- The seeded MT19937 state equals its reference table. -/
theorem mtSeed42_eq : mtSeed42 = seedLit := by
  show keyMixB (keyMixA (initGenrand 19650218)) = seedLit
  rw [initGenrand_eq, keyMixA_eq]
  show keyMixGlue2 (aLit.tail.headD 0) (seqUpd2 2 (aLit.tail.headD 0) aLit.tail.tail) = seedLit
  rw [seqUpd2_eq]
  exact eq_of_beq (by rfl)

/-- Bounded-∀ reading of a `List.range`/`all` scan. -/
theorem all_range_imp {p : Nat → Bool} {n : Nat}
    (h : (List.range n).all p = true) : ∀ i, i < n → p i = true := by
  intro i hi
  exact List.all_eq_true.mp h i (List.mem_range.mpr hi)

/-- Membership reading of a `List.all` scan. -/
theorem all_mem_imp {α : Type} {p : α → Bool} {l : List α}
    (h : l.all p = true) : ∀ x ∈ l, p x = true := List.all_eq_true.mp h

set_option maxRecDepth 8000

/-- Kernel check: every chunk of the untempered table has 100 words. -/
theorem chunkLenScan : chunkTable.all lenIs100 = true := by rfl

/-- Kernel check: every chunk of the tempered table has 100 words. -/
theorem wsLenScan : wsTable.all lenIs100 = true := by rfl

theorem chunkTable_length : chunkTable.length = 105 := by rfl

theorem wsTable_length : wsTable.length = 98 := by rfl

/-- A list passing `lenIs100` has exactly 100 elements. -/
theorem length_of_lenIs100 {l : List Nat} (h : lenIs100 l = true) : l.length = 100 := by
  have h1 := (Bool.and_eq_true _ _).mp h
  have h2 : l.drop 100 = [] := by
    simpa [List.isEmpty_iff] using h1.1
  have h3 : ¬ l.drop 99 = [] := by
    have := h1.2
    simp only [Bool.not_eq_true'] at this
    intro hc
    rw [List.isEmpty_iff.mpr hc] at this
    cases this
  have h4 : l.length ≤ 100 := by
    have := List.drop_eq_nil_iff.mp h2
    omega
  have h5 : ¬ l.length ≤ 99 := fun hc => h3 (List.drop_eq_nil_iff.mpr (by omega))
  omega

/-- Every chunk of the untempered table has 100 words. -/
theorem chunk_len (q : Nat) (hq : q < 105) : (chunkTable.getD q []).length = 100 := by
  have hm : chunkTable.getD q [] ∈ chunkTable := by
    rw [List.getD_eq_getElem _ _ (by rw [chunkTable_length]; exact hq)]
    exact List.getElem_mem _
  exact length_of_lenIs100 (List.all_eq_true.mp chunkLenScan _ hm)

/-- Every chunk of the tempered table has 100 words. -/
theorem ws_len (q : Nat) (hq : q < 98) : (wsTable.getD q []).length = 100 := by
  have hm : wsTable.getD q [] ∈ wsTable := by
    rw [List.getD_eq_getElem _ _ (by rw [wsTable_length]; exact hq)]
    exact List.getElem_mem _
  exact length_of_lenIs100 (List.all_eq_true.mp wsLenScan _ hm)

/-- Indexing `zip3With`. -/
theorem zip3With_getElem? (f : Nat → Nat → Nat → Nat) :
    ∀ (as bs cs : List Nat) (j : Nat),
      (zip3With f as bs cs)[j]? =
        (as[j]?).bind fun a => (bs[j]?).bind fun b => (cs[j]?).map fun c => f a b c := by
  intro as
  induction as with
  | nil =>
    intro bs cs j
    simp [zip3With]
  | cons a as ih =>
    intro bs cs j
    cases bs with
    | nil =>
      simp only [zip3With, List.getElem?_nil]
      cases (a :: as)[j]? <;> simp
    | cons b bs =>
      cases cs with
      | nil =>
        simp only [zip3With, List.getElem?_nil]
        cases (a :: b :: [])[0]? <;> cases (a :: as)[j]? <;> cases (b :: bs)[j]? <;> simp
      | cons c cs =>
        cases j with
        | zero => simp [zip3With]
        | succ j => simpa [zip3With] using ih bs cs j

/-- Element `j` of the window at stream position `o` is table word `o + j`. -/
theorem win_point (o j : Nat) (h1 : o / 100 + 1 < 105) (hj : j < 100) :
    (win o).getD j 0 = getX (o + j) := by
  have hq : o / 100 < 105 := by omega
  have hA : ((chunkTable.getD (o / 100) []).drop (o % 100)).length = 100 - o % 100 := by
    rw [List.length_drop, chunk_len _ hq]
  have hr : o % 100 < 100 := Nat.mod_lt _ (by norm_num)
  rw [win, List.getD_eq_getElem?_getD, List.getElem?_append, hA]
  by_cases hc : j < 100 - o % 100
  · rw [if_pos hc, List.getElem?_drop, ← List.getD_eq_getElem?_getD]
    have e1 : (o + j) / 100 = o / 100 := by omega
    have e2 : (o + j) % 100 = o % 100 + j := by omega
    rw [getX, e1, e2]
  · rw [if_neg hc, List.getElem?_take]
    rw [if_pos (by omega), ← List.getD_eq_getElem?_getD]
    have e1 : (o + j) / 100 = o / 100 + 1 := by omega
    have e2 : (o + j) % 100 = j - (100 - o % 100) := by omega
    rw [getX, e1, e2]

/-- getElem? form of `getX` within bounds. -/
theorem getX_getElem? (i : Nat) (h : i < 10500) :
    (chunkTable.getD (i / 100) [])[i % 100]? = some (getX i) := by
  have hq : i / 100 < 105 := by omega
  have hr : i % 100 < (chunkTable.getD (i / 100) []).length := by
    rw [chunk_len _ hq]; omega
  rw [List.getElem?_eq_getElem hr, getX, List.getD_eq_getElem _ _ hr]

/-- The window at position `o` has 100 words. -/
theorem win_length (o : Nat) (h1 : o / 100 + 1 < 105) : (win o).length = 100 := by
  have hq : o / 100 < 105 := by omega
  have hr : o % 100 < 100 := Nat.mod_lt _ (by norm_num)
  rw [win, List.length_append, List.length_drop, List.length_take,
    chunk_len _ hq, chunk_len _ h1]
  omega

/-- getElem? form of `win_point`. -/
theorem win_getElem? (o j : Nat) (h1 : o / 100 + 1 < 105) (hj : j < 100) :
    (win o)[j]? = some (getX (o + j)) := by
  have hb : j < (win o).length := by rw [win_length o h1]; omega
  rw [List.getElem?_eq_getElem hb, ← List.getD_eq_getElem (win o) 0 hb,
    win_point o j h1 hj]

set_option maxRecDepth 12000

set_option maxHeartbeats 1600000 in
theorem chunk6Scan :
    ((chunkTable.getD 6 []).drop 24 ==
      (zip3With twistGen (win 0) (win 1) (win 397)).take 76) = true := by rfl

set_option maxHeartbeats 40000000 in
theorem chunkScan :
    (List.range 105).all (fun c => if c ≤ 6 then true else chunkRecurB c) = true := by rfl

/-- The table satisfies the twist recurrence pointwise. -/
theorem getX_recur (i : Nat) (h1 : 624 ≤ i) (h2 : i < 10500) :
    getX i = twistGen (getX (i - 624)) (getX (i - 623)) (getX (i - 227)) := by
  by_cases hlow : i < 700
  · have heq : (chunkTable.getD 6 []).drop 24 =
        (zip3With twistGen (win 0) (win 1) (win 397)).take 76 := eq_of_beq chunk6Scan
    have hj : i - 624 < 76 := by omega
    have e1 : i / 100 = 6 := by omega
    have e2 : i % 100 = 24 + (i - 624) := by omega
    have hdrop : ∀ (l : List Nat) (j : Nat), (l.drop 24).getD j 0 = l.getD (24 + j) 0 := by
      intro l j
      rw [List.getD_eq_getElem?_getD, List.getD_eq_getElem?_getD, List.getElem?_drop]
    have hx : getX i = ((chunkTable.getD 6 []).drop 24).getD (i - 624) 0 := by
      rw [hdrop, show getX i = (chunkTable.getD (i / 100) []).getD (i % 100) 0 from rfl, e1, e2]
    rw [hx, heq, List.getD_eq_getElem?_getD, List.getElem?_take, if_pos hj,
      zip3With_getElem? twistGen,
      win_getElem? 0 (i - 624) (by norm_num) (by omega),
      win_getElem? 1 (i - 624) (by norm_num) (by omega),
      win_getElem? 397 (i - 624) (by norm_num) (by omega)]
    simp only [Option.some_bind, Option.map_some', Option.getD_some]
    congr 1 <;> exact congrArg getX (by omega)
  · -- full chunks 7..104
    set c := i / 100 with hc
    have hc7 : 7 ≤ c := by omega
    have hc105 : c < 105 := by omega
    have hB : chunkRecurB c = true := by
      have := all_range_imp chunkScan c hc105
      simpa [Nat.not_le.mpr (by omega : 6 < c), if_neg] using this
    have heq : chunkTable.getD c [] =
        zip3With twistGen (win (100 * c - 624)) (win (100 * c - 623)) (win (100 * c - 227)) :=
      eq_of_beq hB
    have hj : i % 100 < 100 := Nat.mod_lt _ (by norm_num)
    have hx : getX i = (chunkTable.getD c []).getD (i % 100) 0 := by
      rw [show getX i = (chunkTable.getD (i / 100) []).getD (i % 100) 0 from rfl, hc]
    rw [hx, heq, List.getD_eq_getElem?_getD, zip3With_getElem? twistGen,
      win_getElem? _ _ (by omega) hj, win_getElem? _ _ (by omega) hj,
      win_getElem? _ _ (by omega) hj]
    simp only [Option.some_bind, Option.map_some', Option.getD_some]
    congr 1 <;> exact congrArg getX (by omega)

set_option maxRecDepth 12000

set_option maxHeartbeats 3200000 in
/-- Kernel check: the seed table agrees with the first 624 table words. -/
theorem seedScan : (List.range 624).all (fun i => seedLit.getD i 0 == getX i) = true := by rfl

set_option maxHeartbeats 40000000 in
/-- Kernel check: each tempered chunk is the tempering of its window. -/
theorem temperScan :
    (List.range 98).all
      (fun k => wsTable.getD k [] == (win (624 + 100 * k)).map mtTemper) = true := by rfl

/-- The model stream equals the literal table on all 10500 positions. -/
theorem mtUntempered_eq : ∀ i, i < 10500 → mtUntempered i = getX i := by
  intro i
  induction i using Nat.strong_induction_on with
  | _ i ih =>
    intro hi
    by_cases h : i < 624
    · rw [mtUntempered, if_pos h, mtSeed42_eq]
      exact eq_of_beq (all_range_imp seedScan i h)
    · rw [mtUntempered, if_neg h]
      have e1 := ih (i - 624) (by omega) (by omega)
      have e2 := ih (i - 623) (by omega) (by omega)
      have e3 := ih (i - 227) (by omega) (by omega)
      rw [e1, e2, e3, ← getX_recur i (by omega) hi]

/-- Length of a flattening of 100-element chunks. -/
theorem flatten_len_100 : ∀ (tbl : List (List Nat)), (∀ c ∈ tbl, c.length = 100) →
    tbl.flatten.length = 100 * tbl.length := by
  intro tbl
  induction tbl with
  | nil => intro _; rfl
  | cons ch tbl ih =>
    intro h
    rw [List.flatten_cons, List.length_append, h ch (by simp),
      ih (fun c hc => h c (by simp [hc])), List.length_cons]
    ring

/-- Indexing a flattening of 100-element chunks. -/
theorem flattenIdx : ∀ (tbl : List (List Nat)), (∀ c ∈ tbl, c.length = 100) →
    ∀ t, t < 100 * tbl.length → tbl.flatten[t]? = (tbl.getD (t / 100) [])[t % 100]? := by
  intro tbl
  induction tbl with
  | nil => intro _ t ht; simp at ht
  | cons ch tbl ih =>
    intro h t ht
    have hch : ch.length = 100 := h ch (by simp)
    rw [List.flatten_cons, List.getElem?_append]
    by_cases hc : t < 100
    · rw [if_pos (by omega), show t / 100 = 0 from by omega]
      simp [show t % 100 = t from by omega]
    · rw [if_neg (by omega)]
      have e := ih (fun c hc => h c (by simp [hc])) (t - ch.length)
        (by rw [hch]; simp at ht ⊢; omega)
      rw [e, hch]
      have d1 : (t - 100) / 100 = t / 100 - 1 := by omega
      have d2 : (t - 100) % 100 = t % 100 := by omega
      rw [d1, d2, show (ch :: tbl).getD (t / 100) [] = tbl.getD (t / 100 - 1) [] from by
        cases hq : t / 100 with
        | zero => omega
        | succ n => simp [List.getD_cons_succ]]

set_option maxRecDepth 12000

/-- The tempered table lists every chunk's 100 words. -/
theorem wsTable_mem_len : ∀ c ∈ wsTable, c.length = 100 := by
  intro c hc
  exact length_of_lenIs100 (List.all_eq_true.mp wsLenScan c hc)

/-- `wsFlat` is the flattening of the tempered table. -/
theorem wsFlat_eq : wsTable.flatten = wsFlat := by
  show (List.flatten [wsC0, wsC1, wsC2, wsC3, wsC4, wsC5, wsC6, wsC7, wsC8, wsC9, wsC10,
    wsC11, wsC12, wsC13, wsC14, wsC15, wsC16, wsC17, wsC18, wsC19, wsC20, wsC21, wsC22,
    wsC23, wsC24, wsC25, wsC26, wsC27, wsC28, wsC29, wsC30, wsC31, wsC32, wsC33, wsC34,
    wsC35, wsC36, wsC37, wsC38, wsC39, wsC40, wsC41, wsC42, wsC43, wsC44, wsC45, wsC46,
    wsC47, wsC48, wsC49, wsC50, wsC51, wsC52, wsC53, wsC54, wsC55, wsC56, wsC57, wsC58,
    wsC59, wsC60, wsC61, wsC62, wsC63, wsC64, wsC65, wsC66, wsC67, wsC68, wsC69, wsC70,
    wsC71, wsC72, wsC73, wsC74, wsC75, wsC76, wsC77, wsC78, wsC79, wsC80, wsC81, wsC82,
    wsC83, wsC84, wsC85, wsC86, wsC87, wsC88, wsC89, wsC90, wsC91, wsC92, wsC93, wsC94,
    wsC95, wsC96, wsC97]) = wsFlat
  simp only [List.flatten_cons, List.flatten_nil, List.append_nil, wsFlat,
    wsQ0, wsQ1, wsQ2, wsQ3, wsP0, wsP1, wsP2, wsP3, wsP4, wsP5, wsP6, wsP7, wsP8, wsP9,
    wsP10, wsP11, wsP12, wsP13, wsP14, wsP15, wsP16, wsP17, wsP18, wsP19, List.append_assoc]

/-- The first 9800 generator outputs are exactly the tempered table. -/
theorem pyWords_eq : pyWords = wsFlat := by
  rw [← wsFlat_eq, pyWords]
  apply List.ext_getElem?
  intro t
  rw [List.getElem?_map]
  by_cases ht : t < 9800
  · rw [List.getElem?_range ht, Option.map_some']
    rw [flattenIdx wsTable wsTable_mem_len t (by rw [wsTable_length]; omega)]
    have hk : t / 100 < 98 := by omega
    have hw : wsTable.getD (t / 100) [] = (win (624 + 100 * (t / 100))).map mtTemper :=
      eq_of_beq (all_range_imp temperScan (t / 100) hk)
    rw [hw, List.getElem?_map,
      win_getElem? (624 + 100 * (t / 100)) (t % 100)
        (by omega) (Nat.mod_lt _ (by norm_num)),
      Option.map_some']
    rw [pyWord, mtUntempered_eq (624 + t) (by omega)]
    exact congrArg (fun z => some (mtTemper (getX z))) (by omega)
  · rw [List.getElem?_eq_none (by rw [List.length_range]; omega), Option.map_none']
    rw [List.getElem?_eq_none]
    rw [flatten_len_100 wsTable wsTable_mem_len, wsTable_length]
    omega

set_option maxHeartbeats 16000000 in
/-- Kernel check: the mock run reproduces the expected latitude draws and
leaves generator outputs unconsumed. -/
theorem chkScan : chkRows latNumsLit wsFlat = true := by rfl

/-- Reading of a successful `chkRows` scan. -/
theorem chkRows_spec : ∀ (lats ws : List Nat), chkRows lats ws = true →
    (mockRowsL lats.length ws).1.map MockRow.latNum = lats ∧
      (mockRowsL lats.length ws).2 ≠ [] := by
  intro lats
  induction lats with
  | nil =>
    intro ws h
    simp only [chkRows, Bool.not_eq_true'] at h
    refine ⟨rfl, ?_⟩
    simp only [List.length_nil, mockRowsL]
    intro hc
    rw [hc] at h
    cases h
  | cons e lats ih =>
    intro ws h
    simp only [chkRows, Bool.and_eq_true] at h
    obtain ⟨h1, h2⟩ := h
    have := ih (mockIterL ws).2 h2
    constructor
    · show ((mockIterL ws).1 :: (mockRowsL lats.length (mockIterL ws).2).1).map MockRow.latNum
        = e :: lats
      rw [List.map_cons, this.1, eq_of_beq h1]
    · exact this.2

theorem latNumsLit_length : latNumsLit.length = 1000 := by
  show (latL0 ++ latL1 ++ latL2 ++ latL3 ++ latL4 ++ latL5 ++ latL6 ++ latL7 ++ latL8
    ++ latL9).length = 1000
  simp only [List.length_append]
  rw [show latL0.length = 100 from rfl, show latL1.length = 100 from rfl,
    show latL2.length = 100 from rfl, show latL3.length = 100 from rfl,
    show latL4.length = 100 from rfl, show latL5.length = 100 from rfl,
    show latL6.length = 100 from rfl, show latL7.length = 100 from rfl,
    show latL8.length = 100 from rfl, show latL9.length = 100 from rfl]

/-- The mock dataset's latitude draws are exactly the reference list. -/
theorem mockAqiRaw_latNums : mockAqiRaw.map MockRow.latNum = latNumsLit := by
  have h := chkRows_spec latNumsLit wsFlat chkScan
  rw [latNumsLit_length] at h
  show (mockRowsL 1000 pyWords).1.map MockRow.latNum = latNumsLit
  rw [pyWords_eq]
  exact h.1

/-- The mock run leaves generator outputs unconsumed. -/
theorem mockAqiRaw_leftover : (mockRowsL 1000 pyWords).2 ≠ [] := by
  have h := chkRows_spec latNumsLit wsFlat chkScan
  rw [latNumsLit_length] at h
  rw [pyWords_eq]
  exact h.2

/-! Consuming a longer output prefix cannot change the drawn rows as long
as the shorter run did not exhaust its words: the run is therefore
independent of the 9800-output cutoff in `pyWords`. -/

theorem randbelowAuxL_append (n k : Nat) : ∀ (ws ext : List Nat),
    (randbelowAuxL n k ws).2 ≠ [] →
    randbelowAuxL n k (ws ++ ext) = ((randbelowAuxL n k ws).1, (randbelowAuxL n k ws).2 ++ ext) := by
  intro ws
  induction ws with
  | nil => intro ext h; exact absurd rfl h
  | cons w t ih =>
    intro ext h
    by_cases hc : w >>> (32 - k) < n
    · simp only [List.cons_append, randbelowAuxL, if_pos hc] at h ⊢
      rfl
    · simp only [List.cons_append, randbelowAuxL, if_neg hc] at h ⊢
      exact ih ext h

theorem randbelowL_append (n : Nat) (ws ext : List Nat) (h : (randbelowL n ws).2 ≠ []) :
    randbelowL n (ws ++ ext) = ((randbelowL n ws).1, (randbelowL n ws).2 ++ ext) :=
  randbelowAuxL_append n (pyBitLength n) ws ext h

theorem randomNumL_append : ∀ (ws ext : List Nat), (randomNumL ws).2 ≠ [] →
    randomNumL (ws ++ ext) = ((randomNumL ws).1, (randomNumL ws).2 ++ ext) := by
  intro ws ext h
  match ws with
  | [] => exact absurd rfl h
  | [a] => exact absurd rfl h
  | a :: b :: t => rfl

theorem mockIterL_append (ws ext : List Nat) (h : (mockIterL ws).2 ≠ []) :
    mockIterL (ws ++ ext) = ((mockIterL ws).1, (mockIterL ws).2 ++ ext) := by
  have h4 : (randbelowL 2 (randomNumL (randomNumL (randbelowL 3 ws).2).2).2).2 ≠ [] := by
    intro hc
    apply h
    show (randbelowL 146 (randbelowL 2 _).2).2 = []
    rw [hc]
    rfl
  have h3 : (randomNumL (randomNumL (randbelowL 3 ws).2).2).2 ≠ [] := by
    intro hc
    apply h4
    show (randbelowL 2 (randomNumL (randomNumL (randbelowL 3 ws).2).2).2).2 = []
    rw [hc]
    rfl
  have h2 : (randomNumL (randbelowL 3 ws).2).2 ≠ [] := by
    intro hc
    apply h3
    show (randomNumL (randomNumL (randbelowL 3 ws).2).2).2 = []
    rw [hc]
    rfl
  have h1 : (randbelowL 3 ws).2 ≠ [] := by
    intro hc
    apply h2
    show (randomNumL (randbelowL 3 ws).2).2 = []
    rw [hc]
    rfl
  simp only [mockIterL, randbelowL_append 3 ws ext h1, randomNumL_append _ ext h2,
    randomNumL_append _ ext h3, randbelowL_append 2 _ ext h4, randbelowL_append 146 _ ext h]

theorem mockRowsL_nil : ∀ n, (mockRowsL n []).2 = [] := by
  intro n
  induction n with
  | zero => rfl
  | succ n ih =>
    show (mockRowsL n (mockIterL []).2).2 = []
    rw [show (mockIterL []).2 = [] from rfl]
    exact ih

/-- Extending the word list beyond an unexhausted run changes nothing. -/
theorem mockRowsL_append : ∀ (n : Nat) (ws ext : List Nat), (mockRowsL n ws).2 ≠ [] →
    mockRowsL n (ws ++ ext) = ((mockRowsL n ws).1, (mockRowsL n ws).2 ++ ext) := by
  intro n
  induction n with
  | zero => intro ws ext _; rfl
  | succ n ih =>
    intro ws ext h
    have hiter : (mockIterL ws).2 ≠ [] := by
      intro hc
      apply h
      show (mockRowsL n (mockIterL ws).2).2 = []
      rw [hc]
      exact mockRowsL_nil n
    show (let r := mockIterL (ws ++ ext); let rest := mockRowsL n r.2; (r.1 :: rest.1, rest.2)) = _
    rw [mockIterL_append ws ext hiter]
    simp only
    rw [ih (mockIterL ws).2 ext h]
    rfl

/-- The mock dataset does not depend on the output cutoff: any extension
of the word list yields the same 1000 rows. -/
theorem mockAqiRaw_stable (ext : List Nat) :
    (mockRowsL 1000 (pyWords ++ ext)).1 = mockAqiRaw := by
  rw [mockRowsL_append 1000 pyWords ext mockAqiRaw_leftover]
  rfl

set_option maxRecDepth 30000

set_option maxHeartbeats 64000000 in
/-- Kernel check: no high-bit bucket of the latitude draws has a duplicate. -/
theorem bucketScan : (List.range 64).all
    (fun v => !hasDup (latNumsLit.filter (fun x => (x >>> 47) == v))) = true := by rfl

set_option maxHeartbeats 8000000 in
/-- Kernel check: every latitude draw fits in 53 bits (bucket key < 64). -/
theorem boundScan : latNumsLit.all (fun x => Nat.ble (x >>> 47) 63) = true := by rfl

/-- A list with a false duplicate scan has no duplicates. -/
theorem nodup_of_hasDup_false : ∀ l : List Nat, hasDup l = false → l.Nodup := by
  intro l
  induction l with
  | nil => intro _; exact List.nodup_nil
  | cons a as ih =>
    intro h
    simp only [hasDup, Bool.or_eq_false_iff] at h
    refine List.nodup_cons.mpr ⟨?_, ih h.2⟩
    intro hm
    have := List.elem_eq_true_of_mem hm
    rw [h.1] at this
    cases this

/-- The 1000 latitude draws of the seed-42 mock dataset are pairwise
distinct. -/
theorem latNumsLit_nodup : latNumsLit.Nodup := by
  rw [List.nodup_iff_count_le_one]
  intro a
  by_cases ha : a ∈ latNumsLit
  · have hb : Nat.ble (a >>> 47) 63 = true := all_mem_imp boundScan a ha
    have hbound : a >>> 47 < 64 := by
      have := Nat.le_of_ble_eq_true hb
      omega
    have hnd : (latNumsLit.filter (fun x => (x >>> 47) == a >>> 47)).Nodup := by
      have := all_range_imp bucketScan (a >>> 47) hbound
      simp only [Bool.not_eq_true'] at this
      exact nodup_of_hasDup_false _ this
    have hcnt := List.nodup_iff_count_le_one.mp hnd a
    rwa [List.count_filter (by simp)] at hcnt
  · rw [List.count_eq_zero_of_not_mem ha]
    omega

/-- The latitude draws of the mock dataset are pairwise distinct. -/
theorem mockAqiRaw_latNodup : (mockAqiRaw.map MockRow.latNum).Nodup := by
  rw [mockAqiRaw_latNums]
  exact latNumsLit_nodup


set_option maxRecDepth 4000
/-! # The program: shallow embedding of the five modules

DataFrames are lists of row structures; Python floats are exact rationals.
The HTTP layer, numpy's generator and sklearn's regression are external
collaborators and enter as arguments. -/

/-! ## fetch_aqi.py -/

/-- A raw AirNow JSON record as `_fetch_point` returns it: every field may
be missing, and `Category` may be a nested object, a plain string or
absent (fetch_aqi.py lines 70-84 tolerate all three). -/
inductive PyCat where
  | noneV
  | strV (s : String)
  | dictV (name : Option String)
deriving DecidableEq, Repr

/-- One raw observation object from the AirNow response. -/
structure RawRecord where
  latitude : Option ℚ
  longitude : Option ℚ
  parameterName : Option String
  parameter : Option String
  aqi : Option ℤ
  category : PyCat
  unit : Option String
  reportingArea : Option String
  stateCode : Option String
  dateObserved : Option String
deriving DecidableEq, Repr

/-- A normalized observation row (fetch_aqi.py lines 70-99). -/
structure Obs where
  latitude : ℚ
  longitude : ℚ
  parameter : Option String
  aqi : ℤ
  category : Option String
  unit : Option String
  reportingArea : Option String
  stateCode : Option String
  utc : Option String
  color : String
  region : String
deriving DecidableEq, Repr

/-- Python `or` on optional strings: the left operand wins iff it is
truthy (not None and not empty), as in
`row.get("ParameterName") or row.get("Parameter")`. -/
def pyOrStr (a b : Option String) : Option String :=
  match a with
  | some s => if s = "" then b else some s
  | none => b

/-- `Category` normalization (fetch_aqi.py lines 75-79): a dict yields its
`Name` entry, a plain string is taken as is, an absent key yields None. -/
def catName : PyCat → Option String
  | .dictV n => n
  | .strV s => some s
  | .noneV => none

/-- The fixed category→color table (fetch_aqi.py lines 90-97); `.map` over
a pandas column leaves unknown keys (and None) as NaN. -/
def colorMap (c : String) : Option String :=
  if c = "Good" then some "green"
  else if c = "Moderate" then some "yellow"
  else if c = "Unhealthy for Sensitive Groups" then some "orange"
  else if c = "Unhealthy" then some "red"
  else if c = "Very Unhealthy" then some "purple"
  else if c = "Hazardous" then some "maroon"
  else none

/-- One raw record normalized to an observation row; `none` when latitude,
longitude or AQI is missing, which `dropna(subset=["latitude",
"longitude", "aqi"])` (line 88) removes.  The source assigns `color` and
`region` after deduplication; both are per-row functions of the kept
columns, so assigning them here yields the same rows. -/
def normalizeRecord (r : RawRecord) : Option Obs :=
  match r.latitude, r.longitude, r.aqi with
  | some la, some lo, some q =>
    let cat := catName r.category
    some { latitude := la, longitude := lo,
           parameter := pyOrStr r.parameterName r.parameter,
           aqi := q, category := cat,
           unit := r.unit, reportingArea := r.reportingArea,
           stateCode := r.stateCode, utc := r.dateObserved,
           color := (cat.bind colorMap).getD "gray",
           region := "USA" }
  | _, _, _ => none

/-- The `(latitude, longitude, parameter)` key of a row. -/
def obsKey (o : Obs) : ℚ × ℚ × Option String := (o.latitude, o.longitude, o.parameter)

/-- `drop_duplicates(subset=["latitude", "longitude", "parameter"])`
(line 89): keep the first row of each key. -/
def dedupObs (seen : List (ℚ × ℚ × Option String)) : List Obs → List Obs
  | [] => []
  | o :: rest =>
    if obsKey o ∈ seen then dedupObs seen rest
    else o :: dedupObs (obsKey o :: seen) rest

/-- `random.uniform(24, 49)`: the latitude value of a draw numerator. -/
def mkLat (n : Nat) : ℚ := 24 + 25 * ((n : ℚ) / 2 ^ 53)

/-- `random.uniform(-125, -67)`: the longitude value of a draw numerator. -/
def mkLon (n : Nat) : ℚ := -125 + 58 * ((n : ℚ) / 2 ^ 53)

/-- The categories `random.choice` picks from (fetch_aqi.py line 110). -/
def mockCats : List String := ["Good", "Moderate", "Unhealthy"]

/-- The color table of the mock rows (line 118); only the three category
names above are reachable. -/
def mockColor (c : String) : String :=
  if c = "Good" then "green" else if c = "Moderate" then "yellow" else "red"

/-- One mock row's draws turned into an observation row
(fetch_aqi.py lines 111-121). -/
def mockObs (r : MockRow) : Obs :=
  let cat := mockCats.getD r.catIdx ""
  { latitude := mkLat r.latNum, longitude := mkLon r.lonNum,
    parameter := some (["PM2.5", "NO2"].getD r.parIdx ""),
    aqi := (r.aqi : ℤ), category := some cat,
    unit := some "UG/M3", reportingArea := none, stateCode := none,
    utc := some "2025-10-04T12:00",
    color := mockColor cat, region := "USA" }

/-- `_mock_aqi_data()`: the deterministic seed-42 synthetic dataset of
1000 rows. -/
def mockAqiData : List Obs := mockAqiRaw.map mockObs

/-- `load_aqi_data` (fetch_aqi.py lines 49-102).  `responses` is the list
of per-future raw-record lists collected from the worker pool in
completion order (the HTTP layer is external; a failed or empty request
contributes `[]`, exactly as `_fetch_point` returns).  The guard
`if not all_data or len(all_data) < 10` is equivalent to
`len(all_data) < 10` and counts the raw records before normalization. -/
def loadAqiData (useMock : Bool) (responses : List (List RawRecord)) : List Obs :=
  if useMock then mockAqiData
  else
    let allData := responses.flatten
    if allData.length < 10 then mockAqiData
    else dedupObs [] (allData.filterMap normalizeRecord)

/-- The usable observation records of a response set: those surviving the
`dropna` on latitude, longitude and AQI. -/
def usableRecords (responses : List (List RawRecord)) : Nat :=
  (responses.flatten.filterMap normalizeRecord).length

/-! ## fetch_aod.py -/

/-- One aerosol point row. -/
structure AodRow where
  latitude : ℚ
  longitude : ℚ
  aod : ℚ
deriving DecidableEq, Repr

/-- The continental-US crop (fetch_aod.py line 26). -/
def cropConus (df : List AodRow) : List AodRow :=
  df.filter fun r =>
    decide (24 ≤ r.latitude) && decide (r.latitude ≤ 49.5) &&
      decide (-125 ≤ r.longitude) && decide (r.longitude ≤ -66.5)

/-- `_mock_aod_data(3000)` (lines 29-35): numpy's seeded draws enter as
abstract streams (`np.random.seed(1)` fixes them). -/
def mockAodData (uLat uLon uAod : Nat → ℚ) : List AodRow :=
  (List.range 3000).map fun i => ⟨uLat i, uLon i, uAod i⟩

/-- `load_aod_data` (lines 8-27): the earthaccess path either yields a row
list or raises; on any exception the mock is substituted; both results are
cropped to the continental US before returning. -/
def loadAodData (real : Except Unit (List AodRow)) (uLat uLon uAod : Nat → ℚ) :
    List AodRow :=
  cropConus (match real with
    | .ok df => df
    | .error _ => mockAodData uLat uLon uAod)

/-! ## predict_aqi.py -/

/-- One historical sample row (`date` as a day number). -/
structure HRow where
  date : ℤ
  latitude : ℚ
  longitude : ℚ
  aqi : ℚ
deriving DecidableEq, Repr

/-- `np.clip(x, lo, hi)`. -/
def clipQ (x lo hi : ℚ) : ℚ := min (max x lo) hi

/-- `pd.date_range(today - 7 days, today)`: the eight consecutive days
from `today - 7` through `today`, both endpoints included. -/
def weekDays (today : ℤ) : List ℤ := (List.range 8).map fun k => today - 7 + (k : ℤ)

/-- `fetch_past_week_data` (predict_aqi.py lines 22-46).  The mock branch
seeds numpy with 42, draws 700 uniform latitudes and longitudes, and for
each day of `pd.date_range(today - 7 days, today)` draws 700 normal(70,25)
AQI values clipped to [10,300], concatenating the per-day frames; the
"real" branch only defers to the mock branch.  numpy's seeded draws enter
as abstract streams: `uLat`/`uLon` for the location draws and `g d i` for
the day-`d` AQI draw of location `i`. -/
def fetchPastWeekData : Bool → Bool → ℤ → (Nat → ℚ) → (Nat → ℚ) → (Nat → Nat → ℚ) →
    List HRow
  | true, _, today, uLat, uLon, g =>
    (List.range 8).flatMap fun d =>
      (List.range 700).map fun i =>
        ⟨today - 7 + (d : ℤ), uLat i, uLon i, clipQ (g d i) 10 300⟩
  | false, fr, today, uLat, uLon, g => fetchPastWeekData true fr today uLat uLon g
termination_by b => if b then 0 else 1
decreasing_by simp

/-- Ordering of pandas `groupby` keys: lexicographic on (lat, lon). -/
def keyLE (a b : ℚ × ℚ) : Bool :=
  decide (a.1 < b.1) || (decide (a.1 = b.1) && decide (a.2 ≤ b.2))

/-- Sorted insertion of a group key. -/
def insertKey (k : ℚ × ℚ) : List (ℚ × ℚ) → List (ℚ × ℚ)
  | [] => [k]
  | x :: xs => if keyLE k x then k :: x :: xs else x :: insertKey k xs

/-- The distinct `(latitude, longitude)` keys of a frame in pandas
`groupby` order (sorted). -/
def groupKeys (df : List HRow) : List (ℚ × ℚ) :=
  ((df.map fun r => (r.latitude, r.longitude)).dedup).foldr insertKey []

/-- The rows of one group, in original frame order. -/
def rowsOf (df : List HRow) (k : ℚ × ℚ) : List HRow :=
  df.filter fun r => decide ((r.latitude, r.longitude) = k)

/-- Stable insertion by date. -/
def insertByDate (r : HRow) : List HRow → List HRow
  | [] => [r]
  | x :: xs => if decide (r.date ≤ x.date) then r :: x :: xs else x :: insertByDate r xs

/-- `sort_values("date")` on one group (stable). -/
def sortByDate (l : List HRow) : List HRow := l.foldr insertByDate []

/-- The complete-lag feature rows of one date-sorted AQI sequence
(`shift(1..3)` then `dropna`): row `j ≥ 3` yields
`(lag1, lag2, lag3, aqi) = (aqi[j-1], aqi[j-2], aqi[j-3], aqi[j])`. -/
def lagRows : List ℚ → List (ℚ × ℚ × ℚ × ℚ)
  | x0 :: x1 :: x2 :: x3 :: rest => (x2, x1, x0, x3) :: lagRows (x1 :: x2 :: x3 :: rest)
  | _ => []
termination_by l => l.length
decreasing_by simp

/-- All complete-lag rows after grouping by location, sorting each group by
date and building the three lags (predict_aqi.py lines 97-103). -/
def groupedLags (df : List HRow) : List (ℚ × ℚ × ℚ × ℚ) :=
  (groupKeys df).flatMap fun k => lagRows ((sortByDate (rowsOf df k)).map HRow.aqi)

/-- A weekly model: sklearn's `LinearRegression()` object is untrained
until `.fit` is called; a trained model is recorded with the design matrix
and target vector it was fit on (the regression library itself is an
external collaborator). -/
inductive WModel where
  | untrained
  | trained (X : List (ℚ × ℚ × ℚ)) (y : List ℚ)
deriving DecidableEq, Repr

/-- `train_weekly_predictor` (predict_aqi.py lines 84-113): fewer than 100
raw rows (or None), or fewer than 50 complete-lag rows, yield an untrained
`LinearRegression()`; otherwise the model is fit on the three lags against
current-day AQI. -/
def trainWeeklyPredictor (dfWeek : Option (List HRow)) : WModel :=
  match dfWeek with
  | none => .untrained
  | some df =>
    if df.length < 100 then .untrained
    else
      let lagged := groupedLags df
      if lagged.length < 50 then .untrained
      else .trained (lagged.map fun t => (t.1, t.2.1, t.2.2.1))
                    (lagged.map fun t => t.2.2.2)

/-- One prediction row. -/
structure PRow where
  latitude : ℚ
  longitude : ℚ
  aqiPred : ℚ
deriving DecidableEq, Repr

/-- The synthetic fallback of `predict_tomorrow` (lines 126-133):
`np.random.seed(10)`, 3000 uniform latitudes and longitudes, 3000
normal(75,20) draws clipped to [10,300]; numpy's seeded draws enter as
abstract streams. -/
def syntheticPreds (gLat gLon gAqi : Nat → ℚ) : List PRow :=
  (List.range 3000).map fun i => ⟨gLat i, gLon i, clipQ (gAqi i) 10 300⟩

/-- The last `n` elements of a list (`groupby.tail(n)` within one group). -/
def lastN (n : Nat) (l : List ℚ) : List ℚ := l.drop (l.length - n)

/-- `predict_tomorrow` (predict_aqi.py lines 120-145).  `fitLR X y` is the
prediction function of a regression fit on `X`, `y` (sklearn is external).
The guard tests `model is None or df_week is None or len(df_week) < 50`;
on the real path, each location with at least 3 samples contributes its
last 3 AQI values as lags and the model's clipped prediction; calling
`.predict` on an unfitted `LinearRegression` raises `NotFittedError`,
which `predict_tomorrow` does not catch. -/
def predictTomorrow (fitLR : List (ℚ × ℚ × ℚ) → List ℚ → ((ℚ × ℚ × ℚ) → ℚ))
    (gLat gLon gAqi : Nat → ℚ)
    (dfWeek : Option (List HRow)) (model : Option WModel) :
    Except String (List PRow) :=
  match model, dfWeek with
  | none, _ => .ok (syntheticPreds gLat gLon gAqi)
  | _, none => .ok (syntheticPreds gLat gLon gAqi)
  | some m, some df =>
    if df.length < 50 then .ok (syntheticPreds gLat gLon gAqi)
    else
      match m with
      | .untrained => .error "NotFittedError"
      | .trained X y =>
        .ok ((groupKeys df).filterMap fun k =>
          match lastN 3 ((rowsOf df k).map HRow.aqi) with
          | [a3, a2, a1] => some ⟨k.1, k.2, clipQ (fitLR X y (a1, a2, a3)) 10 300⟩
          | _ => none)

/-! ## map_builder.py -/

/-- The AQI bucket palette (map_builder.py lines 4-10). -/
def getAqiColor (aqi : ℚ) : String :=
  if aqi ≤ 50 then "green"
  else if aqi ≤ 100 then "yellow"
  else if aqi ≤ 150 then "orange"
  else if aqi ≤ 200 then "red"
  else if aqi ≤ 300 then "purple"
  else "maroon"

/-- A generic row of the current-AQI input frame (`row.get` tolerates
missing `city`/`parameter`; `aqi`, `latitude`, `longitude` are accessed
directly). -/
structure MapPoint where
  latitude : ℚ
  longitude : ℚ
  aqi : ℚ
  city : Option String
  parameter : Option String
deriving DecidableEq, Repr

/-- A circle marker (the popup string is presentation-only and omitted). -/
structure Marker where
  latitude : ℚ
  longitude : ℚ
  color : String
deriving DecidableEq, Repr

/-- A toggleable data layer (`folium.FeatureGroup`). -/
inductive Layer where
  | currentAqi (markers : List Marker)
  | aodHeat (heatData : List (ℚ × ℚ × ℚ))
  | predAqi (markers : List Marker)
deriving DecidableEq, Repr

/-- The produced map document; `folium.LayerControl` is a UI control, not
a data layer, and is omitted. -/
structure MapDoc where
  center : ℚ × ℚ
  zoom : Nat
  layers : List Layer
deriving DecidableEq, Repr

/-- The current-AQI layer contribution (map_builder.py lines 17-32):
present iff the frame is given, non-empty and selected. -/
def aqiLayerOf (dfAqi : Option (List MapPoint)) (showPred : String) : List Layer :=
  match dfAqi with
  | some df =>
    if df.length > 0 ∧ (showPred = "both" ∨ showPred = "current") then
      [.currentAqi (df.map fun r => ⟨r.latitude, r.longitude, getAqiColor r.aqi⟩)]
    else []
  | none => []

/-- The aerosol heat-layer contribution (lines 34-42): present iff the
frame is given and non-empty; the selector plays no role. -/
def aodLayerOf (dfAod : Option (List AodRow)) : List Layer :=
  match dfAod with
  | some df =>
    if df.length > 0 then
      [.aodHeat (df.map fun r => (r.latitude, r.longitude, r.aod))]
    else []
  | none => []

/-- The predicted-AQI layer contribution (lines 44-57). -/
def predLayerOf (dfPred : Option (List PRow)) (showPred : String) : List Layer :=
  match dfPred with
  | some df =>
    if df.length > 0 ∧ (showPred = "both" ∨ showPred = "predicted") then
      [.predAqi (df.map fun r => ⟨r.latitude, r.longitude, getAqiColor r.aqiPred⟩)]
    else []
  | none => []

/-- `make_map` (map_builder.py lines 12-61): the three contributions in
source order on a map centered at (39.5, -98.35), zoom 5. -/
def makeMap (dfAqi : Option (List MapPoint)) (dfAod : Option (List AodRow))
    (dfPred : Option (List PRow)) (showPred : String) : MapDoc :=
  ⟨(39.5, -98.35), 5, aqiLayerOf dfAqi showPred ++ aodLayerOf dfAod ++ predLayerOf dfPred showPred⟩

/-- Discriminator: is this a current-AQI layer? -/
def isCurL : Layer → Bool
  | .currentAqi _ => true
  | _ => false

/-- Discriminator: is this an aerosol heat layer? -/
def isAodL : Layer → Bool
  | .aodHeat _ => true
  | _ => false

/-- Discriminator: is this a predicted-AQI layer? -/
def isPredL : Layer → Bool
  | .predAqi _ => true
  | _ => false

/-- Whether a map document contains a current-AQI layer. -/
def hasCurrentB (m : MapDoc) : Bool := m.layers.any isCurL

/-- Whether a map document contains an aerosol heat layer. -/
def hasAodB (m : MapDoc) : Bool := m.layers.any isAodL

/-- Whether a map document contains a predicted-AQI layer. -/
def hasPredB (m : MapDoc) : Bool := m.layers.any isPredL

/-! ## main.py -/

/-- Module-level names defined in fetch_aod.py. -/
def fetchAodExports : List String := ["load_aod_data", "_mock_aod_data"]

/-- Module-level names defined in predict_aqi.py. -/
def predictAqiExports : List String :=
  ["fetch_past_week_data", "train_predictor", "train_weekly_predictor", "predict_tomorrow"]

/-- Module-level names defined in map_builder.py. -/
def mapBuilderExports : List String := ["get_aqi_color", "make_map"]

/-- The `from … import …` statements of main.py (lines 5-8), in execution
order. -/
def mainImports : List (String × String) :=
  [("fetch_aod", "load_aod_data"),
   ("predict_aqi", "fetch_past_week_data"),
   ("predict_aqi", "train_predictor"),
   ("predict_aqi", "predict_tomorrow"),
   ("map_builder", "build_map")]

/-- What each module exports. -/
def moduleExports (m : String) : List String :=
  if m = "fetch_aod" then fetchAodExports
  else if m = "predict_aqi" then predictAqiExports
  else if m = "map_builder" then mapBuilderExports
  else []

/-- The first failing `from … import …`, if any: Python raises
`ImportError` at the first statement naming a missing attribute. -/
def firstImportError : Option String :=
  (mainImports.filterMap fun p =>
    if p.2 ∈ moduleExports p.1 then none
    else some ("ImportError: cannot import name " ++ p.2 ++ " from " ++ p.1)).head?

/-- Outcome of invoking `python main.py`. -/
inductive RunResult where
  | uncaughtError (msg : String)
  | abortedAfterMapFailure
  | completed
deriving DecidableEq, Repr

/-- Running `python main.py [--force-refresh]`: the module-level imports
execute before `main()` is called; when import resolution fails the body
(fetch, train, predict, summarize, map) is unreachable, so `runMain`
returns the uncaught ImportError without modelling the dead body. -/
def runMain (_forceRefresh : Bool) : RunResult :=
  match firstImportError with
  | some e => .uncaughtError e
  | none => .completed

/-! # Supporting lemmas for the claims -/

/-- `random.uniform(24,49)` is injective in the draw numerator. -/
theorem mkLat_inj {a b : Nat} (h : mkLat a = mkLat b) : a = b := by
  have h1 : (a : ℚ) / 2 ^ 53 = (b : ℚ) / 2 ^ 53 := by
    have := congrArg (fun z => (z - 24) / 25) h
    simpa [mkLat, mul_comm, mul_div_assoc] using this
  have h2 : (a : ℚ) = (b : ℚ) := by
    field_simp at h1
    exact_mod_cast h1
  exact_mod_cast h2

/-- The mock dataset has pairwise distinct `(lat, lon, parameter)` keys. -/
theorem mockAqiData_keys_nodup : (mockAqiData.map obsKey).Nodup := by
  have base : mockAqiRaw.Pairwise (fun a b => a.latNum ≠ b.latNum) := by
    have h := mockAqiRaw_latNodup
    rw [List.Nodup, List.pairwise_map] at h
    exact h
  rw [mockAqiData, List.map_map, List.Nodup, List.pairwise_map]
  refine base.imp ?_
  intro a b hne heq
  apply hne
  apply mkLat_inj
  have : (mockObs a).latitude = (mockObs b).latitude := congrArg (fun k => k.1) heq
  simpa [mockObs] using this

/-- Deduplication produces pairwise distinct keys avoiding `seen`. -/
theorem dedupObs_nodup : ∀ (seen : List (ℚ × ℚ × Option String)) (l : List Obs),
    ((dedupObs seen l).map obsKey).Nodup ∧
      ∀ k ∈ (dedupObs seen l).map obsKey, k ∉ seen := by
  intro seen l
  induction l generalizing seen with
  | nil => exact ⟨List.nodup_nil, by intro k hk; cases hk⟩
  | cons o rest ih =>
    by_cases hc : obsKey o ∈ seen
    · simpa [dedupObs, hc] using ih seen
    · have h2 := ih (obsKey o :: seen)
      simp only [dedupObs, if_neg hc, List.map_cons]
      constructor
      · refine List.nodup_cons.mpr ⟨?_, h2.1⟩
        intro hmem
        exact absurd (by simp) (h2.2 (obsKey o) hmem)
      · intro k hk
        rcases List.mem_cons.mp hk with h | h
        · rw [h]; exact hc
        · intro hs
          exact absurd (List.mem_cons_of_mem _ hs) (h2.2 k h)

/-! # Claims -/

/-- **C2** (code_bug evidence).  Invoking `python main.py` (with or without
`--force-refresh`) fails before any pipeline stage runs: main.py line 8
does `from map_builder import build_map`, but map_builder.py defines only
`get_aqi_color` and `make_map`, so the import machinery raises an
uncaught ImportError and the CLI exits nonzero; no stage's error handling
is ever exercised. -/
theorem c2_main_import_error (forceRefresh : Bool) :
    runMain forceRefresh =
      .uncaughtError "ImportError: cannot import name build_map from map_builder" := by
  rfl

/-- **C5** (confirmed).  Every row returned by `load_aod_data` — from the
real earthaccess path or the mock fallback alike — lies in the
continental bounding box: 24 ≤ latitude ≤ 49.5 and
-125 ≤ longitude ≤ -66.5. -/
theorem c5_aod_rows_in_bounds (real : Except Unit (List AodRow))
    (uLat uLon uAod : Nat → ℚ) (r : AodRow)
    (hr : r ∈ loadAodData real uLat uLon uAod) :
    24 ≤ r.latitude ∧ r.latitude ≤ 49.5 ∧ -125 ≤ r.longitude ∧ r.longitude ≤ -66.5 := by
  unfold loadAodData cropConus at hr
  have h := (List.mem_filter.mp hr).2
  simp only [Bool.and_eq_true, decide_eq_true_eq] at h
  exact ⟨h.1.1.1, h.1.1.2, h.1.2, h.2⟩

/-- Witness for C5 at a concrete input. -/
theorem c5_witness :
    24 ≤ (⟨30, -100, 1/2⟩ : AodRow).latitude ∧
      (⟨30, -100, 1/2⟩ : AodRow).latitude ≤ 49.5 ∧
      -125 ≤ (⟨30, -100, 1/2⟩ : AodRow).longitude ∧
      (⟨30, -100, 1/2⟩ : AodRow).longitude ≤ -66.5 :=
  c5_aod_rows_in_bounds (.ok [⟨30, -100, 1/2⟩]) (fun _ => 0) (fun _ => 0) (fun _ => 0)
    ⟨30, -100, 1/2⟩ (by unfold loadAodData cropConus; simp; norm_num)

/-- **C7** (confirmed).  For every coordinate-set response and on every
code path — the real path (which deduplicates) and the seed-42 synthetic
fallback (whose 1000 draws happen to collide nowhere) — the Point
Fetcher's output has no two rows with the same
`(latitude, longitude, parameter)` triple. -/
theorem c7_no_duplicate_triples (useMock : Bool) (responses : List (List RawRecord)) :
    ((loadAqiData useMock responses).map obsKey).Nodup := by
  rw [loadAqiData]
  by_cases h1 : useMock
  · rw [if_pos h1]; exact mockAqiData_keys_nodup
  · rw [if_neg h1]
    by_cases h2 : responses.flatten.length < 10
    · rw [if_pos h2]; exact mockAqiData_keys_nodup
    · rw [if_neg h2]
      exact (dedupObs_nodup [] _).1

/-- The number of rows of the mock dataset. -/
theorem mockAqiData_length : mockAqiData.length = 1000 := by
  rw [mockAqiData, List.length_map, ← List.length_map mockAqiRaw MockRow.latNum,
    mockAqiRaw_latNums, latNumsLit_length]

/-- A response set of ten fetched records that all lack an AQI value:
every record is dropped by the normalization, so zero usable rows
remain. -/
def c1BadResponses : List (List RawRecord) :=
  [List.replicate 10
    { latitude := some 40, longitude := some (-100), parameterName := some "PM2.5",
      parameter := none, aqi := none, category := .noneV, unit := none,
      reportingArea := none, stateCode := none, dateObserved := none }]

/-- **C1** (counterexample).  Ten raw records are fetched but none is
usable (all lack an AQI), yet `load_aqi_data` does not fall back to the
synthetic dataset: its guard counts the raw records before normalization
(`len(all_data) < 10`), so the run returns the empty normalized table
instead of the 1000-row mock. -/
theorem c1_counterexample :
    usableRecords c1BadResponses < 10 ∧
      loadAqiData false c1BadResponses = [] ∧
      loadAqiData false c1BadResponses ≠ mockAqiData := by
  refine ⟨by decide, by decide, ?_⟩
  intro h
  have h0 : (loadAqiData false c1BadResponses).length = 0 := by decide
  rw [h, mockAqiData_length] at h0
  cases h0

/-- **C1** (amended).  When fewer than 10 raw records are fetched in total
(counted before normalization, including the all-failed case), the whole
result set is discarded and `load_aqi_data` returns the seed-42 synthetic
dataset of 1000 points; being a fixed value, it is identical across
runs. -/
theorem c1_low_fetch_returns_mock (responses : List (List RawRecord))
    (h : responses.flatten.length < 10) :
    loadAqiData false responses = mockAqiData ∧ mockAqiData.length = 1000 := by
  refine ⟨?_, mockAqiData_length⟩
  rw [loadAqiData, if_neg (by simp), if_pos h]

/-- Witness for the amended C1 at the all-failed input. -/
theorem c1_witness : loadAqiData false [] = mockAqiData ∧ mockAqiData.length = 1000 :=
  c1_low_fetch_returns_mock [] (by decide)

/-- **C3** (counterexample).  An untrained-but-not-None model with 50
historical rows is not caught by the guard (`model is None or …`):
`predict_tomorrow` reaches `model.predict`, which raises NotFittedError
instead of returning the synthetic fallback. -/
theorem c3_counterexample :
    predictTomorrow (fun _ _ _ => 0) (fun _ => 0) (fun _ => 0) (fun _ => 0)
        (some (List.replicate 50 ⟨0, 30, -100, 50⟩)) (some .untrained) =
      .error "NotFittedError" := by
  rw [predictTomorrow, if_neg (by simp)]

/-- **C3** (amended).  Whenever the model is None, or the week frame is
None or has fewer than 50 rows, feature construction is skipped and
`predict_tomorrow` returns — without raising — the 3000 synthetic
predictions drawn from the seeded streams and clipped to [10, 300]. -/
theorem c3_fallback_on_guard (fitLR : List (ℚ × ℚ × ℚ) → List ℚ → ((ℚ × ℚ × ℚ) → ℚ))
    (gLat gLon gAqi : Nat → ℚ) (dfWeek : Option (List HRow)) (model : Option WModel)
    (h : model = none ∨ dfWeek = none ∨ (dfWeek.getD []).length < 50) :
    predictTomorrow fitLR gLat gLon gAqi dfWeek model =
        .ok (syntheticPreds gLat gLon gAqi) ∧
      (syntheticPreds gLat gLon gAqi).length = 3000 := by
  refine ⟨?_, by rw [syntheticPreds, List.length_map, List.length_range]⟩
  rcases model with _ | m <;> rcases dfWeek with _ | df
  · rfl
  · rfl
  · rfl
  · rcases h with h | h | h
    · cases h
    · cases h
    · simp only [predictTomorrow.eq_def]
      rw [if_pos (by simpa using h)]

/-- Witness for the amended C3 at a concrete input. -/
theorem c3_witness :
    predictTomorrow (fun _ _ _ => 0) (fun _ => 0) (fun _ => 0) (fun _ => 0) none none =
        .ok (syntheticPreds (fun _ => 0) (fun _ => 0) (fun _ => 0)) ∧
      (syntheticPreds (fun _ => 0) (fun _ => 0) (fun _ => 0)).length = 3000 :=
  c3_fallback_on_guard (fun _ _ _ => 0) (fun _ => 0) (fun _ => 0) (fun _ => 0) none none
    (Or.inl rfl)

/-- **C6** (confirmed).  `train_weekly_predictor` returns the untrained
model object — without raising — when the input is None, has fewer than
100 raw rows, or yields fewer than 50 complete-3-lag rows after grouping
by location; with at least 100 raw rows and 50 complete-lag rows it fits
a linear regression from the three lags to current-day AQI. -/
theorem c6_weekly_training (dfWeek : Option (List HRow)) :
    ((dfWeek = none ∨ (dfWeek.getD []).length < 100 ∨
        (groupedLags (dfWeek.getD [])).length < 50) →
      trainWeeklyPredictor dfWeek = .untrained) ∧
    (∀ df, dfWeek = some df → ¬ df.length < 100 → ¬ (groupedLags df).length < 50 →
      trainWeeklyPredictor dfWeek =
        .trained ((groupedLags df).map fun t => (t.1, t.2.1, t.2.2.1))
          ((groupedLags df).map fun t => t.2.2.2)) := by
  constructor
  · intro h
    match dfWeek with
    | none => rfl
    | some df =>
      rw [trainWeeklyPredictor]
      simp only [Option.getD_some] at h
      rcases h with h | h | h
      · cases h
      · rw [if_pos h]
      · by_cases h100 : df.length < 100
        · rw [if_pos h100]
        · rw [if_neg h100]
          simp only [if_pos h]
  · intro df hdf h100 h50
    subst hdf
    rw [trainWeeklyPredictor]
    simp only [if_neg h100, if_neg h50]

/-- Witness for C6 at the empty input. -/
theorem c6_witness : trainWeeklyPredictor none = .untrained :=
  (c6_weekly_training none).1 (Or.inl rfl)

/-- Clipping to [10, 300] lands in [10, 300]. -/
theorem clipQ_bounds (x : ℚ) : 10 ≤ clipQ x 10 300 ∧ clipQ x 10 300 ≤ 300 := by
  unfold clipQ
  constructor
  · exact le_min (le_max_right x 10) (by norm_num)
  · exact min_le_right _ _

/-- **C8** (confirmed).  Whatever `predict_tomorrow` returns without
raising — on the synthetic fallback path and on the real prediction path
alike — every `aqi_pred` value lies in the closed interval [10, 300]. -/
theorem c8_predictions_clipped (fitLR : List (ℚ × ℚ × ℚ) → List ℚ → ((ℚ × ℚ × ℚ) → ℚ))
    (gLat gLon gAqi : Nat → ℚ) (dfWeek : Option (List HRow)) (model : Option WModel)
    (res : List PRow)
    (h : predictTomorrow fitLR gLat gLon gAqi dfWeek model = .ok res) :
    ∀ r ∈ res, 10 ≤ r.aqiPred ∧ r.aqiPred ≤ 300 := by
  have hsynth : ∀ r ∈ syntheticPreds gLat gLon gAqi, 10 ≤ r.aqiPred ∧ r.aqiPred ≤ 300 := by
    intro r hr
    rw [syntheticPreds] at hr
    obtain ⟨i, _, rfl⟩ := List.mem_map.mp hr
    exact clipQ_bounds _
  rcases model with _ | m <;> rcases dfWeek with _ | df
  · cases h; exact hsynth
  · cases h; exact hsynth
  · cases h; exact hsynth
  · simp only [predictTomorrow.eq_def] at h
    by_cases hlen : df.length < 50
    · rw [if_pos hlen] at h
      cases h
      exact hsynth
    · rw [if_neg hlen] at h
      rcases m with _ | ⟨X, y⟩
      · cases h
      · cases h
        intro r hr
        obtain ⟨k, _, hk⟩ := List.mem_filterMap.mp hr
        revert hk
        rcases lastN 3 ((rowsOf df k).map HRow.aqi) with _ | ⟨a3, _ | ⟨a2, _ | ⟨a1, _ | ⟨a0, t⟩⟩⟩⟩
        · intro hk; cases hk
        · intro hk; cases hk
        · intro hk; cases hk
        · intro hk
          cases Option.some.inj hk
          exact clipQ_bounds _
        · intro hk; cases hk

/-- Witness for C8: the first synthetic prediction of a concrete call. -/
theorem c8_witness :
    10 ≤ (⟨0, 0, clipQ 0 10 300⟩ : PRow).aqiPred ∧
      (⟨0, 0, clipQ 0 10 300⟩ : PRow).aqiPred ≤ 300 :=
  c8_predictions_clipped (fun _ _ _ => 0) (fun _ => 0) (fun _ => 0) (fun _ => 0)
    none none (syntheticPreds (fun _ => 0) (fun _ => 0) (fun _ => 0)) rfl
    ⟨0, 0, clipQ 0 10 300⟩
    (by rw [syntheticPreds]
        exact List.mem_map.mpr ⟨0, List.mem_range.mpr (by norm_num), rfl⟩)

/-- The mock branch of `fetch_past_week_data`, spelled out. -/
theorem fetchPastWeekData_true (fr : Bool) (today : ℤ) (uLat uLon : Nat → ℚ)
    (g : Nat → Nat → ℚ) :
    fetchPastWeekData true fr today uLat uLon g =
      (List.range 8).flatMap fun d =>
        (List.range 700).map fun i =>
          ⟨today - 7 + (d : ℤ), uLat i, uLon i, clipQ (g d i) 10 300⟩ := by
  rw [fetchPastWeekData]

/-- Indexing a concatenation of 700-row day blocks. -/
theorem blocks_getElem? : ∀ (k K : Nat) (F : Nat → List HRow), k < K →
    (∀ d, (F d).length = 700) → ∀ i, i < 700 →
    ((List.range K).flatMap F)[k * 700 + i]? = (F k)[i]? := by
  intro k
  induction k with
  | zero =>
    intro K F hk hF i hi
    match K, hk with
    | K + 1, _ =>
      rw [List.range_succ_eq_map, List.flatMap_cons, List.getElem?_append,
        if_pos (by rw [hF 0]; omega)]
      rw [Nat.zero_mul, Nat.zero_add]
  | succ k ih =>
    intro K F hk hF i hi
    match K, hk with
    | K + 1, hk =>
      rw [List.range_succ_eq_map, List.flatMap_cons, List.getElem?_append,
        if_neg (by rw [hF 0]; omega)]
      rw [hF 0, show (k + 1) * 700 + i - 700 = k * 700 + i from by ring_nf; omega]
      rw [List.flatMap_map]
      exact ih K (fun d => F (d + 1)) (by omega) (fun d => hF (d + 1)) i hi

/-- **C4** (counterexample).  With today = 0, the mock weekly frame has
5600 rows — not one row per location for 7 days (4900) — and its first
row is dated −7, which is outside the window of the 7 days up to and
including today: `pd.date_range(today - 7 days, today)` spans 8 days. -/
theorem c4_counterexample :
    (fetchPastWeekData true false 0 (fun _ => 0) (fun _ => 0) (fun _ _ => 0)).length ≠
        7 * 700 ∧
      (fetchPastWeekData true false 0 (fun _ => 0) (fun _ => 0) (fun _ _ => 0))[0]? =
        some ⟨-7, 0, 0, 10⟩ := by
  have hlen : ∀ d : Nat, ((List.range 700).map fun i =>
      (⟨0 - 7 + (d : ℤ), 0, 0, clipQ 0 10 300⟩ : HRow)).length = 700 := by
    intro d
    rw [List.length_map, List.length_range]
  constructor
  · rw [fetchPastWeekData_true]
    rw [show List.range 8 = [0, 1, 2, 3, 4, 5, 6, 7] from rfl]
    simp only [List.flatMap_cons, List.flatMap_nil, List.length_append,
      List.length_map, List.length_range, List.append_nil, List.length_nil]
    omega
  · have h := blocks_getElem? 0 8 (fun d => (List.range 700).map fun i =>
      (⟨0 - 7 + (d : ℤ), (fun _ => (0 : ℚ)) i, (fun _ => (0 : ℚ)) i,
        clipQ ((fun _ _ => (0 : ℚ)) d i) 10 300⟩ : HRow)) (by omega)
      (fun d => by rw [List.length_map, List.length_range]) 0 (by omega)
    rw [fetchPastWeekData_true]
    simpa using h

/-- **C4** (amended).  For either value of `use_mock`, the weekly frame
has exactly one row per (day, location) pair over the **8** days from
`today - 7` through `today` inclusive and the 700 fixed seeded locations:
row `k * 700 + i` carries day `today - 7 + k`, the `i`-th drawn location
and the `i`-th day-`k` normal(70,25) draw clipped to [10,300]; the
`use_mock=False` path returns exactly the mock path's result. -/
theorem c4_week_frame (b fr : Bool) (today : ℤ) (uLat uLon : Nat → ℚ)
    (g : Nat → Nat → ℚ) :
    (fetchPastWeekData b fr today uLat uLon g).length = 8 * 700 ∧
      (∀ k i, k < 8 → i < 700 →
        (fetchPastWeekData b fr today uLat uLon g)[k * 700 + i]? =
          some ⟨today - 7 + (k : ℤ), uLat i, uLon i, clipQ (g k i) 10 300⟩) ∧
      fetchPastWeekData false fr today uLat uLon g =
        fetchPastWeekData true fr today uLat uLon g := by
  have hmock := fetchPastWeekData_true fr today uLat uLon g
  have hfalse : fetchPastWeekData false fr today uLat uLon g =
      fetchPastWeekData true fr today uLat uLon g := by
    conv_lhs => rw [fetchPastWeekData.eq_def]
  have hbody : fetchPastWeekData b fr today uLat uLon g =
      (List.range 8).flatMap fun d =>
        (List.range 700).map fun i =>
          (⟨today - 7 + (d : ℤ), uLat i, uLon i, clipQ (g d i) 10 300⟩ : HRow) := by
    cases b
    · rw [hfalse, hmock]
    · rw [hmock]
  refine ⟨?_, ?_, hfalse⟩
  · rw [hbody, show List.range 8 = [0, 1, 2, 3, 4, 5, 6, 7] from rfl]
    simp only [List.flatMap_cons, List.flatMap_nil, List.length_append,
      List.length_map, List.length_range, List.append_nil, List.length_nil]
  · intro k i hk hi
    rw [hbody]
    rw [blocks_getElem? k 8 _ hk (fun d => by rw [List.length_map, List.length_range]) i hi]
    rw [List.getElem?_map, List.getElem?_range hi, Option.map_some']

/-- Witness for C4 at a concrete position. -/
theorem c4_witness :
    (fetchPastWeekData true false 0 (fun _ => 0) (fun _ => 0) (fun _ _ => 0))[1 * 700 + 3]? =
      some ⟨0 - 7 + (1 : ℤ), 0, 0, clipQ 0 10 300⟩ :=
  ((c4_week_frame true false 0 (fun _ => 0) (fun _ => 0) (fun _ _ => 0)).2.1) 1 3
    (by omega) (by omega)

/-- The five-row aerosol frame of the C9 scenario. -/
def aodFive : List AodRow :=
  [⟨30, -100, 1/10⟩, ⟨31, -101, 1/5⟩, ⟨32, -102, 3/10⟩, ⟨33, -103, 2/5⟩, ⟨34, -104, 1/2⟩]

/-- Layers contributed by the current-AQI input are current-AQI layers. -/
theorem aqiLayerOf_no_aod (dfAqi : Option (List MapPoint)) (sp : String) :
    ((aqiLayerOf dfAqi sp).any isAodL) = false := by
  rcases dfAqi with _ | df
  · rfl
  · rw [aqiLayerOf]
    by_cases hc : df.length > 0 ∧ (sp = "both" ∨ sp = "current")
    · rw [if_pos hc]; rfl
    · rw [if_neg hc]; rfl

/-- Layers contributed by the predictions input are predicted-AQI layers. -/
theorem predLayerOf_no_aod (dfPred : Option (List PRow)) (sp : String) :
    ((predLayerOf dfPred sp).any isAodL) = false := by
  rcases dfPred with _ | df
  · rfl
  · rw [predLayerOf]
    by_cases hc : df.length > 0 ∧ (sp = "both" ∨ sp = "predicted")
    · rw [if_pos hc]; rfl
    · rw [if_neg hc]; rfl

/-- The aerosol-layer test of a map depends only on the aerosol input. -/
theorem hasAodB_makeMap (dfAqi : Option (List MapPoint)) (dfAod : Option (List AodRow))
    (dfPred : Option (List PRow)) (sp : String) :
    hasAodB (makeMap dfAqi dfAod dfPred sp) =
      (aodLayerOf dfAod).any isAodL := by
  rw [hasAodB, makeMap]
  simp only [List.any_append, aqiLayerOf_no_aod, predLayerOf_no_aod,
    Bool.false_or, Bool.or_false]

/-- **C9** (confirmed).  `make_map` with `df_aqi=None`, the five-row
aerosol frame and `df_pred=None` produces exactly one layer, the aerosol
heatmap; in general an absent (None) or empty input contributes no layer
of its kind, and `make_map` is total on well-formed frames (it cannot
raise). -/
theorem c9_layer_composition :
    ((makeMap none (some aodFive) none "both").layers =
        [Layer.aodHeat (aodFive.map fun r => (r.latitude, r.longitude, r.aod))]) ∧
      (∀ dfAqi dfAod dfPred sp, dfAqi = none ∨ dfAqi = some [] →
        hasCurrentB (makeMap dfAqi dfAod dfPred sp) = false) ∧
      (∀ dfAqi dfAod dfPred sp, dfAod = none ∨ dfAod = some [] →
        hasAodB (makeMap dfAqi dfAod dfPred sp) = false) ∧
      (∀ dfAqi dfAod dfPred sp, dfPred = none ∨ dfPred = some [] →
        hasPredB (makeMap dfAqi dfAod dfPred sp) = false) := by
  refine ⟨by rfl, ?_, ?_, ?_⟩
  · intro dfAqi dfAod dfPred sp h
    have h1 : aqiLayerOf dfAqi sp = [] := by
      rcases h with rfl | rfl
      · rfl
      · rw [aqiLayerOf, if_neg (by simp)]
    rw [hasCurrentB, makeMap]
    simp only [List.any_append, h1, List.any_nil, Bool.false_or]
    have h2 : ((aodLayerOf dfAod).any isCurL) = false := by
      rcases dfAod with _ | df
      · rfl
      · rw [aodLayerOf]
        by_cases hc : df.length > 0
        · rw [if_pos hc]; rfl
        · rw [if_neg hc]; rfl
    have h3 : ((predLayerOf dfPred sp).any isCurL) = false := by
      rcases dfPred with _ | df
      · rfl
      · rw [predLayerOf]
        by_cases hc : df.length > 0 ∧ (sp = "both" ∨ sp = "predicted")
        · rw [if_pos hc]; rfl
        · rw [if_neg hc]; rfl
    rw [h2, h3]
    rfl
  · intro dfAqi dfAod dfPred sp h
    rw [hasAodB_makeMap]
    rcases h with rfl | rfl
    · rfl
    · rw [aodLayerOf, if_neg (by simp)]
      rfl
  · intro dfAqi dfAod dfPred sp h
    have h1 : predLayerOf dfPred sp = [] := by
      rcases h with rfl | rfl
      · rfl
      · rw [predLayerOf, if_neg (by simp)]
    rw [hasPredB, makeMap]
    simp only [List.any_append, h1, List.any_nil, Bool.or_false]
    have h2 : ((aqiLayerOf dfAqi sp).any isPredL) = false := by
      rcases dfAqi with _ | df
      · rfl
      · rw [aqiLayerOf]
        by_cases hc : df.length > 0 ∧ (sp = "both" ∨ sp = "current")
        · rw [if_pos hc]; rfl
        · rw [if_neg hc]; rfl
    have h3 : ((aodLayerOf dfAod).any isPredL) = false := by
      rcases dfAod with _ | df
      · rfl
      · rw [aodLayerOf]
        by_cases hc : df.length > 0
        · rw [if_pos hc]; rfl
        · rw [if_neg hc]; rfl
    rw [h2, h3]
    rfl

/-- Witness for C9's omission clauses at a concrete input. -/
theorem c9_witness :
    hasCurrentB (makeMap none (some aodFive) none "both") = false :=
  c9_layer_composition.2.1 none (some aodFive) none "both" (Or.inl rfl)

/-- **C10** (confirmed).  The presence of the aerosol heatmap layer is
invariant under the `show_pred` selector — for any two selector values the
layer is in both maps or in neither — and it holds exactly when `df_aod`
is given and non-empty; the selector gates only the marker layers. -/
theorem c10_aod_layer_selector_independent (dfAqi : Option (List MapPoint))
    (dfAod : Option (List AodRow)) (dfPred : Option (List PRow)) (sp1 sp2 : String) :
    hasAodB (makeMap dfAqi dfAod dfPred sp1) = hasAodB (makeMap dfAqi dfAod dfPred sp2) ∧
      (hasAodB (makeMap dfAqi dfAod dfPred sp1) = true ↔
        ∃ df, dfAod = some df ∧ 0 < df.length) := by
  constructor
  · rw [hasAodB_makeMap, hasAodB_makeMap]
  · rw [hasAodB_makeMap]
    rcases dfAod with _ | df
    · simp [aodLayerOf]
    · rw [aodLayerOf]
      by_cases hc : df.length > 0
      · rw [if_pos hc]
        simp only [List.any_cons, List.any_nil, Bool.or_false]
        constructor
        · intro _; exact ⟨df, rfl, hc⟩
        · intro _; rfl
      · rw [if_neg hc]
        simp only [List.any_nil, Bool.false_eq_true, false_iff]
        intro ⟨df2, hdf2, hlen⟩
        cases Option.some.inj hdf2
        exact hc hlen

